import Mathlib

/-!
# GafferCycles `IECoreCyclesPreview/Renderer.cpp`: caches and output reconciliation

A shallow embedding of the cache / lifecycle layer of
`src/GafferCycles/IECoreCyclesPreview/Renderer.cpp`.

Conventions of the embedding.

* A raw Cycles pointer (`ccl::Object *`, `ccl::Shader *`, ...) is an address,
  a natural number (`Nat`); `0` is `nullptr`.  `new` hands out the next address of an
  allocation counter, so two allocations never alias.
* A `std::shared_ptr` is the pointer together with the use count of its
  control block.  The cache slot holding the pointer carries the count; every
  copy handed to a caller adds one, every released copy takes one away.
* A `tbb::concurrent_hash_map` is an association list with at most one slot
  per key; iteration visits the slots in list order.
* Update-flag words are `uint32_t` bit masks, here natural numbers below
  `2 ^ 32` combined with `|||` and `&&&`.
* Calls are sequential: one call runs to completion before the next starts.
-/

namespace GafferCycles

/-! ## Machine integers and the Cycles helper `divide_up` -/

/-- Conversion of a C `int` to `size_t` (64 bit): reduction modulo `2 ^ 64`. -/
def toSizeT (x : Int) : Nat := (x % (2 ^ 64 : Int)).toNat

/-- Conversion of a `size_t` to a C `int` (32 bit, two's complement). -/
def toInt32 (n : Nat) : Int :=
  let r : Nat := n % 2 ^ 32
  if r < 2 ^ 31 then (r : Int) else (r : Int) - 2 ^ 32

/-- Cycles `ccl::divide_up( size_t x, size_t y )` from `util/util_types.h`:
`(x + y - 1) / y` in 64 bit unsigned arithmetic. -/
def divide_up (x y : Nat) : Nat := ((x + y - 1) % 2 ^ 64) / y

/-! ## Outputs and passes -/

/-- Render types of `IECoreScenePreview::Renderer`. -/
inductive RenderType
  | Batch
  | SceneDescription
  | Interactive
  deriving DecidableEq, Repr

/-- The members of `ccl::PassType` the renderer distinguishes; every other
pass type is `PASS_OTHER` with its enum name. -/
inductive PassType
  | PASS_NONE
  | PASS_COMBINED
  | PASS_CRYPTOMATTE
  | PASS_SHADOW_CATCHER
  | PASS_OTHER (name : String)
  deriving DecidableEq, Repr

/-- Values of `ccl::PassMode`. -/
inductive PassMode
  | NOISY
  | DENOISED
  deriving DecidableEq, Repr

/-- Bits of `ccl::CryptomatteType` (Cycles `kernel_types.h`). -/
def CRYPT_NONE : Nat := 0
/-- Object cryptomatte bit. -/
def CRYPT_OBJECT : Nat := 1
/-- Material cryptomatte bit. -/
def CRYPT_MATERIAL : Nat := 2
/-- Asset cryptomatte bit. -/
def CRYPT_ASSET : Nat := 4
/-- Accurate-mode cryptomatte bit. -/
def CRYPT_ACCURATE : Nat := 8

/-- The members of `CyclesOutput` read by `updateOutputs`; `m_parameters` is
the output's parameter block as name / value pairs. -/
structure CyclesOutput where
  m_parameters : List (String × String) := []
  m_passType : PassType := PassType.PASS_NONE
  m_data : String := ""
  m_denoise : Bool := false
  m_interactive : Bool := false
  deriving DecidableEq, Repr

/-- A `ccl::Pass` node as `updateOutputs` sets it up. -/
structure Pass where
  type : PassType
  name : String
  mode : PassMode
  deriving DecidableEq, Repr

/-- The sockets of `ccl::Film` written by `updateOutputs`. -/
structure Film where
  cryptomatte_depth : Int := 0
  cryptomatte_passes : Nat := 0
  use_approximate_shadow_catcher : Bool := true
  deriving DecidableEq, Repr

/-- The part of the renderer and of its scene that `updateOutputs` reads and
writes.  `m_outputs` is the `std::map` of outputs in key order,
`layersData` the `layers` block handed to the output driver.  The buffer
geometry, the display and data windows and the session reset at the end of
`updateOutputs` are left out; whether the buffer parameters changed is an
input. -/
structure OutputState where
  m_renderType : RenderType := RenderType.Batch
  m_outputs : List (String × CyclesOutput) := []
  m_outputsChanged : Bool := true
  m_cryptomatteAccurate : Bool := true
  m_cryptomatteDepth : Int := 0
  passes : List Pass := []
  film : Film := {}
  use_denoise : Bool := false
  layersData : List (String × List (String × String)) := []
  deriving DecidableEq, Repr

/-- The filter at the head of the output loop: an output is processed when its
`m_interactive` flag agrees with the render type being interactive. -/
def processed (renderType : RenderType) (o : CyclesOutput) : Bool :=
  !((renderType != RenderType.Interactive && o.m_interactive) ||
    (renderType == RenderType.Interactive && !o.m_interactive))

/-- Working variables of the output loop of `updateOutputs`. -/
structure OutputLoop where
  crypto : Nat
  cryptoAsset : String := ""
  cryptoObject : String := ""
  cryptoMaterial : String := ""
  hasShadowCatcher : Bool := false
  hasDenoise : Bool := false
  passes : List Pass := []
  layersData : List (String × List (String × String)) := []
  deriving DecidableEq, Repr

/-- Assignment `layersData->writable()[name] = layer` on the `CompoundData`
map (kept here in insertion order): replaces the member of that name or adds
it. -/
def setLayer (layers : List (String × List (String × String))) (name : String)
    (layer : List (String × String)) : List (String × List (String × String)) :=
  if layers.any (fun e => e.1 == name) then
    layers.map (fun e => if e.1 == name then (name, layer) else e)
  else layers ++ [(name, layer)]

/-- One iteration of `for( auto &coutput : m_outputs )` in `updateOutputs`. -/
def outputStep (renderType : RenderType) (acc : OutputLoop)
    (coutput : String × CyclesOutput) : OutputLoop :=
  if !processed renderType coutput.2 then acc
  else if coutput.2.m_passType = PassType.PASS_CRYPTOMATTE then
    if coutput.2.m_data = "cryptomatte_asset" then
      { acc with crypto := acc.crypto ||| CRYPT_ASSET, cryptoAsset := coutput.1 }
    else if coutput.2.m_data = "cryptomatte_object" then
      { acc with crypto := acc.crypto ||| CRYPT_OBJECT, cryptoObject := coutput.1 }
    else if coutput.2.m_data = "cryptomatte_material" then
      { acc with crypto := acc.crypto ||| CRYPT_MATERIAL, cryptoMaterial := coutput.1 }
    else acc
  else
    let denoise := coutput.2.m_denoise
    let name := if denoise then coutput.2.m_data ++ "_denoised" else coutput.2.m_data
    { acc with
      hasShadowCatcher :=
        acc.hasShadowCatcher || (coutput.2.m_passType == PassType.PASS_SHADOW_CATCHER)
      hasDenoise := acc.hasDenoise || denoise
      passes := acc.passes ++
        [{ type := coutput.2.m_passType, name := name,
           mode := if denoise then PassMode.DENOISED else PassMode.NOISY }]
      layersData := setLayer acc.layersData name coutput.2.m_parameters }

/-- The whole output loop, started from `crypto = CRYPT_NONE`, or-ed with
`CRYPT_ACCURATE` when `m_cryptomatteAccurate` is set. -/
def outputLoop (s : OutputState) : OutputLoop :=
  s.m_outputs.foldl (outputStep s.m_renderType)
    { crypto := if s.m_cryptomatteAccurate then CRYPT_NONE ||| CRYPT_ACCURATE else CRYPT_NONE }

/-- The value `updateOutputs` passes to `film->set_cryptomatte_depth`, read
back by `film->get_cryptomatte_depth()`. -/
def cryptomatteDepth (crypto : Nat) (m_cryptomatteDepth : Int) : Int :=
  if crypto = CRYPT_NONE ∨ crypto = (CRYPT_NONE ||| CRYPT_ACCURATE) then 0
  else if m_cryptomatteDepth = 0 then 1
  else toInt32 (divide_up (toSizeT (min 16 m_cryptomatteDepth)) (toSizeT 2))

/-- Formatting `ccl::string_printf( "%s%02d", name, i )` for `0 ≤ i`. -/
def cryptoPassName (name : String) (i : Nat) : String :=
  name ++ (if i < 10 then "0" else "") ++ toString i

/-- Assignment `metadata->member( key, false, true )->writable() = value`:
replaces the member of that name or creates it. -/
def setMember (metadata : List (String × String)) (key value : String) :
    List (String × String) :=
  if metadata.any (fun e => e.1 == key) then
    metadata.map (fun e => if e.1 == key then (key, value) else e)
  else metadata ++ [(key, value)]

/-- The function `updateCryptomatteMetadata` with a scene.  The seven hex
digits of the murmur identifier in the key prefix and the manifest text are
engine values; the family name stands for the first, `manifest` for the
second. -/
def updateCryptomatteMetadata (layer : List (String × String)) (name : String) :
    List (String × String) :=
  let keyBase := "cryptomatte/" ++ name ++ "/"
  let m1 := setMember layer (keyBase ++ "name") name
  let m2 := setMember m1 (keyBase ++ "hash") "MurmurHash3_32"
  let m3 := setMember m2 (keyBase ++ "conversion") "uint32_to_float32"
  if name = "cryptomatte_object" ∨ name = "cryptomatte_material" ∨ name = "cryptomatte_asset"
  then setMember m3 (keyBase ++ "manifest") "manifest" else m3

/-- Lookup `m_outputs[key]->m_parameters` in the output map. -/
def outputParameters (outputs : List (String × CyclesOutput)) (key : String) :
    List (String × String) :=
  match outputs.find? (fun e => e.1 == key) with
  | some e => e.2.m_parameters
  | none => []

/-- One `if( crypto & CRYPT_X )` block of `updateOutputs`: `depth` passes
`nameNN` of type `PASS_CRYPTOMATTE`, each recorded in `layersData`. -/
def addCryptoPasses (enabled : Bool) (name : String) (layer : List (String × String))
    (depth : Int) (acc : List Pass × List (String × List (String × String))) :
    List Pass × List (String × List (String × String)) :=
  if enabled then
    (List.range depth.toNat).foldl
      (fun a i =>
        (a.1 ++ [{ type := PassType.PASS_CRYPTOMATTE, name := cryptoPassName name i,
                   mode := PassMode.NOISY }],
         setLayer a.2 (cryptoPassName name i) (updateCryptomatteMetadata layer name)))
      acc
  else acc

/-- The method `CyclesRenderer::updateOutputs`.  `bufferParamsModified` is the
result of `m_bufferParams.modified( m_bufferParamsModified )`. -/
def updateOutputs (s : OutputState) (bufferParamsModified : Bool) : OutputState :=
  let outputsChanged := s.m_outputsChanged || bufferParamsModified
  if !outputsChanged then s
  else
    let l := outputLoop s
    let depth := cryptomatteDepth l.crypto s.m_cryptomatteDepth
    let p0 : List Pass × List (String × List (String × String)) := (l.passes, l.layersData)
    let p1 := addCryptoPasses (l.crypto &&& CRYPT_OBJECT != 0) "cryptomatte_object"
      (outputParameters s.m_outputs l.cryptoObject) depth p0
    let p2 := addCryptoPasses (l.crypto &&& CRYPT_MATERIAL != 0) "cryptomatte_material"
      (outputParameters s.m_outputs l.cryptoMaterial) depth p1
    let p3 := addCryptoPasses (l.crypto &&& CRYPT_ASSET != 0) "cryptomatte_asset"
      (outputParameters s.m_outputs l.cryptoAsset) depth p2
    { s with
      m_outputsChanged := false
      passes := p3.1
      layersData := p3.2
      film := { cryptomatte_depth := depth
                cryptomatte_passes := l.crypto
                use_approximate_shadow_catcher := !l.hasShadowCatcher }
      use_denoise := l.hasDenoise }

/-- An output that is processed and selects one of the three cryptomatte
families. -/
def isCryptoOutput (renderType : RenderType) (o : CyclesOutput) : Bool :=
  processed renderType o && (o.m_passType == PassType.PASS_CRYPTOMATTE) &&
    (o.m_data == "cryptomatte_asset" || o.m_data == "cryptomatte_object" ||
     o.m_data == "cryptomatte_material")

/-! ## Cryptomatte depth: the spec's formula and sample states -/

/-- The spec's depth policy with a cryptomatte pass present:
`max(1, ceil(min(16, requestedDepth) / 2))`. -/
def specCryptomatteDepth (requestedDepth : Int) : Int :=
  max 1 (Int.ceil ((min 16 requestedDepth : Int) / (2 : ℚ)))

/-- A batch renderer with one object cryptomatte output and the given stored
`ccl:film:cryptomatte_depth`. -/
def cryptoObjectState (requestedDepth : Int) : OutputState :=
  { m_renderType := RenderType.Batch
    m_outputs := [("crypto", { m_passType := PassType.PASS_CRYPTOMATTE,
                               m_data := "cryptomatte_object" })]
    m_outputsChanged := true
    m_cryptomatteDepth := requestedDepth }

/-- A batch renderer with one `rgba` output, accurate mode on and stored
depth 6. -/
def rgbaOnlyState : OutputState :=
  { m_renderType := RenderType.Batch
    m_outputs := [("beauty", { m_passType := PassType.PASS_COMBINED, m_data := "rgba" })]
    m_outputsChanged := true
    m_cryptomatteDepth := 6 }

/-! ## Hashes, pointers and the concurrent hash map -/

/-- One datum appended to an `IECore::MurmurHash`. -/
inductive HashAtom
  | str (s : String)
  | int (i : Int)
  | float (bits : Nat)
  | bool (b : Bool)
  | content (id : Nat)
  | hashBegin
  | hashEnd
  deriving DecidableEq, Repr

/-- An `IECore::MurmurHash`, kept as the sequence of data appended to it, so
that appending is injective; `MurmurHash()` is the empty sequence. -/
structure MurmurHash where
  data : List HashAtom := []
  deriving DecidableEq, Repr

/-- The call `h.append( value )` for a plain value. -/
def MurmurHash.append (h : MurmurHash) (a : HashAtom) : MurmurHash :=
  { data := h.data ++ [a] }

/-- The call `h.append( otherHash )`. -/
def MurmurHash.appendHash (h g : MurmurHash) : MurmurHash :=
  { data := h.data ++ [HashAtom.hashBegin] ++ g.data ++ [HashAtom.hashEnd] }

/-- A `std::shared_ptr` as stored in a cache slot: the raw pointer and the use
count of its control block (the slot's own reference included). -/
structure SharedPtr where
  ptr : Nat := 0
  useCount : Nat := 0
  deriving DecidableEq, Repr

namespace SharedPtr

/-- The call `shared_ptr::unique()`. -/
def unique (p : SharedPtr) : Bool := p.useCount == 1

/-- The test `!p` of a shared pointer. -/
def isNull (p : SharedPtr) : Bool := p.ptr == 0

/-- The pointer `SharedPtr( raw )` taking ownership of a raw pointer. -/
def own (a : Nat) : SharedPtr := { ptr := a, useCount := 1 }

/-- The slot after one more copy of it was handed out. -/
def copied (p : SharedPtr) : SharedPtr :=
  if p.ptr = 0 then p else { p with useCount := p.useCount + 1 }

/-- The slot after one copy of it was destroyed. -/
def released (p : SharedPtr) : SharedPtr :=
  if p.ptr = 0 then p else { p with useCount := p.useCount - 1 }

end SharedPtr

/-- A `tbb::concurrent_hash_map< IECore::MurmurHash, V >`: slots with
pairwise different keys, iterated in list order. -/
structure HashMap (V : Type) where
  slots : List (MurmurHash × V) := []
  nodup : (slots.map Prod.fst).Nodup := by simp

namespace HashMap

variable {V : Type}

/-- The value of the slot of key `k`, if the map has one. -/
def find (m : HashMap V) (k : MurmurHash) : Option V :=
  (m.slots.find? (fun e => e.1 == k)).map Prod.snd

/-- Whether the map has a slot of key `k`. -/
def contains (m : HashMap V) (k : MurmurHash) : Bool :=
  m.slots.any (fun e => e.1 == k)

/-- The number of slots of key `k`. -/
def count (m : HashMap V) (k : MurmurHash) : Nat :=
  (m.slots.filter (fun e => e.1 == k)).length

/-- The call `size()`. -/
def size (m : HashMap V) : Nat := m.slots.length

/-- The values in iteration order. -/
def values (m : HashMap V) : List V := m.slots.map Prod.snd

/-- The accessor sequence `insert( a, k ); a->second = v`: the slot of `k`
holds `v` afterwards, a new slot being added when there was none. -/
def set (m : HashMap V) (k : MurmurHash) (v : V) : HashMap V :=
  if h : m.slots.any (fun e => e.1 == k) = true then
    { slots := m.slots.map (fun e => if e.1 == k then (k, v) else e)
      nodup := by
        have hmap : (m.slots.map (fun e => if e.1 == k then (k, v) else e)).map Prod.fst
            = m.slots.map Prod.fst := by
          rw [List.map_map]
          apply List.map_congr_left
          intro e _
          by_cases he : e.1 = k
          · simp [he]
          · simp [he]
        rw [hmap]; exact m.nodup }
  else
    { slots := m.slots ++ [(k, v)]
      nodup := by
        rw [List.map_append, List.nodup_append]
        refine ⟨m.nodup, by simp, ?_⟩
        intro a ha hb
        simp only [List.map_cons, List.map_nil, List.mem_singleton] at hb
        subst hb
        obtain ⟨e, he, hek⟩ := List.mem_map.mp ha
        exact h (List.any_eq_true.mpr ⟨e, he, by simp [hek]⟩) }

/-- The call `erase( k )`. -/
def erase (m : HashMap V) (k : MurmurHash) : HashMap V :=
  { slots := m.slots.filter (fun e => !(e.1 == k))
    nodup := by
      have hsub : (m.slots.filter (fun e => !(e.1 == k))).Sublist m.slots := List.filter_sublist _
      exact (hsub.map Prod.fst).nodup m.nodup }

/-- The loop `for( k : toErase ) erase( k )`. -/
def eraseAll (m : HashMap V) (keys : List MurmurHash) : HashMap V :=
  keys.foldl erase m

end HashMap

/-! ## Engine memory, scene and update flags -/

/-- Values of `ccl::LightType`. -/
inductive LightType
  | LIGHT_POINT
  | LIGHT_DISTANT
  | LIGHT_BACKGROUND
  | LIGHT_AREA
  | LIGHT_SPOT
  | LIGHT_TRIANGLE
  deriving DecidableEq, Repr

/-- The standard attributes a shader can request that the renderer asks about. -/
inductive AttributeStandard
  | ATTR_STD_UV_TANGENT
  | ATTR_STD_UV_TANGENT_SIGN
  | ATTR_STD_OTHER (id : Nat)
  deriving DecidableEq, Repr

/-- Values of `ccl::Geometry::Type`. -/
inductive GeometryType
  | MESH
  | HAIR
  | VOLUME
  | POINTCLOUD
  deriving DecidableEq, Repr

/-- Values of `ccl::DisplacementMethod`. -/
inductive DisplacementMethod
  | DISPLACE_BUMP
  | DISPLACE_TRUE
  | DISPLACE_BOTH
  deriving DecidableEq, Repr

/-- The members of a `ccl::Shader` the renderer reads and writes: its
attribute requests, whether its graph holds an `EnvironmentTextureNode`, the
displacement members, and `graph` as the `displacement_hash` of the graph,
`none` for a null graph. -/
structure CShader where
  name : String := ""
  attributes : List AttributeStandard := []
  hasEnvironmentTexture : Bool := false
  has_displacement : Bool := false
  displacement_method : DisplacementMethod := DisplacementMethod.DISPLACE_BUMP
  graph : Option String := none
  need_update_displacement : Bool := false
  deriving DecidableEq, Repr

/-- An `Imath::M44f`: its sixteen floats as bit patterns. -/
structure M44f where
  bits : List Nat := []
  deriving DecidableEq, Repr

/-- A `ccl::Transform`: its twelve floats as bit patterns. -/
structure CTransform where
  bits : List Nat := []
  deriving DecidableEq, Repr

/-- The members of a `ccl::Geometry` the renderer reads and writes;
`motion_steps` is a `uint`. -/
structure CGeometry where
  name : String := ""
  geometry_type : GeometryType := GeometryType.MESH
  used_shaders : List Nat := []
  attributes : List AttributeStandard := []
  subd_params : Bool := false
  subd_dicing_rate : Nat := 0x3f800000
  subd_max_level : Int := 1
  clipping : Nat := 0
  step_size : Nat := 0
  object_space : Bool := false
  use_motion_blur : Bool := false
  motion_steps : Nat := 3
  subd_objecttoworld : CTransform := {}
  deriving DecidableEq, Repr

/-- The members of a `ccl::Light` the renderer reads and writes. -/
structure CLight where
  name : String := ""
  light_type : LightType := LightType.LIGHT_POINT
  shader : Nat := 0
  deriving DecidableEq, Repr

/-- The members of a `ccl::Object` the renderer writes; `random_id` is kept
as the hash whose `hash_value` it is, `motion_modified` is the modified tag of
the `motion` socket. -/
structure CObject where
  name : String := ""
  random_id : MurmurHash := {}
  geometry : Nat := 0
  particle_system : Nat := 0
  particle_index : Nat := 0
  visibility : Nat := 0
  use_holdout : Bool := false
  is_shadow_catcher : Bool := false
  shadow_terminator_shading_offset : Nat := 0
  shadow_terminator_geometry_offset : Nat := 0
  color : List Nat := []
  dupli_generated : List Nat := []
  dupli_uv : List Nat := []
  asset_name : String := ""
  lightgroup : String := ""
  tfm : CTransform := {}
  motion : List CTransform := []
  motion_modified : Bool := false
  deriving DecidableEq, Repr

/-- The struct `CyclesAttributes::Particle`: the optional particle overrides,
floats and vectors as bit patterns. -/
structure Particle where
  index : Option Int := none
  age : Option Nat := none
  lifetime : Option Nat := none
  location : Option (List Nat) := none
  rotation : Option (List Nat) := none
  size : Option Nat := none
  velocity : Option (List Nat) := none
  angular_velocity : Option (List Nat) := none
  deriving DecidableEq, Repr

/-- A `ccl::ParticleSystem`: the length of its `particles` array and, by
index, the members of the entries that `Particle::apply` has written. -/
structure CParticleSystem where
  particles : Nat := 0
  data : List (Nat × Particle) := []
  deriving DecidableEq, Repr

/-- The nodes allocated so far, by address, and the allocation counter. -/
structure Heap where
  nextAddr : Nat := 0
  objects : List (Nat × CObject) := []
  geometry : List (Nat × CGeometry) := []
  lights : List (Nat × CLight) := []
  shaders : List (Nat × CShader) := []
  particleSystems : List (Nat × CParticleSystem) := []
  deriving DecidableEq, Repr

/-- Writing the cell of address `a` in a table of cells. -/
def store {α : Type} (table : List (Nat × α)) (a : Nat) (v : α) : List (Nat × α) :=
  (a, v) :: table.filter (fun e => !(e.1 == a))

/-- Reading the cell of address `a` in a table of cells. -/
def load {α : Type} (table : List (Nat × α)) (a : Nat) : Option α :=
  (table.find? (fun e => e.1 == a)).map Prod.snd

/-- The operator `new`: the next address, never `0` and never handed out
before. -/
def Heap.alloc (h : Heap) : Nat × Heap :=
  (h.nextAddr + 1, { h with nextAddr := h.nextAddr + 1 })

/-- The flag value `UPDATE_ALL = ~0u` of every Cycles manager. -/
def UPDATE_ALL : Nat := 2 ^ 32 - 1

/-- The flag value `UPDATE_NONE = 0u` of every Cycles manager. -/
def UPDATE_NONE : Nat := 0

/-- The named bits of the manager flag enums of the Cycles build the renderer
is compiled against (`ccl::ShaderManager`, `ccl::ObjectManager`,
`ccl::GeometryManager`, `ccl::LightManager`); their values are fixed by the
engine headers and enter as a parameter. -/
structure UpdateFlags where
  SHADER_ADDED : Nat
  SHADER_MODIFIED : Nat
  OBJECT_ADDED : Nat
  OBJECT_REMOVED : Nat
  OBJECT_MODIFIED : Nat
  GEOMETRY_ADDED : Nat
  GEOMETRY_REMOVED : Nat
  GEOMETRY_MODIFIED : Nat
  LIGHT_ADDED : Nat
  LIGHT_REMOVED : Nat
  deriving DecidableEq, Repr

/-- One instance of the flag bits, each enum numbering its bits from the low
end, used for concrete runs. -/
def sampleFlags : UpdateFlags :=
  { SHADER_ADDED := 1, SHADER_MODIFIED := 4,
    OBJECT_ADDED := 8, OBJECT_REMOVED := 16, OBJECT_MODIFIED := 32,
    GEOMETRY_ADDED := 16, GEOMETRY_REMOVED := 32, GEOMETRY_MODIFIED := 4,
    LIGHT_ADDED := 8, LIGHT_REMOVED := 16 }

/-- A call into the engine that `updateShaders` and the caches make, in the
order made. -/
inductive EngineCall
  | tagLightManager (flags : Nat)
  | tagGeometryManager (flags : Nat)
  | tagObjectManager (flags : Nat)
  | tagShaderManager (flags : Nat)
  | tagParticleSystemManager
  | shaderTagUpdate (shader : Nat)
  | lightTagUpdate (light : Nat)
  | setUsedShaders (geometry : Nat) (shaders : List Nat)
  | setLightShader (light : Nat) (shader : Nat)
  | objectTagUpdate (object : Nat)
  | integratorTagUpdate
  | backgroundTagUpdate
  deriving DecidableEq, Repr

/-- The engine scene as the caches see it: the published node lists, the
update flags of the managers (`need_update()` is `flags != UPDATE_NONE`), the
built-in light shader, and the record of engine calls. -/
structure Scene where
  objects : List Nat := []
  geometry : List Nat := []
  lights : List Nat := []
  shaders : List Nat := []
  particle_systems : List Nat := []
  object_manager_flags : Nat := 0
  geometry_manager_flags : Nat := 0
  light_manager_flags : Nat := 0
  shader_manager_flags : Nat := 0
  particle_system_manager_need_update : Bool := false
  default_light : Nat := 0
  calls : List EngineCall := []
  deriving DecidableEq, Repr

/-- The call `shader->tag_update( scene )`: the shader manager is tagged
`SHADER_MODIFIED`. -/
def Scene.shaderTagUpdate (k : UpdateFlags) (scene : Scene) (shader : Nat) : Scene :=
  { scene with
    shader_manager_flags := scene.shader_manager_flags ||| k.SHADER_MODIFIED
    calls := scene.calls ++ [EngineCall.shaderTagUpdate shader] }

/-- The call `vector::resize( n )` on a vector of raw pointers. -/
def resize (l : List Nat) (n : Nat) : List Nat :=
  l.take n ++ List.replicate (n - l.length) 0

/-! ## Scene description inputs -/

/-- An `IECoreScene::ShaderNetwork`: its object hash, the attribute names its
string substitutions read, and what its conversion yields. -/
structure ShaderNetwork where
  hash : MurmurHash := {}
  substitutions : List String := []
  attributeRequests : List AttributeStandard := []
  hasEnvironmentTexture : Bool := false
  lightType : LightType := LightType.LIGHT_POINT
  deriving DecidableEq, Repr

/-- A member of an attribute `CompoundObject`, or an option value: the typed
data the renderer casts to (floats and vector components as bit patterns),
`data` for any other `IECore::Data`, and `other` for an object that is not
data. -/
inductive AttrValue
  | bool (b : Bool)
  | int (i : Int)
  | float (bits : Nat)
  | string (s : String)
  | shaderNetwork (n : ShaderNetwork)
  | other (typeName : String)
  | color3f (c : List Nat)
  | v3f (v : List Nat)
  | v2f (v : List Nat)
  | quatf (q : List Nat)
  | data (typeName : String)
  deriving DecidableEq, Repr

/-- An attribute block `IECore::CompoundObject`: its members in map order and
its object hash. -/
structure CompoundObject where
  members : List (String × AttrValue) := []
  hash : MurmurHash := {}
  deriving DecidableEq, Repr

/-- The lookup `members().find( name )`. -/
def CompoundObject.member (a : CompoundObject) (name : String) : Option AttrValue :=
  (a.members.find? (fun e => e.1 == name)).map Prod.snd

/-- The run-time type of a scene object, with the mesh interpolation. -/
inductive ObjectKind
  | MeshPrimitive (interpolation : String)
  | CurvesPrimitive
  | SpherePrimitive
  | PointsPrimitive
  | ExternalProcedural
  | VDBObject
  | Camera
  | Other (visibleRenderable : Bool)
  deriving DecidableEq, Repr

/-- An `IECore::Object` handed to the renderer: its type and object hash. -/
structure IECoreObject where
  typeId : ObjectKind := ObjectKind.SpherePrimitive
  hash : MurmurHash := {}
  deriving DecidableEq, Repr

/-- The cast `runTimeCast<const VisibleRenderable>( object )` succeeds. -/
def IECoreObject.isVisibleRenderable (o : IECoreObject) : Bool :=
  match o.typeId with
  | ObjectKind.Camera => false
  | ObjectKind.Other v => v
  | _ => true

/-- The cast `runTimeCast<const MeshPrimitive>( object )`, giving the
interpolation. -/
def IECoreObject.meshInterpolation (o : IECoreObject) : Option String :=
  match o.typeId with
  | ObjectKind.MeshPrimitive i => some i
  | _ => none

/-- Modelled from the spec: the conversion routines (`ShaderNetworkAlgo::convert`,
`convertAOV`, `setSingleSided`, `createDefaultShader`, `CameraAlgo::convert`,
`ParticleAlgo::convert`, `ObjectAlgo::convert`, `VDBAlgo::convert`) are
external collaborators that are not part of the file; each conversion
constructs one new engine node and never yields a null pointer. -/
def convert (heap : Heap) : Nat × Heap := heap.alloc

/-! ## ShaderCache -/

/-- The dynamic type of the target of a deferred shader assignment, as
`is_a` tests it. -/
inductive NodeKind
  | geometry
  | light
  | other
  deriving DecidableEq, Repr

/-- A `ShaderAssignPair`: the target node and the shader array. -/
structure ShaderAssignPair where
  first : Nat
  kind : NodeKind
  second : List Nat
  deriving DecidableEq, Repr

/-- The class `ShaderCache`.  The reference `m_defaultSurface` holds on the
default shader is counted in the use count of that shader's slot. -/
structure ShaderCache where
  m_numDefaultShaders : Nat := 0
  m_cache : HashMap SharedPtr := {}
  m_defaultSurface : Nat := 0
  m_shaderAssignPairs : List ShaderAssignPair := []
  m_updateFlags : Nat := UPDATE_ALL

/-- Cortex `ShaderNetwork::hashSubstitutions`: every string attribute the
network substitutes is appended by name and value. -/
def hashSubstitutions (shader : ShaderNetwork) (attributes : CompoundObject)
    (h : MurmurHash) : MurmurHash :=
  shader.substitutions.foldl
    (fun acc name =>
      match attributes.member name with
      | some (AttrValue.string v) => (acc.append (HashAtom.str name)).append (HashAtom.str v)
      | _ => acc)
    h

/-- The call `boost::starts_with( name, start )`. -/
def startsWith (name start : String) : Bool := start.data.isPrefixOf name.data

/-- The members of an attribute block whose name starts with `ccl:aov:`. -/
def aovMembers (attributes : CompoundObject) : List (String × AttrValue) :=
  attributes.members.filter (fun m => startsWith m.1 "ccl:aov:")

/-- The loop appending the object hash of every AOV shader network. -/
def appendAOVHashes (attributes : CompoundObject) (h : MurmurHash) : MurmurHash :=
  (aovMembers attributes).foldl
    (fun acc m =>
      match m.2 with
      | AttrValue.shaderNetwork aov => acc.appendHash aov.hash
      | _ => acc)
    h

/-- The fingerprint computed at the head of `ShaderCache::get`, with the
substitution hash `hSubst`.  The result is `none` when a `doubleSided` member
that is not a `BoolData` is dereferenced through the null result of
`reportedCast`. -/
def shaderFingerprint (shader : Option ShaderNetwork) (attributes : Option CompoundObject) :
    Option (MurmurHash × MurmurHash) :=
  match shader, attributes with
  | some sh, some attrs =>
    let hSubst := hashSubstitutions sh attrs {}
    let h1 := appendAOVHashes attrs (sh.hash.appendHash hSubst)
    match attrs.member "doubleSided" with
    | none => some (h1, hSubst)
    | some (AttrValue.bool b) =>
      some (if !b then h1.append (HashAtom.bool true) else h1, hSubst)
    | some _ => none
  | some sh, none => some (sh.hash, {})
  | none, _ => some ({}, {})

/-- Some `ccl:aov:` member of the attribute block is not a shader network, so
that `runTimeCast` yields a null `aovShader` in the conversion loop. -/
def aovHasNull (attributes : Option CompoundObject) : Bool :=
  match attributes with
  | some attrs => (aovMembers attrs).any (fun m =>
      match m.2 with
      | AttrValue.shaderNetwork _ => false
      | _ => true)
  | none => false

/-- The result of `ShaderCache::get`: the returned handle and the state
after the call. -/
structure ShaderGet where
  handle : Nat
  cache : ShaderCache
  scene : Scene
  heap : Heap

/-- The method `ShaderCache::get`.  The result is `none` when the call
dereferences a null pointer: an ill-typed `doubleSided`, or, while converting
with substitutions, a `ccl:aov:` member that is not a shader network. -/
def ShaderCache.get (k : UpdateFlags) (c : ShaderCache) (scene : Scene) (heap : Heap)
    (shader : Option ShaderNetwork) (attributes : Option CompoundObject) : Option ShaderGet :=
  match shaderFingerprint shader attributes with
  | none => none
  | some (h, hSubst) =>
    let slot := (c.m_cache.find h).getD {}
    let finish (slot1 : SharedPtr) (flags : Nat) (heap1 : Heap) : Option ShaderGet :=
      some { handle := slot1.ptr
             cache := { c with m_cache := c.m_cache.set h slot1.copied, m_updateFlags := flags }
             scene := scene.shaderTagUpdate k slot1.ptr
             heap := heap1 }
    if slot.isNull then
      match shader with
      | some sh =>
        if hSubst ≠ {} ∧ aovHasNull attributes = true then none
        else
          let (a, heap1) := convert heap
          let cshader : CShader :=
            { name := "shader:", attributes := sh.attributeRequests,
              hasEnvironmentTexture := sh.hasEnvironmentTexture }
          finish (SharedPtr.own a) (c.m_updateFlags ||| k.SHADER_ADDED)
            { heap1 with shaders := store heap1.shaders a cshader }
      | none =>
        let (a, heap1) := convert heap
        finish (SharedPtr.own a) c.m_updateFlags
          { heap1 with shaders := store heap1.shaders a {} }
    else finish slot c.m_updateFlags heap

/-- The method `ShaderCache::defaultSurface`. -/
def ShaderCache.defaultSurface (c : ShaderCache) : Nat := c.m_defaultSurface

/-- The constructor `ShaderCache( scene )`: the built-in shader count is the
current length of the engine's shader list, and the default surface is
fetched once and kept. -/
def ShaderCache.new (k : UpdateFlags) (scene : Scene) (heap : Heap) : Option ShaderGet :=
  match ShaderCache.get k { m_numDefaultShaders := scene.shaders.length } scene heap none none with
  | none => none
  | some r => some { r with cache := { r.cache with m_defaultSurface := r.handle } }

/-- The method `ShaderCache::clearUnused`. -/
def ShaderCache.clearUnused (k : UpdateFlags) (c : ShaderCache) : ShaderCache :=
  let toErase := (c.m_cache.slots.filter (fun e => e.2.unique)).map Prod.fst
  { c with
    m_cache := c.m_cache.eraseAll toErase
    m_updateFlags :=
      if toErase.length ≠ 0 then c.m_updateFlags ||| k.SHADER_MODIFIED else c.m_updateFlags }

/-- The method `ShaderCache::addShaderAssignment`. -/
def ShaderCache.addShaderAssignment (c : ShaderCache) (shaderAssign : ShaderAssignPair) :
    ShaderCache :=
  { c with m_shaderAssignPairs := c.m_shaderAssignPairs ++ [shaderAssign] }

/-- One iteration of the assignment loop of `updateShaders`.  A pair built by
`applyObject` or `applyLight` carries one shader; `second[0]` of a light pair
is its head. -/
def applyShaderAssignment (acc : Scene × Heap) (p : ShaderAssignPair) : Scene × Heap :=
  match p.kind with
  | NodeKind.geometry =>
    let geo := (load acc.2.geometry p.first).getD {}
    ({ acc.1 with calls := acc.1.calls ++ [EngineCall.setUsedShaders p.first p.second] },
     { acc.2 with geometry := store acc.2.geometry p.first { geo with used_shaders := p.second } })
  | NodeKind.light =>
    let light := (load acc.2.lights p.first).getD {}
    let shader := if p.second.headD 0 ≠ 0 then p.second.headD 0 else acc.1.default_light
    ({ acc.1 with calls := acc.1.calls ++ [EngineCall.setLightShader p.first shader] },
     { acc.2 with lights := store acc.2.lights p.first { light with shader := shader } })
  | NodeKind.other => acc

/-- The condition under which the loop over `m_scene->lights` touches a
light: it is a background light and its shader graph has an environment
texture node. -/
def environmentTagged (heap : Heap) (light : Nat) : Bool :=
  match load heap.lights light with
  | some l =>
    if l.light_type = LightType.LIGHT_BACKGROUND then
      match load heap.shaders l.shader with
      | some sh => sh.hasEnvironmentTexture
      | none => false
    else false
  | none => false

/-- One iteration of the loop over `m_scene->lights` in `updateShaders`: a
background light whose shader graph has an environment texture node gets the
node's rotation re-derived and its shader tagged. -/
def environmentRotation (k : UpdateFlags) (heap : Heap) (scene : Scene) (light : Nat) : Scene :=
  if environmentTagged heap light then
    scene.shaderTagUpdate k ((load heap.lights light).getD {}).shader
  else scene

/-- The first part of `updateShaders`: with a non-empty queue the light and
geometry managers are tagged `UPDATE_ALL`, then every queued assignment is
applied in queue order. -/
def ShaderCache.assignShaders (c : ShaderCache) (scene : Scene) (heap : Heap) : Scene × Heap :=
  let scene1 : Scene :=
    if c.m_shaderAssignPairs.length ≠ 0 then
      { scene with
        light_manager_flags := scene.light_manager_flags ||| UPDATE_ALL
        geometry_manager_flags := scene.geometry_manager_flags ||| UPDATE_ALL
        calls := scene.calls ++
          [EngineCall.tagLightManager UPDATE_ALL, EngineCall.tagGeometryManager UPDATE_ALL] }
    else scene
  c.m_shaderAssignPairs.foldl applyShaderAssignment (scene1, heap)

/-- The loop `for( ccl::Light *light : m_scene->lights )` of `updateShaders`. -/
def rotateEnvironments (k : UpdateFlags) (scene : Scene) (heap : Heap) : Scene :=
  scene.lights.foldl (environmentRotation k heap) scene

/-- The method `ShaderCache::updateShaders`. -/
def ShaderCache.updateShaders (k : UpdateFlags) (c : ShaderCache) (scene : Scene) (heap : Heap) :
    ShaderCache × Scene × Heap :=
  let assigned := c.assignShaders scene heap
  let c1 : ShaderCache := { c with m_shaderAssignPairs := [] }
  let scene2 := rotateEnvironments k assigned.1 assigned.2
  if scene2.shader_manager_flags = UPDATE_NONE ∧ c1.m_updateFlags = UPDATE_NONE then
    (c1, scene2, assigned.2)
  else
    let shaders := resize scene2.shaders c1.m_numDefaultShaders ++
      (c1.m_cache.values.filter (fun p => !p.isNull)).map SharedPtr.ptr
    ({ c1 with m_updateFlags := UPDATE_NONE },
     { scene2 with
       shaders := shaders
       shader_manager_flags := scene2.shader_manager_flags ||| c1.m_updateFlags
       calls := scene2.calls ++ [EngineCall.tagShaderManager c1.m_updateFlags] },
     assigned.2)

/-- The method `ShaderCache::update`. -/
def ShaderCache.update (k : UpdateFlags) (c : ShaderCache) (scene : Scene) (heap : Heap)
    (force : Bool) : ShaderCache × Scene × Heap :=
  ShaderCache.updateShaders k
    (if force then { c with m_updateFlags := UPDATE_ALL } else c) scene heap

/-! ## CameraCache -/

/-- An `IECoreScene::Camera` handed to the renderer: its object hash. -/
structure CameraInput where
  hash : MurmurHash := {}
  deriving DecidableEq, Repr

/-- The class `CameraCache`. -/
structure CameraCache where
  m_cache : HashMap SharedPtr := {}

/-- The result of `CameraCache::get`. -/
structure CameraGet where
  handle : Nat
  cache : CameraCache
  heap : Heap

/-- The method `CameraCache::get`. -/
def CameraCache.get (c : CameraCache) (heap : Heap) (camera : CameraInput) (_name : String) :
    CameraGet :=
  let hash := camera.hash
  let slot := (c.m_cache.find hash).getD {}
  if slot.isNull then
    let (a, heap1) := convert heap
    { handle := a, cache := { c with m_cache := c.m_cache.set hash (SharedPtr.own a).copied },
      heap := heap1 }
  else
    { handle := slot.ptr, cache := { c with m_cache := c.m_cache.set hash slot.copied },
      heap := heap }

/-- The method `CameraCache::clearUnused`. -/
def CameraCache.clearUnused (c : CameraCache) : CameraCache :=
  let toErase := (c.m_cache.slots.filter (fun e => e.2.unique)).map Prod.fst
  { c with m_cache := c.m_cache.eraseAll toErase }

/-! ## CyclesAttributes: the predicates the caches consume -/

/-- The method `Particle::hasParticleInfo`. -/
def Particle.hasParticleInfo (p : Particle) : Bool :=
  p.index.isSome || p.age.isSome || p.lifetime.isSome || p.location.isSome ||
    p.rotation.isSome || p.size.isSome || p.velocity.isSome || p.angular_velocity.isSome

/-- The struct `CyclesAttributes::Volume`: the optional volume overrides,
floats as bit patterns. -/
structure Volume where
  clipping : Option Nat := none
  stepSize : Option Nat := none
  objectSpace : Option Bool := none
  deriving DecidableEq, Repr

/-- The members of `CyclesAttributes`, initialised as in the constructor's
initialiser list.  `m_shader` is the raw pointer of the held
`SharedCShaderPtr` and `m_light` that of the `CLightPtr`; `m_visibility` is
the bit pattern of the `int`, `~0` by default; floats and vector components
are bit patterns, `m_dicingRate` being `1.0f` by default. -/
structure CyclesAttributes where
  m_shader : Nat := 0
  m_shaderHash : MurmurHash := {}
  m_maxLevel : Int := 1
  m_dicingRate : Nat := 0x3f800000
  m_particle : Particle := {}
  m_light : Nat := 0
  m_visibility : Nat := 2 ^ 32 - 1
  m_useHoldout : Bool := false
  m_isShadowCatcher : Bool := false
  m_shadowTerminatorShadingOffset : Nat := 0
  m_shadowTerminatorGeometryOffset : Nat := 0
  m_color : List Nat := [0, 0, 0]
  m_dupliGenerated : List Nat := [0, 0, 0]
  m_dupliUV : List Nat := [0, 0]
  m_volume : Volume := {}
  m_assetName : String := ""
  m_lightGroup : String := ""
  deriving DecidableEq, Repr

namespace CyclesAttributes

/-- The method `CyclesAttributes::hasParticleInfo`. -/
def hasParticleInfo (a : CyclesAttributes) : Bool := a.m_particle.hasParticleInfo

/-- The method `CyclesAttributes::needTangents`. -/
def needTangents (a : CyclesAttributes) (heap : Heap) : Bool :=
  if a.m_shader = 0 then false
  else ((load heap.shaders a.m_shader).getD {}).attributes.contains
    AttributeStandard.ATTR_STD_UV_TANGENT

/-- The method `CyclesAttributes::needTangentSign`. -/
def needTangentSign (a : CyclesAttributes) (heap : Heap) : Bool :=
  if a.m_shader = 0 then false
  else ((load heap.shaders a.m_shader).getD {}).attributes.contains
    AttributeStandard.ATTR_STD_UV_TANGENT_SIGN

/-- The method `CyclesAttributes::hashGeometry`. -/
def hashGeometry (a : CyclesAttributes) (heap : Heap) (object : IECoreObject)
    (h : MurmurHash) : MurmurHash :=
  let h1 := h.appendHash a.m_shaderHash
  match object.typeId with
  | ObjectKind.MeshPrimitive interpolation =>
    let h2 :=
      if interpolation = "catmullClark" then
        (h1.append (HashAtom.float a.m_dicingRate)).append (HashAtom.int a.m_maxLevel)
      else h1
    if a.m_shader ≠ 0 then
      let h3 := if a.needTangents heap then h2.append (HashAtom.str "tangent") else h2
      if a.needTangentSign heap then h3.append (HashAtom.str "tangent_sign") else h3
    else h2
  | _ => h1

/-- The method `CyclesAttributes::canInstanceGeometry`. -/
def canInstanceGeometry (_a : CyclesAttributes) (object : IECoreObject) : Bool :=
  if !object.isVisibleRenderable then false
  else
    match object.meshInterpolation with
    | some interpolation => if interpolation = "catmullClark" then false else true
    | none => true

end CyclesAttributes

/-! ## AttributesCache -/

/-- A slot of the attributes cache: the `CyclesAttributesPtr` (an intrusive
pointer) with the object it points to and its reference count. -/
structure AttributesSlot where
  ptr : Nat := 0
  value : CyclesAttributes := {}
  refCount : Nat := 0
  deriving DecidableEq, Repr

/-- The class `AttributesCache`; the shader cache it points to is passed to
its methods. -/
structure AttributesCache where
  m_cache : HashMap AttributesSlot := {}

/-- The result of constructing a `CyclesAttributes`: the snapshot and the
state its shader lookups leave. -/
structure AttributesBuilt where
  value : CyclesAttributes
  shaderCache : ShaderCache
  scene : Scene
  heap : Heap

/-- The result of `AttributesCache::get`. -/
structure AttributesGet where
  handle : Nat
  value : CyclesAttributes
  cache : AttributesCache
  shaderCache : ShaderCache
  scene : Scene
  heap : Heap

/-- The method `AttributesCache::get`.  `construct` is the constructor
`CyclesAttributes( attributes, shaderCache )`, which may fail where
`ShaderCache::get` does. -/
def AttributesCache.get
    (construct : CompoundObject → ShaderCache → Scene → Heap → Option AttributesBuilt)
    (c : AttributesCache) (shaderCache : ShaderCache) (scene : Scene) (heap : Heap)
    (attributes : CompoundObject) : Option AttributesGet :=
  let slot := (c.m_cache.find attributes.hash).getD {}
  if slot.ptr = 0 then
    match construct attributes shaderCache scene heap with
    | none => none
    | some built =>
      let (a, heap1) := built.heap.alloc
      some
        { handle := a
          value := built.value
          cache :=
            { c with
              m_cache := c.m_cache.set attributes.hash
                { ptr := a, value := built.value, refCount := 2 } }
          shaderCache := built.shaderCache
          scene := built.scene
          heap := heap1 }
  else
    some
      { handle := slot.ptr
        value := slot.value
        cache :=
          { c with
            m_cache := c.m_cache.set attributes.hash
              { slot with refCount := slot.refCount + 1 } }
        shaderCache := shaderCache
        scene := scene
        heap := heap }

/-- The release of one reference on a shader, as when a held
`SharedCShaderPtr` is overwritten or destroyed. -/
def ShaderCache.release (c : ShaderCache) (shader : Nat) : ShaderCache :=
  match c.m_cache.slots.find? (fun e => e.2.ptr == shader) with
  | some e => { c with m_cache := c.m_cache.set e.1 e.2.released }
  | none => c

/-- The method `AttributesCache::clearUnused`, which ends by clearing the
shader cache.  An erased entry was the last reference to its attribute
block, so the block is destroyed and the `m_shader` it holds is released
before the shader cache is cleared. -/
def AttributesCache.clearUnused (k : UpdateFlags) (c : AttributesCache)
    (shaderCache : ShaderCache) : AttributesCache × ShaderCache :=
  let erased := c.m_cache.slots.filter (fun e => e.2.refCount == 1)
  let toErase := erased.map Prod.fst
  let shaders :=
    erased.foldl (fun (sc : ShaderCache) e => sc.release e.2.value.m_shader) shaderCache
  ({ c with m_cache := c.m_cache.eraseAll toErase }, shaders.clearUnused k)

/-! ## ParticleSystemsCache -/

/-- The class `ParticleSystemsCache`. -/
structure ParticleSystemsCache where
  m_cache : HashMap SharedPtr := {}

/-- The result of a `ParticleSystemsCache::get`. -/
structure ParticleGet where
  handle : Nat
  cache : ParticleSystemsCache
  scene : Scene
  heap : Heap

/-- The method `ParticleSystemsCache::get( points )`. -/
def ParticleSystemsCache.get (c : ParticleSystemsCache) (scene : Scene) (heap : Heap)
    (points : IECoreObject) : ParticleGet :=
  let hash := points.hash
  let slot := (c.m_cache.find hash).getD {}
  if slot.isNull then
    let (a, heap1) := convert heap
    { handle := a
      cache := { c with m_cache := c.m_cache.set hash (SharedPtr.own a).copied }
      scene := scene
      heap := { heap1 with particleSystems := store heap1.particleSystems a {} } }
  else
    { handle := slot.ptr
      cache := { c with m_cache := c.m_cache.set hash slot.copied }
      scene := scene
      heap := heap }

/-- The method `ParticleSystemsCache::get( hash )` for per-instance particle
data: one particle is appended to the system of that hash. -/
def ParticleSystemsCache.getByHash (c : ParticleSystemsCache) (scene : Scene) (heap : Heap)
    (hash : MurmurHash) : ParticleGet :=
  let slot := (c.m_cache.find hash).getD {}
  let tagged : Scene :=
    { scene with
      particle_system_manager_need_update := true
      calls := scene.calls ++ [EngineCall.tagParticleSystemManager] }
  if slot.isNull then
    let (a, heap1) := heap.alloc
    { handle := a
      cache := { c with m_cache := c.m_cache.set hash (SharedPtr.own a).copied }
      scene := tagged
      heap := { heap1 with particleSystems := store heap1.particleSystems a { particles := 1 } } }
  else
    let psys := (load heap.particleSystems slot.ptr).getD {}
    { handle := slot.ptr
      cache := { c with m_cache := c.m_cache.set hash slot.copied }
      scene := tagged
      heap :=
        { heap with
          particleSystems := store heap.particleSystems slot.ptr
            { psys with particles := psys.particles + 1 } } }

/-- The method `ParticleSystemsCache::clearUnused`. -/
def ParticleSystemsCache.clearUnused (c : ParticleSystemsCache) (scene : Scene) :
    ParticleSystemsCache × Scene :=
  let toErase := (c.m_cache.slots.filter (fun e => e.2.unique)).map Prod.fst
  ({ c with m_cache := c.m_cache.eraseAll toErase },
   if toErase.length ≠ 0 then
     { scene with
       particle_system_manager_need_update := true
       calls := scene.calls ++ [EngineCall.tagParticleSystemManager] }
   else scene)

/-- The method `ParticleSystemsCache::update`. -/
def ParticleSystemsCache.update (c : ParticleSystemsCache) (scene : Scene) (force : Bool) :
    Scene :=
  if !force && !scene.particle_system_manager_need_update &&
      scene.particle_systems.length == c.m_cache.size then scene
  else
    { scene with particle_systems :=
        (c.m_cache.values.filter (fun p => !p.isNull)).map SharedPtr.ptr }

/-! ## InstanceCache -/

/-- The class `Instance`: the raw pointers of the three shared pointers it
holds (`0` when it holds no particle system). -/
structure Instance where
  m_object : Nat := 0
  m_geometry : Nat := 0
  m_particleSystem : Nat := 0
  deriving DecidableEq, Repr

/-- The class `InstanceCache`; the particle systems cache it points to is
passed to its methods. -/
structure InstanceCache where
  m_objects : List SharedPtr := []
  m_uniqueGeometry : List SharedPtr := []
  m_instancedGeometry : HashMap SharedPtr := {}
  m_objUpdateFlags : Nat := UPDATE_ALL
  m_geoUpdateFlags : Nat := UPDATE_ALL

/-- The result of `InstanceCache::get`. -/
structure InstanceGet where
  instance_ : Instance
  cache : InstanceCache
  particles : ParticleSystemsCache
  scene : Scene
  heap : Heap

/-- The engine geometry type a scene object converts to. -/
def geometryTypeOf (object : IECoreObject) : GeometryType :=
  match object.typeId with
  | ObjectKind.CurvesPrimitive => GeometryType.HAIR
  | ObjectKind.VDBObject => GeometryType.VOLUME
  | ObjectKind.PointsPrimitive => GeometryType.POINTCLOUD
  | _ => GeometryType.MESH

/-- Modelled from the spec: `ObjectAlgo::convert` and `VDBAlgo::convert` are
external collaborators that are not part of the file; a conversion constructs
a new geometry node and a new object node of the given name that points to
it.  The result is the object address and the geometry address. -/
def convertObject (heap : Heap) (object : IECoreObject) (nodeName : String) :
    Nat × Nat × Heap :=
  let (geo, heap1) := convert heap
  let (obj, heap2) := convert heap1
  (obj, geo,
   { heap2 with
     geometry := store heap2.geometry geo { geometry_type := geometryTypeOf object }
     objects := store heap2.objects obj { name := nodeName, geometry := geo } })

/-- The guarded call `MeshAlgo::computeTangents( geo, mesh, needsign )`, made
when tangents are needed and the object is a mesh. -/
def computeTangents (heap : Heap) (geo : Nat) (object : IECoreObject) (tangent needsign : Bool) :
    Heap :=
  if tangent && object.meshInterpolation.isSome then
    let g := (load heap.geometry geo).getD {}
    let attrs := g.attributes ++ [AttributeStandard.ATTR_STD_UV_TANGENT] ++
      (if needsign then [AttributeStandard.ATTR_STD_UV_TANGENT_SIGN] else [])
    { heap with geometry := store heap.geometry geo { g with attributes := attrs } }
  else heap

/-- The block `if( cyclesAttributes->hasParticleInfo() ) { ... }` of
`InstanceCache::get`: the particle system of the fingerprint gets one more
particle and the object is linked to it.  The result carries the pointer the
`Instance` will hold (`0` without particle data). -/
def linkParticleSystem (attributes : CyclesAttributes) (ps : ParticleSystemsCache)
    (scene : Scene) (heap : Heap) (hash : MurmurHash) (cobject : Nat) : ParticleGet :=
  if attributes.hasParticleInfo then
    let r := ps.getByHash scene heap hash
    let o := (load r.heap.objects cobject).getD {}
    let size := ((load r.heap.particleSystems r.handle).getD {}).particles
    { r with
      heap :=
        { r.heap with
          objects := store r.heap.objects cobject
            { o with particle_system := r.handle, particle_index := size - 1 } } }
  else { handle := 0, cache := ps, scene := scene, heap := heap }

/-- The tail shared by the two overloads of `InstanceCache::get` once the
fingerprint `hash` is known; `uniqueId` is the hash the random id of a
non-instanced object is taken from. -/
def InstanceCache.getWithHash (k : UpdateFlags) (c : InstanceCache) (ps : ParticleSystemsCache)
    (scene : Scene) (heap : Heap) (front : IECoreObject) (attributes : CyclesAttributes)
    (nodeName : String) (hash uniqueId : MurmurHash) : InstanceGet :=
  let tangent := attributes.needTangents heap
  let needsign := attributes.needTangentSign heap
  if !attributes.canInstanceGeometry front then
    let (cobject, geo, heap1) := convertObject heap front nodeName
    let heap2 := computeTangents heap1 geo front tangent needsign
    let o := (load heap2.objects cobject).getD {}
    let g := (load heap2.geometry geo).getD {}
    let heap3 : Heap :=
      { heap2 with
        objects := store heap2.objects cobject { o with random_id := uniqueId }
        geometry := store heap2.geometry geo { g with name := toString (repr hash.data) } }
    let p := linkParticleSystem attributes ps scene heap3 hash cobject
    { instance_ := { m_object := cobject, m_geometry := geo, m_particleSystem := p.handle }
      cache :=
        { c with
          m_objects := c.m_objects ++ [(SharedPtr.own cobject).copied]
          m_uniqueGeometry := c.m_uniqueGeometry ++ [(SharedPtr.own geo).copied]
          m_objUpdateFlags := c.m_objUpdateFlags ||| k.OBJECT_ADDED
          m_geoUpdateFlags := c.m_geoUpdateFlags ||| k.GEOMETRY_ADDED }
      particles := p.cache
      scene := p.scene
      heap := p.heap }
  else
    let slot := (c.m_instancedGeometry.find hash).getD {}
    if slot.isNull then
      let (cobject, geo, heap1) := convertObject heap front nodeName
      let heap2 := computeTangents heap1 geo front tangent needsign
      let o := (load heap2.objects cobject).getD {}
      let g := (load heap2.geometry geo).getD {}
      let heap3 : Heap :=
        { heap2 with
          objects := store heap2.objects cobject { o with random_id := hash }
          geometry := store heap2.geometry geo { g with name := toString (repr hash.data) } }
      let p := linkParticleSystem attributes ps scene heap3 hash cobject
      { instance_ := { m_object := cobject, m_geometry := geo, m_particleSystem := p.handle }
        cache :=
          { c with
            m_instancedGeometry := c.m_instancedGeometry.set hash (SharedPtr.own geo).copied
            m_objects := c.m_objects ++ [(SharedPtr.own cobject).copied]
            m_objUpdateFlags := c.m_objUpdateFlags ||| k.OBJECT_ADDED
            m_geoUpdateFlags := c.m_geoUpdateFlags ||| k.GEOMETRY_ADDED }
        particles := p.cache
        scene := p.scene
        heap := p.heap }
    else
      let instanceHash := hash.append (HashAtom.str nodeName)
      let (cobject, heap1) := heap.alloc
      let heap2 : Heap :=
        { heap1 with
          objects := store heap1.objects cobject
            { name := nodeName, random_id := instanceHash, geometry := slot.ptr } }
      let p := linkParticleSystem attributes ps scene heap2 hash cobject
      { instance_ := { m_object := cobject, m_geometry := slot.ptr, m_particleSystem := p.handle }
        cache :=
          { c with
            m_instancedGeometry := c.m_instancedGeometry.set hash slot.copied
            m_objects := c.m_objects ++ [(SharedPtr.own cobject).copied]
            m_objUpdateFlags := c.m_objUpdateFlags ||| k.OBJECT_ADDED }
        particles := p.cache
        scene := p.scene
        heap := p.heap }

/-- The method `InstanceCache::get( object, attributes, nodeName )`. -/
def InstanceCache.get (k : UpdateFlags) (c : InstanceCache) (ps : ParticleSystemsCache)
    (scene : Scene) (heap : Heap) (object : IECoreObject) (attributes : CyclesAttributes)
    (nodeName : String) : InstanceGet :=
  let hash := attributes.hashGeometry heap object object.hash
  c.getWithHash k ps scene heap object attributes nodeName hash object.hash

/-- The method `InstanceCache::get( samples, times, frameIdx, attributes,
nodeName )` for the samples `front :: rest`; `times` are float bit patterns. -/
def InstanceCache.getSamples (k : UpdateFlags) (c : InstanceCache) (ps : ParticleSystemsCache)
    (scene : Scene) (heap : Heap) (front : IECoreObject) (rest : List IECoreObject)
    (times : List Nat) (_frameIdx : Int) (attributes : CyclesAttributes) (nodeName : String) :
    InstanceGet :=
  let h0 := (front :: rest).foldl (fun acc s => acc.appendHash s.hash) ({} : MurmurHash)
  let h1 := times.foldl (fun acc t => acc.append (HashAtom.float t)) h0
  let hash := attributes.hashGeometry heap front h1
  c.getWithHash k ps scene heap front attributes nodeName hash front.hash

/-- The destruction of an `Instance` held by the host: its object pointer and
its geometry pointer give up their reference (the count of its particle
system lives in the particle systems cache). -/
def InstanceCache.release (c : InstanceCache) (i : Instance) : InstanceCache :=
  let drop (p : SharedPtr) (a : Nat) : SharedPtr := if p.ptr = a then p.released else p
  { c with
    m_objects := c.m_objects.map (fun p => drop p i.m_object)
    m_uniqueGeometry := c.m_uniqueGeometry.map (fun p => drop p i.m_geometry)
    m_instancedGeometry :=
      { slots := c.m_instancedGeometry.slots.map (fun e => (e.1, drop e.2 i.m_geometry))
        nodup := by
          have hmap : (c.m_instancedGeometry.slots.map
              (fun e => (e.1, drop e.2 i.m_geometry))).map Prod.fst
              = c.m_instancedGeometry.slots.map Prod.fst := by
            rw [List.map_map]; rfl
          rw [hmap]; exact c.m_instancedGeometry.nodup } }

/-- The method `InstanceCache::clearUnused`. -/
def InstanceCache.clearUnused (k : UpdateFlags) (c : InstanceCache) : InstanceCache :=
  let geomKeep := c.m_uniqueGeometry.filter (fun p => !p.unique)
  let geoFlags1 :=
    if c.m_uniqueGeometry.any (fun p => p.unique) then c.m_geoUpdateFlags ||| k.GEOMETRY_REMOVED
    else c.m_geoUpdateFlags
  let toErase := (c.m_instancedGeometry.slots.filter (fun e => e.2.unique)).map Prod.fst
  let geoFlags2 := if toErase.length ≠ 0 then geoFlags1 ||| k.GEOMETRY_REMOVED else geoFlags1
  let objectsKeep := c.m_objects.filter (fun p => !p.unique)
  let objFlags :=
    if c.m_objects.any (fun p => p.unique) then c.m_objUpdateFlags ||| k.OBJECT_REMOVED
    else c.m_objUpdateFlags
  { c with
    m_uniqueGeometry := geomKeep
    m_instancedGeometry := c.m_instancedGeometry.eraseAll toErase
    m_objects := objectsKeep
    m_objUpdateFlags := objFlags
    m_geoUpdateFlags := geoFlags2 }

/-- The method `InstanceCache::updateObjects`.  The rebuild of the engine's
object list is guarded by `m_geoUpdateFlags`, as in the source. -/
def InstanceCache.updateObjects (k : UpdateFlags) (c : InstanceCache) (scene : Scene) :
    InstanceCache × Scene :=
  if c.m_objUpdateFlags = UPDATE_NONE then (c, scene)
  else
    let scene1 : Scene :=
      if c.m_geoUpdateFlags &&& (k.OBJECT_ADDED ||| k.OBJECT_REMOVED ||| k.OBJECT_MODIFIED) ≠ 0
      then { scene with objects := (c.m_objects.filter (fun p => !p.isNull)).map SharedPtr.ptr }
      else scene
    ({ c with m_objUpdateFlags := UPDATE_NONE },
     { scene1 with
       object_manager_flags := scene1.object_manager_flags ||| c.m_objUpdateFlags
       calls := scene1.calls ++ [EngineCall.tagObjectManager c.m_objUpdateFlags] })

/-- The method `InstanceCache::updateGeometry`. -/
def InstanceCache.updateGeometry (k : UpdateFlags) (c : InstanceCache) (scene : Scene) :
    InstanceCache × Scene :=
  if c.m_geoUpdateFlags = UPDATE_NONE then (c, scene)
  else
    let scene1 : Scene :=
      if c.m_geoUpdateFlags &&&
          (k.GEOMETRY_ADDED ||| k.GEOMETRY_REMOVED ||| k.GEOMETRY_MODIFIED) ≠ 0
      then
        { scene with geometry :=
            (c.m_uniqueGeometry.filter (fun p => !p.isNull)).map SharedPtr.ptr ++
            (c.m_instancedGeometry.values.filter (fun p => !p.isNull)).map SharedPtr.ptr }
      else scene
    ({ c with m_geoUpdateFlags := UPDATE_NONE },
     { scene1 with
       geometry_manager_flags := scene1.geometry_manager_flags ||| c.m_geoUpdateFlags
       calls := scene1.calls ++ [EngineCall.tagGeometryManager c.m_geoUpdateFlags] })

/-- The method `InstanceCache::update`. -/
def InstanceCache.update (k : UpdateFlags) (c : InstanceCache) (scene : Scene) (force : Bool) :
    InstanceCache × Scene :=
  let c0 : InstanceCache :=
    if force then { c with m_objUpdateFlags := UPDATE_ALL, m_geoUpdateFlags := UPDATE_ALL }
    else c
  let r1 := c0.updateObjects k scene
  r1.1.updateGeometry k r1.2

/-! ## LightCache -/

/-- The class `LightCache`. -/
structure LightCache where
  m_lights : List SharedPtr := []
  m_updateFlags : Nat := UPDATE_ALL
  deriving DecidableEq, Repr

/-- The result of `LightCache::get`. -/
structure LightGet where
  handle : Nat
  cache : LightCache
  scene : Scene
  heap : Heap

/-- The method `LightCache::get`. -/
def LightCache.get (k : UpdateFlags) (c : LightCache) (scene : Scene) (heap : Heap)
    (nodeName : String) : LightGet :=
  let (light, heap1) := heap.alloc
  { handle := light
    cache :=
      { c with
        m_lights := c.m_lights ++ [(SharedPtr.own light).copied]
        m_updateFlags := c.m_updateFlags ||| k.LIGHT_ADDED }
    scene := { scene with calls := scene.calls ++ [EngineCall.lightTagUpdate light] }
    heap := { heap1 with lights := store heap1.lights light { name := nodeName } } }

/-- The method `LightCache::clearUnused`. -/
def LightCache.clearUnused (k : UpdateFlags) (c : LightCache) : LightCache :=
  let lightsKeep := c.m_lights.filter (fun p => !p.unique)
  let flags :=
    if c.m_lights.any (fun p => p.unique) then c.m_updateFlags ||| k.LIGHT_REMOVED
    else c.m_updateFlags
  { m_lights := if flags &&& k.LIGHT_REMOVED ≠ 0 then lightsKeep else c.m_lights
    m_updateFlags := flags }

/-- The method `LightCache::updateLights`. -/
def LightCache.updateLights (c : LightCache) (scene : Scene) : LightCache × Scene :=
  if c.m_updateFlags = UPDATE_NONE then (c, scene)
  else
    ({ c with m_updateFlags := UPDATE_NONE },
     { scene with
       lights := (c.m_lights.filter (fun p => !p.isNull)).map SharedPtr.ptr
       light_manager_flags := scene.light_manager_flags ||| c.m_updateFlags
       calls := scene.calls ++ [EngineCall.tagLightManager c.m_updateFlags] })

/-- The method `LightCache::update`. -/
def LightCache.update (c : LightCache) (scene : Scene) (force : Bool) : LightCache × Scene :=
  LightCache.updateLights (if force then { c with m_updateFlags := UPDATE_ALL } else c) scene

/-! ## CyclesAttributes: construction -/

/-- The ray-type masks of `ccl::PathRayFlag` that the constructor passes to
`updateVisibility`, of the Cycles build the renderer is compiled against. -/
structure PathRayFlag where
  PATH_RAY_CAMERA : Nat
  PATH_RAY_DIFFUSE : Nat
  PATH_RAY_GLOSSY : Nat
  PATH_RAY_TRANSMIT : Nat
  PATH_RAY_SHADOW : Nat
  PATH_RAY_VOLUME_SCATTER : Nat
  deriving DecidableEq, Repr

/-- The masks of a Cycles build: single bits, but for the shadow mask, which
joins the opaque and the transparent shadow bit. -/
def samplePathRayFlag : PathRayFlag :=
  { PATH_RAY_CAMERA := 1, PATH_RAY_DIFFUSE := 8, PATH_RAY_GLOSSY := 16,
    PATH_RAY_TRANSMIT := 4, PATH_RAY_SHADOW := 768, PATH_RAY_VOLUME_SCATTER := 128 }

/-- The attribute names and ray types of the six `updateVisibility` calls of
the constructor, in call order. -/
def rayTypes (rays : PathRayFlag) : List (String × Nat) :=
  [("ccl:visibility:camera", rays.PATH_RAY_CAMERA),
   ("ccl:visibility:diffuse", rays.PATH_RAY_DIFFUSE),
   ("ccl:visibility:glossy", rays.PATH_RAY_GLOSSY),
   ("ccl:visibility:transmission", rays.PATH_RAY_TRANSMIT),
   ("ccl:visibility:shadow", rays.PATH_RAY_SHADOW),
   ("ccl:visibility:scatter", rays.PATH_RAY_VOLUME_SCATTER)]

/-- No two of the six ray-type masks share a bit. -/
def PathRayFlag.disjoint (rays : PathRayFlag) : Prop :=
  (rayTypes rays).Pairwise (fun a b => a.2 &&& b.2 = 0)

instance (rays : PathRayFlag) : Decidable rays.disjoint := by
  unfold PathRayFlag.disjoint
  infer_instance

/-- The operator `~` on the bit pattern of an `int`. -/
def bitNot32 (x : Nat) : Nat := (2 ^ 32 - 1) ^^^ (x % 2 ^ 32)

/-- The call `attribute<BoolData>( name, attributes )`, with the value read:
`none` for an absent member and for one `reportedCast` rejects. -/
def attributeBool (name : String) (attributes : CompoundObject) : Option Bool :=
  match attributes.member name with
  | some (AttrValue.bool b) => some b
  | _ => none

/-- The call `attribute<IntData>( name, attributes )`, with the value read. -/
def attributeInt (name : String) (attributes : CompoundObject) : Option Int :=
  match attributes.member name with
  | some (AttrValue.int i) => some i
  | _ => none

/-- The call `attribute<FloatData>( name, attributes )`, with the value read. -/
def attributeFloat (name : String) (attributes : CompoundObject) : Option Nat :=
  match attributes.member name with
  | some (AttrValue.float f) => some f
  | _ => none

/-- The call `attribute<StringData>( name, attributes )`, with the value
read. -/
def attributeString (name : String) (attributes : CompoundObject) : Option String :=
  match attributes.member name with
  | some (AttrValue.string s) => some s
  | _ => none

/-- The call `attribute<Color3fData>( name, attributes )`, with the value
read. -/
def attributeColor3f (name : String) (attributes : CompoundObject) : Option (List Nat) :=
  match attributes.member name with
  | some (AttrValue.color3f c) => some c
  | _ => none

/-- The call `attribute<V3fData>( name, attributes )`, with the value read. -/
def attributeV3f (name : String) (attributes : CompoundObject) : Option (List Nat) :=
  match attributes.member name with
  | some (AttrValue.v3f v) => some v
  | _ => none

/-- The call `attribute<V2fData>( name, attributes )`, with the value read. -/
def attributeV2f (name : String) (attributes : CompoundObject) : Option (List Nat) :=
  match attributes.member name with
  | some (AttrValue.v2f v) => some v
  | _ => none

/-- The call `attribute<QuatfData>( name, attributes )`, with the value
read. -/
def attributeQuatf (name : String) (attributes : CompoundObject) : Option (List Nat) :=
  match attributes.member name with
  | some (AttrValue.quatf q) => some q
  | _ => none

/-- The call `attribute<ShaderNetwork>( name, attributes )`. -/
def attributeShaderNetwork (name : String) (attributes : CompoundObject) :
    Option ShaderNetwork :=
  match attributes.member name with
  | some (AttrValue.shaderNetwork n) => some n
  | _ => none

/-- The method `CyclesAttributes::updateVisibility`, on the bit pattern of
`m_visibility`. -/
def CyclesAttributes.updateVisibility (m_visibility : Nat) (name : String) (rayType : Nat)
    (attributes : CompoundObject) : Nat :=
  match attributeBool name attributes with
  | some true => m_visibility ||| (rayType % 2 ^ 32)
  | some false => m_visibility &&& bitNot32 rayType
  | none => m_visibility

/-- The six `updateVisibility` calls of the constructor, starting from the
initial `m_visibility( ~0 )`. -/
def constructVisibility (rays : PathRayFlag) (attributes : CompoundObject) : Nat :=
  (rayTypes rays).foldl
    (fun v r => CyclesAttributes.updateVisibility v r.1 r.2 attributes) (2 ^ 32 - 1)

/-- The constructor `Particle( attributes )`: each loop keeps the first name
that yields a value. -/
def Particle.new (attributes : CompoundObject) : Particle :=
  { index := (attributeInt "index" attributes).orElse
      (fun _ => attributeInt "instanceIndex" attributes)
    age := attributeFloat "age" attributes
    lifetime := attributeFloat "lifetime" attributes
    location := (attributeV3f "location" attributes).orElse
      (fun _ => attributeV3f "P" attributes)
    rotation := (attributeQuatf "rotation" attributes).orElse
      (fun _ => attributeQuatf "orientation" attributes)
    size := (attributeFloat "size" attributes).orElse
      (fun _ => attributeFloat "width" attributes)
    velocity := attributeV3f "velocity" attributes
    angular_velocity := attributeV3f "angular_velocity" attributes }

/-- The constructor `Volume( attributes )`. -/
def Volume.new (attributes : CompoundObject) : Volume :=
  { clipping := attributeFloat "ccl:volume_clipping" attributes
    stepSize := attributeFloat "ccl:volume_step_size" attributes
    objectSpace := attributeBool "ccl:volume_object_space" attributes }

/-- The surface shader the constructor resolves: the first of the five
attribute names that holds a shader network. -/
def surfaceShaderAttribute (attributes : CompoundObject) : Option ShaderNetwork :=
  (attributeShaderNetwork "ccl:surface" attributes).orElse fun _ =>
  (attributeShaderNetwork "osl:surface" attributes).orElse fun _ =>
  (attributeShaderNetwork "osl:shader" attributes).orElse fun _ =>
  (attributeShaderNetwork "ccl:volume" attributes).orElse fun _ =>
  attributeShaderNetwork "ccl:light" attributes

/-- The members the constructor reads with `attributeValue`, before the
shader is resolved. -/
def constructValues (rays : PathRayFlag) (attributes : CompoundObject) : CyclesAttributes :=
  { m_visibility := constructVisibility rays attributes
    m_useHoldout := (attributeBool "ccl:use_holdout" attributes).getD false
    m_isShadowCatcher := (attributeBool "ccl:is_shadow_catcher" attributes).getD false
    m_shadowTerminatorShadingOffset :=
      (attributeFloat "ccl:shadow_terminator_shading_offset" attributes).getD 0
    m_shadowTerminatorGeometryOffset :=
      (attributeFloat "ccl:shadow_terminator_geometry_offset" attributes).getD 0
    m_maxLevel := (attributeInt "ccl:max_level" attributes).getD 1
    m_dicingRate := (attributeFloat "ccl:dicing_rate" attributes).getD 0x3f800000
    m_color := (attributeColor3f "Cs" attributes).getD [0, 0, 0]
    m_dupliGenerated := (attributeV3f "ccl:dupli_generated" attributes).getD [0, 0, 0]
    m_dupliUV := (attributeV2f "ccl:dupli_uv" attributes).getD [0, 0]
    m_particle := Particle.new attributes
    m_volume := Volume.new attributes
    m_lightGroup := (attributeString "ccl:lightgroup" attributes).getD ""
    m_assetName := (attributeString "ccl:asset_name" attributes).getD "" }

/-- The tail of the constructor: a `ccl:light` network is converted to a
light node that only carries the light's data. -/
def constructLight (attributes : CompoundObject) (b : AttributesBuilt) : AttributesBuilt :=
  match attributeShaderNetwork "ccl:light" attributes with
  | some net =>
    let (l, heap1) := b.heap.alloc
    { b with
      value := { b.value with m_light := l }
      heap := { heap1 with lights := store heap1.lights l { light_type := net.lightType } } }
  | none => b

/-- The constructor `CyclesAttributes( attributes, shaderCache )`.  The
result is `none` where `ShaderCache::get` dereferences a null pointer.  The
copy of the default surface pointer is counted in that shader's slot. -/
def CyclesAttributes.new (k : UpdateFlags) (rays : PathRayFlag) (attributes : CompoundObject)
    (shaderCache : ShaderCache) (scene : Scene) (heap : Heap) : Option AttributesBuilt :=
  let a0 := constructValues rays attributes
  match surfaceShaderAttribute attributes with
  | some net =>
    match shaderCache.get k scene heap (some net) (some attributes) with
    | none => none
    | some r =>
      let h1 := appendAOVHashes attributes (({} : MurmurHash).appendHash net.hash)
      let doubleSided := (attributeBool "doubleSided" attributes).getD true
      let h2 := if !doubleSided then h1.append (HashAtom.bool true) else h1
      some (constructLight attributes
        { value := { a0 with m_shader := r.handle, m_shaderHash := h2 }
          shaderCache := r.cache
          scene := r.scene
          heap := r.heap })
  | none =>
    let cache1 :=
      match shaderCache.m_cache.find {} with
      | some slot => { shaderCache with m_cache := shaderCache.m_cache.set {} slot.copied }
      | none => shaderCache
    some (constructLight attributes
      { value := { a0 with m_shader := shaderCache.defaultSurface }
        shaderCache := cache1
        scene := scene
        heap := heap })

/-- An attribute block hiding the object from camera and shadow rays, with an
ill-typed diffuse override and an explicit glossy `true`. -/
def sampleVisibilityAttributes : CompoundObject :=
  { members :=
      [("ccl:visibility:camera", AttrValue.bool false),
       ("ccl:visibility:diffuse", AttrValue.int 0),
       ("ccl:visibility:glossy", AttrValue.bool true),
       ("ccl:visibility:shadow", AttrValue.bool false)] }

/-! ## CyclesAttributes::applyObject and CyclesObject::attributes -/

/-- Whether the bit pattern of a `float` is a NaN. -/
def f32IsNaN (bits : Nat) : Bool :=
  (bits / 2 ^ 23) % 256 == 255 && bits % 2 ^ 23 != 0

/-- The operator `!=` on two `float`s given by their bit patterns: a NaN is
unequal to everything, the two zeros are equal, any other two floats are
unequal when their bits differ. -/
def f32Ne (a b : Nat) : Bool :=
  f32IsNaN a || f32IsNaN b ||
    (a % 2 ^ 32 != b % 2 ^ 32 && !(a % 2 ^ 31 == 0 && b % 2 ^ 31 == 0))

/-- The members of the particle `old` after the overrides `p` are written. -/
def Particle.write (p old : Particle) : Particle :=
  { index := p.index.orElse (fun _ => old.index)
    age := p.age.orElse (fun _ => old.age)
    lifetime := p.lifetime.orElse (fun _ => old.lifetime)
    location := p.location.orElse (fun _ => old.location)
    rotation := p.rotation.orElse (fun _ => old.rotation)
    size := p.size.orElse (fun _ => old.size)
    velocity := p.velocity.orElse (fun _ => old.velocity)
    angular_velocity := p.angular_velocity.orElse (fun _ => old.angular_velocity) }

/-- The method `Particle::apply`. -/
def Particle.apply (p : Particle) (heap : Heap) (object : Nat) : Bool × Heap :=
  let obj := (load heap.objects object).getD {}
  if !p.hasParticleInfo then (true, heap)
  else if obj.particle_system ≠ 0 then
    let psys := (load heap.particleSystems obj.particle_system).getD {}
    let idx := obj.particle_index
    if idx < psys.particles then
      let entry := p.write ((load psys.data idx).getD {})
      (true,
        { heap with
          particleSystems := store heap.particleSystems obj.particle_system
            { psys with data := store psys.data idx entry } })
    else (true, heap)
  else (false, heap)

/-- The setters `Volume::apply` calls on a volume. -/
def Volume.write (v : Volume) (geo : CGeometry) : CGeometry :=
  { geo with
    clipping := v.clipping.getD geo.clipping
    step_size := v.stepSize.getD geo.step_size
    object_space := v.objectSpace.getD geo.object_space }

/-- The method `Volume::apply`, which always returns true; the result is
`none` when the geometry pointer it dereferences is null. -/
def Volume.apply (v : Volume) (heap : Heap) (object : Nat) : Option Heap :=
  let obj := (load heap.objects object).getD {}
  if obj.geometry = 0 then none
  else
    let geo := (load heap.geometry obj.geometry).getD {}
    if geo.geometry_type = GeometryType.VOLUME then
      some { heap with geometry := store heap.geometry obj.geometry (v.write geo) }
    else some heap

/-- The result of `applyObject`: the returned flag and the state after the
call. -/
structure ApplyResult where
  ok : Bool
  shaderCache : ShaderCache
  heap : Heap

/-- The displacement test at the head of `applyObject`: the flag is false
when the object has to be re-issued, and the heap carries the writes to the
new shader. -/
def applyDisplacement (a previousAttributes : CyclesAttributes) (heap : Heap) : Bool × Heap :=
  if previousAttributes.m_shader ≠ 0 ∧ a.m_shader ≠ 0 then
    let previousShader := (load heap.shaders previousAttributes.m_shader).getD {}
    let shader := (load heap.shaders a.m_shader).getD {}
    if previousShader.has_displacement = true ∧
        previousShader.displacement_method ≠ DisplacementMethod.DISPLACE_BUMP then
      let oldHash := previousShader.graph.getD ""
      let newHash := shader.graph.getD ""
      if oldHash ≠ newHash then
        (false,
          { heap with
            shaders := store heap.shaders a.m_shader
              { shader with need_update_displacement := true } })
      else
        (true,
          { heap with
            shaders := store heap.shaders a.m_shader
              { shader with
                attributes := previousShader.attributes
                need_update_displacement := false } })
    else (true, heap)
  else (true, heap)

/-- The subdivision test of `applyObject`: the object's geometry is a mesh
with subdivision parameters and the max level or the dicing rate changed. -/
def subdivisionChanged (a previousAttributes : CyclesAttributes) (heap : Heap) (object : Nat) :
    Bool :=
  let obj := (load heap.objects object).getD {}
  if obj.geometry ≠ 0 then
    let mesh := (load heap.geometry obj.geometry).getD {}
    if mesh.geometry_type = GeometryType.MESH then
      if mesh.subd_params then
        decide (previousAttributes.m_maxLevel ≠ a.m_maxLevel) ||
          f32Ne previousAttributes.m_dicingRate a.m_dicingRate
      else false
    else false
  else false

/-- The setters `applyObject` calls on the object; the conversions of
`SocketAlgo` keep the components. -/
def setObjectMembers (a : CyclesAttributes) (obj : CObject) : CObject :=
  { obj with
    visibility := a.m_visibility
    use_holdout := a.m_useHoldout
    is_shadow_catcher := a.m_isShadowCatcher
    shadow_terminator_shading_offset := a.m_shadowTerminatorShadingOffset
    shadow_terminator_geometry_offset := a.m_shadowTerminatorGeometryOffset
    color := a.m_color
    dupli_generated := a.m_dupliGenerated
    dupli_uv := a.m_dupliUV
    asset_name := a.m_assetName }

/-- The tangent test of `applyObject`: the shader requests a tangent
attribute that the mesh does not carry. -/
def tangentMissing (shader : CShader) (mesh : CGeometry) : Bool :=
  (shader.attributes.contains AttributeStandard.ATTR_STD_UV_TANGENT &&
      !mesh.attributes.contains AttributeStandard.ATTR_STD_UV_TANGENT) ||
    (shader.attributes.contains AttributeStandard.ATTR_STD_UV_TANGENT_SIGN &&
      !mesh.attributes.contains AttributeStandard.ATTR_STD_UV_TANGENT_SIGN)

/-- The setters `applyObject` calls on a mesh: the dicing parameters, when
the mesh has subdivision parameters. -/
def setSubdivision (a : CyclesAttributes) (mesh : CGeometry) : CGeometry :=
  if mesh.subd_params then
    { mesh with subd_dicing_rate := a.m_dicingRate, subd_max_level := a.m_maxLevel }
  else mesh

/-- The part of `applyObject` after the object setters that deals with the
geometry: the dicing parameters, the tangent test and the deferred shader
assignment.  The flag is false when the tangent test fails. -/
def applyGeometry (a : CyclesAttributes) (shaderCache : ShaderCache) (heap : Heap)
    (object : Nat) : ApplyResult :=
  let obj := (load heap.objects object).getD {}
  if obj.geometry ≠ 0 then
    let geo := (load heap.geometry obj.geometry).getD {}
    let assign (h : Heap) : ApplyResult :=
      if a.m_shader ≠ 0 then
        { ok := true
          shaderCache := shaderCache.addShaderAssignment
            { first := obj.geometry, kind := NodeKind.geometry, second := [a.m_shader] }
          heap := h }
      else { ok := true, shaderCache := shaderCache, heap := h }
    if geo.geometry_type = GeometryType.MESH then
      let mesh := setSubdivision a geo
      let heap1 := { heap with geometry := store heap.geometry obj.geometry mesh }
      if a.m_shader ≠ 0 ∧
          tangentMissing ((load heap.shaders a.m_shader).getD {}) mesh = true then
        { ok := false, shaderCache := shaderCache, heap := heap1 }
      else assign heap1
    else assign heap
  else { ok := true, shaderCache := shaderCache, heap := heap }

/-- The head of `applyObject`, run when there is a previous snapshot: the
flag is false when the displacement or the subdivision test asks for a
re-issue. -/
def applyHead (a : CyclesAttributes) (heap : Heap) (object : Nat)
    (previousAttributes : Option CyclesAttributes) : Bool × Heap :=
  match previousAttributes with
  | some previous =>
    let d := applyDisplacement a previous heap
    if d.1 = false then (false, d.2)
    else if subdivisionChanged a previous d.2 object then (false, d.2)
    else (true, d.2)
  | none => (true, heap)

/-- The call `object->set_lightgroup`, compiled in with
`WITH_CYCLES_LIGHTGROUPS`. -/
def setLightgroup (WITH_CYCLES_LIGHTGROUPS : Bool) (a : CyclesAttributes) (obj : CObject) :
    CObject :=
  if WITH_CYCLES_LIGHTGROUPS then { obj with lightgroup := a.m_lightGroup } else obj

/-- The body of `applyObject` from the object setters on. -/
def applyTail (WITH_CYCLES_LIGHTGROUPS : Bool) (a : CyclesAttributes)
    (shaderCache : ShaderCache) (heap : Heap) (object : Nat) : Option ApplyResult :=
  let heap1 :=
    { heap with
      objects := store heap.objects object
        (setObjectMembers a ((load heap.objects object).getD {})) }
  let g := applyGeometry a shaderCache heap1 object
  if g.ok = false then some g
  else
    let p := a.m_particle.apply g.heap object
    if p.1 = false then some { ok := false, shaderCache := g.shaderCache, heap := p.2 }
    else
      match a.m_volume.apply p.2 object with
      | none => none
      | some heap2 =>
        some
          { ok := true
            shaderCache := g.shaderCache
            heap :=
              { heap2 with
                objects := store heap2.objects object
                  (setLightgroup WITH_CYCLES_LIGHTGROUPS a
                    ((load heap2.objects object).getD {})) } }

/-- The method `CyclesAttributes::applyObject`; `WITH_CYCLES_LIGHTGROUPS` is
the build flag of that name.  The result is `none` when `Volume::apply`
dereferences a null geometry. -/
def CyclesAttributes.applyObject (WITH_CYCLES_LIGHTGROUPS : Bool) (a : CyclesAttributes)
    (shaderCache : ShaderCache) (heap : Heap) (object : Nat)
    (previousAttributes : Option CyclesAttributes) : Option ApplyResult :=
  let head := applyHead a heap object previousAttributes
  if head.1 = false then some { ok := false, shaderCache := shaderCache, heap := head.2 }
  else applyTail WITH_CYCLES_LIGHTGROUPS a shaderCache head.2 object

/-- The class `CyclesObject`; `m_attributes` is the snapshot the held pointer
points to, `none` for the initial null pointer. -/
structure CyclesObject where
  m_instance : Instance := {}
  m_frame : Nat := 0
  m_attributes : Option CyclesAttributes := none
  deriving DecidableEq, Repr

/-- The result of `CyclesObject::attributes`: the returned flag and the state
after the call. -/
structure AttributesApplied where
  result : Bool
  object : CyclesObject
  shaderCache : ShaderCache
  scene : Scene
  heap : Heap

/-- The method `CyclesObject::attributes`.  The result is `none` when the
instance holds no object, whose `tag_update` is then called through a null
pointer, and where `applyObject` fails. -/
def CyclesObject.attributes (WITH_CYCLES_LIGHTGROUPS : Bool) (o : CyclesObject)
    (shaderCache : ShaderCache) (scene : Scene) (heap : Heap)
    (cyclesAttributes : CyclesAttributes) : Option AttributesApplied :=
  let object := o.m_instance.m_object
  if object = 0 then none
  else
    match cyclesAttributes.applyObject WITH_CYCLES_LIGHTGROUPS shaderCache heap object
        o.m_attributes with
    | none => none
    | some r =>
      if r.ok then
        some
          { result := true
            object := { o with m_attributes := some cyclesAttributes }
            shaderCache := r.shaderCache
            scene := { scene with calls := scene.calls ++ [EngineCall.objectTagUpdate object] }
            heap := r.heap }
      else
        some
          { result := false
            object := o
            shaderCache := r.shaderCache
            scene := scene
            heap := r.heap }

/-- A heap with one object on a subdivision mesh: object `1`, mesh `2` with
subdivision parameters, shader `5`. -/
def sampleSubdHeap : Heap :=
  { nextAddr := 5
    objects := [(1, { name := "cube", geometry := 2 })]
    geometry := [(2, { name := "cube", subd_params := true })]
    shaders := [(5, {})] }

/-- The handle of the object of `sampleSubdHeap`, before any attributes were
applied. -/
def sampleCyclesObject : CyclesObject :=
  { m_instance := { m_object := 1, m_geometry := 2 } }

/-- A snapshot with the default shader and a dicing rate of `2.0f`. -/
def sampleDicedAttributes : CyclesAttributes := { m_shader := 5, m_dicingRate := 0x40000000 }

/-- A snapshot with the default shader whose dicing rate is a NaN. -/
def sampleNaNAttributes : CyclesAttributes := { m_shader := 5, m_dicingRate := 0x7fc00000 }

/-- The heap already holds, for the object, its geometry and its particle,
what the setters of `applyObject` write for the snapshot `a`: each write
leaves its table as it is. -/
def appliedTo (WITH_CYCLES_LIGHTGROUPS : Bool) (a : CyclesAttributes) (heap : Heap)
    (object : Nat) : Prop :=
  let obj := (load heap.objects object).getD {}
  let geo := (load heap.geometry obj.geometry).getD {}
  let psys := (load heap.particleSystems obj.particle_system).getD {}
  store heap.objects object (setObjectMembers a obj) = heap.objects ∧
    store heap.objects object (setLightgroup WITH_CYCLES_LIGHTGROUPS a obj) = heap.objects ∧
    (geo.geometry_type = GeometryType.MESH →
      store heap.geometry obj.geometry (setSubdivision a geo) = heap.geometry) ∧
    (geo.geometry_type = GeometryType.VOLUME →
      store heap.geometry obj.geometry (a.m_volume.write geo) = heap.geometry) ∧
    (a.m_particle.hasParticleInfo = true → obj.particle_index < psys.particles →
      store heap.particleSystems obj.particle_system
        { psys with
          data := store psys.data obj.particle_index
            (a.m_particle.write ((load psys.data obj.particle_index).getD {})) }
        = heap.particleSystems)

/-! ## CyclesRenderer: state -/

/-- The enum `CyclesRenderer::RenderState`. -/
inductive RenderState
  | RENDERSTATE_READY
  | RENDERSTATE_RENDERING
  | RENDERSTATE_STOPPED
  deriving DecidableEq, Repr

/-- Values of `ccl::ShadingSystem`. -/
inductive ShadingSystem
  | SHADINGSYSTEM_OSL
  | SHADINGSYSTEM_SVM
  deriving DecidableEq, Repr

/-- Values of `ccl::BVHLayout` the renderer names. -/
inductive BVHLayout
  | BVH_LAYOUT_AUTO
  | BVH_LAYOUT_EMBREE
  | BVH_LAYOUT_BVH2
  | BVH_LAYOUT_OTHER (id : Nat)
  deriving DecidableEq, Repr

/-- Values of `ccl::BVHType`. -/
inductive BVHType
  | BVH_TYPE_DYNAMIC
  | BVH_TYPE_STATIC
  deriving DecidableEq, Repr

/-- Values of `ccl::CurveShapeType`. -/
inductive CurveShapeType
  | CURVE_RIBBON
  | CURVE_THICK
  deriving DecidableEq, Repr

/-- Values of `ccl::DeviceType`. -/
inductive DeviceType
  | DEVICE_NONE
  | DEVICE_CPU
  | DEVICE_CUDA
  | DEVICE_HIP
  | DEVICE_OPTIX
  | DEVICE_MULTI
  | DEVICE_OTHER (id : Nat)
  deriving DecidableEq, Repr

/-- The members of a `ccl::DeviceInfo` the renderer reads. -/
structure DeviceInfo where
  id : String := "CPU"
  type : DeviceType := DeviceType.DEVICE_CPU
  deriving DecidableEq, Repr

/-- The members of `ccl::SessionParams` the renderer reads and writes; the
time limit is the bit pattern of the float stored. -/
structure SessionParams where
  device : DeviceInfo := {}
  headless : Bool := false
  background : Bool := false
  experimental : Bool := false
  samples : Int := 1024
  pixel_size : Int := 1
  threads : Int := 0
  time_limit : Nat := 0
  use_profiling : Bool := false
  use_auto_tile : Bool := true
  tile_size : Int := 2048
  shadingsystem : ShadingSystem := ShadingSystem.SHADINGSYSTEM_SVM
  deriving DecidableEq, Repr

/-- The members of `ccl::TextureCacheParams`, of builds with
`WITH_CYCLES_TEXTURE_CACHE`. -/
structure TextureCacheParams where
  use_cache : Bool := false
  cache_size : Int := 1024
  auto_convert : Bool := true
  accept_unmipped : Bool := true
  accept_untiled : Bool := true
  auto_tile : Bool := true
  auto_mip : Bool := true
  tile_size : Int := 64
  diffuse_blur : Nat := 0
  glossy_blur : Nat := 0
  use_custom_cache_path : Bool := false
  custom_cache_path : String := ""
  deriving DecidableEq, Repr

/-- The members of `ccl::SceneParams` the renderer reads and writes. -/
structure SceneParams where
  shadingsystem : ShadingSystem := ShadingSystem.SHADINGSYSTEM_SVM
  bvh_layout : BVHLayout := BVHLayout.BVH_LAYOUT_AUTO
  bvh_type : BVHType := BVHType.BVH_TYPE_DYNAMIC
  use_bvh_spatial_split : Bool := false
  use_bvh_unaligned_nodes : Bool := true
  num_bvh_time_steps : Int := 0
  hair_subdivisions : Int := 3
  hair_shape : CurveShapeType := CurveShapeType.CURVE_RIBBON
  texture_limit : Int := 0
  texture : TextureCacheParams := {}
  deriving DecidableEq, Repr

/-- The levels of `IECore::Msg`. -/
inductive MsgLevel
  | Error
  | Warning
  | Info
  | Debug
  deriving DecidableEq, Repr

/-- A message handed to `IECore::msg`: level, context, the text without the
quoted name, and the name the text quotes. -/
structure Message where
  level : MsgLevel
  context : String
  text : String
  subject : String := ""
  deriving DecidableEq, Repr

/-- A socket of a `ccl::Node`: its value and the default of its
`SocketType`. -/
structure Socket where
  value : AttrValue
  default_value : AttrValue
  deriving DecidableEq, Repr

/-- A `ccl::Node` as the options see it: its sockets by name, in the order
of `type->inputs`. -/
structure Node where
  sockets : List (String × Socket) := []
  deriving DecidableEq, Repr

/-- The call `node_type->find_input( name )`. -/
def Node.find_input (n : Node) (name : String) : Option Socket :=
  (n.sockets.find? (fun e => e.1 == name)).map Prod.snd

/-- Writing the value of the socket `name`, when the node has it. -/
def Node.setValue (n : Node) (name : String) (f : Socket → AttrValue) : Node :=
  { n with
    sockets := n.sockets.map
      (fun e => if e.1 == name then (e.1, { e.2 with value := f e.2 }) else e) }

/-- The call `node->set_default_value( *input )` for the socket `name`. -/
def Node.set_default_value (n : Node) (name : String) : Node :=
  n.setValue name (fun s => s.default_value)

/-- The part of the `ccl::Session` the renderer reads and writes: the
parameters it was created with, those of its scene, the sample count and the
pause flag. -/
structure Session where
  params : SessionParams := {}
  scene_params : SceneParams := {}
  samples : Int := 0
  pause : Bool := false
  deriving DecidableEq, Repr

/-- The caches `render` clears. -/
inductive CacheKind
  | camera
  | instance_
  | particleSystems
  | light
  | attributes
  deriving DecidableEq, Repr

/-- The calls of `render`, `pause` and `reset` on the scene mutex, the caches
and the session, in the order made. -/
inductive RenderEvent
  | mutexLock
  | mutexUnlock
  | clearUnused (cache : CacheKind)
  | updateSceneObjects (force : Bool)
  | updateOptions
  | updateCamera
  | updateOutputs
  | sessionCreate
  | sessionCancel
  | sessionReset
  | sessionStart
  | sessionWait
  | sessionSetPause (pause : Bool)
  deriving DecidableEq, Repr

/-- What the renderer takes from the Cycles build and the machine: the
default-constructed parameter blocks, the devices of `IECoreCycles::devices`,
the sockets of a freshly created integrator, background and film, the number
of built-in shaders of a fresh scene, the thread count, the conversion
`SocketAlgo::setSocket` from the old socket value and the datum to the new
value, and the build flag for the texture cache. -/
structure Engine where
  sessionParams : SessionParams := {}
  sceneParams : SceneParams := {}
  textureCacheParams : TextureCacheParams := {}
  devices : List DeviceInfo := [{}]
  integrator : Node := {}
  background : Node := {}
  film : Node := {}
  numBuiltinShaders : Nat := 0
  system_cpu_thread_count : Int := 1
  setSocket : AttrValue → AttrValue → AttrValue := fun _ datum => datum
  WITH_CYCLES_TEXTURE_CACHE : Bool := false

/-- The class `CyclesRenderer`, on top of the members `updateOutputs` works
on.  `integratorNode`, `backgroundNode` and `filmNode` are the nodes of the
scene (`m_scene->integrator`, ...), `m_integrator`, `m_background` and
`m_film` the copies the renderer keeps; `m_backgroundShader` is the raw
pointer of the held shader; `m_deviceMap` and `m_cameras` are in iteration
order; `logging_verbosity` is the level last handed to
`util_logging_verbosity_set`; `messages` are the messages handed to
`IECore::msg` and `trace` the calls recorded as `RenderEvent`s. -/
structure CyclesRenderer extends OutputState where
  m_frame : Int := 1
  m_camera : String := ""
  m_dicingCamera : String := ""
  m_sessionParams : SessionParams := {}
  m_sceneParams : SceneParams := {}
  m_textureCacheParams : TextureCacheParams := {}
  m_sessionParamsDefault : SessionParams := {}
  m_sceneParamsDefault : SceneParams := {}
  m_textureCacheParamsDefault : TextureCacheParams := {}
  m_integrator : Node := {}
  m_background : Node := {}
  m_film : Node := {}
  m_backgroundShader : Nat := 0
  m_deviceName : String := "CPU"
  m_deviceMap : List (String × DeviceInfo) := []
  m_multiDevices : List DeviceInfo := []
  m_renderState : RenderState := RenderState.RENDERSTATE_READY
  m_sceneChanged : Bool := true
  m_sessionReset : Bool := false
  m_pause : Bool := false
  m_seed : Int := 0
  m_useFrameAsSeed : Bool := true
  m_cameras : List (String × CameraInput) := []
  m_cameraCache : CameraCache := {}
  m_shaderCache : ShaderCache := {}
  m_lightCache : LightCache := {}
  m_instanceCache : InstanceCache := {}
  m_particleSystemsCache : ParticleSystemsCache := {}
  m_attributesCache : AttributesCache := {}
  session : Session := {}
  scene : Scene := {}
  heap : Heap := {}
  integratorNode : Node := {}
  backgroundNode : Node := {}
  filmNode : Node := {}
  logging_verbosity : Int := 0
  messages : List Message := []
  trace : List RenderEvent := []

/-- The call `IECore::msg( level, context, text )`. -/
def CyclesRenderer.msg (r : CyclesRenderer) (level : MsgLevel) (context text subject : String) :
    CyclesRenderer :=
  { r with messages := r.messages ++ [{ level := level, context := context, text := text,
                                         subject := subject }] }

/-- The pointer arithmetic `name.c_str() + n`, for `n` within the name. -/
def dropChars (name : String) (n : Nat) : String := String.mk (name.data.drop n)

/-- The call `boost::split( result, s, boost::is_any_of( c ) )`: the pieces
between the separators, empty ones included. -/
def splitAt (s : List Char) (c : Char) : List (List Char) :=
  s.foldr
    (fun x acc =>
      if x = c then [] :: acc
      else
        match acc with
        | piece :: rest => (x :: piece) :: rest
        | [] => [[x]])
    [[]]

/-- The run-time type name of a value. -/
def AttrValue.typeName : AttrValue → String
  | AttrValue.bool _ => "BoolData"
  | AttrValue.int _ => "IntData"
  | AttrValue.float _ => "FloatData"
  | AttrValue.string _ => "StringData"
  | AttrValue.shaderNetwork _ => "ShaderNetwork"
  | AttrValue.other typeName => typeName
  | AttrValue.color3f _ => "Color3fData"
  | AttrValue.v3f _ => "V3fData"
  | AttrValue.v2f _ => "V2fData"
  | AttrValue.quatf _ => "QuatfData"
  | AttrValue.data typeName => typeName

/-- The cast `runTimeCast<const BoolData>`, with the value read. -/
def AttrValue.asBool : AttrValue → Option Bool
  | AttrValue.bool b => some b
  | _ => none

/-- The cast `runTimeCast<const IntData>`, with the value read. -/
def AttrValue.asInt : AttrValue → Option Int
  | AttrValue.int i => some i
  | _ => none

/-- The cast `runTimeCast<const FloatData>`, with the value read. -/
def AttrValue.asFloat : AttrValue → Option Nat
  | AttrValue.float f => some f
  | _ => none

/-- The cast `runTimeCast<const StringData>`, with the value read. -/
def AttrValue.asString : AttrValue → Option String
  | AttrValue.string s => some s
  | _ => none

/-- The cast `runTimeCast<const IECore::Data>`. -/
def AttrValue.asData : AttrValue → Option AttrValue
  | AttrValue.shaderNetwork _ => none
  | AttrValue.other _ => none
  | v => some v

/-- The cast `runTimeCast<const ShaderNetwork>`. -/
def AttrValue.asShaderNetwork : AttrValue → Option ShaderNetwork
  | AttrValue.shaderNetwork n => some n
  | _ => none

/-- The warning `reportedCast` logs for the option `name` when the value is
not of the expected type. -/
def castWarning (expected : String) (value : AttrValue) (name : String) : Message :=
  { level := MsgLevel.Warning
    context := "IECoreCycles::Renderer"
    text := "Expected " ++ expected ++ " but got " ++ value.typeName ++ " for option"
    subject := name }

/-- The call `reportedCast<T>( value, "option", name )`: the cast, and the
warning it logs when the cast fails. -/
def reportedCast {α : Type} (cast : AttrValue → Option α) (expected : String)
    (r : CyclesRenderer) (value : AttrValue) (name : String) : Option α × CyclesRenderer :=
  match cast value with
  | some x => (some x, r)
  | none => (none, { r with messages := r.messages ++ [castWarning expected value name] })

/-- The body of the `OPTION_BOOL`, `OPTION_INT`, `OPTION_FLOAT` and
`OPTION_STR` macros for one option: a null value stores the member of the
`Default` copy, a value of the expected type is stored, any other value is
reported and ignored. -/
def optionParam {α : Type} (cast : AttrValue → Option α) (expected : String)
    (r : CyclesRenderer) (name : String) (value : Option AttrValue) (default : α)
    (set : CyclesRenderer → α → CyclesRenderer) : CyclesRenderer :=
  match value with
  | none => set r default
  | some v =>
    match reportedCast cast expected r v name with
    | (some x, r1) => set r1 x
    | (none, r1) => r1

/-- The function `nameToBvhLayoutEnum`. -/
def nameToBvhLayoutEnum (name : String) : BVHLayout :=
  if name = "embree" then BVHLayout.BVH_LAYOUT_EMBREE
  else if name = "bvh2" then BVHLayout.BVH_LAYOUT_BVH2
  else BVHLayout.BVH_LAYOUT_AUTO

/-- The function `nameToCurveShapeTypeEnum`. -/
def nameToCurveShapeTypeEnum (name : String) : CurveShapeType :=
  if name = "ribbon" then CurveShapeType.CURVE_RIBBON
  else if name = "thick" then CurveShapeType.CURVE_THICK
  else CurveShapeType.CURVE_THICK

/-- The function `nameToShadingSystemEnum`. -/
def nameToShadingSystemEnum (name : String) : ShadingSystem :=
  if name = "OSL" then ShadingSystem.SHADINGSYSTEM_OSL
  else if name = "SVM" then ShadingSystem.SHADINGSYSTEM_SVM
  else ShadingSystem.SHADINGSYSTEM_SVM

/-- The function `nameToRayType`. -/
def nameToRayType (rays : PathRayFlag) (name : String) : Nat :=
  if name = "camera" then rays.PATH_RAY_CAMERA
  else if name = "diffuse" then rays.PATH_RAY_DIFFUSE
  else if name = "glossy" then rays.PATH_RAY_GLOSSY
  else if name = "transmission" then rays.PATH_RAY_TRANSMIT
  else if name = "shadow" then rays.PATH_RAY_SHADOW
  else if name = "scatter" then rays.PATH_RAY_VOLUME_SCATTER
  else 0

/-- Cycles `Device::type_from_string`. -/
def type_from_string (name : String) : DeviceType :=
  if name = "CPU" then DeviceType.DEVICE_CPU
  else if name = "CUDA" then DeviceType.DEVICE_CUDA
  else if name = "OPTIX" then DeviceType.DEVICE_OPTIX
  else if name = "HIP" then DeviceType.DEVICE_HIP
  else if name = "MULTI" then DeviceType.DEVICE_MULTI
  else DeviceType.DEVICE_NONE

/-- The lookup `m_deviceMap.find( name )`. -/
def findDevice (deviceMap : List (String × DeviceInfo)) (name : String) : Option DeviceInfo :=
  (deviceMap.find? (fun e => e.1 == name)).map Prod.snd

/-- The reset of the device option to the default device: the device list
is cleared, the CPU device is pushed when the map has it, and the device name
is `CPU`. -/
def defaultDevice (r : CyclesRenderer) : CyclesRenderer :=
  { r with
    m_multiDevices := (findDevice r.m_deviceMap "CPU").toList
    m_deviceName := "CPU" }

/-- One iteration of the loop of the device option over the pieces of the
device string; `single` is `split.size() == 1`, in which case a `break` ends
the loop after its only iteration. -/
def deviceStep (single : Bool) (name : String) (r : CyclesRenderer) (deviceStr : String) :
    CyclesRenderer :=
  let notFound := r.msg MsgLevel.Warning "CyclesRenderer::option"
    ("Cannot find device " ++ deviceStr ++ " for option") name
  if deviceStr = "CPU" then
    match findDevice r.m_deviceMap "CPU" with
    | some device =>
      let r1 := { r with m_multiDevices := r.m_multiDevices ++ [device] }
      if single then { r1 with m_deviceName := "CPU" } else r1
    | none => r
  else if deviceStr.data.contains ':' then
    let pieces := splitAt deviceStr.data ':'
    let deviceType := type_from_string (String.mk (pieces.getD 0 []))
    if pieces.getD 1 [] = ['*'] then
      { r with
        m_multiDevices := r.m_multiDevices ++
          (r.m_deviceMap.filter (fun e => e.2.type == deviceType)).map Prod.snd }
    else
      match findDevice r.m_deviceMap deviceStr with
      | some device =>
        let r1 := { r with m_multiDevices := r.m_multiDevices ++ [device] }
        if single then { r1 with m_deviceName := device.id } else r1
      | none => notFound
  else notFound

/-- The branch of `option` for `ccl:device`. -/
def optionDevice (r : CyclesRenderer) (name : String) (value : Option AttrValue) :
    CyclesRenderer :=
  let r1 :=
    match value with
    | none => defaultDevice r
    | some v =>
      match reportedCast AttrValue.asString "StringData" r v name with
      | (some deviceName, r2) =>
        let split :=
          if deviceName.data.contains ' ' then
            (splitAt deviceName.data ' ').map String.mk
          else [deviceName]
        split.foldl (deviceStep (split.length == 1) name)
          { r2 with m_multiDevices := [], m_deviceName := "MULTI" }
      | (none, r2) =>
        (defaultDevice r2).msg MsgLevel.Warning "CyclesRenderer::option"
          "Unknown value for option" name
  { r1 with m_sessionReset := true }

/-- The socket branches of `option`: the value goes to the socket `socket` of
the node when the node has it; a value that is not data, and a null value,
reset the socket to its default. -/
def optionSocket (E : Engine) (r : CyclesRenderer) (name : String) (value : Option AttrValue)
    (node : Node) (socket : String) : CyclesRenderer × Node :=
  match node.find_input socket with
  | none => (r, node)
  | some _ =>
    match value with
    | none => (r, node.set_default_value socket)
    | some v =>
      match reportedCast AttrValue.asData "Data" r v name with
      | (some data, r1) => (r1, node.setValue socket (fun s => E.setSocket s.value data))
      | (none, r1) => (r1, node.set_default_value socket)

/-- The branch of `option` for the names starting with `ccl:session:`, after
`ccl:session:threads` was handled. -/
def optionSession (r : CyclesRenderer) (name : String) (value : Option AttrValue) :
    CyclesRenderer :=
  if name = "ccl:session:experimental" then
    optionParam AttrValue.asBool "BoolData" r name value r.m_sessionParamsDefault.experimental
      (fun r x => { r with m_sessionParams := { r.m_sessionParams with experimental := x } })
  else if name = "ccl:session:samples" then
    optionParam AttrValue.asInt "IntData" r name value r.m_sessionParamsDefault.samples
      (fun r x => { r with m_sessionParams := { r.m_sessionParams with samples := x } })
  else if name = "ccl:session:pixel_size" then
    optionParam AttrValue.asInt "IntData" r name value r.m_sessionParamsDefault.pixel_size
      (fun r x => { r with m_sessionParams := { r.m_sessionParams with pixel_size := x } })
  else if name = "ccl:session:time_limit" then
    optionParam AttrValue.asFloat "FloatData" r name value r.m_sessionParamsDefault.time_limit
      (fun r x => { r with m_sessionParams := { r.m_sessionParams with time_limit := x } })
  else if name = "ccl:session:use_profiling" then
    optionParam AttrValue.asBool "BoolData" r name value r.m_sessionParamsDefault.use_profiling
      (fun r x => { r with m_sessionParams := { r.m_sessionParams with use_profiling := x } })
  else if name = "ccl:session:use_auto_tile" then
    optionParam AttrValue.asBool "BoolData" r name value r.m_sessionParamsDefault.use_auto_tile
      (fun r x => { r with m_sessionParams := { r.m_sessionParams with use_auto_tile := x } })
  else if name = "ccl:session:tile_size" then
    optionParam AttrValue.asInt "IntData" r name value r.m_sessionParamsDefault.tile_size
      (fun r x => { r with m_sessionParams := { r.m_sessionParams with tile_size := x } })
  else r.msg MsgLevel.Warning "CyclesRenderer::option" "Unknown option" name

/-- The branch of `option` for the names starting with `ccl:scene:`. -/
def optionScene (r : CyclesRenderer) (name : String) (value : Option AttrValue) :
    CyclesRenderer :=
  if name = "ccl:scene:bvh_layout" then
    match value with
    | none =>
      { r with m_sceneParams := { r.m_sceneParams with bvh_layout := BVHLayout.BVH_LAYOUT_AUTO } }
    | some v =>
      match reportedCast AttrValue.asString "StringData" r v name with
      | (some s, r1) =>
        { r1 with
          m_sceneParams := { r1.m_sceneParams with bvh_layout := nameToBvhLayoutEnum s } }
      | (none, r1) => r1
  else if name = "ccl:scene:hair_shape" then
    match value with
    | none =>
      { r with
        m_sceneParams := { r.m_sceneParams with hair_shape := CurveShapeType.CURVE_THICK } }
    | some v =>
      match reportedCast AttrValue.asString "StringData" r v name with
      | (some s, r1) =>
        { r1 with
          m_sceneParams := { r1.m_sceneParams with hair_shape := nameToCurveShapeTypeEnum s } }
      | (none, r1) => r1
  else if name = "ccl:scene:use_bvh_spatial_split" then
    optionParam AttrValue.asBool "BoolData" r name value
      r.m_sceneParamsDefault.use_bvh_spatial_split
      (fun r x => { r with m_sceneParams := { r.m_sceneParams with use_bvh_spatial_split := x } })
  else if name = "ccl:scene:use_bvh_unaligned_nodes" then
    optionParam AttrValue.asBool "BoolData" r name value
      r.m_sceneParamsDefault.use_bvh_unaligned_nodes
      (fun r x =>
        { r with m_sceneParams := { r.m_sceneParams with use_bvh_unaligned_nodes := x } })
  else if name = "ccl:scene:num_bvh_time_steps" then
    optionParam AttrValue.asInt "IntData" r name value r.m_sceneParamsDefault.num_bvh_time_steps
      (fun r x => { r with m_sceneParams := { r.m_sceneParams with num_bvh_time_steps := x } })
  else if name = "ccl:scene:hair_subdivisions" then
    optionParam AttrValue.asInt "IntData" r name value r.m_sceneParamsDefault.hair_subdivisions
      (fun r x => { r with m_sceneParams := { r.m_sceneParams with hair_subdivisions := x } })
  else if name = "ccl:scene:texture_limit" then
    optionParam AttrValue.asInt "IntData" r name value r.m_sceneParamsDefault.texture_limit
      (fun r x => { r with m_sceneParams := { r.m_sceneParams with texture_limit := x } })
  else r.msg MsgLevel.Warning "CyclesRenderer::option" "Unknown option" name

/-- The branch of `option` for the names starting with `ccl:texture:`; the
options exist in builds with `WITH_CYCLES_TEXTURE_CACHE`. -/
def optionTexture (E : Engine) (r : CyclesRenderer) (name : String)
    (value : Option AttrValue) : CyclesRenderer :=
  let unknown := r.msg MsgLevel.Warning "CyclesRenderer::option" "Unknown option" name
  let d := r.m_textureCacheParamsDefault
  let put (f : TextureCacheParams → TextureCacheParams) (r : CyclesRenderer) : CyclesRenderer :=
    { r with m_textureCacheParams := f r.m_textureCacheParams }
  if !E.WITH_CYCLES_TEXTURE_CACHE then unknown
  else if name = "ccl:texture:use_texture_cache" then
    optionParam AttrValue.asBool "BoolData" r name value d.use_cache
      (fun r x => put (fun t => { t with use_cache := x }) r)
  else if name = "ccl:texture:cache_size" then
    optionParam AttrValue.asInt "IntData" r name value d.cache_size
      (fun r x => put (fun t => { t with cache_size := x }) r)
  else if name = "ccl:texture:auto_convert" then
    optionParam AttrValue.asBool "BoolData" r name value d.auto_convert
      (fun r x => put (fun t => { t with auto_convert := x }) r)
  else if name = "ccl:texture:accept_unmipped" then
    optionParam AttrValue.asBool "BoolData" r name value d.accept_unmipped
      (fun r x => put (fun t => { t with accept_unmipped := x }) r)
  else if name = "ccl:texture:accept_untiled" then
    optionParam AttrValue.asBool "BoolData" r name value d.accept_untiled
      (fun r x => put (fun t => { t with accept_untiled := x }) r)
  else if name = "ccl:texture:auto_tile" then
    optionParam AttrValue.asBool "BoolData" r name value d.auto_tile
      (fun r x => put (fun t => { t with auto_tile := x }) r)
  else if name = "ccl:texture:auto_mip" then
    optionParam AttrValue.asBool "BoolData" r name value d.auto_mip
      (fun r x => put (fun t => { t with auto_mip := x }) r)
  else if name = "ccl:texture:tile_size" then
    optionParam AttrValue.asInt "IntData" r name value d.tile_size
      (fun r x => put (fun t => { t with tile_size := x }) r)
  else if name = "ccl:texture:blur_diffuse" then
    optionParam AttrValue.asFloat "FloatData" r name value d.diffuse_blur
      (fun r x => put (fun t => { t with diffuse_blur := x }) r)
  else if name = "ccl:texture:blur_glossy" then
    optionParam AttrValue.asFloat "FloatData" r name value d.glossy_blur
      (fun r x => put (fun t => { t with glossy_blur := x }) r)
  else if name = "ccl:texture:use_custom_cache_path" then
    optionParam AttrValue.asBool "BoolData" r name value d.use_custom_cache_path
      (fun r x => put (fun t => { t with use_custom_cache_path := x }) r)
  else if name = "ccl:texture:custom_cache_path" then
    optionParam AttrValue.asString "StringData" r name value d.custom_cache_path
      (fun r x => put (fun t => { t with custom_cache_path := x }) r)
  else unknown

/-- The visibility of the background node, read as `get_visibility` does. -/
def Node.get_visibility (n : Node) : Nat :=
  match n.find_input "visibility" with
  | some s =>
    match s.value with
    | AttrValue.int i => i.toNat
    | _ => 0
  | none => 0

/-- The branch of `option` for the names starting with `ccl:background:`.
The result is `none` where a datum that is not an `IntData` is read through
the unchecked `static_cast`, and where `ShaderCache::get` fails. -/
def optionBackground (E : Engine) (k : UpdateFlags) (rays : PathRayFlag) (r : CyclesRenderer)
    (name : String) (value : Option AttrValue) : Option CyclesRenderer :=
  let socket := dropChars name 15
  match r.backgroundNode.find_input socket with
  | none => some r
  | some _ =>
    match value with
    | none => some { r with backgroundNode := r.backgroundNode.set_default_value socket }
    | some v =>
      if startsWith name "ccl:background:visibility:" then
        match reportedCast AttrValue.asData "Data" r v name with
        | (some (AttrValue.int vis), r1) =>
          let ray := nameToRayType rays (dropChars name 26)
          let prevVis := r1.backgroundNode.get_visibility
          let visibility :=
            if vis ≠ 0 then prevVis ||| (ray % 2 ^ 32) else prevVis &&& bitNot32 ray
          some
            { r1 with
              backgroundNode := r1.backgroundNode.setValue "visibility"
                (fun _ => AttrValue.int visibility) }
        | (some _, _) => none
        | (none, r1) => some r1
      else if name = "ccl:background:shader" then
        let r0 :=
          { r with
            m_backgroundShader := 0
            m_shaderCache := r.m_shaderCache.release r.m_backgroundShader }
        match reportedCast AttrValue.asShaderNetwork "ShaderNetwork" r0 v name with
        | (some d, r1) =>
          match r1.m_shaderCache.get k r1.scene r1.heap (some d) none with
          | none => none
          | some g =>
            some
              { r1 with
                m_backgroundShader := g.handle
                m_shaderCache := g.cache
                scene := g.scene
                heap := g.heap }
        | (none, r1) => some r1
      else
        let s := optionSocket E r name value r.backgroundNode socket
        some { s.1 with backgroundNode := s.2 }

/-- The branch of `option` for the names starting with `ccl:film:`: the two
cryptomatte options, which fall through to the socket lookup when the value
has the wrong type, and the film sockets. -/
def optionFilm (E : Engine) (r : CyclesRenderer) (name : String) (value : Option AttrValue) :
    CyclesRenderer :=
  let accurate : Bool × CyclesRenderer :=
    if name = "ccl:film:cryptomatte_accurate" then
      let r0 := { r with m_outputsChanged := true }
      match value with
      | none => (true, { r0 with m_cryptomatteAccurate := false })
      | some v =>
        match reportedCast AttrValue.asBool "BoolData" r0 v name with
        | (some b, r1) => (true, { r1 with m_cryptomatteAccurate := b })
        | (none, r1) => (false, r1)
    else (false, r)
  if accurate.1 then accurate.2
  else
    let depth : Bool × CyclesRenderer :=
      if name = "ccl:film:cryptomatte_depth" then
        let r0 := { accurate.2 with m_outputsChanged := true }
        match value with
        | none => (true, { r0 with m_cryptomatteDepth := 0 })
        | some v =>
          match reportedCast AttrValue.asInt "IntData" r0 v name with
          | (some i, r1) => (true, { r1 with m_cryptomatteDepth := i })
          | (none, r1) => (false, r1)
      else (false, accurate.2)
    if depth.1 then depth.2
    else
      let s := optionSocket E depth.2 name value depth.2.filmNode (dropChars name 9)
      { s.1 with filmNode := s.2 }

/-- The names for which `option` logs an error during a render: the options
that need a manual render restart. -/
def needsRestart (name : String) : Bool :=
  name == "ccl:device" || name == "ccl:shadingsystem" || startsWith name "ccl:session:" ||
    startsWith name "ccl:scene:" || startsWith name "ccl:texture:"

/-- The head of `option`: the scene is flagged as changed, and during a
render an option that needs a restart is reported as an error. -/
def optionHead (renderer : CyclesRenderer) (name : String) : CyclesRenderer :=
  let r0 := { renderer with m_sceneChanged := true }
  if r0.m_renderState = RenderState.RENDERSTATE_RENDERING ∧ needsRestart name = true then
    r0.msg MsgLevel.Error "CyclesRenderer::option" "requires a manual render restart" name
  else r0

/-- The method `CyclesRenderer::option`; a null `value` is `none`.  The
result is `none` where `optionBackground` is undefined. -/
def CyclesRenderer.option (E : Engine) (k : UpdateFlags) (rays : PathRayFlag)
    (renderer : CyclesRenderer) (name : String) (value : Option AttrValue) :
    Option CyclesRenderer :=
  let r := optionHead renderer name
  if name = "frame" then
    match value with
    | none => some { r with m_frame := 0 }
    | some v =>
      match reportedCast AttrValue.asInt "IntData" r v name with
      | (some i, r1) => some { r1 with m_frame := i }
      | (none, r1) => some r1
  else if name = "camera" then
    match value with
    | none => some { r with m_camera := "" }
    | some v =>
      match reportedCast AttrValue.asString "StringData" r v name with
      | (some s, r1) => some { r1 with m_camera := s }
      | (none, r1) => some r1
  else if name = "ccl:dicing_camera" then
    match value with
    | none => some { r with m_dicingCamera := "" }
    | some v =>
      match reportedCast AttrValue.asString "StringData" r v name with
      | (some s, r1) => some { r1 with m_dicingCamera := s }
      | (none, r1) => some r1
  else if name = "sampleMotion" then
    let s := optionSocket E r name value r.integratorNode "motion_blur"
    some { s.1 with integratorNode := s.2 }
  else if name = "ccl:device" then some (optionDevice r name value)
  else if name = "ccl:session:threads" then
    match value with
    | none => some { r with m_sessionParams := { r.m_sessionParams with threads := 0 } }
    | some v =>
      match reportedCast AttrValue.asInt "IntData" r v name with
      | (some threads, r1) =>
        let threads1 :=
          if threads < 0 then max (E.system_cpu_thread_count + threads) 1 else threads
        some { r1 with m_sessionParams := { r1.m_sessionParams with threads := threads1 } }
      | (none, r1) => some r1
  else if name = "ccl:shadingsystem" then
    match value with
    | none =>
      some
        { r with
          m_sessionParams :=
            { r.m_sessionParams with shadingsystem := ShadingSystem.SHADINGSYSTEM_SVM }
          m_sceneParams :=
            { r.m_sceneParams with shadingsystem := ShadingSystem.SHADINGSYSTEM_SVM } }
    | some v =>
      match reportedCast AttrValue.asString "StringData" r v name with
      | (some s, r1) =>
        some
          { r1 with
            m_sessionParams :=
              { r1.m_sessionParams with shadingsystem := nameToShadingSystemEnum s }
            m_sceneParams :=
              { r1.m_sceneParams with shadingsystem := nameToShadingSystemEnum s } }
      | (none, r1) =>
        some (r1.msg MsgLevel.Warning "CyclesRenderer::option" "Unknown value for option" name)
  else if name = "ccl:log_level" then
    match value with
    | none => some { r with logging_verbosity := 0 }
    | some v =>
      match reportedCast AttrValue.asInt "IntData" r v name with
      | (some i, r1) => some { r1 with logging_verbosity := i }
      | (none, r1) => some r1
  else if name = "ccl:integrator:useFrameAsSeed" then
    match value with
    | none => some { r with m_useFrameAsSeed := true }
    | some v =>
      match reportedCast AttrValue.asBool "BoolData" r v name with
      | (some b, r1) => some { r1 with m_useFrameAsSeed := b }
      | (none, r1) => some r1
  else if name = "ccl:integrator:seed" then
    match value with
    | none => some { r with m_seed := 0 }
    | some v =>
      match reportedCast AttrValue.asInt "IntData" r v name with
      | (some i, r1) => some { r1 with m_seed := i }
      | (none, r1) => some r1
  else if startsWith name "ccl:session:" then some (optionSession r name value)
  else if startsWith name "ccl:scene:" then some (optionScene r name value)
  else if startsWith name "ccl:texture:" then some (optionTexture E r name value)
  else if startsWith name "ccl:background:" then optionBackground E k rays r name value
  else if startsWith name "ccl:film:" then some (optionFilm E r name value)
  else if startsWith name "ccl:integrator:" then
    let s := optionSocket E r name value r.integratorNode (dropChars name 15)
    some { s.1 with integratorNode := s.2 }
  else if startsWith name "ccl:" then
    some (r.msg MsgLevel.Warning "CyclesRenderer::option" "Unknown option" name)
  else if startsWith name "user:" then
    some (r.msg MsgLevel.Warning "CyclesRenderer::option" "User option not supported" name)
  else if name.data.contains ':' then some r
  else some (r.msg MsgLevel.Warning "CyclesRenderer::option" "Unknown option" name)

/-! ## CyclesRenderer: construction, reset and render -/

/-- The format `%02i` of a device index. -/
def twoDigits (n : Nat) : String :=
  if n < 10 then "0" ++ toString n else toString n

/-- The insertion `m_deviceMap[ name ] = device`. -/
def setDevice (deviceMap : List (String × DeviceInfo)) (name : String) (device : DeviceInfo) :
    List (String × DeviceInfo) :=
  if deviceMap.any (fun e => e.1 == name) then
    deviceMap.map (fun e => if e.1 == name then (name, device) else e)
  else deviceMap ++ [(name, device)]

/-- The method `getCyclesDevices`: the option names of the devices, with the
running indices of the CUDA, HIP and OptiX devices. -/
def getCyclesDevices (devices : List DeviceInfo) : List (String × DeviceInfo) :=
  (devices.foldl
    (fun (acc : List (String × DeviceInfo) × Nat × Nat × Nat) device =>
      if device.type = DeviceType.DEVICE_CPU then
        (setDevice acc.1 "CPU" device, acc.2)
      else if device.type = DeviceType.DEVICE_CUDA then
        (setDevice acc.1 ("CUDA:" ++ twoDigits acc.2.1) device,
          acc.2.1 + 1, acc.2.2.1, acc.2.2.2)
      else if device.type = DeviceType.DEVICE_HIP then
        (setDevice acc.1 ("HIP:" ++ twoDigits acc.2.2.1) device,
          acc.2.1, acc.2.2.1 + 1, acc.2.2.2)
      else if device.type = DeviceType.DEVICE_OPTIX then
        (setDevice acc.1 ("OPTIX:" ++ twoDigits acc.2.2.2) device,
          acc.2.1, acc.2.2.1, acc.2.2.2 + 1)
      else acc)
    ([], 0, 0, 0)).1

/-- Cycles `Device::get_multi_device`: the only device of a one-element list,
else a device of type `DEVICE_MULTI`. -/
def get_multi_device (subdevices : List DeviceInfo) : DeviceInfo :=
  match subdevices with
  | [device] => device
  | _ => { id := "MULTI", type := DeviceType.DEVICE_MULTI }

/-- The scene of a freshly created session: the built-in shaders at new
addresses, every manager waiting for its first update. -/
def freshScene (E : Engine) (heap : Heap) : Scene × Heap :=
  let shaders := (List.range E.numBuiltinShaders).map (fun i => heap.nextAddr + 1 + i)
  ({ shaders := shaders
     default_light := shaders.getD 2 0
     object_manager_flags := UPDATE_ALL
     geometry_manager_flags := UPDATE_ALL
     light_manager_flags := UPDATE_ALL
     shader_manager_flags := UPDATE_ALL
     particle_system_manager_need_update := true },
   { heap with
     nextAddr := heap.nextAddr + E.numBuiltinShaders
     shaders := shaders.foldl (fun table a => store table a {}) heap.shaders })

/-- The fallback device of `init`: the first CPU device, else a
default-constructed `DeviceInfo`. -/
def deviceFallback (E : Engine) : DeviceInfo :=
  (E.devices.find? (fun d => d.type == DeviceType.DEVICE_CPU)).getD {}

/-- The first step of `init`: without devices chosen, the device name is
`CPU`. -/
def initDeviceName (r : CyclesRenderer) : CyclesRenderer :=
  if r.m_multiDevices.length = 0 then { r with m_deviceName := "CPU" } else r

/-- The second step of `init`: the session device is the multi device or the
device of the chosen name, and the fallback with a warning when there is no
such device. -/
def initDevice (E : Engine) (r : CyclesRenderer) : CyclesRenderer :=
  let chosen : Option DeviceInfo :=
    if r.m_deviceName = "MULTI" then some (get_multi_device r.m_multiDevices)
    else E.devices.find? (fun d => d.id == r.m_deviceName)
  match chosen with
  | some device => { r with m_sessionParams := { r.m_sessionParams with device := device } }
  | none =>
    { r with
      m_sessionParams := { r.m_sessionParams with device := deviceFallback E }
      messages := r.messages ++
        [{ level := MsgLevel.Warning, context := "CyclesRenderer",
           text := "Cannot find the device requested, reverting to CPU.",
           subject := r.m_deviceName }] }

/-- The third step of `init`: OSL shading on a device that is not the CPU
falls back to the CPU with a warning. -/
def initShadingDevice (E : Engine) (r : CyclesRenderer) : CyclesRenderer :=
  if r.m_sessionParams.device.type ≠ DeviceType.DEVICE_CPU ∧
      r.m_sessionParams.shadingsystem = ShadingSystem.SHADINGSYSTEM_OSL then
    { r with
      m_sessionParams := { r.m_sessionParams with device := deviceFallback E }
      messages := r.messages ++
        [{ level := MsgLevel.Warning, context := "CyclesRenderer",
           text := "Shading system set to OSL, reverting to CPU." }] }
  else r

/-- The method `CyclesRenderer::init`: the device is chosen, the session is
created anew with the current parameters, and the renderer points to the
scene of the new session. -/
def CyclesRenderer.init (E : Engine) (r : CyclesRenderer) : CyclesRenderer :=
  let r3 := initShadingDevice E (initDevice E (initDeviceName r))
  let fresh := freshScene E r3.heap
  { r3 with
    session := { params := r3.m_sessionParams, scene_params := r3.m_sceneParams }
    scene := fresh.1
    heap := fresh.2
    integratorNode := E.integrator
    backgroundNode := E.background
    filmNode := E.film.setValue "exposure" (fun _ => AttrValue.float 0x3f800000)
    trace := r3.trace ++ [RenderEvent.sessionCreate] }

/-- The members of the renderer after the initialiser list of the
constructor, the parameter defaults set at the head of its body and
`getCyclesDevices`. -/
def CyclesRenderer.initial (E : Engine) (renderType : RenderType) : CyclesRenderer :=
  let interactive := decide (renderType = RenderType.Interactive)
  let sessionParams : SessionParams :=
    { E.sessionParams with
      shadingsystem := ShadingSystem.SHADINGSYSTEM_SVM
      headless := !interactive
      background := !interactive }
  let sceneParams : SceneParams :=
    { E.sceneParams with
      shadingsystem := ShadingSystem.SHADINGSYSTEM_SVM
      bvh_layout := BVHLayout.BVH_LAYOUT_AUTO
      bvh_type := if interactive then BVHType.BVH_TYPE_DYNAMIC else BVHType.BVH_TYPE_STATIC }
  { m_renderType := renderType
    m_frame := 1
    m_sessionParams := sessionParams
    m_sceneParams := sceneParams
    m_textureCacheParams := E.textureCacheParams
    m_deviceName := "CPU"
    m_renderState := RenderState.RENDERSTATE_READY
    m_sceneChanged := true
    m_sessionReset := false
    m_outputsChanged := true
    m_pause := false
    m_cryptomatteAccurate := true
    m_cryptomatteDepth := 0
    m_seed := 0
    m_useFrameAsSeed := true
    m_deviceMap := getCyclesDevices E.devices
    m_sessionParamsDefault := sessionParams
    m_sceneParamsDefault := sceneParams
    m_textureCacheParamsDefault := E.textureCacheParams }

/-- The constructor `CyclesRenderer( renderType, fileName, messageHandler )`.
The result is `none` where the constructor of the shader cache fails. -/
def CyclesRenderer.new (E : Engine) (k : UpdateFlags) (renderType : RenderType) :
    Option CyclesRenderer :=
  let r1 := (CyclesRenderer.initial E renderType).init E
  match ShaderCache.new k r1.scene r1.heap with
  | none => none
  | some g =>
    some
      { r1 with
        m_integrator := r1.integratorNode
        m_background := r1.backgroundNode
        backgroundNode := r1.backgroundNode.setValue "transparent" (fun _ => AttrValue.bool true)
        m_film := r1.filmNode
        m_shaderCache := g.cache
        scene := g.scene
        heap := g.heap }

/-- The method `CyclesRenderer::updateSceneObjects`. -/
def CyclesRenderer.updateSceneObjects (k : UpdateFlags) (r : CyclesRenderer) (force : Bool) :
    CyclesRenderer :=
  let l := r.m_lightCache.update r.scene force
  let scene2 := r.m_particleSystemsCache.update l.2 force
  let i := r.m_instanceCache.update k scene2 force
  let s := r.m_shaderCache.update k i.2 r.heap force
  { r with
    m_lightCache := l.1
    m_instanceCache := i.1
    m_shaderCache := s.1
    scene := s.2.1
    heap := s.2.2
    trace := r.trace ++ [RenderEvent.updateSceneObjects force] }

/-- The loop `copy_value` of `reset`: every socket of the scene node takes
the value the kept copy has for it. -/
def copySockets (node kept : Node) : Node :=
  { node with
    sockets := node.sockets.map
      (fun e =>
        match kept.find_input e.1 with
        | some s => (e.1, { e.2 with value := s.value })
        | none => e) }

/-- The method `CyclesRenderer::reset`.  The lists of the old scene, cleared
before `init` replaces that scene, and the texture flush are left out. -/
def CyclesRenderer.reset (E : Engine) (k : UpdateFlags) (r : CyclesRenderer) : CyclesRenderer :=
  let r1 :=
    { r with
      m_renderState := RenderState.RENDERSTATE_READY
      trace := r.trace ++ [RenderEvent.sessionCancel] }
  let r2 := r1.init E
  let r3 :=
    { r2 with
      integratorNode := copySockets r2.integratorNode r2.m_integrator
      backgroundNode := copySockets r2.backgroundNode r2.m_background
      filmNode := copySockets r2.filmNode r2.m_film
      scene :=
        { r2.scene with
          shader_manager_flags := UPDATE_ALL
          calls := r2.scene.calls ++ [EngineCall.tagShaderManager UPDATE_ALL] } }
  let r4 := r3.updateSceneObjects k true
  { r4 with
    scene :=
      { r4.scene with
        geometry_manager_flags := UPDATE_ALL
        calls := r4.scene.calls ++ [EngineCall.tagGeometryManager UPDATE_ALL] } }

/-- The answers of the engine to the queries of one `render` call:
`is_modified` of the scene integrator, background and film,
`ShaderCache::hasOSLShader`, `modified` of the scene and session parameters
against the renderer's, `modified` of the buffer parameters, and
`Scene::need_reset`. -/
structure RenderEnv where
  integratorModified : Bool := false
  backgroundModified : Bool := false
  filmModified : Bool := false
  hasOSLShader : Bool := false
  sceneParamsModified : Bool := false
  sessionParamsModified : Bool := false
  bufferParamsModified : Bool := false
  sceneNeedReset : Bool := false
  deriving DecidableEq, Repr

/-- The record of a call in the trace. -/
def CyclesRenderer.log (r : CyclesRenderer) (e : RenderEvent) : CyclesRenderer :=
  { r with trace := r.trace ++ [e] }

/-- The shader of the first background light of the scene, `0` when there is
none. -/
def backgroundLightShader (scene : Scene) (heap : Heap) : Nat :=
  match scene.lights.find?
      (fun l => ((load heap.lights l).getD {}).light_type == LightType.LIGHT_BACKGROUND) with
  | some l => ((load heap.lights l).getD {}).shader
  | none => 0

/-- The method `CyclesRenderer::updateOptions`.  Shader pointers are stored
in the `shader` socket as integers; `default_empty` is the fifth built-in
shader of the scene. -/
def CyclesRenderer.updateOptions (E : Engine) (k : UpdateFlags) (env : RenderEnv)
    (renderer : CyclesRenderer) : CyclesRenderer :=
  let r0 := renderer.log RenderEvent.updateOptions
  let r1 :=
    if E.WITH_CYCLES_TEXTURE_CACHE then
      { r0 with m_sceneParams := { r0.m_sceneParams with texture := r0.m_textureCacheParams } }
    else r0
  let seed := if r1.m_useFrameAsSeed then r1.m_frame else r1.m_seed
  let lightShader := backgroundLightShader r1.scene r1.heap
  let shader :=
    if r1.m_backgroundShader ≠ 0 then r1.m_backgroundShader
    else if lightShader ≠ 0 then lightShader
    else r1.scene.shaders.getD 4 0
  let r2 :=
    { r1 with
      integratorNode := r1.integratorNode.setValue "seed" (fun _ => AttrValue.int seed)
      session := { r1.session with samples := r1.m_sessionParams.samples }
      backgroundNode := r1.backgroundNode.setValue "shader" (fun _ => AttrValue.int shader) }
  let r3 :=
    if env.integratorModified then
      { r2 with
        m_integrator := r2.integratorNode
        scene := { r2.scene with calls := r2.scene.calls ++ [EngineCall.integratorTagUpdate] } }
    else r2
  let r4 :=
    if env.backgroundModified then
      { r3 with
        m_background := r3.backgroundNode
        scene := { r3.scene with calls := r3.scene.calls ++ [EngineCall.backgroundTagUpdate] } }
    else r3
  let r5 :=
    if env.filmModified then
      { r4 with
        m_film := r4.filmNode
        scene := { r4.scene with calls := r4.scene.calls ++ [EngineCall.integratorTagUpdate] } }
    else r4
  let r6 :=
    if r5.m_sessionParams.shadingsystem = ShadingSystem.SHADINGSYSTEM_SVM ∧
        env.hasOSLShader = true then
      let r :=
        if r5.m_renderState ≠ RenderState.RENDERSTATE_RENDERING then
          r5.msg MsgLevel.Warning "CyclesRenderer"
            "OSL Shader detected, forcing OSL shading-system (CPU-only)" ""
        else
          r5.msg MsgLevel.Error "CyclesRenderer"
            "OSL Shader detected, this will cause problems in a running interactive render" ""
      { r with
        m_sessionParams :=
          { r.m_sessionParams with shadingsystem := ShadingSystem.SHADINGSYSTEM_OSL }
        m_sceneParams :=
          { r.m_sceneParams with shadingsystem := ShadingSystem.SHADINGSYSTEM_OSL } }
    else r5
  if (env.sceneParamsModified || env.sessionParamsModified || r6.m_sessionReset) = true then
    if r6.m_renderState ≠ RenderState.RENDERSTATE_RENDERING then
      CyclesRenderer.reset E k { r6 with m_sessionReset := true }
    else r6
  else r6

/-- The temporary pointer `m_cameraCache->get( camera, name )` of
`updateCamera`: the entry is made when missing, and the reference the call
returns is dropped again. -/
def CyclesRenderer.touchCamera (r : CyclesRenderer) (camera : CameraInput) (name : String) :
    CyclesRenderer :=
  let g := r.m_cameraCache.get r.heap camera name
  let slot := (g.cache.m_cache.find camera.hash).getD {}
  { r with
    m_cameraCache := { g.cache with m_cache := g.cache.m_cache.set camera.hash slot.released }
    heap := g.heap }

/-- The method `CyclesRenderer::updateCamera`: the lookups of the camera and
of the dicing camera, with their warnings and their cache entries.  The
camera members copied into the scene are left out. -/
def CyclesRenderer.updateCamera (renderer : CyclesRenderer) : CyclesRenderer :=
  let r0 := renderer.log RenderEvent.updateCamera
  let r1 :=
    match r0.m_cameras.find? (fun e => e.1 == r0.m_camera) with
    | none =>
      if r0.m_camera ≠ "" then
        r0.msg MsgLevel.Warning "CyclesRenderer" "Camera does not exist" r0.m_camera
      else r0
    | some e => r0.touchCamera e.2 e.1
  match r1.m_cameras.find? (fun e => e.1 == r1.m_dicingCamera) with
  | none =>
    if r1.m_camera ≠ "" ∧ r1.m_dicingCamera ≠ "" then
      r1.msg MsgLevel.Warning "CyclesRenderer" "Dicing camera does not exist" r1.m_dicingCamera
    else r1
  | some e => r1.touchCamera e.2 e.1

/-- The call of `updateOutputs` from `render`, with the session reset that
ends it when the outputs changed. -/
def CyclesRenderer.updateOutputs (env : RenderEnv) (renderer : CyclesRenderer) :
    CyclesRenderer :=
  let r0 := renderer.log RenderEvent.updateOutputs
  let r1 := { r0 with
      toOutputState := GafferCycles.updateOutputs r0.toOutputState env.bufferParamsModified }
  if (r0.m_outputsChanged || env.bufferParamsModified) = true then
    r1.log RenderEvent.sessionReset
  else r1

/-- The five `clearUnused` calls at the head of `render`. -/
def CyclesRenderer.clearUnused (k : UpdateFlags) (r : CyclesRenderer) : CyclesRenderer :=
  let p := r.m_particleSystemsCache.clearUnused r.scene
  let a := r.m_attributesCache.clearUnused k r.m_shaderCache
  { r with
    m_cameraCache := r.m_cameraCache.clearUnused
    m_instanceCache := r.m_instanceCache.clearUnused k
    m_particleSystemsCache := p.1
    scene := p.2
    m_lightCache := r.m_lightCache.clearUnused k
    m_attributesCache := a.1
    m_shaderCache := a.2
    trace := r.trace ++
      [RenderEvent.clearUnused CacheKind.camera, RenderEvent.clearUnused CacheKind.instance_,
       RenderEvent.clearUnused CacheKind.particleSystems,
       RenderEvent.clearUnused CacheKind.light, RenderEvent.clearUnused CacheKind.attributes] }

/-- The method `CyclesRenderer::render`, for a session whose progress
callback does not fire during the call. -/
def CyclesRenderer.render (E : Engine) (k : UpdateFlags) (env : RenderEnv)
    (renderer : CyclesRenderer) : CyclesRenderer :=
  let r1 := renderer.log RenderEvent.mutexLock
  let r2 :=
    if r1.m_renderState = RenderState.RENDERSTATE_RENDERING ∧
        r1.m_renderType = RenderType.Interactive then r1.clearUnused k
    else r1
  let r3 := r2.updateSceneObjects k false
  let r4 := r3.updateOptions E k env
  let r5 := r4.updateCamera
  let r6 := r5.updateOutputs env
  let r7 :=
    if r6.m_renderState = RenderState.RENDERSTATE_RENDERING ∧ env.sceneNeedReset = true then
      r6.log RenderEvent.sessionReset
    else r6
  let r8 :=
    if !r7.m_sessionReset then r7.log RenderEvent.mutexUnlock
    else { r7 with m_sessionReset := false }
  let r9 :=
    if r8.m_renderState = RenderState.RENDERSTATE_RENDERING then
      r8.log RenderEvent.sessionStart
    else r8
  let r10 := { r9 with m_sceneChanged := false }.log RenderEvent.mutexUnlock
  if r10.m_renderState = RenderState.RENDERSTATE_RENDERING then
    { r10 with m_pause := false, session := { r10.session with pause := false } }.log
      (RenderEvent.sessionSetPause false)
  else
    let r11 :=
      { r10.log RenderEvent.sessionStart with
        m_renderState := RenderState.RENDERSTATE_RENDERING }
    if r11.m_renderType = RenderType.Interactive then r11
    else
      { r11.log RenderEvent.sessionWait with m_renderState := RenderState.RENDERSTATE_STOPPED }

/-- The method `CyclesRenderer::pause`. -/
def CyclesRenderer.pause (r : CyclesRenderer) : CyclesRenderer :=
  if r.m_renderState = RenderState.RENDERSTATE_RENDERING then
    { r with m_pause := true, session := { r.session with pause := true } }.log
      (RenderEvent.sessionSetPause true)
  else r

/-- The calls of the renderer interface that read or write the render
state. -/
inductive RendererCall
  | option (name : String) (value : Option AttrValue)
  | render (env : RenderEnv)
  | pause

/-- One call on the renderer; `none` where the call is undefined. -/
def CyclesRenderer.call (E : Engine) (k : UpdateFlags) (rays : PathRayFlag)
    (r : CyclesRenderer) : RendererCall → Option CyclesRenderer
  | RendererCall.option name value => r.option E k rays name value
  | RendererCall.render env => some (r.render E k env)
  | RendererCall.pause => some r.pause

/-- A sequence of calls on the renderer, one after the other. -/
def CyclesRenderer.run (E : Engine) (k : UpdateFlags) (rays : PathRayFlag) :
    CyclesRenderer → List RendererCall → Option CyclesRenderer
  | r, [] => some r
  | r, c :: rest =>
    match r.call E k rays c with
    | none => none
    | some r1 => CyclesRenderer.run E k rays r1 rest

/-- The cache kinds of the `clearUnused` events of a trace, in order. -/
def evictions (trace : List RenderEvent) : List CacheKind :=
  trace.filterMap
    (fun e =>
      match e with
      | RenderEvent.clearUnused c => some c
      | _ => none)

/-! ## ShaderCache: sequences of calls -/

/-- The destruction of a `SharedCShaderPtr` that a caller got from `get` for
the fingerprint `key`: the use count of the slot drops by one. -/
def ShaderCache.releaseAt (c : ShaderCache) (key : MurmurHash) : ShaderCache :=
  match c.m_cache.find key with
  | some slot => { c with m_cache := c.m_cache.set key slot.released }
  | none => c

/-- The calls the users of a shader cache make on it; `release` is the
destruction of a pointer got from `get` for the fingerprint `key`. -/
inductive ShaderCall
  | get (shader : Option ShaderNetwork) (attributes : Option CompoundObject)
  | clearUnused
  | release (key : MurmurHash)

/-- A shader cache with the engine state its calls write, and the
fingerprints of the pointers the callers got from `get` and still hold. -/
structure ShaderRun where
  cache : ShaderCache
  scene : Scene
  heap : Heap
  held : List MurmurHash := []

/-- One call on the shader cache; `none` where `get` is undefined, and for
the release of a pointer no caller holds. -/
def ShaderRun.call (k : UpdateFlags) (s : ShaderRun) : ShaderCall → Option ShaderRun
  | ShaderCall.get shader attributes =>
    match s.cache.get k s.scene s.heap shader attributes with
    | none => none
    | some r =>
      some
        { cache := r.cache
          scene := r.scene
          heap := r.heap
          held := s.held ++ [((shaderFingerprint shader attributes).getD ({}, {})).1] }
  | ShaderCall.clearUnused => some { s with cache := s.cache.clearUnused k }
  | ShaderCall.release key =>
    if key ∈ s.held then
      some { s with cache := s.cache.releaseAt key, held := s.held.erase key }
    else none

/-- A sequence of calls on the shader cache, one after the other. -/
def ShaderRun.run (k : UpdateFlags) : ShaderRun → List ShaderCall → Option ShaderRun
  | s, [] => some s
  | s, c :: rest =>
    match s.call k c with
    | none => none
    | some s1 => ShaderRun.run k s1 rest

/-- The slot of the empty fingerprint holds the default surface, which is not
null, and its use count covers the slot, the member `m_defaultSurface` and
every pointer to it the callers hold. -/
def ShaderRun.keepsDefault (s : ShaderRun) : Prop :=
  ∃ slot, s.cache.m_cache.find {} = some slot ∧ slot.ptr = s.cache.m_defaultSurface ∧
    slot.ptr ≠ 0 ∧ 2 + s.held.count {} ≤ slot.useCount

/-- The state of a run right after the constructor of the shader cache. -/
def ShaderRun.start (r : ShaderGet) : ShaderRun :=
  { cache := r.cache, scene := r.scene, heap := r.heap, held := [] }

/-- The shader network the attribute block selects, in the words of the
specification: the first attribute, in the order `ccl:surface`, `osl:surface`,
`osl:shader`, `ccl:volume`, `ccl:light`, that is present and holds a shader
network. -/
def firstShaderNetwork (attributes : CompoundObject) : Option ShaderNetwork :=
  (["ccl:surface", "osl:surface", "osl:shader", "ccl:volume", "ccl:light"].filterMap
    (fun name => attributeShaderNetwork name attributes)).head?

/-! ## CyclesOutput and CyclesRenderer::output -/

/-- An `IECoreScene::Output`: `getName()`, `getType()`, `getData()` and the
parameter block. -/
structure Output where
  name : String := ""
  type : String := ""
  data : String := ""
  parameters : List (String × AttrValue) := []
  deriving DecidableEq, Repr

/-- Cortex `IECore::StringAlgo::tokenize( s, separator, tokens )`: the pieces
between the separators, empty ones left out. -/
def tokenize (s : String) (separator : Char) : List String :=
  ((splitAt s.data separator).filter (fun piece => !piece.isEmpty)).map String.mk

/-- The text a parameter value is kept by in `m_parameters`. -/
def AttrValue.text : AttrValue → String
  | AttrValue.string s => s
  | AttrValue.bool b => if b then "true" else "false"
  | AttrValue.int i => toString i
  | AttrValue.float bits => toString bits
  | v => v.typeName

/-- The warning `reportedCast` logs for the parameter `name` when the value is
not of the expected type. -/
def parameterWarning (expected : String) (value : AttrValue) (name : String) : Message :=
  { level := MsgLevel.Warning
    context := "IECoreCycles::Renderer"
    text := "Expected " ++ expected ++ " but got " ++ value.typeName ++ " for parameter"
    subject := name }

/-- The helper `parameter<bool>( parameters, name, defaultValue )`: the value
of a `BoolData` member, the default when the member is missing, and the
default with a warning when the member has another type. -/
def parameterBool (parameters : List (String × AttrValue)) (name : String)
    (defaultValue : Bool) : Bool × List Message :=
  match parameters.find? (fun e => e.1 == name) with
  | none => (defaultValue, [])
  | some e =>
    match e.2.asBool with
    | some b => (b, [])
    | none => (defaultValue, [parameterWarning "BoolData" e.2 name])

/-- The lookup of a member in a parameter block. -/
def getMember (parameters : List (String × String)) (key : String) : Option String :=
  (parameters.find? (fun e => e.1 == key)).map Prod.snd

/-- The constructor `CyclesOutput( session, name, output )`, with the
warnings it logs.  `passTypeOf` is the engine's pass type enum
(`typeEnum.exists` and `typeEnum[...]`). -/
def CyclesOutput.new (passTypeOf : String → Option PassType) (output : Output) :
    CyclesOutput × List Message :=
  let p0 := output.parameters.map (fun e => (e.1, e.2.text))
  let p1 := setMember p0 "path" output.name
  let p2 := setMember p1 "driver" output.type
  let m_interactive := output.type == "ieDisplay"
  let denoise := parameterBool output.parameters "denoise" false
  let m_denoise := denoise.1
  let suffixed := fun (t : String) => if m_denoise then t ++ "_denoised" else t
  let tokens := tokenize output.data ' '
  let r : List (String × String) × String × String :=
    match tokens with
    | [t0] =>
      if t0 = "rgb" ∨ t0 = "rgba" then
        (setMember (setMember p2 "name" (suffixed t0)) "type" "combined", "combined", t0)
      else (setMember (setMember p2 "name" (suffixed t0)) "type" t0, t0, t0)
    | [t0, t1] =>
      if t0 = "aovv" then
        (setMember (setMember p2 "name" (suffixed t1)) "type" "aov_value", t1, t1)
      else if t0 = "aovc" then
        (setMember (setMember p2 "name" (suffixed t1)) "type" "aov_color", t1, t1)
      else if t0 = "lg" then
        (setMember (setMember p2 "name" (suffixed t1)) "type" "lightgroup", t1, t1)
      else if t0 = "cryptomatte" then
        (setMember (setMember p2 "name" (t0 ++ "_" ++ t1)) "type" t0, t0, t0 ++ "_" ++ t1)
      else (p2, "", "")
    | _ => (p2, "", "")
  ({ m_parameters := r.1
     m_passType := (passTypeOf r.2.1).getD PassType.PASS_NONE
     m_data := r.2.2
     m_denoise := m_denoise
     m_interactive := m_interactive },
   denoise.2)

/-- The assignment `m_outputs[name] = value` for a name the `std::map` does
not hold: the entry goes in front of the first larger key. -/
def insertOutput (outputs : List (String × CyclesOutput)) (name : String)
    (value : CyclesOutput) : List (String × CyclesOutput) :=
  match outputs with
  | [] => [(name, value)]
  | e :: rest =>
    if name < e.1 then (name, value) :: e :: rest
    else e :: insertOutput rest name value

/-- The order of a `std::map` keyed by output name: the names increase along
the list. -/
def nameOrdered (outputs : List (String × CyclesOutput)) : Prop :=
  outputs.Pairwise (fun a b => a.1 < b.1)

/-- The method `CyclesRenderer::output( name, output )`; a null `output` is
`none`. -/
def CyclesRenderer.output (passTypeOf : String → Option PassType) (r : CyclesRenderer)
    (name : String) (output : Option Output) : CyclesRenderer :=
  match output with
  | none =>
    match r.m_outputs.find? (fun e => e.1 == name) with
    | some _ =>
      { r with
        m_outputs := r.m_outputs.filter (fun e => !(e.1 == name))
        m_outputsChanged := true }
    | none => r
  | some o =>
    match r.m_outputs.find? (fun e => e.1 == name) with
    | none =>
      let made := CyclesOutput.new passTypeOf o
      { r with
        m_outputs := insertOutput r.m_outputs name made.1
        m_outputsChanged := true
        messages := r.messages ++ made.2 }
    | some _ => r

/-- The suffix test the spec words the naming by. -/
def nameEndsWith (name suffix : String) : Bool :=
  suffix.data.reverse.isPrefixOf name.data.reverse

/-- The name the spec gives an output of the given tokens; the denoise flag
adds its suffix to a single pass name and to an `aovv`, `aovc` or `lg`
sub-pass, and a cryptomatte family carries none. -/
def specOutputName (tokens : List String) (denoise : Bool) : Option String :=
  match tokens with
  | [t] => some (if denoise then t ++ "_denoised" else t)
  | [k, t] =>
    if k = "aovv" ∨ k = "aovc" ∨ k = "lg" then some (if denoise then t ++ "_denoised" else t)
    else if k = "cryptomatte" then some ("cryptomatte_" ++ t)
    else none
  | _ => none
/-! ## CyclesObject::transform -/

/-- The value `ccl::transform_empty()`: twelve zeros. -/
def transform_empty : CTransform := { bits := List.replicate 12 0 }

/-- The two conversions `CyclesObject::transform` calls and the file does not
hold: `SocketAlgo::setTransform` and `IECore::LinearInterpolator<M44f>` at the
parameter `0.5`. -/
structure TransformAlgo where
  setTransform : M44f → CTransform
  interpolate : M44f → M44f → M44f

/-- The operator `==` on two `float`s given by their bit patterns. -/
def f32Eq (a b : Nat) : Bool := !f32Ne a b

/-- The loop that looks for the sample at the frame: `-1`, or the last index
whose time equals `m_frame`.  Reading `times[i]` past the end of `times` has
no defined result. -/
def frameIndex (times : List Nat) (m_frame : Nat) (numSamples : Nat) : Option Int :=
  if times.length < numSamples then none
  else
    some ((List.range numSamples).foldl
      (fun idx i => if f32Eq (times.getD i 0) m_frame then (i : Int) else idx) (-1))

/-- The state after `CyclesObject::transform`, with the messages the call
logs. -/
structure TransformApplied where
  scene : Scene
  heap : Heap
  messages : List Message := []

/-- The error `transform( samples, times )` logs for the object `name`. -/
def transformStepMessage (name : String) : Message :=
  { level := MsgLevel.Error
    context := "IECoreCycles::Renderer"
    text := "Transform step size on must match deformation step size."
    subject := name }

/-- The block at the end of both `transform` overloads: a mesh with
subdivision parameters gets the object transform as `subd_objecttoworld`. -/
def subdObjectToWorld (heap : Heap) (geo : Nat) (tfm : CTransform) : Heap :=
  if geo = 0 then heap
  else
    match load heap.geometry geo with
    | some g =>
      if g.geometry_type = GeometryType.MESH ∧ g.subd_params = true then
        { heap with geometry := store heap.geometry geo { g with subd_objecttoworld := tfm } }
      else heap
    | none => heap

/-- Cycles `Node::set( socket, array<Transform> &value )`, which
`set_motion( array<Transform> & )` calls: when the socket is not tagged
modified and holds an array equal to `value`, nothing happens; otherwise the
socket takes over the data of `value` (`steal_data`), which leaves the array
of the caller empty, and the socket is tagged modified.  The result is the
object and the array the caller is left with. -/
def setMotion (obj : CObject) (value : List CTransform) : CObject × List CTransform :=
  if !obj.motion_modified && obj.motion == value then (obj, value)
  else ({ obj with motion := value, motion_modified := true }, [])

/-- The loop `for( int i = 0; i < motion.size(); ++i )` of the mismatch
branch from round `i` on: the round writes the object transform to
`motion[i]` and calls `set_motion( motion )`, after which `motion.size()` is
read again.  `rounds` bounds the rounds that are left; the length of the
array is enough. -/
def fillMotion : Nat → Nat → CObject → List CTransform → CObject
  | 0, _, obj, _ => obj
  | rounds + 1, i, obj, motion =>
    if i < motion.length then
      let s := setMotion obj (motion.set i obj.tfm)
      fillMotion rounds (i + 1) s.1 s.2
    else obj

/-- The branch of `transform( samples, times )` taken when the geometry uses
motion blur and its motion step count differs from the number of samples.
The result is `none` where `samples.front()` reads an empty vector, and for a
step count of `2^31` or more, where the `int` loop counter can overflow. -/
def transformMismatch (algo : TransformAlgo) (scene : Scene) (heap : Heap) (object : Nat)
    (obj : CObject) (g : CGeometry) (samples : List M44f) : Option TransformApplied :=
  match samples with
  | [] => none
  | front :: _ =>
    if 2 ^ 31 ≤ g.motion_steps then none
    else
      let obj1 : CObject := { obj with tfm := algo.setTransform front }
      let motion := List.replicate g.motion_steps transform_empty
      let obj2 := fillMotion motion.length 0 obj1 motion
      some
        { scene := { scene with calls := scene.calls ++ [EngineCall.objectTagUpdate object] }
          heap := { heap with objects := store heap.objects object obj2 }
          messages := [transformStepMessage obj.name] }

/-- The transform and the motion array `transform( samples, times )` computes
from two or more samples that match the geometry; `frameIdx` is the index of
the sample at the frame or `-1`, `tfm` the transform the object has. -/
def sampledMotion (algo : TransformAlgo) (samples : List M44f) (frameIdx : Int)
    (tfm : CTransform) : CTransform × List CTransform :=
  let numSamples := samples.length
  let at_ := fun (i : Nat) => samples.getD i {}
  if numSamples % 2 = 1 then
    ((if 0 ≤ frameIdx then algo.setTransform (at_ frameIdx.toNat) else tfm),
     samples.map algo.setTransform)
  else if numSamples = 2 then
    let matrix := algo.interpolate (at_ 0) (at_ 1)
    ((if frameIdx = -1 then algo.setTransform matrix
      else if frameIdx = 0 then algo.setTransform (at_ 0)
      else algo.setTransform (at_ 1)),
     [algo.setTransform (at_ 0), algo.setTransform matrix, algo.setTransform (at_ 1)])
  else
    let mid := numSamples / 2 - 1
    ((if frameIdx = -1 then algo.setTransform (algo.interpolate (at_ mid) (at_ (mid + 1)))
      else if frameIdx = 0 then algo.setTransform (at_ 0)
      else algo.setTransform (at_ (numSamples - 1))),
     samples.map algo.setTransform)

/-- The method `CyclesObject::transform( samples, times )`.  After
`object->set_motion( motion )` the local array is what `setMotion` leaves of
it, and `motion.size()` is read from that.  The result is `none` where the
code has no defined result: a dangling object or geometry pointer,
`samples.front()` or `samples[mid]` on an empty vector, `times` shorter than
`samples`, and a null geometry read after `set_motion`. -/
def CyclesObject.transformSamples (algo : TransformAlgo) (o : CyclesObject) (scene : Scene)
    (heap : Heap) (samples : List M44f) (times : List Nat) : Option TransformApplied :=
  let object := o.m_instance.m_object
  if object = 0 then some { scene := scene, heap := heap }
  else
    match load heap.objects object with
    | none => none
    | some obj =>
      let geo := obj.geometry
      match (if geo = 0 then some none else (load heap.geometry geo).map some) with
      | none => none
      | some g? =>
        let mismatch :=
          match g? with
          | some g => g.use_motion_blur && (g.motion_steps != samples.length)
          | none => false
        if mismatch then transformMismatch algo scene heap object obj (g?.getD {}) samples
        else
          let tagged : Scene :=
            { scene with calls := scene.calls ++ [EngineCall.objectTagUpdate object] }
          match samples with
          | [] => none
          | [front] =>
            some
              { scene := tagged
                heap :=
                  { heap with
                    objects := store heap.objects object
                      { obj with tfm := algo.setTransform front } } }
          | _ =>
            match frameIndex times o.m_frame samples.length, g? with
            | some frameIdx, some g =>
              let r := sampledMotion algo samples frameIdx obj.tfm
              let set := setMotion { obj with tfm := r.1 } r.2
              let heap1 : Heap := { heap with objects := store heap.objects object set.1 }
              let heap2 : Heap :=
                if !g.use_motion_blur then
                  { heap1 with
                    geometry := store heap1.geometry geo { g with motion_steps := set.2.length } }
                else heap1
              some { scene := tagged, heap := subdObjectToWorld heap2 geo r.1 }
            | _, _ => none

/-! ## Sample inputs and runs -/

/-- Every `ccl:aov:` member of the attribute block is a shader network. -/
def aovWellTyped (attributes : Option CompoundObject) : Bool := !aovHasNull attributes

/-- A constructor stand-in that builds the default snapshot and leaves the
shader cache alone. -/
def sampleConstruct (_attributes : CompoundObject) (shaderCache : ShaderCache) (scene : Scene)
    (heap : Heap) : Option AttributesBuilt :=
  some { value := {}, shaderCache := shaderCache, scene := scene, heap := heap }

/-- A shader network with some content hash. -/
def sampleShader : ShaderNetwork := { hash := { data := [HashAtom.content 3] } }



/-- A sphere with some content hash. -/
def sampleSphere : IECoreObject :=
  { typeId := ObjectKind.SpherePrimitive, hash := { data := [HashAtom.content 1] } }

/-- A shader cache with two built-in engine shaders, the default surface and
one converted shader. -/
def sampleShaderCache : ShaderCache :=
  { m_numDefaultShaders := 2
    m_cache :=
      { slots := [({}, { ptr := 5, useCount := 2 }),
                  ({ data := [HashAtom.content 7] }, { ptr := 6, useCount := 2 })]
        nodup := by decide }
    m_defaultSurface := 5
    m_updateFlags := UPDATE_NONE }

/-- An engine scene whose shader list holds two built-in shaders and one stale
entry. -/
def sampleScene : Scene := { shaders := [1, 2, 9] }

/-- The sphere submitted under the name `a` to a new instance cache. -/
def runGetA : InstanceGet :=
  InstanceCache.get sampleFlags {} {} {} {} sampleSphere {} "a"

/-- The same sphere submitted again under the name `b`. -/
def runGetAB : InstanceGet :=
  runGetA.cache.get sampleFlags runGetA.particles runGetA.scene runGetA.heap sampleSphere {} "b"

/-- Both instances submitted, then the host releases the first one. -/
def runReleased : InstanceCache := runGetAB.cache.release runGetA.instance_

/-- The first instance submitted and published. -/
def runPublishedA : InstanceCache × Scene :=
  runGetA.cache.update sampleFlags runGetA.scene false

/-- After the publish the sphere is submitted again under the name `b`. -/
def runGetBAfterPublish : InstanceGet :=
  runPublishedA.1.get sampleFlags runGetA.particles runPublishedA.2 runGetA.heap sampleSphere {} "b"

/-- The second publish, `update( scene, force = false )`. -/
def runPublishedAB : InstanceCache × Scene :=
  runGetBAfterPublish.cache.update sampleFlags runGetBAfterPublish.scene false

/-- Both instances submitted and published, then the first one is released,
evicted by `clearUnused`, and the cache is published again. -/
def runEvicted : InstanceCache × Scene :=
  let published := runGetAB.cache.update sampleFlags runGetAB.scene false
  let cleared := (published.1.release runGetA.instance_).clearUnused sampleFlags
  cleared.update sampleFlags published.2 false

/-- The first `attributes` call on the sample object with the NaN dicing
rate. -/
def runAttributesNaN : Option AttributesApplied :=
  sampleCyclesObject.attributes false sampleShaderCache sampleScene sampleSubdHeap
    sampleNaNAttributes

/-- The second `attributes` call with the same NaN snapshot, on the state the
first call left. -/
def runAttributesNaNAgain : Option AttributesApplied :=
  runAttributesNaN.bind
    (fun r => r.object.attributes false r.shaderCache r.scene r.heap sampleNaNAttributes)

/-- The first `attributes` call on the sample object with the dicing rate
`2.0f`. -/
def runAttributesDiced : Option AttributesApplied :=
  sampleCyclesObject.attributes false sampleShaderCache sampleScene sampleSubdHeap
    sampleDicedAttributes

/-! ## Option names, their types and the stored members -/

/-- The session and scene options handled by the `OPTION_BOOL`, `OPTION_INT`
and `OPTION_FLOAT` macros. -/
def paramOptionNames : List String :=
  ["ccl:session:experimental", "ccl:session:samples", "ccl:session:pixel_size",
   "ccl:session:time_limit", "ccl:session:use_profiling", "ccl:session:use_auto_tile",
   "ccl:session:tile_size", "ccl:scene:use_bvh_spatial_split",
   "ccl:scene:use_bvh_unaligned_nodes", "ccl:scene:num_bvh_time_steps",
   "ccl:scene:hair_subdivisions", "ccl:scene:texture_limit"]

/-- The member of the session or scene parameters that the option of
`paramOptionNames` called `name` stores, read back as data. -/
def storedParam (session : SessionParams) (scene : SceneParams) (name : String) :
    Option AttrValue :=
  if name = "ccl:session:experimental" then some (AttrValue.bool session.experimental)
  else if name = "ccl:session:samples" then some (AttrValue.int session.samples)
  else if name = "ccl:session:pixel_size" then some (AttrValue.int session.pixel_size)
  else if name = "ccl:session:time_limit" then some (AttrValue.float session.time_limit)
  else if name = "ccl:session:use_profiling" then some (AttrValue.bool session.use_profiling)
  else if name = "ccl:session:use_auto_tile" then some (AttrValue.bool session.use_auto_tile)
  else if name = "ccl:session:tile_size" then some (AttrValue.int session.tile_size)
  else if name = "ccl:scene:use_bvh_spatial_split" then
    some (AttrValue.bool scene.use_bvh_spatial_split)
  else if name = "ccl:scene:use_bvh_unaligned_nodes" then
    some (AttrValue.bool scene.use_bvh_unaligned_nodes)
  else if name = "ccl:scene:num_bvh_time_steps" then
    some (AttrValue.int scene.num_bvh_time_steps)
  else if name = "ccl:scene:hair_subdivisions" then some (AttrValue.int scene.hair_subdivisions)
  else if name = "ccl:scene:texture_limit" then some (AttrValue.int scene.texture_limit)
  else none

/-- The data types the typed options expect. -/
inductive OptionType
  | bool
  | int
  | float
  | string
  deriving DecidableEq, Repr

/-- Whether a value has the given data type. -/
def AttrValue.hasType : AttrValue → OptionType → Bool
  | AttrValue.bool _, OptionType.bool => true
  | AttrValue.int _, OptionType.int => true
  | AttrValue.float _, OptionType.float => true
  | AttrValue.string _, OptionType.string => true
  | _, _ => false

/-- The members in which the renderer stores option values. -/
structure StoredOptions where
  m_frame : Int
  m_camera : String
  m_dicingCamera : String
  m_seed : Int
  m_useFrameAsSeed : Bool
  m_cryptomatteAccurate : Bool
  m_cryptomatteDepth : Int
  m_sessionParams : SessionParams
  m_sceneParams : SceneParams
  m_textureCacheParams : TextureCacheParams
  m_deviceName : String
  m_multiDevices : List DeviceInfo
  logging_verbosity : Int
  deriving DecidableEq, Repr

/-- The option values the renderer holds in its members. -/
def CyclesRenderer.storedOptions (r : CyclesRenderer) : StoredOptions :=
  { m_frame := r.m_frame
    m_camera := r.m_camera
    m_dicingCamera := r.m_dicingCamera
    m_seed := r.m_seed
    m_useFrameAsSeed := r.m_useFrameAsSeed
    m_cryptomatteAccurate := r.m_cryptomatteAccurate
    m_cryptomatteDepth := r.m_cryptomatteDepth
    m_sessionParams := r.m_sessionParams
    m_sceneParams := r.m_sceneParams
    m_textureCacheParams := r.m_textureCacheParams
    m_deviceName := r.m_deviceName
    m_multiDevices := r.m_multiDevices
    logging_verbosity := r.logging_verbosity }

/-- The options `option` knows by their full name that do not lie in one of
the namespaces. -/
def namedOptions : List String :=
  ["frame", "camera", "ccl:dicing_camera", "sampleMotion", "ccl:device", "ccl:shadingsystem",
   "ccl:log_level"]

/-- The namespaces whose options `option` looks up. -/
def optionNamespaces : List String :=
  ["ccl:session:", "ccl:scene:", "ccl:texture:", "ccl:background:", "ccl:film:",
   "ccl:integrator:"]

/-- A name that is no option known by name and lies in none of the option
namespaces. -/
def unrecognised (name : String) : Bool :=
  !namedOptions.contains name && !optionNamespaces.any (fun p => startsWith name p)

/-- An engine with a CPU and a CUDA device, five built-in shaders and a few
sockets. -/
def sampleEngine : Engine :=
  { devices := [{}, { id := "CUDA_GeForce", type := DeviceType.DEVICE_CUDA }]
    numBuiltinShaders := 5
    integrator :=
      { sockets := [("seed", { value := AttrValue.int 0, default_value := AttrValue.int 0 }),
                    ("max_bounce",
                      { value := AttrValue.int 12, default_value := AttrValue.int 12 })] }
    background :=
      { sockets := [("shader", { value := AttrValue.int 0, default_value := AttrValue.int 0 })] }
    film :=
      { sockets := [("exposure",
                      { value := AttrValue.float 0x3f4ccccd,
                        default_value := AttrValue.float 0x3f4ccccd })] } }

/-- The renderer of the given type on the sample engine, as constructed. -/
def sampleRenderer (renderType : RenderType) : CyclesRenderer :=
  (CyclesRenderer.new sampleEngine sampleFlags renderType).getD {}

/-- The members of the session parameters that no `OPTION_` macro writes. -/
def SessionParams.otherMembers (s : SessionParams) :
    DeviceInfo × Bool × Bool × Int × ShadingSystem :=
  (s.device, s.headless, s.background, s.threads, s.shadingsystem)

/-- The members of the scene parameters that no `OPTION_` macro writes. -/
def SceneParams.otherMembers (c : SceneParams) :
    ShadingSystem × BVHLayout × BVHType × CurveShapeType × TextureCacheParams :=
  (c.shadingsystem, c.bvh_layout, c.bvh_type, c.hair_shape, c.texture)

/-- The warnings `option` logs for a name it does not recognise: none for a
name with a colon that starts with neither `ccl:` nor `user:`, which is taken
to belong to another renderer. -/
def unrecognisedWarnings (name : String) : List Message :=
  if startsWith name "ccl:" then
    [{ level := MsgLevel.Warning, context := "CyclesRenderer::option", text := "Unknown option",
       subject := name }]
  else if startsWith name "user:" then
    [{ level := MsgLevel.Warning, context := "CyclesRenderer::option",
       text := "User option not supported", subject := name }]
  else if name.data.contains ':' then []
  else
    [{ level := MsgLevel.Warning, context := "CyclesRenderer::option", text := "Unknown option",
       subject := name }]

/-- The renderer `y` has the render state and the render type of `x`. -/
def sameRenderState (x y : CyclesRenderer) : Prop :=
  y.m_renderState = x.m_renderState ∧ y.m_renderType = x.m_renderType

/-- The step from `x` to `y` keeps the render type, keeps whether the render
state is `RENDERSTATE_RENDERING`, and appends to the trace events none of
which is a `clearUnused` call. -/
def quietStep (x y : CyclesRenderer) : Prop :=
  y.m_renderType = x.m_renderType ∧
    (y.m_renderState = RenderState.RENDERSTATE_RENDERING ↔
      x.m_renderState = RenderState.RENDERSTATE_RENDERING) ∧
    ∃ t, y.trace = x.trace ++ t ∧ evictions t = []

/-- The five `clearUnused` events of `render`, in the order of the calls. -/
def renderEvictions : List RenderEvent :=
  [RenderEvent.clearUnused CacheKind.camera, RenderEvent.clearUnused CacheKind.instance_,
   RenderEvent.clearUnused CacheKind.particleSystems, RenderEvent.clearUnused CacheKind.light,
   RenderEvent.clearUnused CacheKind.attributes]

/-- The destruction of the `CyclesLight` object that holds the light `light`:
the use count of its slot in the cache drops by one. -/
def LightCache.release (c : LightCache) (light : Nat) : LightCache :=
  { c with m_lights := c.m_lights.map (fun p => if p.ptr = light then p.released else p) }

/-- The renderer after the host made the light `light1` through the light
cache and destroyed the object it got, so that the cache alone holds the
light. -/
def withStaleLight (r : CyclesRenderer) : CyclesRenderer :=
  let g := r.m_lightCache.get sampleFlags r.scene r.heap "light1"
  { r with
    m_lightCache := g.cache.release g.handle
    scene := g.scene
    heap := g.heap }

/-- A batch renderer, as constructed, with one light that only the cache
holds. -/
def sampleStaleBatch : CyclesRenderer := withStaleLight (sampleRenderer RenderType.Batch)

/-- An interactive renderer after its first `render`, then given one light
that only the cache holds. -/
def sampleStaleInteractive : CyclesRenderer :=
  withStaleLight ((sampleRenderer RenderType.Interactive).render sampleEngine sampleFlags {})

/-- A run on a new shader cache: a shader is fetched, released and evicted,
then the default surface is fetched and released. -/
def sampleShaderCalls : List ShaderCall :=
  [ShaderCall.get (some sampleShader) none, ShaderCall.release sampleShader.hash,
   ShaderCall.clearUnused, ShaderCall.get none none, ShaderCall.release {},
   ShaderCall.clearUnused]

/-- The shader cache the constructor makes on the sample scene. -/
def sampleShaderStart : ShaderGet :=
  (ShaderCache.new sampleFlags sampleScene {}).getD
    { handle := 0, cache := {}, scene := {}, heap := {} }

/-- The state the sample run ends in. -/
def sampleShaderEnd : ShaderRun :=
  (ShaderRun.run sampleFlags (ShaderRun.start sampleShaderStart) sampleShaderCalls).getD
    { cache := {}, scene := {}, heap := {} }

/-- A shader network whose parameters substitute the string attribute
`tex`. -/
def sampleSubstNetwork : ShaderNetwork :=
  { hash := { data := [HashAtom.content 11] }, substitutions := ["tex"] }

/-- An attribute block assigning the network with the substitution value
`tex`. -/
def sampleTexAttributes (tex : String) : CompoundObject :=
  { members := [("ccl:surface", AttrValue.shaderNetwork sampleSubstNetwork),
                ("tex", AttrValue.string tex)]
    hash := { data := [HashAtom.str tex] } }

/-- The snapshot of the block with `tex = a.png`, constructed on the new
sample shader cache. -/
def runTexA : Option AttributesBuilt :=
  CyclesAttributes.new sampleFlags samplePathRayFlag (sampleTexAttributes "a.png")
    sampleShaderStart.cache sampleShaderStart.scene sampleShaderStart.heap

/-- The snapshot of the block with `tex = b.png`, constructed after the
first. -/
def runTexB : Option AttributesBuilt :=
  runTexA.bind
    (fun a => CyclesAttributes.new sampleFlags samplePathRayFlag (sampleTexAttributes "b.png")
      a.shaderCache a.scene a.heap)

/-- The sphere submitted under the name `a` with the first snapshot and under
the name `b` with the second, to a new instance cache. -/
def runTexInstances : Option (InstanceGet × InstanceGet) :=
  runTexA.bind
    (fun a => runTexB.map
      (fun b =>
        let g1 := InstanceCache.get sampleFlags {} {} b.scene b.heap sampleSphere a.value "a"
        (g1, g1.cache.get sampleFlags g1.particles g1.scene g1.heap sampleSphere b.value "b")))

/-! ## The deferred assignment queue as the spec words it (C27) -/

/-- The engine call one queued assignment stands for: a geometry target gets
the shader array, a light target the first shader of the array or, when that
is null, the built-in light shader; any other target gets nothing. -/
def queuedCall (defaultLight : Nat) (p : ShaderAssignPair) : List EngineCall :=
  match p.kind with
  | NodeKind.geometry => [EngineCall.setUsedShaders p.first p.second]
  | NodeKind.light =>
    [EngineCall.setLightShader p.first
      (if p.second.headD 0 ≠ 0 then p.second.headD 0 else defaultLight)]
  | NodeKind.other => []

/-- The engine calls of a whole queue, one assignment after the other. -/
def queuedCalls (defaultLight : Nat) : List ShaderAssignPair → List EngineCall
  | [] => []
  | p :: rest => queuedCall defaultLight p ++ queuedCalls defaultLight rest

/-- The assignment queued last for the target `target` of dynamic type
`kind`. -/
def lastQueued (kind : NodeKind) (pairs : List ShaderAssignPair) (target : Nat) :
    Option ShaderAssignPair :=
  pairs.reverse.find? (fun p => p.kind == kind && p.first == target)

/-- Whether an engine call tags the shader manager: `shader->tag_update`
does, and so does `shader_manager->tag_update`. -/
def EngineCall.tagsShaderManager : EngineCall → Bool
  | EngineCall.shaderTagUpdate _ => true
  | EngineCall.tagShaderManager _ => true
  | _ => false

/-- A queue of four assignments: two for the geometry `7`, one for the light
`3` with a null shader, one for the geometry `8`. -/
def sampleQueue : ShaderCache :=
  { m_shaderAssignPairs :=
      [{ first := 7, kind := NodeKind.geometry, second := [11] },
       { first := 3, kind := NodeKind.light, second := [0] },
       { first := 8, kind := NodeKind.geometry, second := [12] },
       { first := 7, kind := NodeKind.geometry, second := [13] }] }
/-! ## The pass list as the spec words it (C26) -/

/-- Whether a processed cryptomatte output requests the family `data`. -/
def familyRequested (renderType : RenderType) (outputs : List (String × CyclesOutput))
    (data : String) : Bool :=
  outputs.any (fun o => processed renderType o.2 &&
    (o.2.m_passType == PassType.PASS_CRYPTOMATTE) && (o.2.m_data == data))

/-- The pass of one processed output that is not a cryptomatte output. -/
def outputPass (o : CyclesOutput) : Pass :=
  { type := o.m_passType
    name := if o.m_denoise then o.m_data ++ "_denoised" else o.m_data
    mode := if o.m_denoise then PassMode.DENOISED else PassMode.NOISY }

/-- The sub-passes `name00`, `name01`, ... of one cryptomatte family: none
when the family is not requested, `depth` of them otherwise (none for a depth
that is not positive). -/
def familyPasses (requested : Bool) (name : String) (depth : Int) : List Pass :=
  if requested then
    (List.range depth.toNat).map
      (fun i => { type := PassType.PASS_CRYPTOMATTE, name := cryptoPassName name i,
                  mode := PassMode.NOISY })
  else []

/-- The pass list the spec describes: the passes of the processed outputs
that are not cryptomatte outputs, in the order of the output map, then the
object, the material and the asset sub-passes. -/
def specPassList (s : OutputState) (depth : Int) : List Pass :=
  (s.m_outputs.filter
      (fun o => processed s.m_renderType o.2 &&
        (o.2.m_passType != PassType.PASS_CRYPTOMATTE))).map (fun o => outputPass o.2) ++
    familyPasses (familyRequested s.m_renderType s.m_outputs "cryptomatte_object")
      "cryptomatte_object" depth ++
    familyPasses (familyRequested s.m_renderType s.m_outputs "cryptomatte_material")
      "cryptomatte_material" depth ++
    familyPasses (familyRequested s.m_renderType s.m_outputs "cryptomatte_asset")
      "cryptomatte_asset" depth

/-- The number of cryptomatte families the processed outputs request. -/
def requestedFamilies (s : OutputState) : Nat :=
  (if familyRequested s.m_renderType s.m_outputs "cryptomatte_object" then 1 else 0) +
    (if familyRequested s.m_renderType s.m_outputs "cryptomatte_material" then 1 else 0) +
    (if familyRequested s.m_renderType s.m_outputs "cryptomatte_asset" then 1 else 0)

/-- The passes of type `PASS_CRYPTOMATTE` in a pass list. -/
def cryptoSubPasses (passes : List Pass) : List Pass :=
  passes.filter (fun p => p.type == PassType.PASS_CRYPTOMATTE)

/-- A batch renderer with a denoised `rgba` output, an asset and an object
cryptomatte output, an interactive output that a batch render skips, and the
given stored `ccl:film:cryptomatte_depth`. -/
def cryptoFamiliesState (requestedDepth : Int) : OutputState :=
  { m_renderType := RenderType.Batch
    m_outputs :=
      [("a", { m_passType := PassType.PASS_CRYPTOMATTE, m_data := "cryptomatte_asset" }),
       ("b", { m_passType := PassType.PASS_COMBINED, m_data := "rgba", m_denoise := true }),
       ("c", { m_passType := PassType.PASS_CRYPTOMATTE, m_data := "cryptomatte_object" }),
       ("d", { m_passType := PassType.PASS_OTHER "PASS_DEPTH", m_data := "depth",
               m_interactive := true })]
    m_outputsChanged := true
    m_cryptomatteDepth := requestedDepth }
/-! ## Sample outputs -/

/-- The pass type enum of the engine, for the names the samples use. -/
def samplePassTypeOf (name : String) : Option PassType :=
  if name = "combined" then some PassType.PASS_COMBINED
  else if name = "cryptomatte" then some PassType.PASS_CRYPTOMATTE
  else if name = "shadow_catcher" then some PassType.PASS_SHADOW_CATCHER
  else if name = "depth" then some (PassType.PASS_OTHER "PASS_DEPTH")
  else none

/-- An object cryptomatte output with the denoise flag set. -/
def sampleCryptoOutput : Output :=
  { name := "crypto.exr", type := "exr", data := "cryptomatte object",
    parameters := [("denoise", AttrValue.bool true)] }

/-- A light group output with the denoise flag set. -/
def sampleLightGroupOutput : Output :=
  { name := "key.exr", type := "exr", data := "lg key",
    parameters := [("denoise", AttrValue.bool true)] }

/-- An output without a denoise flag whose single token ends in
`_denoised`. -/
def sampleSuffixedOutput : Output :=
  { name := "beauty.exr", type := "exr", data := "rgba_denoised" }

/-- A renderer that holds one output under the name `beauty`. -/
def sampleOutputRenderer : CyclesRenderer :=
  { m_outputs := [("beauty", { m_passType := PassType.PASS_COMBINED, m_data := "rgba" })]
    m_outputsChanged := false }
/-! ## Sample transforms -/

/-- A conversion that keeps the first twelve floats of a matrix, and an
interpolation that returns its first argument. -/
def sampleTransformAlgo : TransformAlgo :=
  { setTransform := fun m => { bits := m.bits.take 12 }
    interpolate := fun a _ => a }

/-- The matrix whose sixteen floats all have the bit pattern `n`. -/
def sampleMatrix (n : Nat) : M44f := { bits := List.replicate 16 n }

/-- A heap with the object `1` on the geometry `2`, which uses motion blur
with the given motion step count; the object has no motion array yet. -/
def sampleMotionHeap (steps : Nat) : Heap :=
  { nextAddr := 2
    objects := [(1, { name := "ball", geometry := 2 })]
    geometry := [(2, { use_motion_blur := true, motion_steps := steps })] }

/-! ## The scene mutex in render (C28) -/

/-- The events of a trace that act on the scene mutex: `lock`, `unlock`, and
the creation of a session, which replaces `m_scene` by a new scene with a
mutex of its own. -/
def mutexEvents (trace : List RenderEvent) : List RenderEvent :=
  trace.filter
    (fun e => e == RenderEvent.mutexLock || e == RenderEvent.mutexUnlock ||
      e == RenderEvent.sessionCreate)

/-- The walk along the mutex events of one call: whether the caller holds the
mutex of the current `m_scene`, and how many `unlock` calls were made on a
mutex the caller did not hold. -/
def mutexWalk (events : List RenderEvent) : Bool × Nat :=
  events.foldl
    (fun s e =>
      match e with
      | RenderEvent.mutexLock => (true, s.2)
      | RenderEvent.sessionCreate => (false, s.2)
      | RenderEvent.mutexUnlock => if s.1 then (false, s.2) else (false, s.2 + 1)
      | _ => s)
    (false, 0)

/-- The number of `unlock` calls made on a mutex the caller did not hold. -/
def unheldUnlocks (events : List RenderEvent) : Nat := (mutexWalk events).2

/-- Whether `updateOptions` resets the session: a parameter block is modified
or `m_sessionReset` is set, and the renderer is not rendering. -/
def CyclesRenderer.resetsSession (env : RenderEnv) (r : CyclesRenderer) : Bool :=
  (env.sceneParamsModified || env.sessionParamsModified || r.m_sessionReset) &&
    decide (r.m_renderState ≠ RenderState.RENDERSTATE_RENDERING)

/-- The mutex events of one `render` call, by the state it starts in. -/
def renderMutexEvents (env : RenderEnv) (r : CyclesRenderer) : List RenderEvent :=
  [RenderEvent.mutexLock] ++
    (if r.resetsSession env then [RenderEvent.sessionCreate] else []) ++
    (if r.m_sessionReset || r.resetsSession env then [] else [RenderEvent.mutexUnlock]) ++
    [RenderEvent.mutexUnlock]
/-! ## Wrong-typed option values (C16) -/

theorem outputStep_crypto_lt (rt : RenderType) (acc : OutputLoop) (o : String × CyclesOutput)
    (h : acc.crypto < 16) : (outputStep rt acc o).crypto < 16 := by
  have key : ∀ c : Fin 16, (c.val ||| CRYPT_ASSET) < 16 ∧ (c.val ||| CRYPT_OBJECT) < 16 ∧
      (c.val ||| CRYPT_MATERIAL) < 16 := by decide
  obtain ⟨h1, h2, h3⟩ := key ⟨acc.crypto, h⟩
  unfold outputStep
  split_ifs <;> simp_all

theorem outputStep_crypto_keep (rt : RenderType) (acc : OutputLoop) (o : String × CyclesOutput)
    (h : acc.crypto < 16) (h7 : acc.crypto &&& 7 ≠ 0) :
    (outputStep rt acc o).crypto &&& 7 ≠ 0 := by
  have key : ∀ c : Fin 16, c.val &&& 7 ≠ 0 → (c.val ||| CRYPT_ASSET) &&& 7 ≠ 0 ∧
      (c.val ||| CRYPT_OBJECT) &&& 7 ≠ 0 ∧ (c.val ||| CRYPT_MATERIAL) &&& 7 ≠ 0 := by decide
  obtain ⟨h1, h2, h3⟩ := key ⟨acc.crypto, h⟩ h7
  unfold outputStep
  split_ifs <;> simp_all

theorem outputStep_crypto_set (rt : RenderType) (acc : OutputLoop) (o : String × CyclesOutput)
    (h : acc.crypto < 16) (ho : isCryptoOutput rt o.2 = true) :
    (outputStep rt acc o).crypto &&& 7 ≠ 0 := by
  have key : ∀ c : Fin 16, (c.val ||| CRYPT_ASSET) &&& 7 ≠ 0 ∧
      (c.val ||| CRYPT_OBJECT) &&& 7 ≠ 0 ∧ (c.val ||| CRYPT_MATERIAL) &&& 7 ≠ 0 := by decide
  obtain ⟨h1, h2, h3⟩ := key ⟨acc.crypto, h⟩
  simp only [isCryptoOutput, Bool.and_eq_true, Bool.or_eq_true, beq_iff_eq] at ho
  obtain ⟨⟨hp, ht⟩, hd⟩ := ho
  unfold outputStep
  simp only [hp, ht, Bool.not_true, if_true]
  split_ifs <;> simp_all

theorem foldl_outputStep_crypto (rt : RenderType) (outs : List (String × CyclesOutput)) :
    ∀ acc : OutputLoop, acc.crypto < 16 →
      (outs.foldl (outputStep rt) acc).crypto < 16 ∧
      ((acc.crypto &&& 7 ≠ 0 ∨ ∃ o ∈ outs, isCryptoOutput rt o.2 = true) →
        (outs.foldl (outputStep rt) acc).crypto &&& 7 ≠ 0) := by
  induction outs with
  | nil => intro acc h; exact ⟨h, fun h7 => by simpa using h7⟩
  | cons o rest ih =>
    intro acc h
    have hlt := outputStep_crypto_lt rt acc o h
    obtain ⟨ih1, ih2⟩ := ih (outputStep rt acc o) hlt
    refine ⟨by simpa using ih1, fun hc => ?_⟩
    simp only [List.foldl_cons]
    apply ih2
    rcases hc with h7 | ⟨o1, ho1, hcr⟩
    · exact Or.inl (outputStep_crypto_keep rt acc o h h7)
    · rcases List.mem_cons.mp ho1 with rfl | hin
      · exact Or.inl (outputStep_crypto_set rt acc o1 h hcr)
      · exact Or.inr ⟨o1, hin, hcr⟩

/-- With a processed cryptomatte output present, the loop leaves a family bit
set in `crypto`, so `crypto` is neither `CRYPT_NONE` nor `CRYPT_ACCURATE`. -/
theorem outputLoop_crypto_present (s : OutputState)
    (h : ∃ o ∈ s.m_outputs, isCryptoOutput s.m_renderType o.2 = true) :
    (outputLoop s).crypto ≠ CRYPT_NONE ∧
      (outputLoop s).crypto ≠ (CRYPT_NONE ||| CRYPT_ACCURATE) := by
  have h0 : (if s.m_cryptomatteAccurate then CRYPT_NONE ||| CRYPT_ACCURATE else CRYPT_NONE) < 16 := by
    split_ifs <;> decide
  obtain ⟨hlt, h7⟩ := foldl_outputStep_crypto s.m_renderType s.m_outputs
    { crypto := if s.m_cryptomatteAccurate then CRYPT_NONE ||| CRYPT_ACCURATE else CRYPT_NONE } h0
  have h7 := h7 (Or.inr h)
  have key : ∀ c : Fin 16, c.val &&& 7 ≠ 0 → c.val ≠ CRYPT_NONE ∧
      c.val ≠ (CRYPT_NONE ||| CRYPT_ACCURATE) := by decide
  exact key ⟨(outputLoop s).crypto, hlt⟩ h7

theorem divide_up_small : ∀ d : Fin 17,
    toInt32 (divide_up (toSizeT (d.val : Int)) (toSizeT 2)) = (((d.val + 1) / 2 : Nat) : Int) := by
  decide

theorem ceil_half_small (d : Nat) (h : d < 17) :
    Int.ceil (((d : Int) : ℚ) / 2) = (((d + 1) / 2 : Nat) : Int) := by
  rw [Int.ceil_eq_iff]
  interval_cases d <;> norm_num

/-- On a non-negative `int` the engine helper agrees with the spec's formula:
`divide_up( min( 16, d ), 2 )` is `ceil( min( 16, d ) / 2 )`, at least one for
`d ≥ 1`. -/
theorem cryptomatteDepth_nonneg (crypto : Nat) (d : Int)
    (hc : crypto ≠ CRYPT_NONE ∧ crypto ≠ (CRYPT_NONE ||| CRYPT_ACCURATE)) (hd : 0 ≤ d) :
    cryptomatteDepth crypto d = specCryptomatteDepth d := by
  obtain ⟨m, hm, hm17⟩ : ∃ m : Nat, min 16 d = (m : Int) ∧ m < 17 := by
    refine ⟨(min 16 d).toNat, ?_, ?_⟩
    · rw [Int.toNat_of_nonneg (le_min (by norm_num) hd)]
    · have : min 16 d ≤ 16 := min_le_left _ _
      omega
  have hm0 : d = 0 ↔ m = 0 := by
    rcases le_or_lt 16 d with h | h
    · rw [min_eq_left h] at hm; omega
    · rw [min_eq_right h.le] at hm; omega
  unfold cryptomatteDepth specCryptomatteDepth
  rw [if_neg (by tauto), hm, ceil_half_small m hm17]
  have hdu := divide_up_small ⟨m, hm17⟩
  simp only at hdu
  by_cases h0 : d = 0
  · have : m = 0 := hm0.mp h0
    subst this
    simp [h0]
  · rw [if_neg h0, hdu]
    have : m ≠ 0 := fun h => h0 (hm0.mpr h)
    have h1 : 1 ≤ (m + 1) / 2 := by omega
    have h2 : (1 : Int) ≤ (((m + 1) / 2 : Nat) : Int) := by exact_mod_cast h1
    exact (max_eq_right h2).symm

/-- For a stored depth that is not negative, `updateOutputs` with a processed
cryptomatte output publishes the spec's `max(1, ceil(min(16, d) / 2))`. -/
theorem updateOutputs_cryptomatteDepth_of_nonneg (s : OutputState) (b : Bool)
    (hrun : (s.m_outputsChanged || b) = true)
    (h : ∃ o ∈ s.m_outputs, isCryptoOutput s.m_renderType o.2 = true)
    (hd : 0 ≤ s.m_cryptomatteDepth) :
    (updateOutputs s b).film.cryptomatte_depth = specCryptomatteDepth s.m_cryptomatteDepth := by
  unfold updateOutputs
  simp only [hrun, Bool.not_true, Bool.false_eq_true, if_false]
  exact cryptomatteDepth_nonneg _ _ (outputLoop_crypto_present s h) hd

/-- For a negative stored depth (an `int`), the published depth is never
positive: the zero test does not catch it and `divide_up` of a negative
numerator is not positive. -/
theorem cryptomatteDepth_neg (crypto : Nat) (d : Int)
    (hc : crypto ≠ CRYPT_NONE ∧ crypto ≠ (CRYPT_NONE ||| CRYPT_ACCURATE))
    (hlo : -2 ^ 31 ≤ d) (hd : d < 0) :
    cryptomatteDepth crypto d ≤ 0 := by
  unfold cryptomatteDepth
  rw [if_neg (by tauto), if_neg (by omega)]
  have hm : min 16 d = d := min_eq_right (by omega)
  rw [hm]
  have e2 : toSizeT 2 = 2 := by decide
  have ed : toSizeT d = (d + 18446744073709551616).toNat := by
    unfold toSizeT
    norm_num
    omega
  rw [e2, ed]
  unfold toInt32 divide_up
  norm_num
  split_ifs <;> omega

/-- With a processed cryptomatte output and a negative stored depth,
`updateOutputs` publishes a depth that is not positive. -/
theorem updateOutputs_cryptomatteDepth_of_neg (s : OutputState) (b : Bool)
    (hrun : (s.m_outputsChanged || b) = true)
    (h : ∃ o ∈ s.m_outputs, isCryptoOutput s.m_renderType o.2 = true)
    (hlo : -2 ^ 31 ≤ s.m_cryptomatteDepth) (hd : s.m_cryptomatteDepth < 0) :
    (updateOutputs s b).film.cryptomatte_depth ≤ 0 := by
  unfold updateOutputs
  simp only [hrun, Bool.not_true, Bool.false_eq_true, if_false]
  exact cryptomatteDepth_neg _ _ (outputLoop_crypto_present s h) hlo hd

theorem specCryptomatteDepth_neg_one : specCryptomatteDepth (-1) = 1 := by
  have h : Int.ceil ((-1 : ℚ) / 2) = 0 := by
    rw [Int.ceil_eq_iff]; norm_num
  unfold specCryptomatteDepth
  have hm : (min 16 (-1) : Int) = -1 := by decide
  rw [hm]
  push_cast
  rw [h]
  decide

/-- C1 (failing input).  With an object cryptomatte output processed and the
stored `ccl:film:cryptomatte_depth` equal to `-1`, `updateOutputs` publishes
film cryptomatte depth `0` and creates no sub-pass, where the claimed
`max(1, ceil(min(16, -1) / 2))` is `1`; the stored depths 0, 5 and 20 do give
1, 3 and 8. -/
theorem updateOutputs_cryptomatteDepth_negative :
    (updateOutputs (cryptoObjectState (-1)) false).film.cryptomatte_depth = 0 ∧
    (updateOutputs (cryptoObjectState (-1)) false).film.cryptomatte_passes = CRYPT_ACCURATE ||| CRYPT_OBJECT ∧
    (updateOutputs (cryptoObjectState (-1)) false).passes = [] ∧
    specCryptomatteDepth (-1) = 1 ∧
    (updateOutputs (cryptoObjectState 0) false).film.cryptomatte_depth = 1 ∧
    (updateOutputs (cryptoObjectState 5) false).film.cryptomatte_depth = 3 ∧
    (updateOutputs (cryptoObjectState 20) false).film.cryptomatte_depth = 8 :=
  ⟨by decide, by decide, by decide, specCryptomatteDepth_neg_one, by decide, by decide, by decide⟩

theorem outputStep_no_crypto (rt : RenderType) (acc : OutputLoop) (o : String × CyclesOutput)
    (ho : isCryptoOutput rt o.2 = false)
    (hp : ∀ p ∈ acc.passes, p.type ≠ PassType.PASS_CRYPTOMATTE) :
    (outputStep rt acc o).crypto = acc.crypto ∧
      ∀ p ∈ (outputStep rt acc o).passes, p.type ≠ PassType.PASS_CRYPTOMATTE := by
  unfold outputStep
  by_cases hproc : processed rt o.2 = true
  · by_cases ht : o.2.m_passType = PassType.PASS_CRYPTOMATTE
    · have hd : ¬ (o.2.m_data = "cryptomatte_asset") ∧ ¬ (o.2.m_data = "cryptomatte_object") ∧
          ¬ (o.2.m_data = "cryptomatte_material") := by
        simp only [isCryptoOutput, hproc, ht, beq_self_eq_true, Bool.and_self, Bool.true_and,
          Bool.or_eq_false_iff, beq_eq_false_iff_ne, ne_eq] at ho
        tauto
      simp only [hproc, ht, Bool.not_true, Bool.false_eq_true, if_false, if_true, hd.1, hd.2.1,
        hd.2.2]
      exact ⟨by first | rfl | trivial, hp⟩
    · simp only [hproc, ht, Bool.not_true, Bool.false_eq_true, if_false]
      refine ⟨by first | rfl | trivial, fun p hpm => ?_⟩
      rcases List.mem_append.mp hpm with h | h
      · exact hp p h
      · simp only [List.mem_singleton] at h
        subst h
        exact ht
  · have hf : processed rt o.2 = false := by simpa using hproc
    simp only [hf, Bool.not_false, if_true]
    exact ⟨by first | rfl | trivial, hp⟩

theorem foldl_outputStep_no_crypto (rt : RenderType) (outs : List (String × CyclesOutput))
    (ho : ∀ o ∈ outs, isCryptoOutput rt o.2 = false) :
    ∀ acc : OutputLoop, (∀ p ∈ acc.passes, p.type ≠ PassType.PASS_CRYPTOMATTE) →
      (outs.foldl (outputStep rt) acc).crypto = acc.crypto ∧
      ∀ p ∈ (outs.foldl (outputStep rt) acc).passes, p.type ≠ PassType.PASS_CRYPTOMATTE := by
  induction outs with
  | nil => intro acc hp; exact ⟨rfl, hp⟩
  | cons o rest ih =>
    intro acc hp
    obtain ⟨h1, h2⟩ := outputStep_no_crypto rt acc o (ho o (List.mem_cons_self _ _)) hp
    obtain ⟨h3, h4⟩ := ih (fun x hx => ho x (List.mem_cons_of_mem _ hx)) (outputStep rt acc o) h2
    exact ⟨by simpa [h1] using h3, by simpa using h4⟩

/-- C2.  When no processed output selects a cryptomatte family, then for every
stored depth and either value of `m_cryptomatteAccurate` a run of
`updateOutputs` that rebuilds the passes publishes film cryptomatte depth `0`
and leaves no pass of type `PASS_CRYPTOMATTE` in the pass list; a run that
returns early (outputs and buffer unchanged) changes nothing. -/
theorem updateOutputs_no_crypto (s : OutputState) (b : Bool)
    (h : ∀ o ∈ s.m_outputs, isCryptoOutput s.m_renderType o.2 = false) :
    ((s.m_outputsChanged || b) = true →
      (updateOutputs s b).film.cryptomatte_depth = 0 ∧
      (∀ p ∈ (updateOutputs s b).passes, p.type ≠ PassType.PASS_CRYPTOMATTE) ∧
      (updateOutputs s b).film.cryptomatte_passes =
        (if s.m_cryptomatteAccurate then CRYPT_ACCURATE else CRYPT_NONE)) ∧
    ((s.m_outputsChanged || b) = false → updateOutputs s b = s) := by
  constructor
  · intro hrun
    obtain ⟨hc, hp⟩ := foldl_outputStep_no_crypto s.m_renderType s.m_outputs h
      { crypto := if s.m_cryptomatteAccurate then CRYPT_NONE ||| CRYPT_ACCURATE else CRYPT_NONE }
      (by simp)
    have hc2 : (outputLoop s).crypto =
        if s.m_cryptomatteAccurate then CRYPT_NONE ||| CRYPT_ACCURATE else CRYPT_NONE := hc
    have hp2 : ∀ p ∈ (outputLoop s).passes, p.type ≠ PassType.PASS_CRYPTOMATTE := hp
    have hobj : ((outputLoop s).crypto &&& CRYPT_OBJECT != 0) = false := by
      rw [hc2]; cases s.m_cryptomatteAccurate <;> decide
    have hmat : ((outputLoop s).crypto &&& CRYPT_MATERIAL != 0) = false := by
      rw [hc2]; cases s.m_cryptomatteAccurate <;> decide
    have hass : ((outputLoop s).crypto &&& CRYPT_ASSET != 0) = false := by
      rw [hc2]; cases s.m_cryptomatteAccurate <;> decide
    have hdepth : cryptomatteDepth (outputLoop s).crypto s.m_cryptomatteDepth = 0 := by
      unfold cryptomatteDepth
      rw [hc2]
      cases s.m_cryptomatteAccurate <;> simp
    unfold updateOutputs
    simp only [hrun, Bool.not_true, Bool.false_eq_true, if_false, hobj, hmat, hass,
      addCryptoPasses, hdepth]
    refine ⟨trivial, hp2, ?_⟩
    rw [hc2]
    cases s.m_cryptomatteAccurate <;> decide
  · intro hno
    unfold updateOutputs
    simp [hno]

/-- C2 (witness).  A batch renderer with one `rgba` output, accurate mode on
and stored depth 6. -/
theorem updateOutputs_no_crypto_witness :
    (updateOutputs rgbaOnlyState false).film.cryptomatte_depth = 0 :=
  ((updateOutputs_no_crypto rgbaOnlyState false (by decide)).1 (by decide)).1

/-! ## The concurrent hash map -/

theorem HashMap.eq_of_key_eq {V : Type} (m : HashMap V) {e1 e2 : MurmurHash × V}
    (h1 : e1 ∈ m.slots) (h2 : e2 ∈ m.slots) (hk : e1.1 = e2.1) : e1 = e2 :=
  List.inj_on_of_nodup_map m.nodup h1 h2 hk

theorem HashMap.eraseAll_slots {V : Type} (keys : List MurmurHash) :
    ∀ m : HashMap V, (m.eraseAll keys).slots = m.slots.filter (fun e => !(keys.contains e.1)) := by
  induction keys with
  | nil => intro m; simp [HashMap.eraseAll]
  | cons k rest ih =>
    intro m
    have h := ih (m.erase k)
    simp only [HashMap.eraseAll, List.foldl_cons] at h ⊢
    rw [h]
    simp only [HashMap.erase, List.filter_filter]
    apply List.filter_congr
    intro e _
    by_cases hek : e.1 = k
    · simp [hek]
    · have hke : ¬ (k = e.1) := fun h => hek h.symm
      simp [hek, hke, List.contains_cons]

/-- Erasing the keys of the slots that satisfy `p` leaves exactly the slots
that do not. -/
theorem HashMap.eraseAll_filter {V : Type} (m : HashMap V) (p : V → Bool) :
    (m.eraseAll ((m.slots.filter (fun e => p e.2)).map Prod.fst)).slots =
      m.slots.filter (fun e => !p e.2) := by
  rw [HashMap.eraseAll_slots]
  apply List.filter_congr
  intro e he
  congr 1
  by_cases hp : p e.2 = true
  · rw [hp]
    simp only [List.contains_eq_any_beq, List.any_eq_true, List.mem_map, List.mem_filter]
    exact ⟨e.1, ⟨e, ⟨he, hp⟩, rfl⟩, by simp⟩
  · have hp2 : p e.2 = false := by simpa using hp
    rw [hp2]
    simp only [List.contains_eq_any_beq, List.any_eq_false, List.mem_map, List.mem_filter]
    rintro x ⟨e2, ⟨he2, hpe2⟩, rfl⟩
    intro hbeq
    have hk : e.1 = e2.1 := by simpa using hbeq
    have := m.eq_of_key_eq he he2 hk
    subst this
    simp [hp2] at hpe2

theorem HashMap.find_eq_some_of_mem {V : Type} (m : HashMap V) {k : MurmurHash} {v : V}
    (h : (k, v) ∈ m.slots) : m.find k = some v := by
  unfold HashMap.find
  have hex : ∃ e, m.slots.find? (fun e => e.1 == k) = some e := by
    cases hf : m.slots.find? (fun e => e.1 == k) with
    | some e => exact ⟨e, rfl⟩
    | none =>
      have := List.find?_eq_none.mp hf (k, v) h
      simp at this
  obtain ⟨e, he⟩ := hex
  have hmem := List.mem_of_find?_eq_some he
  have hk : e.1 = k := by simpa using List.find?_some he
  have := m.eq_of_key_eq hmem h hk
  subst this
  rw [he]; rfl

theorem HashMap.mem_of_find_eq_some {V : Type} (m : HashMap V) {k : MurmurHash} {v : V}
    (h : m.find k = some v) : (k, v) ∈ m.slots := by
  unfold HashMap.find at h
  cases hf : m.slots.find? (fun e => e.1 == k) with
  | none => simp [hf] at h
  | some e =>
    rw [hf] at h
    have hmem := List.mem_of_find?_eq_some hf
    have hk : e.1 = k := by simpa using List.find?_some hf
    have hv : e.2 = v := by simpa using h
    have : e = (k, v) := Prod.ext hk hv
    rw [← this]; exact hmem

theorem HashMap.mem_set_self {V : Type} (m : HashMap V) (k : MurmurHash) (v : V) :
    (k, v) ∈ (m.set k v).slots := by
  unfold HashMap.set
  split
  · next h =>
    obtain ⟨e, he, hek⟩ := List.any_eq_true.mp h
    simp only [List.mem_map]
    exact ⟨e, he, by simp [hek]⟩
  · simp

theorem HashMap.find_set_self {V : Type} (m : HashMap V) (k : MurmurHash) (v : V) :
    (m.set k v).find k = some v :=
  (m.set k v).find_eq_some_of_mem (m.mem_set_self k v)

/-- A key that has a slot has exactly one. -/
theorem HashMap.count_eq_one_of_mem {V : Type} (m : HashMap V) {k : MurmurHash} {v : V}
    (h : (k, v) ∈ m.slots) : m.count k = 1 := by
  unfold HashMap.count
  have hnd : (m.slots.filter (fun e => e.1 == k)).Nodup :=
    (List.Nodup.of_map Prod.fst m.nodup).filter _
  have hall : ∀ e ∈ m.slots.filter (fun e => e.1 == k), e = (k, v) := by
    intro e he
    obtain ⟨hmem, hk⟩ := List.mem_filter.mp he
    exact m.eq_of_key_eq hmem h (by simpa using hk)
  have hin : (k, v) ∈ m.slots.filter (fun e => e.1 == k) :=
    List.mem_filter.mpr ⟨h, by simp⟩
  have hsub : m.slots.filter (fun e => e.1 == k) = [(k, v)] := by
    cases hl : m.slots.filter (fun e => e.1 == k) with
    | nil => rw [hl] at hin; simp at hin
    | cons a rest =>
      rw [hl] at hall hnd
      have ha : a = (k, v) := hall a (List.mem_cons_self _ _)
      cases rest with
      | nil => rw [ha]
      | cons b rest2 =>
        have hb : b = (k, v) := hall b (by simp)
        rw [ha, hb] at hnd
        simp at hnd
  rw [hsub]; rfl

theorem HashMap.count_set_self {V : Type} (m : HashMap V) (k : MurmurHash) (v : V) :
    (m.set k v).count k = 1 :=
  (m.set k v).count_eq_one_of_mem (m.mem_set_self k v)

/-! ## ShaderCache::clearUnused (C8) -/

/-- C8.  `ShaderCache::clearUnused` removes exactly the slots whose shared
pointer is unique (use count 1) and keeps every other slot unchanged and in
order; the update flags gain `SHADER_MODIFIED` when a slot was removed, stay
as they were when none was, and no flag bit is ever cleared. -/
theorem ShaderCache.clearUnused_spec (k : UpdateFlags) (c : ShaderCache) :
    (c.clearUnused k).m_cache.slots = c.m_cache.slots.filter (fun e => !e.2.unique) ∧
    (c.clearUnused k).m_updateFlags =
      (if ∃ e ∈ c.m_cache.slots, e.2.useCount = 1 then c.m_updateFlags ||| k.SHADER_MODIFIED
       else c.m_updateFlags) ∧
    (c.clearUnused k).m_updateFlags &&& c.m_updateFlags = c.m_updateFlags ∧
    (c.clearUnused k).m_numDefaultShaders = c.m_numDefaultShaders ∧
    (c.clearUnused k).m_shaderAssignPairs = c.m_shaderAssignPairs := by
  have hflags : (c.clearUnused k).m_updateFlags =
      (if ∃ e ∈ c.m_cache.slots, e.2.useCount = 1 then c.m_updateFlags ||| k.SHADER_MODIFIED
       else c.m_updateFlags) := by
    have hiff : ((c.m_cache.slots.filter (fun e => e.2.unique)).map Prod.fst).length ≠ 0 ↔
        ∃ e ∈ c.m_cache.slots, e.2.useCount = 1 := by
      rw [List.length_map]
      constructor
      · intro hne
        cases hl : c.m_cache.slots.filter (fun e => e.2.unique) with
        | nil => rw [hl] at hne; simp at hne
        | cons e rest =>
          have he : e ∈ c.m_cache.slots.filter (fun e => e.2.unique) := by
            rw [hl]; exact List.mem_cons_self _ _
          obtain ⟨hm, hu⟩ := List.mem_filter.mp he
          exact ⟨e, hm, by simpa [SharedPtr.unique] using hu⟩
      · rintro ⟨e, hm, hu⟩ hlen
        have he : e ∈ c.m_cache.slots.filter (fun e => e.2.unique) :=
          List.mem_filter.mpr ⟨hm, by simpa [SharedPtr.unique] using hu⟩
        rw [List.length_eq_zero.mp hlen] at he
        simp at he
    show (if ((c.m_cache.slots.filter (fun e => e.2.unique)).map Prod.fst).length ≠ 0
      then c.m_updateFlags ||| k.SHADER_MODIFIED else c.m_updateFlags) = _
    by_cases h : ∃ e ∈ c.m_cache.slots, e.2.useCount = 1
    · rw [if_pos h, if_pos (hiff.mpr h)]
    · rw [if_neg h, if_neg (fun hh => h (hiff.mp hh))]
  refine ⟨?_, hflags, ?_, rfl, rfl⟩
  · exact HashMap.eraseAll_filter c.m_cache SharedPtr.unique
  · rw [hflags]
    split_ifs
    · apply Nat.eq_of_testBit_eq
      intro i
      simp only [Nat.testBit_and, Nat.testBit_or]
      cases c.m_updateFlags.testBit i <;> simp
    · exact Nat.and_self _

/-! ## ShaderCache::update (C9, C10) -/

theorem applyShaderAssignment_scene (acc : Scene × Heap) (p : ShaderAssignPair) :
    (applyShaderAssignment acc p).1.shaders = acc.1.shaders ∧
    (applyShaderAssignment acc p).1.lights = acc.1.lights ∧
    (applyShaderAssignment acc p).1.shader_manager_flags = acc.1.shader_manager_flags := by
  unfold applyShaderAssignment
  cases p.kind <;> exact ⟨rfl, rfl, rfl⟩

theorem foldl_applyShaderAssignment_scene (pairs : List ShaderAssignPair) :
    ∀ acc : Scene × Heap,
      (pairs.foldl applyShaderAssignment acc).1.shaders = acc.1.shaders ∧
      (pairs.foldl applyShaderAssignment acc).1.lights = acc.1.lights ∧
      (pairs.foldl applyShaderAssignment acc).1.shader_manager_flags =
        acc.1.shader_manager_flags := by
  induction pairs with
  | nil => intro acc; exact ⟨rfl, rfl, rfl⟩
  | cons p rest ih =>
    intro acc
    obtain ⟨h1, h2, h3⟩ := ih (applyShaderAssignment acc p)
    obtain ⟨g1, g2, g3⟩ := applyShaderAssignment_scene acc p
    simp only [List.foldl_cons]
    exact ⟨h1.trans g1, h2.trans g2, h3.trans g3⟩

theorem ShaderCache.assignShaders_scene (c : ShaderCache) (scene : Scene) (heap : Heap) :
    (c.assignShaders scene heap).1.shaders = scene.shaders ∧
    (c.assignShaders scene heap).1.lights = scene.lights ∧
    (c.assignShaders scene heap).1.shader_manager_flags = scene.shader_manager_flags := by
  unfold ShaderCache.assignShaders
  obtain ⟨h1, h2, h3⟩ := foldl_applyShaderAssignment_scene c.m_shaderAssignPairs
    (if c.m_shaderAssignPairs.length ≠ 0 then
      { scene with
        light_manager_flags := scene.light_manager_flags ||| UPDATE_ALL
        geometry_manager_flags := scene.geometry_manager_flags ||| UPDATE_ALL
        calls := scene.calls ++
          [EngineCall.tagLightManager UPDATE_ALL, EngineCall.tagGeometryManager UPDATE_ALL] }
     else scene, heap)
  refine ⟨h1.trans ?_, h2.trans ?_, h3.trans ?_⟩ <;> split_ifs <;> rfl

theorem ShaderCache.assignShaders_nil (c : ShaderCache) (scene : Scene) (heap : Heap)
    (h : c.m_shaderAssignPairs = []) : c.assignShaders scene heap = (scene, heap) := by
  simp [ShaderCache.assignShaders, h]

theorem foldl_environmentRotation (k : UpdateFlags) (heap : Heap) (lights : List Nat) :
    ∀ scene : Scene,
      (lights.foldl (environmentRotation k heap) scene).shaders = scene.shaders ∧
      (lights.foldl (environmentRotation k heap) scene).lights = scene.lights ∧
      (lights.foldl (environmentRotation k heap) scene).shader_manager_flags =
        (if lights.any (environmentTagged heap) then
          scene.shader_manager_flags ||| k.SHADER_MODIFIED
         else scene.shader_manager_flags) := by
  induction lights with
  | nil => intro scene; exact ⟨rfl, rfl, by simp⟩
  | cons l rest ih =>
    intro scene
    obtain ⟨h1, h2, h3⟩ := ih (environmentRotation k heap scene l)
    simp only [List.foldl_cons, List.any_cons]
    refine ⟨h1.trans ?_, h2.trans ?_, h3.trans ?_⟩
    · unfold environmentRotation; split_ifs <;> rfl
    · unfold environmentRotation; split_ifs <;> rfl
    · unfold environmentRotation
      by_cases ht : environmentTagged heap l = true
      · simp only [ht, if_true, Bool.true_or, Scene.shaderTagUpdate]
        split_ifs
        · rw [Nat.or_assoc, Nat.or_self]
        · rfl
      · have hf : environmentTagged heap l = false := by simpa using ht
        simp [hf]

theorem rotateEnvironments_spec (k : UpdateFlags) (scene : Scene) (heap : Heap) :
    (rotateEnvironments k scene heap).shaders = scene.shaders ∧
    (rotateEnvironments k scene heap).lights = scene.lights ∧
    (rotateEnvironments k scene heap).shader_manager_flags =
      (if scene.lights.any (environmentTagged heap) then
        scene.shader_manager_flags ||| k.SHADER_MODIFIED
       else scene.shader_manager_flags) :=
  foldl_environmentRotation k heap scene.lights scene

/-- What `updateShaders` leaves: the queue is empty, the flags are none, the
slots are untouched, and the engine's shader list is either untouched (early
return) or the built-in entries followed by the non-null slots. -/
theorem ShaderCache.updateShaders_spec (k : UpdateFlags) (c : ShaderCache) (scene : Scene)
    (heap : Heap) :
    (c.updateShaders k scene heap).1.m_cache = c.m_cache ∧
    (c.updateShaders k scene heap).1.m_numDefaultShaders = c.m_numDefaultShaders ∧
    (c.updateShaders k scene heap).1.m_shaderAssignPairs = [] ∧
    (c.updateShaders k scene heap).1.m_updateFlags = UPDATE_NONE ∧
    (c.updateShaders k scene heap).2.2 = (c.assignShaders scene heap).2 ∧
    (c.updateShaders k scene heap).2.1.lights = scene.lights ∧
    (c.updateShaders k scene heap).2.1.shader_manager_flags =
      (if scene.lights.any (environmentTagged (c.assignShaders scene heap).2) then
        scene.shader_manager_flags ||| k.SHADER_MODIFIED
       else scene.shader_manager_flags) ||| c.m_updateFlags ∧
    (c.updateShaders k scene heap).2.1.shaders =
      (if (if scene.lights.any (environmentTagged (c.assignShaders scene heap).2) then
            scene.shader_manager_flags ||| k.SHADER_MODIFIED
           else scene.shader_manager_flags) = UPDATE_NONE ∧ c.m_updateFlags = UPDATE_NONE
       then scene.shaders
       else resize scene.shaders c.m_numDefaultShaders ++
        (c.m_cache.values.filter (fun p => !p.isNull)).map SharedPtr.ptr) := by
  obtain ⟨a1, a2, a3⟩ := c.assignShaders_scene scene heap
  obtain ⟨r1, r2, r3⟩ := rotateEnvironments_spec k (c.assignShaders scene heap).1
    (c.assignShaders scene heap).2
  rw [a2, a3] at r3
  rw [a1] at r1
  rw [a2] at r2
  generalize (if scene.lights.any (environmentTagged (c.assignShaders scene heap).2) then
      scene.shader_manager_flags ||| k.SHADER_MODIFIED
    else scene.shader_manager_flags) = f2 at r3 ⊢
  unfold ShaderCache.updateShaders
  simp only [r3]
  by_cases h : f2 = UPDATE_NONE ∧ c.m_updateFlags = UPDATE_NONE
  · rw [if_pos h, if_pos h]
    refine ⟨rfl, rfl, rfl, h.2, rfl, r2, ?_, r1⟩
    simp only [r3, h.2, UPDATE_NONE, Nat.or_zero]
  · rw [if_neg h, if_neg h]
    refine ⟨rfl, rfl, rfl, rfl, rfl, r2, ?_, ?_⟩
    · simp only [r3]
    · simp only [r1]

theorem resize_of_le (l : List Nat) (n : Nat) (h : n ≤ l.length) : resize l n = l.take n := by
  simp [resize, Nat.sub_eq_zero_of_le h]

theorem length_resize (l : List Nat) (n : Nat) : (resize l n).length = n := by
  simp only [resize, List.length_append, List.length_take, List.length_replicate]
  omega

theorem resize_resize_append (l x : List Nat) (n : Nat) :
    resize (resize l n ++ x) n = resize l n := by
  have hlen := length_resize l n
  have h1 : (resize l n ++ x).take n = resize l n := by
    rw [List.take_append_of_le_length (by omega)]
    exact List.take_of_length_le (by omega)
  have h2 : n - (resize l n ++ x).length = 0 := by
    rw [List.length_append]; omega
  have hdef : resize (resize l n ++ x) n =
      (resize l n ++ x).take n ++ List.replicate (n - (resize l n ++ x).length) 0 := rfl
  rw [hdef, h1, h2]
  simp

/-- C9.  With at least `m_numDefaultShaders` entries in the engine's shader
list, `update( scene, force = true )` leaves the engine's shader list equal to
its first `m_numDefaultShaders` entries, unchanged and in order, followed by
the pointer of every non-null cache slot once; when no slot is null (as in
every state `get` and `clearUnused` produce) that is every cache slot, and the
length is `m_numDefaultShaders` plus the number of slots.  Running the forced
update again gives the same list. -/
theorem ShaderCache.update_force_shaders (k : UpdateFlags) (c : ShaderCache) (scene : Scene)
    (heap : Heap) (hlen : c.m_numDefaultShaders ≤ scene.shaders.length) :
    (c.update k scene heap true).2.1.shaders =
      scene.shaders.take c.m_numDefaultShaders ++
        (c.m_cache.values.filter (fun p => !p.isNull)).map SharedPtr.ptr ∧
    ((∀ p ∈ c.m_cache.values, p.isNull = false) →
      (c.update k scene heap true).2.1.shaders =
        scene.shaders.take c.m_numDefaultShaders ++ c.m_cache.values.map SharedPtr.ptr ∧
      (c.update k scene heap true).2.1.shaders.length =
        c.m_numDefaultShaders + c.m_cache.size) ∧
    (c.update k scene heap true).1.m_cache = c.m_cache ∧
    (c.update k scene heap true).1.m_numDefaultShaders = c.m_numDefaultShaders ∧
    (((c.update k scene heap true).1).update k (c.update k scene heap true).2.1
        (c.update k scene heap true).2.2 true).2.1.shaders =
      (c.update k scene heap true).2.1.shaders := by
  have hfilter : ∀ m : HashMap SharedPtr, (∀ p ∈ m.values, p.isNull = false) →
      (m.values.filter (fun p => !p.isNull)) = m.values := by
    intro m hm
    apply List.filter_eq_self.mpr
    intro p hp
    simp [hm p hp]
  have hall : UPDATE_ALL ≠ UPDATE_NONE := by decide
  have key : ∀ (c0 : ShaderCache) (sc : Scene) (hp : Heap),
      (c0.update k sc hp true).2.1.shaders = resize sc.shaders c0.m_numDefaultShaders ++
        (c0.m_cache.values.filter (fun p => !p.isNull)).map SharedPtr.ptr ∧
      (c0.update k sc hp true).1.m_cache = c0.m_cache ∧
      (c0.update k sc hp true).1.m_numDefaultShaders = c0.m_numDefaultShaders := by
    intro c0 sc hp
    obtain ⟨s1, s2, _, _, _, _, _, s8⟩ :=
      ShaderCache.updateShaders_spec k { c0 with m_updateFlags := UPDATE_ALL } sc hp
    simp only [ShaderCache.update, if_true]
    refine ⟨?_, s1, s2⟩
    rw [s8, if_neg (fun h => hall h.2)]
  obtain ⟨k1, k2, k3⟩ := key c scene heap
  obtain ⟨j1, _, _⟩ := key (c.update k scene heap true).1 (c.update k scene heap true).2.1
    (c.update k scene heap true).2.2
  have hsh : (c.update k scene heap true).2.1.shaders =
      scene.shaders.take c.m_numDefaultShaders ++
        (c.m_cache.values.filter (fun p => !p.isNull)).map SharedPtr.ptr := by
    rw [k1, resize_of_le _ _ hlen]
  refine ⟨hsh, ?_, k2, k3, ?_⟩
  · intro hnn
    have hsh2 : (c.update k scene heap true).2.1.shaders =
        scene.shaders.take c.m_numDefaultShaders ++ c.m_cache.values.map SharedPtr.ptr := by
      rw [hsh, hfilter c.m_cache hnn]
    refine ⟨hsh2, ?_⟩
    rw [hsh2, List.length_append, List.length_take, List.length_map, HashMap.values,
      List.length_map, HashMap.size, Nat.min_eq_left hlen]
  · rw [j1, k2, k3, k1, resize_resize_append]

theorem InstanceCache.instanceUpdate_flags (k : UpdateFlags) (c : InstanceCache) (scene : Scene)
    (force : Bool) :
    (c.update k scene force).1.m_objUpdateFlags = UPDATE_NONE ∧
    (c.update k scene force).1.m_geoUpdateFlags = UPDATE_NONE := by
  have hobj : ∀ (c0 : InstanceCache) (sc : Scene),
      (c0.updateObjects k sc).1.m_objUpdateFlags = UPDATE_NONE ∧
      (c0.updateObjects k sc).1.m_geoUpdateFlags = c0.m_geoUpdateFlags := by
    intro c0 sc
    unfold InstanceCache.updateObjects
    split_ifs with h <;> first | exact ⟨h, rfl⟩ | exact ⟨rfl, rfl⟩
  have hgeo : ∀ (c0 : InstanceCache) (sc : Scene),
      (c0.updateGeometry k sc).1.m_geoUpdateFlags = UPDATE_NONE ∧
      (c0.updateGeometry k sc).1.m_objUpdateFlags = c0.m_objUpdateFlags := by
    intro c0 sc
    unfold InstanceCache.updateGeometry
    split_ifs with h <;> first | exact ⟨h, rfl⟩ | exact ⟨rfl, rfl⟩
  unfold InstanceCache.update
  simp only
  constructor
  · rw [(hgeo _ _).2]; exact (hobj _ _).1
  · exact (hgeo _ _).1

theorem InstanceCache.instanceUpdate_of_none (k : UpdateFlags) (c : InstanceCache) (scene : Scene)
    (h1 : c.m_objUpdateFlags = UPDATE_NONE) (h2 : c.m_geoUpdateFlags = UPDATE_NONE) :
    c.update k scene false = (c, scene) := by
  simp [InstanceCache.update, InstanceCache.updateObjects, InstanceCache.updateGeometry, h1, h2]

theorem LightCache.lightUpdate_flags (c : LightCache) (scene : Scene) (force : Bool) :
    (c.update scene force).1.m_updateFlags = UPDATE_NONE := by
  have hl : ∀ c0 : LightCache, (c0.updateLights scene).1.m_updateFlags = UPDATE_NONE := by
    intro c0
    unfold LightCache.updateLights
    split_ifs with h
    · exact h
    · rfl
  exact hl _

theorem ite_eq_of_else_eq {α : Type} {P : Prop} [Decidable P] {a b : α} (h : b = a) :
    (if P then a else b) = a := by
  by_cases hp : P
  · rw [if_pos hp]
  · rw [if_neg hp, h]

theorem or_eq_zero_right (a m : Nat) (h : a ||| m = 0) : m = 0 := by
  apply Nat.eq_of_testBit_eq
  intro i
  have hi : (a ||| m).testBit i = false := by rw [h]; exact Nat.zero_testBit i
  rw [Nat.testBit_or] at hi
  rw [Nat.zero_testBit]
  cases hm : m.testBit i with
  | false => rfl
  | true => rw [hm] at hi; simp at hi

theorem LightCache.lightUpdate_of_none (c : LightCache) (scene : Scene)
    (h : c.m_updateFlags = UPDATE_NONE) : c.update scene false = (c, scene) := by
  simp [LightCache.update, LightCache.updateLights, h]

/-- C10.  For the three caches with a publish step, a second
`update( scene, force = false )` right after a first one leaves the engine's
published lists as the first call left them (for `InstanceCache` and
`LightCache` the second call changes nothing at all, for `ShaderCache` the
shader list is rebuilt to the same list or left alone), and the cache's update
flags are `UPDATE_NONE` after each call. -/
theorem update_twice_idempotent (k : UpdateFlags) :
    (∀ (c : InstanceCache) (scene : Scene),
      ((c.update k scene false).1.update k (c.update k scene false).2 false).2 =
        (c.update k scene false).2 ∧
      (c.update k scene false).1.m_objUpdateFlags = UPDATE_NONE ∧
      (c.update k scene false).1.m_geoUpdateFlags = UPDATE_NONE ∧
      ((c.update k scene false).1.update k (c.update k scene false).2 false).1.m_objUpdateFlags
        = UPDATE_NONE ∧
      ((c.update k scene false).1.update k (c.update k scene false).2 false).1.m_geoUpdateFlags
        = UPDATE_NONE) ∧
    (∀ (c : LightCache) (scene : Scene),
      ((c.update scene false).1.update (c.update scene false).2 false).2 =
        (c.update scene false).2 ∧
      (c.update scene false).1.m_updateFlags = UPDATE_NONE ∧
      ((c.update scene false).1.update (c.update scene false).2 false).1.m_updateFlags
        = UPDATE_NONE) ∧
    (∀ (c : ShaderCache) (scene : Scene) (heap : Heap),
      ((c.update k scene heap false).1.update k (c.update k scene heap false).2.1
          (c.update k scene heap false).2.2 false).2.1.shaders =
        (c.update k scene heap false).2.1.shaders ∧
      (c.update k scene heap false).1.m_updateFlags = UPDATE_NONE ∧
      ((c.update k scene heap false).1.update k (c.update k scene heap false).2.1
          (c.update k scene heap false).2.2 false).1.m_updateFlags = UPDATE_NONE) := by
  refine ⟨?_, ?_, ?_⟩
  · intro c scene
    obtain ⟨h1, h2⟩ := InstanceCache.instanceUpdate_flags k c scene false
    have h := InstanceCache.instanceUpdate_of_none k (c.update k scene false).1
      (c.update k scene false).2 h1 h2
    rw [h]
    exact ⟨rfl, h1, h2, h1, h2⟩
  · intro c scene
    have h1 := LightCache.lightUpdate_flags c scene false
    have h := LightCache.lightUpdate_of_none (c.update scene false).1 (c.update scene false).2 h1
    rw [h]
    exact ⟨rfl, h1, h1⟩
  · intro c scene heap
    have hupd : ∀ (c0 : ShaderCache) (sc : Scene) (hp : Heap),
        c0.update k sc hp false = c0.updateShaders k sc hp := by
      intro c0 sc hp; simp [ShaderCache.update]
    rw [hupd c scene heap]
    obtain ⟨s1, s2, s3, s4, s5, s6, s7, s8⟩ := c.updateShaders_spec k scene heap
    rw [hupd]
    rcases hr : c.updateShaders k scene heap with ⟨c1, sc1, hp1⟩
    rw [hr] at s1 s2 s3 s4 s5 s6 s7 s8
    simp only at s1 s2 s3 s4 s5 s6 s7 s8 ⊢
    obtain ⟨t1, t2, t3, t4, t5, t6, t7, t8⟩ := c1.updateShaders_spec k sc1 hp1
    refine ⟨?_, s4, t4⟩
    have hnil := ShaderCache.assignShaders_nil c1 sc1 hp1 s3
    have hb : sc1.lights.any (environmentTagged (c1.assignShaders sc1 hp1).2) =
        scene.lights.any (environmentTagged (c.assignShaders scene heap).2) := by
      rw [hnil, s6, s5]
    rw [hb, s7, s4, s1, s2] at t8
    generalize scene.lights.any (environmentTagged (c.assignShaders scene heap).2) = b at s7 s8 t8
    rw [t8]
    by_cases hfirst : (if b = true then scene.shader_manager_flags ||| k.SHADER_MODIFIED
        else scene.shader_manager_flags) = UPDATE_NONE ∧ c.m_updateFlags = UPDATE_NONE
    · -- the first call returned early, and so does the second
      obtain ⟨hf, hc⟩ := hfirst
      have hz : (if b = true then
          ((if b = true then scene.shader_manager_flags ||| k.SHADER_MODIFIED
            else scene.shader_manager_flags) ||| c.m_updateFlags) ||| k.SHADER_MODIFIED
          else (if b = true then scene.shader_manager_flags ||| k.SHADER_MODIFIED
            else scene.shader_manager_flags) ||| c.m_updateFlags) = UPDATE_NONE := by
        cases b with
        | false => simpa [hc, UPDATE_NONE] using hf
        | true =>
          simp only [if_true] at hf ⊢
          have hm : k.SHADER_MODIFIED = 0 := or_eq_zero_right _ _ hf
          rw [hf, hc, hm]
          rfl
      rw [if_pos ⟨hz, rfl⟩]
    · apply ite_eq_of_else_eq
      rw [s8, if_neg hfirst, resize_resize_append]

/-! ## InstanceCache::get (C3) -/

theorem ParticleSystemsCache.getByHash_heap (ps : ParticleSystemsCache) (scene : Scene)
    (heap : Heap) (hash : MurmurHash) :
    (ps.getByHash scene heap hash).heap.shaders = heap.shaders ∧
    (ps.getByHash scene heap hash).heap.objects = heap.objects ∧
    heap.nextAddr ≤ (ps.getByHash scene heap hash).heap.nextAddr := by
  unfold ParticleSystemsCache.getByHash
  simp only [Heap.alloc]
  split_ifs
  · exact ⟨rfl, rfl, Nat.le_succ _⟩
  · exact ⟨rfl, rfl, le_refl _⟩

theorem linkParticleSystem_heap (attributes : CyclesAttributes) (ps : ParticleSystemsCache)
    (scene : Scene) (heap : Heap) (hash : MurmurHash) (cobject : Nat) :
    (linkParticleSystem attributes ps scene heap hash cobject).heap.shaders = heap.shaders ∧
    ∀ n, n ≤ heap.nextAddr →
      n ≤ (linkParticleSystem attributes ps scene heap hash cobject).heap.nextAddr := by
  unfold linkParticleSystem
  obtain ⟨h1, _, h3⟩ := ps.getByHash_heap scene heap hash
  split_ifs
  · exact ⟨h1, fun n hn => le_trans hn h3⟩
  · exact ⟨rfl, fun n hn => hn⟩

theorem convertObject_spec (heap : Heap) (object : IECoreObject) (nodeName : String) :
    (convertObject heap object nodeName).1 = heap.nextAddr + 2 ∧
    (convertObject heap object nodeName).2.1 = heap.nextAddr + 1 ∧
    (convertObject heap object nodeName).2.2.nextAddr = heap.nextAddr + 2 ∧
    (convertObject heap object nodeName).2.2.shaders = heap.shaders := by
  simp [convertObject, convert, Heap.alloc]

theorem computeTangents_heap (heap : Heap) (geo : Nat) (object : IECoreObject)
    (tangent needsign : Bool) :
    (computeTangents heap geo object tangent needsign).nextAddr = heap.nextAddr ∧
    (computeTangents heap geo object tangent needsign).shaders = heap.shaders := by
  unfold computeTangents
  split_ifs <;> exact ⟨rfl, rfl⟩

theorem CyclesAttributes.hashGeometry_congr (a : CyclesAttributes) (heap1 heap2 : Heap)
    (object : IECoreObject) (h : MurmurHash) (hs : heap1.shaders = heap2.shaders) :
    a.hashGeometry heap1 object h = a.hashGeometry heap2 object h := by
  simp only [CyclesAttributes.hashGeometry, CyclesAttributes.needTangents,
    CyclesAttributes.needTangentSign, hs]

theorem SharedPtr.copied_ptr (p : SharedPtr) : p.copied.ptr = p.ptr := by
  unfold SharedPtr.copied
  split_ifs <;> rfl

/-- What a `get` on an instanceable object leaves: one new object slot
appended to the object list, a non-null slot for the fingerprint whose pointer
is the returned geometry handle, and a freshly allocated object handle. -/
theorem InstanceCache.getWithHash_instanced (k : UpdateFlags) (c : InstanceCache)
    (ps : ParticleSystemsCache) (scene : Scene) (heap : Heap) (front : IECoreObject)
    (attributes : CyclesAttributes) (nodeName : String) (hash uniqueId : MurmurHash)
    (hcan : attributes.canInstanceGeometry front = true) :
    (∃ s, (c.getWithHash k ps scene heap front attributes nodeName hash uniqueId).cache.m_instancedGeometry.find hash
        = some s ∧
      s.ptr = (c.getWithHash k ps scene heap front attributes nodeName hash uniqueId).instance_.m_geometry ∧
      s.ptr ≠ 0) ∧
    (c.getWithHash k ps scene heap front attributes nodeName hash uniqueId).cache.m_objects =
      c.m_objects ++
        [{ ptr := (c.getWithHash k ps scene heap front attributes nodeName hash uniqueId).instance_.m_object,
           useCount := 2 }] ∧
    heap.nextAddr <
      (c.getWithHash k ps scene heap front attributes nodeName hash uniqueId).instance_.m_object ∧
    (c.getWithHash k ps scene heap front attributes nodeName hash uniqueId).instance_.m_object ≤
      (c.getWithHash k ps scene heap front attributes nodeName hash uniqueId).heap.nextAddr ∧
    (c.getWithHash k ps scene heap front attributes nodeName hash uniqueId).heap.shaders =
      heap.shaders ∧
    (c.getWithHash k ps scene heap front attributes nodeName hash uniqueId).cache.m_instancedGeometry.count hash
      = 1 ∧
    (∀ s0, c.m_instancedGeometry.find hash = some s0 → s0.ptr ≠ 0 →
      (c.getWithHash k ps scene heap front attributes nodeName hash uniqueId).instance_.m_geometry
        = s0.ptr) := by
  unfold InstanceCache.getWithHash
  simp only [hcan, Bool.not_true, Bool.false_eq_true, if_false]
  by_cases hnull : ((c.m_instancedGeometry.find hash).getD {}).isNull = true
  · simp only [hnull, if_true]
    have co := convertObject_spec heap front nodeName
    rcases hconv : convertObject heap front nodeName with ⟨cobject, geo, heap1⟩
    rw [hconv] at co
    dsimp only at co ⊢
    obtain ⟨co1, co2, co3, co4⟩ := co
    obtain ⟨ct1, ct2⟩ := computeTangents_heap heap1 geo front (attributes.needTangents heap)
      (attributes.needTangentSign heap)
    refine ⟨⟨(SharedPtr.own geo).copied, HashMap.find_set_self _ _ _, ?_, ?_⟩, ?_, ?_, ?_, ?_,
      HashMap.count_set_self _ _ _, ?_⟩
    · rw [SharedPtr.copied_ptr]; rfl
    · rw [SharedPtr.copied_ptr]; show geo ≠ 0; omega
    · have : (SharedPtr.own cobject).copied = { ptr := cobject, useCount := 2 } := by
        have hc : cobject ≠ 0 := by omega
        simp [SharedPtr.own, SharedPtr.copied, hc]
      rw [this]
    · omega
    · apply (linkParticleSystem_heap _ _ _ _ _ _).2
      show cobject ≤ (computeTangents heap1 geo front _ _).nextAddr
      rw [ct1]; omega
    · rw [(linkParticleSystem_heap _ _ _ _ _ _).1]
      show (computeTangents heap1 geo front _ _).shaders = heap.shaders
      rw [ct2, co4]
    · intro s0 hs0 hne
      rw [hs0] at hnull
      simp [SharedPtr.isNull, hne] at hnull
  · have hnn : ((c.m_instancedGeometry.find hash).getD {}).isNull = false := by
      simpa using hnull
    have hptr : ((c.m_instancedGeometry.find hash).getD {}).ptr ≠ 0 := by
      simpa [SharedPtr.isNull] using hnn
    simp only [hnn, Bool.false_eq_true, if_false, Heap.alloc]
    refine ⟨⟨((c.m_instancedGeometry.find hash).getD {}).copied,
      HashMap.find_set_self _ _ _, SharedPtr.copied_ptr _, ?_⟩, ?_, ?_, ?_, ?_,
      HashMap.count_set_self _ _ _, ?_⟩
    · rw [SharedPtr.copied_ptr]; exact hptr
    · simp [SharedPtr.own, SharedPtr.copied]
    · exact Nat.lt_succ_self _
    · exact (linkParticleSystem_heap _ _ _ _ _ _).2 _ (le_refl _)
    · rw [(linkParticleSystem_heap _ _ _ _ _ _).1]
    · intro s0 hs0 _
      rw [hs0]; rfl

/-- C3.  Two consecutive `InstanceCache::get` calls on an instanceable object
with the same content and attributes (under any two names) return distinct
object handles and the same geometry handle; afterwards the dedup map holds
exactly one slot for the fingerprint and the object list has grown by exactly
two. -/
theorem InstanceCache.get_twice_shares_geometry (k : UpdateFlags) (c : InstanceCache)
    (ps : ParticleSystemsCache) (scene : Scene) (heap : Heap) (object : IECoreObject)
    (attributes : CyclesAttributes) (name1 name2 : String)
    (hcan : attributes.canInstanceGeometry object = true) :
    (((c.get k ps scene heap object attributes name1).cache.get k
        (c.get k ps scene heap object attributes name1).particles
        (c.get k ps scene heap object attributes name1).scene
        (c.get k ps scene heap object attributes name1).heap
        object attributes name2).instance_.m_object ≠
      (c.get k ps scene heap object attributes name1).instance_.m_object) ∧
    (((c.get k ps scene heap object attributes name1).cache.get k
        (c.get k ps scene heap object attributes name1).particles
        (c.get k ps scene heap object attributes name1).scene
        (c.get k ps scene heap object attributes name1).heap
        object attributes name2).instance_.m_geometry =
      (c.get k ps scene heap object attributes name1).instance_.m_geometry) ∧
    (c.get k ps scene heap object attributes name1).instance_.m_geometry ≠ 0 ∧
    (((c.get k ps scene heap object attributes name1).cache.get k
        (c.get k ps scene heap object attributes name1).particles
        (c.get k ps scene heap object attributes name1).scene
        (c.get k ps scene heap object attributes name1).heap
        object attributes name2).cache.m_instancedGeometry.count
          (attributes.hashGeometry heap object object.hash) = 1) ∧
    (((c.get k ps scene heap object attributes name1).cache.get k
        (c.get k ps scene heap object attributes name1).particles
        (c.get k ps scene heap object attributes name1).scene
        (c.get k ps scene heap object attributes name1).heap
        object attributes name2).cache.m_objects.length = c.m_objects.length + 2) := by
  obtain ⟨⟨s, hs1, hs2, hs3⟩, ho1, hlt1, hle1, hsh1, _, _⟩ :=
    InstanceCache.getWithHash_instanced k c ps scene heap object attributes name1
      (attributes.hashGeometry heap object object.hash) object.hash hcan
  have hhash : attributes.hashGeometry (c.get k ps scene heap object attributes name1).heap
      object object.hash = attributes.hashGeometry heap object object.hash :=
    CyclesAttributes.hashGeometry_congr _ _ _ _ _ hsh1
  rcases hr1 : c.get k ps scene heap object attributes name1 with ⟨i1, c1, ps1, sc1, hp1⟩
  have hr1' : c.getWithHash k ps scene heap object attributes name1
      (attributes.hashGeometry heap object object.hash) object.hash = ⟨i1, c1, ps1, sc1, hp1⟩ := hr1
  rw [hr1'] at hs1 hs2 ho1 hlt1 hle1 hsh1
  rw [hr1] at hhash
  dsimp only at hs1 hs2 ho1 hlt1 hle1 hsh1 hhash ⊢
  obtain ⟨_, ho2, hlt2, _, _, hcount2, hgeo2⟩ :=
    InstanceCache.getWithHash_instanced k c1 ps1 sc1 hp1 object attributes name2
      (attributes.hashGeometry heap object object.hash) object.hash hcan
  have hget2 : c1.get k ps1 sc1 hp1 object attributes name2 =
      c1.getWithHash k ps1 sc1 hp1 object attributes name2
        (attributes.hashGeometry heap object object.hash) object.hash := by
    simp only [InstanceCache.get, hhash]
  rw [hget2]
  refine ⟨?_, ?_, ?_, hcount2, ?_⟩
  · omega
  · rw [hgeo2 s hs1 hs3, hs2]
  · rw [← hs2]; exact hs3
  · rw [ho2, ho1]
    simp

/-- C9 (witness).  Two built-in shaders, one stale entry and two cache slots:
the forced update publishes the two built-ins followed by the two slots. -/
theorem ShaderCache.update_force_shaders_witness :
    (sampleShaderCache.update sampleFlags sampleScene {} true).2.1.shaders = [1, 2, 5, 6] :=
  ((ShaderCache.update_force_shaders sampleFlags sampleShaderCache sampleScene {}
    (by decide)).2.1 (by decide)).1

/-- C3 (witness).  A sphere submitted under the names `a` and `b`. -/
theorem InstanceCache.get_twice_shares_geometry_witness :
    runGetAB.instance_.m_object ≠ runGetA.instance_.m_object ∧
    runGetAB.instance_.m_geometry = runGetA.instance_.m_geometry :=
  ⟨(InstanceCache.get_twice_shares_geometry sampleFlags {} {} {} {} sampleSphere {} "a" "b"
      (by decide)).1,
   (InstanceCache.get_twice_shares_geometry sampleFlags {} {} {} {} sampleSphere {} "a" "b"
      (by decide)).2.1⟩

/-! ## InstanceCache::clearUnused (C4) -/

/-- C4.  In a state where two instances `i1`, `i2` share the geometry slot of
`hash`, the host has released `i1` (its object is held by the cache only) and
every other entry is still held from outside, `clearUnused` removes exactly
the object of `i1` from the object list, keeps the object of `i2`, keeps the
geometry slot, sets `OBJECT_REMOVED` in the object flags and leaves the
geometry flags as they were. -/
theorem InstanceCache.clearUnused_released_instance (k : UpdateFlags) (c : InstanceCache)
    (i1 i2 : Instance) (hash : MurmurHash) (g : SharedPtr) (n2 : Nat)
    (hshare : i1.m_geometry = i2.m_geometry)
    (hdist : i1.m_object ≠ i2.m_object)
    (hgeo : c.m_instancedGeometry.find hash = some g)
    (hgptr : g.ptr = i2.m_geometry)
    (ho1 : { ptr := i1.m_object, useCount := 1 } ∈ c.m_objects)
    (ho1u : ∀ p ∈ c.m_objects, p.ptr = i1.m_object → p.useCount = 1)
    (ho2 : { ptr := i2.m_object, useCount := n2 } ∈ c.m_objects)
    (hliveObj : ∀ p ∈ c.m_objects, p.ptr ≠ i1.m_object → 2 ≤ p.useCount)
    (hliveUnique : ∀ p ∈ c.m_uniqueGeometry, 2 ≤ p.useCount)
    (hliveGeo : ∀ e ∈ c.m_instancedGeometry.slots, 2 ≤ e.2.useCount) :
    (c.clearUnused k).m_objects = c.m_objects.filter (fun p => p.ptr != i1.m_object) ∧
    (∀ p ∈ (c.clearUnused k).m_objects, p.ptr ≠ i1.m_object) ∧
    { ptr := i2.m_object, useCount := n2 } ∈ (c.clearUnused k).m_objects ∧
    (c.clearUnused k).m_instancedGeometry.slots = c.m_instancedGeometry.slots ∧
    (c.clearUnused k).m_instancedGeometry.find hash = some g ∧
    g.ptr = i1.m_geometry ∧
    (c.clearUnused k).m_uniqueGeometry = c.m_uniqueGeometry ∧
    (c.clearUnused k).m_objUpdateFlags = c.m_objUpdateFlags ||| k.OBJECT_REMOVED ∧
    (c.clearUnused k).m_objUpdateFlags &&& k.OBJECT_REMOVED = k.OBJECT_REMOVED ∧
    (c.clearUnused k).m_geoUpdateFlags = c.m_geoUpdateFlags := by
  have hobjs : (c.clearUnused k).m_objects = c.m_objects.filter (fun p => p.ptr != i1.m_object) := by
    show c.m_objects.filter (fun p => !p.unique) = _
    apply List.filter_congr
    intro p hp
    show (!(p.useCount == 1)) = (p.ptr != i1.m_object)
    by_cases hpp : p.ptr = i1.m_object
    · rw [ho1u p hp hpp, hpp]; simp
    · have := hliveObj p hp hpp
      have hne : p.useCount ≠ 1 := by omega
      have hb1 : (p.useCount == 1) = false := beq_eq_false_iff_ne.mpr hne
      have hb2 : (p.ptr != i1.m_object) = true := bne_iff_ne.mpr hpp
      rw [hb1, hb2]; rfl
  have hslots : (c.clearUnused k).m_instancedGeometry.slots = c.m_instancedGeometry.slots := by
    show (c.m_instancedGeometry.eraseAll _).slots = _
    rw [HashMap.eraseAll_filter c.m_instancedGeometry SharedPtr.unique]
    apply List.filter_eq_self.mpr
    intro e he
    have := hliveGeo e he
    have hne : e.2.useCount ≠ 1 := by omega
    simp [SharedPtr.unique, hne]
  have hnoUnique : c.m_uniqueGeometry.any (fun p => p.unique) = false := by
    rw [List.any_eq_false]
    intro p hp
    have := hliveUnique p hp
    have hne : p.useCount ≠ 1 := by omega
    simp [SharedPtr.unique, hne]
  have hnoErase : (c.m_instancedGeometry.slots.filter (fun e => e.2.unique)) = [] := by
    rw [List.filter_eq_nil_iff]
    intro e he
    have := hliveGeo e he
    have hne : e.2.useCount ≠ 1 := by omega
    simp [SharedPtr.unique, hne]
  have hany : c.m_objects.any (fun p => p.unique) = true :=
    List.any_eq_true.mpr ⟨_, ho1, by simp [SharedPtr.unique]⟩
  have hoflags : (c.clearUnused k).m_objUpdateFlags = c.m_objUpdateFlags ||| k.OBJECT_REMOVED := by
    simp [InstanceCache.clearUnused, hany]
  refine ⟨hobjs, ?_, ?_, hslots, ?_, hgptr.trans hshare.symm, ?_, hoflags, ?_, ?_⟩
  · intro p hp
    rw [hobjs] at hp
    simpa using (List.mem_filter.mp hp).2
  · rw [hobjs]
    exact List.mem_filter.mpr ⟨ho2, by simpa using fun h => hdist h.symm⟩
  · apply HashMap.find_eq_some_of_mem
    rw [hslots]
    exact HashMap.mem_of_find_eq_some _ hgeo
  · show c.m_uniqueGeometry.filter (fun p => !p.unique) = _
    apply List.filter_eq_self.mpr
    intro p hp
    have := hliveUnique p hp
    have hne : p.useCount ≠ 1 := by omega
    simp [SharedPtr.unique, hne]
  · rw [hoflags]
    apply Nat.eq_of_testBit_eq
    intro i
    simp only [Nat.testBit_and, Nat.testBit_or]
    cases k.OBJECT_REMOVED.testBit i <;> simp
  · simp [InstanceCache.clearUnused, hnoUnique, hnoErase]

/-- C4 (witness).  The sphere submitted as `a` and `b`, then `a` released:
`clearUnused` leaves the object of `b` alone in the object list. -/
theorem InstanceCache.clearUnused_released_instance_witness :
    (runReleased.clearUnused sampleFlags).m_objects = [{ ptr := 3, useCount := 2 }] ∧
    (runReleased.clearUnused sampleFlags).m_geoUpdateFlags = runReleased.m_geoUpdateFlags :=
  ⟨(InstanceCache.clearUnused_released_instance sampleFlags runReleased runGetA.instance_
      runGetAB.instance_ (CyclesAttributes.hashGeometry {} {} sampleSphere sampleSphere.hash)
      { ptr := 1, useCount := 2 } 2
      (by decide) (by decide) (by decide) (by decide) (by decide) (by decide) (by decide)
      (by decide) (by decide) (by decide)).1,
   (InstanceCache.clearUnused_released_instance sampleFlags runReleased runGetA.instance_
      runGetAB.instance_ (CyclesAttributes.hashGeometry {} {} sampleSphere sampleSphere.hash)
      { ptr := 1, useCount := 2 } 2
      (by decide) (by decide) (by decide) (by decide) (by decide) (by decide) (by decide)
      (by decide) (by decide) (by decide)).2.2.2.2.2.2.2.2.2⟩

/-! ## InstanceCache::update (C5) -/

/-- With no geometry flag pending, `updateObjects` never rebuilds the engine's
object list, whatever the object flags say and whatever the values of the flag
bits: the guard of the rebuild reads `m_geoUpdateFlags`. -/
theorem InstanceCache.update_objects_of_geoFlags_none (k : UpdateFlags) (c : InstanceCache)
    (scene : Scene) (h : c.m_geoUpdateFlags = UPDATE_NONE) :
    (c.update k scene false).2.objects = scene.objects := by
  simp only [InstanceCache.update, InstanceCache.updateObjects, InstanceCache.updateGeometry, h,
    UPDATE_NONE, Nat.zero_and, ne_eq, not_true_eq_false, if_false, Bool.false_eq_true]
  split_ifs <;> rfl

/-- C5 (failing input).  A sphere is submitted as `a` and published; then the
same sphere is submitted as `b` and `update( scene, force = false )` runs: the
engine's object list still holds only the object of `a`, while the cache's
live object list holds both.  And when both are published, `a` is released and
evicted by `clearUnused`, the next update leaves the evicted object in the
engine's object list. -/
theorem InstanceCache.update_misses_object_changes :
    runPublishedA.2.objects = [2] ∧
    runGetBAfterPublish.instance_.m_object = 3 ∧
    runGetBAfterPublish.cache.m_objUpdateFlags = sampleFlags.OBJECT_ADDED ∧
    runGetBAfterPublish.cache.m_geoUpdateFlags = UPDATE_NONE ∧
    runPublishedAB.1.m_objects.map SharedPtr.ptr = [2, 3] ∧
    runPublishedAB.2.objects = [2] ∧
    runPublishedAB.1.m_objUpdateFlags = UPDATE_NONE ∧
    runEvicted.1.m_objects.map SharedPtr.ptr = [3] ∧
    runEvicted.2.objects = [2, 3] := by
  decide

/-! ## Content-addressed caches: get (C6) -/

theorem ShaderCache.shaderGet_spec (k : UpdateFlags) (c : ShaderCache) (scene : Scene) (heap : Heap)
    (shader : Option ShaderNetwork) (attributes : Option CompoundObject) (h hSubst : MurmurHash)
    (hfp : shaderFingerprint shader attributes = some (h, hSubst))
    (haov : aovWellTyped attributes = true) :
    ∃ r, c.get k scene heap shader attributes = some r ∧
      (∃ s, r.cache.m_cache.find h = some s ∧ s.ptr = r.handle) ∧
      r.handle ≠ 0 ∧ r.cache.m_cache.count h = 1 ∧
      (∀ s0, c.m_cache.find h = some s0 → s0.ptr ≠ 0 →
        r.handle = s0.ptr ∧ r.heap = heap ∧ r.cache.m_updateFlags = c.m_updateFlags ∧
        r.cache.m_cache = c.m_cache.set h s0.copied ∧
        r.cache.m_numDefaultShaders = c.m_numDefaultShaders) := by
  have hnoaov : aovHasNull attributes = false := by
    simpa [aovWellTyped] using haov
  unfold ShaderCache.get
  simp only [hfp]
  by_cases hnull : ((c.m_cache.find h).getD {}).isNull = true
  · simp only [hnull, if_true]
    cases shader with
    | some sh =>
      simp only [hnoaov, Bool.false_eq_true, and_false, if_false, convert, Heap.alloc]
      refine ⟨_, rfl, ⟨_, HashMap.find_set_self _ _ _, ?_⟩, ?_, HashMap.count_set_self _ _ _, ?_⟩
      · rw [SharedPtr.copied_ptr]
      · simp [SharedPtr.own]
      · intro s0 hs0 hne
        rw [hs0] at hnull
        simp [SharedPtr.isNull, hne] at hnull
    | none =>
      simp only [convert, Heap.alloc]
      refine ⟨_, rfl, ⟨_, HashMap.find_set_self _ _ _, ?_⟩, ?_, HashMap.count_set_self _ _ _, ?_⟩
      · rw [SharedPtr.copied_ptr]
      · simp [SharedPtr.own]
      · intro s0 hs0 hne
        rw [hs0] at hnull
        simp [SharedPtr.isNull, hne] at hnull
  · have hnn : ((c.m_cache.find h).getD {}).isNull = false := by simpa using hnull
    have hptr : ((c.m_cache.find h).getD {}).ptr ≠ 0 := by
      simpa [SharedPtr.isNull] using hnn
    simp only [hnn, Bool.false_eq_true, if_false]
    refine ⟨_, rfl, ⟨_, HashMap.find_set_self _ _ _, SharedPtr.copied_ptr _⟩, hptr,
      HashMap.count_set_self _ _ _, ?_⟩
    intro s0 hs0 _
    rw [hs0]
    refine ⟨?_, ?_, ?_, ?_, ?_⟩ <;> rfl

theorem CameraCache.cameraGet_spec (c : CameraCache) (heap : Heap) (camera : CameraInput)
    (name : String) :
    (∃ s, (c.get heap camera name).cache.m_cache.find camera.hash = some s ∧
      s.ptr = (c.get heap camera name).handle) ∧
    (c.get heap camera name).handle ≠ 0 ∧
    (c.get heap camera name).cache.m_cache.count camera.hash = 1 ∧
    (∀ s0, c.m_cache.find camera.hash = some s0 → s0.ptr ≠ 0 →
      (c.get heap camera name).handle = s0.ptr ∧ (c.get heap camera name).heap = heap ∧
      (c.get heap camera name).cache.m_cache = c.m_cache.set camera.hash s0.copied) := by
  unfold CameraCache.get
  by_cases hnull : ((c.m_cache.find camera.hash).getD {}).isNull = true
  · simp only [hnull, if_true, convert, Heap.alloc]
    refine ⟨⟨_, HashMap.find_set_self _ _ _, ?_⟩, ?_, HashMap.count_set_self _ _ _, ?_⟩
    · rw [SharedPtr.copied_ptr]; rfl
    · simp
    · intro s0 hs0 hne
      rw [hs0] at hnull
      simp [SharedPtr.isNull, hne] at hnull
  · have hnn : ((c.m_cache.find camera.hash).getD {}).isNull = false := by simpa using hnull
    have hptr : ((c.m_cache.find camera.hash).getD {}).ptr ≠ 0 := by
      simpa [SharedPtr.isNull] using hnn
    simp only [hnn, Bool.false_eq_true, if_false]
    refine ⟨⟨_, HashMap.find_set_self _ _ _, SharedPtr.copied_ptr _⟩, hptr,
      HashMap.count_set_self _ _ _, ?_⟩
    intro s0 hs0 _
    rw [hs0]
    refine ⟨?_, ?_, ?_⟩ <;> first | rfl | trivial

theorem AttributesCache.attributesGet_spec
    (construct : CompoundObject → ShaderCache → Scene → Heap → Option AttributesBuilt)
    (c : AttributesCache) (shaderCache : ShaderCache) (scene : Scene) (heap : Heap)
    (attributes : CompoundObject)
    (hc : (construct attributes shaderCache scene heap).isSome = true) :
    ∃ r, c.get construct shaderCache scene heap attributes = some r ∧
      (∃ s, r.cache.m_cache.find attributes.hash = some s ∧ s.ptr = r.handle ∧
        s.value = r.value) ∧
      r.handle ≠ 0 ∧ r.cache.m_cache.count attributes.hash = 1 := by
  unfold AttributesCache.get
  by_cases hnull : ((c.m_cache.find attributes.hash).getD {}).ptr = 0
  · simp only [hnull, if_true]
    obtain ⟨built, hb⟩ := Option.isSome_iff_exists.mp hc
    simp only [hb, Heap.alloc]
    exact ⟨_, rfl, ⟨_, HashMap.find_set_self _ _ _, rfl, rfl⟩, by simp,
      HashMap.count_set_self _ _ _⟩
  · simp only [hnull, if_false]
    exact ⟨_, rfl, ⟨_, HashMap.find_set_self _ _ _, rfl, rfl⟩, hnull,
      HashMap.count_set_self _ _ _⟩

theorem AttributesCache.get_existing
    (construct : CompoundObject → ShaderCache → Scene → Heap → Option AttributesBuilt)
    (c : AttributesCache) (shaderCache : ShaderCache) (scene : Scene) (heap : Heap)
    (attributes : CompoundObject) (s0 : AttributesSlot)
    (hs0 : c.m_cache.find attributes.hash = some s0) (hne : s0.ptr ≠ 0) :
    ∃ r, c.get construct shaderCache scene heap attributes = some r ∧
      r.handle = s0.ptr ∧ r.value = s0.value ∧ r.heap = heap ∧ r.scene = scene ∧
      r.shaderCache = shaderCache ∧ r.cache.m_cache.count attributes.hash = 1 := by
  unfold AttributesCache.get
  simp only [hs0, Option.getD_some, hne, if_false]
  exact ⟨_, rfl, rfl, rfl, rfl, rfl, rfl, HashMap.count_set_self _ _ _⟩

/-- C6.  For the three content-addressed caches, two consecutive `get` calls
whose inputs have the same fingerprint return the same non-null handle; the
second call constructs nothing (it allocates no node, leaves the update flags
and, for the attributes cache, the shader cache as the first call left them),
and the map holds exactly one slot for the fingerprint. -/
theorem caches_get_same_fingerprint (k : UpdateFlags) :
    (∀ (c : ShaderCache) (scene : Scene) (heap : Heap)
        (shader1 shader2 : Option ShaderNetwork) (attributes1 attributes2 : Option CompoundObject)
        (h hSubst1 hSubst2 : MurmurHash),
      shaderFingerprint shader1 attributes1 = some (h, hSubst1) →
      shaderFingerprint shader2 attributes2 = some (h, hSubst2) →
      aovWellTyped attributes1 = true →
      ∃ r1 r2, c.get k scene heap shader1 attributes1 = some r1 ∧
        r1.cache.get k r1.scene r1.heap shader2 attributes2 = some r2 ∧
        r2.handle = r1.handle ∧ r1.handle ≠ 0 ∧ r2.heap = r1.heap ∧
        r2.cache.m_updateFlags = r1.cache.m_updateFlags ∧
        r2.cache.m_cache.count h = 1) ∧
    (∀ (construct : CompoundObject → ShaderCache → Scene → Heap → Option AttributesBuilt)
        (c : AttributesCache) (shaderCache : ShaderCache) (scene : Scene) (heap : Heap)
        (attributes1 attributes2 : CompoundObject),
      attributes1.hash = attributes2.hash →
      (construct attributes1 shaderCache scene heap).isSome = true →
      ∃ r1 r2, c.get construct shaderCache scene heap attributes1 = some r1 ∧
        r1.cache.get construct r1.shaderCache r1.scene r1.heap attributes2 = some r2 ∧
        r2.handle = r1.handle ∧ r1.handle ≠ 0 ∧ r2.value = r1.value ∧ r2.heap = r1.heap ∧
        r2.scene = r1.scene ∧ r2.shaderCache = r1.shaderCache ∧
        r2.cache.m_cache.count attributes1.hash = 1) ∧
    (∀ (c : CameraCache) (heap : Heap) (camera1 camera2 : CameraInput) (name1 name2 : String),
      camera1.hash = camera2.hash →
      ((c.get heap camera1 name1).cache.get (c.get heap camera1 name1).heap camera2 name2).handle
        = (c.get heap camera1 name1).handle ∧
      (c.get heap camera1 name1).handle ≠ 0 ∧
      ((c.get heap camera1 name1).cache.get (c.get heap camera1 name1).heap camera2 name2).heap
        = (c.get heap camera1 name1).heap ∧
      ((c.get heap camera1 name1).cache.get (c.get heap camera1 name1).heap
        camera2 name2).cache.m_cache.count camera1.hash = 1) := by
  refine ⟨?_, ?_, ?_⟩
  · intro c scene heap shader1 shader2 attributes1 attributes2 h hSubst1 hSubst2 hfp1 hfp2 haov
    obtain ⟨r1, hr1, ⟨s, hs, hsp⟩, hne, _, _⟩ :=
      ShaderCache.shaderGet_spec k c scene heap shader1 attributes1 h hSubst1 hfp1 haov
    -- the second call finds the slot and never reaches the conversion
    have hsecond : ∃ r2, r1.cache.get k r1.scene r1.heap shader2 attributes2 = some r2 ∧
        r2.handle = s.ptr ∧ r2.heap = r1.heap ∧
        r2.cache.m_updateFlags = r1.cache.m_updateFlags ∧ r2.cache.m_cache.count h = 1 := by
      have hnn : s.isNull = false := by
        simp only [SharedPtr.isNull, beq_eq_false_iff_ne, ne_eq]
        rw [hsp]; exact hne
      unfold ShaderCache.get
      simp only [hfp2, hs, Option.getD_some, hnn, Bool.false_eq_true, if_false]
      exact ⟨_, rfl, rfl, rfl, rfl, HashMap.count_set_self _ _ _⟩
    obtain ⟨r2, hr2, h2a, h2b, h2c, h2d⟩ := hsecond
    exact ⟨r1, r2, hr1, hr2, h2a.trans hsp, hne, h2b, h2c, h2d⟩
  · intro construct c shaderCache scene heap attributes1 attributes2 hhash hc
    obtain ⟨r1, hr1, ⟨s, hs, hsp, hsv⟩, hne, _⟩ :=
      AttributesCache.attributesGet_spec construct c shaderCache scene heap attributes1 hc
    rw [hhash] at hs
    obtain ⟨r2, hr2, g1, g2, g3, g4, g5, g6⟩ :=
      AttributesCache.get_existing construct r1.cache r1.shaderCache r1.scene r1.heap
        attributes2 s hs (by rw [hsp]; exact hne)
    rw [← hhash] at g6
    exact ⟨r1, r2, hr1, hr2, g1.trans hsp, hne, g2.trans hsv, g3, g4, g5, g6⟩
  · intro c heap camera1 camera2 name1 name2 hhash
    obtain ⟨⟨s, hs, hsp⟩, hne, _, _⟩ := CameraCache.cameraGet_spec c heap camera1 name1
    obtain ⟨_, _, hcount, hex⟩ :=
      CameraCache.cameraGet_spec (c.get heap camera1 name1).cache (c.get heap camera1 name1).heap
        camera2 name2
    rw [← hhash] at hcount hex
    obtain ⟨e1, e2, _⟩ := hex s hs (by rw [hsp]; exact hne)
    exact ⟨e1.trans hsp, hne, e2, hcount⟩

/-- C6 (witness).  One shader fetched twice from a new shader cache, one block
of attributes fetched twice from a new attributes cache, one camera fetched
twice from a new camera cache. -/
theorem caches_get_same_fingerprint_witness :
    (∃ r1 r2, ShaderCache.get sampleFlags {} {} {} (some sampleShader) none = some r1 ∧
      r1.cache.get sampleFlags r1.scene r1.heap (some sampleShader) none = some r2 ∧
      r2.handle = r1.handle ∧ r1.handle ≠ 0 ∧ r2.heap = r1.heap ∧
      r2.cache.m_updateFlags = r1.cache.m_updateFlags ∧
      r2.cache.m_cache.count sampleShader.hash = 1) ∧
    (∃ r1 r2, AttributesCache.get sampleConstruct {} {} {} {} {} = some r1 ∧
      r1.cache.get sampleConstruct r1.shaderCache r1.scene r1.heap {} = some r2 ∧
      r2.handle = r1.handle ∧ r1.handle ≠ 0 ∧ r2.value = r1.value ∧ r2.heap = r1.heap ∧
      r2.scene = r1.scene ∧ r2.shaderCache = r1.shaderCache ∧
      r2.cache.m_cache.count ({} : CompoundObject).hash = 1) ∧
    ((CameraCache.get {} {} {} "a").cache.get (CameraCache.get {} {} {} "a").heap {} "b").handle
      = (CameraCache.get {} {} {} "a").handle :=
  ⟨(caches_get_same_fingerprint sampleFlags).1 {} {} {} (some sampleShader) (some sampleShader)
      none none sampleShader.hash {} {} (by decide) (by decide) (by decide),
   (caches_get_same_fingerprint sampleFlags).2.1 sampleConstruct {} {} {} {} {} {} rfl rfl,
   ((caches_get_same_fingerprint sampleFlags).2.2 {} {} {} {} "a" "b" rfl).1⟩

/-! ## ShaderCache never stores a null slot -/

theorem HashMap.mem_values_set {V : Type} (m : HashMap V) (k : MurmurHash) (v p : V)
    (hp : p ∈ (m.set k v).values) : p = v ∨ p ∈ m.values := by
  unfold HashMap.values at hp ⊢
  unfold HashMap.set at hp
  split at hp
  · simp only [List.map_map, List.mem_map, Function.comp_apply] at hp
    obtain ⟨e, he, hpe⟩ := hp
    by_cases hk : e.1 = k
    · left; simp [hk] at hpe; exact hpe.symm
    · right
      simp [hk] at hpe
      exact List.mem_map.mpr ⟨e, he, hpe⟩
  · simp only [List.map_append, List.map_cons, List.map_nil, List.mem_append,
      List.mem_singleton] at hp
    rcases hp with h | h
    · exact Or.inr h
    · exact Or.inl h

/-- A `get` that returns keeps every slot of the shader cache non-null, and so
does `clearUnused`; a new cache holds just the default surface. -/
theorem ShaderCache.noNull_preserved (k : UpdateFlags) (c : ShaderCache)
    (hnn : ∀ p ∈ c.m_cache.values, p.isNull = false) :
    (∀ (scene : Scene) (heap : Heap) (shader : Option ShaderNetwork)
        (attributes : Option CompoundObject) (r : ShaderGet),
      c.get k scene heap shader attributes = some r →
      ∀ p ∈ r.cache.m_cache.values, p.isNull = false) ∧
    (∀ p ∈ (c.clearUnused k).m_cache.values, p.isNull = false) := by
  constructor
  · intro scene heap shader attributes r hr p hp
    unfold ShaderCache.get at hr
    cases hfp : shaderFingerprint shader attributes with
    | none => simp [hfp] at hr
    | some fp =>
      obtain ⟨h, hSubst⟩ := fp
      simp only [hfp] at hr
      by_cases hnull : ((c.m_cache.find h).getD {}).isNull = true
      · simp only [hnull, if_true] at hr
        cases shader with
        | some sh =>
          simp only [convert, Heap.alloc] at hr
          split_ifs at hr
          simp only [Option.some.injEq] at hr
          subst hr
          rcases HashMap.mem_values_set _ _ _ _ hp with h1 | h1
          · rw [h1]; simp [SharedPtr.isNull, SharedPtr.copied, SharedPtr.own]
          · exact hnn p h1
        | none =>
          simp only [convert, Heap.alloc, Option.some.injEq] at hr
          subst hr
          rcases HashMap.mem_values_set _ _ _ _ hp with h1 | h1
          · rw [h1]; simp [SharedPtr.isNull, SharedPtr.copied, SharedPtr.own]
          · exact hnn p h1
      · have hf : ((c.m_cache.find h).getD {}).isNull = false := by simpa using hnull
        simp only [hf, Bool.false_eq_true, if_false, Option.some.injEq] at hr
        subst hr
        rcases HashMap.mem_values_set _ _ _ _ hp with h1 | h1
        · rw [h1]
          have : ((c.m_cache.find h).getD {}).copied.ptr = ((c.m_cache.find h).getD {}).ptr :=
            SharedPtr.copied_ptr _
          simp only [SharedPtr.isNull] at hf ⊢
          rw [this]; exact hf
        · exact hnn p h1
  · intro p hp
    have hs : (c.clearUnused k).m_cache.slots = c.m_cache.slots.filter (fun e => !e.2.unique) :=
      HashMap.eraseAll_filter c.m_cache SharedPtr.unique
    unfold HashMap.values at hp
    rw [hs] at hp
    obtain ⟨e, he, hpe⟩ := List.mem_map.mp hp
    exact hnn p (List.mem_map.mpr ⟨e, (List.mem_filter.mp he).1, hpe⟩)

/-! ## CyclesAttributes::canInstanceGeometry (C19) -/

/-- C19: for every input object `canInstanceGeometry` is true exactly when
the object is a visible renderable that is not a mesh with `catmullClark`
interpolation, and false otherwise; the result is the same for every other
attribute snapshot. -/
theorem CyclesAttributes.canInstanceGeometry_spec (a : CyclesAttributes)
    (object : IECoreObject) :
    a.canInstanceGeometry object =
        (object.isVisibleRenderable &&
          !(object.meshInterpolation == some "catmullClark")) ∧
      ∀ b : CyclesAttributes, b.canInstanceGeometry object = a.canInstanceGeometry object := by
  refine ⟨?_, fun b => rfl⟩
  unfold CyclesAttributes.canInstanceGeometry
  cases hv : object.isVisibleRenderable
  · simp
  · cases hm : object.meshInterpolation with
    | none => simp
    | some interpolation =>
      by_cases hi : interpolation = "catmullClark"
      · simp [hi]
      · simp [hi]

/-! ## CyclesAttributes: the visibility mask (C20) -/

theorem bitNot32_lt (x : Nat) : bitNot32 x < 2 ^ 32 := by
  unfold bitNot32
  exact Nat.xor_lt_two_pow (by norm_num) (Nat.mod_lt _ (by norm_num))

theorem testBit_bitNot32 (x i : Nat) (hi : i < 32) :
    (bitNot32 x).testBit i = !x.testBit i := by
  unfold bitNot32
  rw [Nat.testBit_xor, Nat.testBit_two_pow_sub_one, Nat.testBit_mod_two_pow]
  simp [hi]

theorem CyclesAttributes.updateVisibility_lt (v : Nat) (name : String) (rayType : Nat)
    (attributes : CompoundObject) (hv : v < 2 ^ 32) :
    CyclesAttributes.updateVisibility v name rayType attributes < 2 ^ 32 := by
  unfold CyclesAttributes.updateVisibility
  rcases attributeBool name attributes with _ | b
  · exact hv
  · cases b
    · exact Nat.and_lt_two_pow _ (bitNot32_lt rayType)
    · exact Nat.or_lt_two_pow hv (Nat.mod_lt _ (by norm_num))

theorem CyclesAttributes.updateVisibility_testBit (v : Nat) (name : String) (rayType : Nat)
    (attributes : CompoundObject) (i : Nat) (hi : i < 32) :
    (CyclesAttributes.updateVisibility v name rayType attributes).testBit i =
      match attributeBool name attributes with
      | some true => v.testBit i || rayType.testBit i
      | some false => v.testBit i && !rayType.testBit i
      | none => v.testBit i := by
  unfold CyclesAttributes.updateVisibility
  rcases attributeBool name attributes with _ | b
  · rfl
  · cases b
    · simp only [Nat.testBit_and, testBit_bitNot32 _ _ hi]
    · simp only [Nat.testBit_or, Nat.testBit_mod_two_pow]
      simp [hi]

theorem foldl_updateVisibility_lt (attributes : CompoundObject) (l : List (String × Nat)) :
    ∀ v : Nat, v < 2 ^ 32 →
      l.foldl (fun v r => CyclesAttributes.updateVisibility v r.1 r.2 attributes) v < 2 ^ 32 := by
  induction l with
  | nil => intro v hv; exact hv
  | cons r rest ih =>
    intro v hv
    exact ih _ (CyclesAttributes.updateVisibility_lt v r.1 r.2 attributes hv)

theorem foldl_updateVisibility_testBit (attributes : CompoundObject) (i : Nat) (hi : i < 32)
    (l : List (String × Nat)) :
    ∀ v : Nat, l.Pairwise (fun a b => a.2 &&& b.2 = 0) →
      ((l.foldl (fun v r => CyclesAttributes.updateVisibility v r.1 r.2 attributes) v).testBit i
          = true ↔
        (v.testBit i = true ∨
            ∃ r ∈ l, r.2.testBit i = true ∧ attributeBool r.1 attributes = some true) ∧
          ¬ ∃ r ∈ l, r.2.testBit i = true ∧ attributeBool r.1 attributes = some false) := by
  induction l with
  | nil => intro v _; simp
  | cons r rest ih =>
    intro v hp
    rw [List.pairwise_cons] at hp
    obtain ⟨hr, hrest⟩ := hp
    rw [List.foldl_cons, ih _ hrest, CyclesAttributes.updateVisibility_testBit _ _ _ _ _ hi]
    cases hb : r.2.testBit i
    · have hstep : (match attributeBool r.1 attributes with
          | some true => v.testBit i || false
          | some false => v.testBit i && !false
          | none => v.testBit i) = v.testBit i := by
        rcases attributeBool r.1 attributes with _ | b
        · rfl
        · cases b <;> simp
      rw [hstep]
      simp [hb]
    · have hnone : ∀ q ∈ rest, q.2.testBit i = false := by
        intro q hq
        have h0 := hr q hq
        have h1 : (r.2 &&& q.2).testBit i = false := by rw [h0]; simp
        rw [Nat.testBit_and, hb] at h1
        simpa using h1
      have hno : ∀ b : Bool, ¬ ∃ q ∈ rest, q.2.testBit i = true ∧
          attributeBool q.1 attributes = some b := by
        rintro b ⟨q, hq, hqb, -⟩
        rw [hnone q hq] at hqb
        exact Bool.noConfusion hqb
      rcases hab : attributeBool r.1 attributes with _ | b
      · simp only [List.mem_cons, exists_eq_or_imp, hab, hb]
        simp [hno]
      · cases b
        · simp only [List.mem_cons, exists_eq_or_imp, hab, hb]
          simp [hno]
        · simp only [List.mem_cons, exists_eq_or_imp, hab, hb]
          simp [hno]

theorem CyclesAttributes.new_visibility (k : UpdateFlags) (rays : PathRayFlag)
    (attributes : CompoundObject) (shaderCache : ShaderCache) (scene : Scene) (heap : Heap)
    (built : AttributesBuilt)
    (h : CyclesAttributes.new k rays attributes shaderCache scene heap = some built) :
    built.value.m_visibility = constructVisibility rays attributes := by
  have hl : ∀ b : AttributesBuilt,
      (constructLight attributes b).value.m_visibility = b.value.m_visibility := by
    intro b
    unfold constructLight
    rcases attributeShaderNetwork "ccl:light" attributes with _ | net <;> rfl
  unfold CyclesAttributes.new at h
  rcases hs : surfaceShaderAttribute attributes with _ | net
  · rw [hs] at h
    simp only [Option.some.injEq] at h
    rw [← h, hl]
    rfl
  · rw [hs] at h
    dsimp only at h
    rcases hg : shaderCache.get k scene heap (some net) (some attributes) with _ | r
    · rw [hg] at h
      exact Option.noConfusion h
    · rw [hg] at h
      simp only [Option.some.injEq] at h
      rw [← h, hl]
      rfl

/-- C20: when no two of the six ray-type masks share a bit, the visibility
mask the constructor resolves is a 32-bit pattern in which a bit is clear
exactly when it belongs to a ray type (camera, diffuse, glossy, transmission,
shadow, scatter) whose `ccl:visibility:` attribute is present as a boolean
false; every other bit, of a ray type whose attribute is absent, true or not
a boolean and of no ray type, is set; and every snapshot the constructor
returns carries this mask. -/
theorem CyclesAttributes.visibility_mask (k : UpdateFlags) (rays : PathRayFlag)
    (attributes : CompoundObject) (shaderCache : ShaderCache) (scene : Scene) (heap : Heap)
    (hdisjoint : rays.disjoint) :
    constructVisibility rays attributes < 2 ^ 32 ∧
      (∀ i, i < 32 →
        ((constructVisibility rays attributes).testBit i = false ↔
          ∃ r ∈ rayTypes rays, r.2.testBit i = true ∧
            attributes.member r.1 = some (AttrValue.bool false))) ∧
      ∀ built, CyclesAttributes.new k rays attributes shaderCache scene heap = some built →
        built.value.m_visibility = constructVisibility rays attributes := by
  refine ⟨?_, ?_, fun built h => CyclesAttributes.new_visibility k rays attributes shaderCache
    scene heap built h⟩
  · exact foldl_updateVisibility_lt attributes (rayTypes rays) _ (by norm_num)
  · intro i hi
    have hmem : ∀ name : String, attributeBool name attributes = some false ↔
        attributes.member name = some (AttrValue.bool false) := by
      intro name
      unfold attributeBool
      rcases attributes.member name with _ | v
      · simp
      · cases v <;> simp
    have h := foldl_updateVisibility_testBit attributes i hi (rayTypes rays) (2 ^ 32 - 1)
      hdisjoint
    have hones : (2 ^ 32 - 1 : Nat).testBit i = true := by
      rw [Nat.testBit_two_pow_sub_one]
      simpa using hi
    unfold constructVisibility
    rw [← Bool.not_eq_true, h, hones]
    constructor
    · intro hn
      by_contra hc
      apply hn
      refine ⟨Or.inl rfl, ?_⟩
      rintro ⟨r, hr, hb, ha⟩
      exact hc ⟨r, hr, hb, (hmem r.1).1 ha⟩
    · rintro ⟨r, hr, hb, ha⟩ ⟨-, hn⟩
      exact hn ⟨r, hr, hb, (hmem r.1).2 ha⟩

/-- C20 at the masks of a Cycles build. -/
theorem CyclesAttributes.visibility_mask_witness :
    samplePathRayFlag.disjoint ∧
      constructVisibility samplePathRayFlag sampleVisibilityAttributes = 0xfffffcfe ∧
      constructVisibility samplePathRayFlag sampleVisibilityAttributes < 2 ^ 32 :=
  ⟨by decide, by decide,
    (CyclesAttributes.visibility_mask sampleFlags samplePathRayFlag sampleVisibilityAttributes
      sampleShaderCache sampleScene {} (by decide)).1⟩

/-! ## CyclesAttributes::applyObject (C12, C13) -/

theorem load_store_self {α : Type} (t : List (Nat × α)) (a : Nat) (v : α) :
    load (store t a v) a = some v := by
  simp [load, store]

theorem store_store {α : Type} (t : List (Nat × α)) (a : Nat) (v w : α) :
    store (store t a v) a w = store t a w := by
  simp [store, List.filter_filter]

theorem applyDisplacement_frame (a previous : CyclesAttributes) (heap : Heap) :
    (applyDisplacement a previous heap).2.objects = heap.objects ∧
      (applyDisplacement a previous heap).2.geometry = heap.geometry ∧
      (applyDisplacement a previous heap).2.particleSystems = heap.particleSystems := by
  unfold applyDisplacement
  dsimp only
  split_ifs <;> exact ⟨rfl, rfl, rfl⟩

/-- C12: for every object whose geometry is a mesh with subdivision
parameters, and every two snapshots `previous` and `next` whose max levels
differ or whose dicing rates differ as floats, `applyObject( object, previous )`
called on `next` returns false, and leaves the object, its geometry, the
particle systems and the queue of shader assignments as they were. -/
theorem CyclesAttributes.applyObject_subdivision_changed (WITH_CYCLES_LIGHTGROUPS : Bool)
    (next previous : CyclesAttributes) (shaderCache : ShaderCache) (heap : Heap) (object : Nat)
    (obj : CObject) (mesh : CGeometry)
    (hobj : load heap.objects object = some obj) (hgeo : obj.geometry ≠ 0)
    (hmesh : load heap.geometry obj.geometry = some mesh)
    (htype : mesh.geometry_type = GeometryType.MESH) (hsubd : mesh.subd_params = true)
    (hdiff : previous.m_maxLevel ≠ next.m_maxLevel ∨
      f32Ne previous.m_dicingRate next.m_dicingRate = true) :
    ∃ r, next.applyObject WITH_CYCLES_LIGHTGROUPS shaderCache heap object (some previous)
        = some r ∧
      r.ok = false ∧ r.heap.objects = heap.objects ∧ r.heap.geometry = heap.geometry ∧
      r.heap.particleSystems = heap.particleSystems ∧ r.shaderCache = shaderCache := by
  obtain ⟨ho, hg, hp⟩ := applyDisplacement_frame next previous heap
  have hchanged : subdivisionChanged next previous (applyDisplacement next previous heap).2
      object = true := by
    unfold subdivisionChanged
    simp only [ho, hg, hobj, hmesh, Option.getD_some, hgeo, htype, hsubd, ne_eq,
      not_false_eq_true, if_true]
    rcases hdiff with h | h
    · simp [h]
    · simp [h]
  have hhead : (applyHead next heap object (some previous)).1 = false ∧
      (applyHead next heap object (some previous)).2
        = (applyDisplacement next previous heap).2 := by
    unfold applyHead
    simp only [hchanged, if_true]
    split_ifs <;> exact ⟨rfl, rfl⟩
  refine ⟨{ ok := false, shaderCache := shaderCache,
            heap := (applyHead next heap object (some previous)).2 }, ?_, rfl, ?_, ?_, ?_, rfl⟩
  · unfold CyclesAttributes.applyObject
    simp only [hhead.1, if_true]
  · rw [hhead.2]; exact ho
  · rw [hhead.2]; exact hg
  · rw [hhead.2]; exact hp

/-- C12 at a subdivision mesh whose dicing rate changes from `1.0f` to
`2.0f`. -/
theorem CyclesAttributes.applyObject_subdivision_changed_witness :
    ∃ r, sampleDicedAttributes.applyObject false sampleShaderCache sampleSubdHeap 1
        (some { m_shader := 5 }) = some r ∧
      r.ok = false ∧ r.heap.objects = sampleSubdHeap.objects ∧
      r.heap.geometry = sampleSubdHeap.geometry ∧
      r.heap.particleSystems = sampleSubdHeap.particleSystems ∧
      r.shaderCache = sampleShaderCache :=
  CyclesAttributes.applyObject_subdivision_changed false sampleDicedAttributes { m_shader := 5 }
    sampleShaderCache sampleSubdHeap 1 { name := "cube", geometry := 2 }
    { name := "cube", subd_params := true } (by decide) (by decide) (by decide) (by decide)
    (by decide) (Or.inr (by decide))

theorem setSubdivision_idem (a : CyclesAttributes) (mesh : CGeometry) :
    setSubdivision a (setSubdivision a mesh) = setSubdivision a mesh := by
  unfold setSubdivision
  cases h : mesh.subd_params <;> simp [h]

theorem setSubdivision_frame (a : CyclesAttributes) (mesh : CGeometry) :
    (setSubdivision a mesh).geometry_type = mesh.geometry_type ∧
      (setSubdivision a mesh).attributes = mesh.attributes := by
  unfold setSubdivision
  cases h : mesh.subd_params <;> simp

theorem Particle.write_idem (p old : Particle) : p.write (p.write old) = p.write old := by
  have h : ∀ {α : Type} (x y : Option α),
      x.orElse (fun _ => x.orElse (fun _ => y)) = x.orElse (fun _ => y) := by
    intro α x y
    cases x <;> rfl
  simp only [Particle.write, h]

theorem setLightgroup_setObjectMembers (lg : Bool) (a : CyclesAttributes) (obj : CObject) :
    setLightgroup lg a (setObjectMembers a (setLightgroup lg a (setObjectMembers a obj)))
      = setLightgroup lg a (setObjectMembers a obj) := by
  cases lg <;> rfl

theorem setObjectMembers_setLightgroup (lg : Bool) (a : CyclesAttributes) (obj : CObject) :
    setObjectMembers a (setLightgroup lg a (setObjectMembers a obj))
      = setLightgroup lg a (setObjectMembers a obj) := by
  cases lg <;> rfl

theorem applyGeometry_spec (a : CyclesAttributes) (shaderCache : ShaderCache) (heap : Heap)
    (object : Nat) :
    (applyGeometry a shaderCache heap object).heap.objects = heap.objects ∧
      (applyGeometry a shaderCache heap object).heap.particleSystems = heap.particleSystems ∧
      (applyGeometry a shaderCache heap object).heap.shaders = heap.shaders ∧
      (applyGeometry a shaderCache heap object).heap.geometry =
        (if ((load heap.objects object).getD {}).geometry ≠ 0 ∧
            ((load heap.geometry ((load heap.objects object).getD {}).geometry).getD
              {}).geometry_type = GeometryType.MESH then
          store heap.geometry ((load heap.objects object).getD {}).geometry
            (setSubdivision a
              ((load heap.geometry ((load heap.objects object).getD {}).geometry).getD {}))
        else heap.geometry) ∧
      ((applyGeometry a shaderCache heap object).ok = false ↔
        (((load heap.objects object).getD {}).geometry ≠ 0 ∧
          ((load heap.geometry ((load heap.objects object).getD {}).geometry).getD
            {}).geometry_type = GeometryType.MESH ∧
          a.m_shader ≠ 0 ∧
          tangentMissing ((load heap.shaders a.m_shader).getD {})
            (setSubdivision a
              ((load heap.geometry ((load heap.objects object).getD {}).geometry).getD {}))
            = true)) := by
  unfold applyGeometry
  dsimp only
  split_ifs <;> simp_all


theorem Volume.volumeWrite_idem (v : Volume) (geo : CGeometry) : v.write (v.write geo) = v.write geo := by
  unfold Volume.write
  rcases v with ⟨c, s, o⟩
  cases c <;> cases s <;> cases o <;> rfl

theorem Particle.apply_spec (p : Particle) (heap : Heap) (object : Nat) :
    (p.apply heap object).2.objects = heap.objects ∧
      (p.apply heap object).2.geometry = heap.geometry ∧
      (p.apply heap object).2.shaders = heap.shaders ∧
      ((p.apply heap object).1 = false ↔
        (p.hasParticleInfo = true ∧ ((load heap.objects object).getD {}).particle_system = 0)) := by
  unfold Particle.apply
  dsimp only
  split_ifs <;> simp_all

theorem applyTail_of_applied (lg : Bool) (a : CyclesAttributes) (shaderCache : ShaderCache)
    (heap : Heap) (object : Nat) (hst : appliedTo lg a heap object)
    (hg : ((load heap.objects object).getD {}).geometry ≠ 0)
    (htan : ¬ (((load heap.geometry ((load heap.objects object).getD {}).geometry).getD
          {}).geometry_type = GeometryType.MESH ∧
        a.m_shader ≠ 0 ∧
        tangentMissing ((load heap.shaders a.m_shader).getD {})
          (setSubdivision a
            ((load heap.geometry ((load heap.objects object).getD {}).geometry).getD {}))
          = true))
    (hp : a.m_particle.hasParticleInfo = false ∨
      ((load heap.objects object).getD {}).particle_system ≠ 0) :
    ∃ t, applyTail lg a shaderCache heap object = some t ∧ t.ok = true ∧ t.heap = heap := by
  obtain ⟨h1, h2, h3, h4, h5⟩ := hst
  have hgeo : (applyGeometry a shaderCache heap object).heap = heap ∧
      (applyGeometry a shaderCache heap object).ok = true := by
    unfold applyGeometry
    dsimp only
    rw [if_pos hg]
    by_cases c2 : ((load heap.geometry ((load heap.objects object).getD {}).geometry).getD
        {}).geometry_type = GeometryType.MESH
    · rw [if_pos c2, h3 c2, if_neg (fun c => htan ⟨c2, c.1, c.2⟩)]
      split_ifs <;> exact ⟨rfl, rfl⟩
    · rw [if_neg c2]
      split_ifs <;> exact ⟨rfl, rfl⟩
  have hpart : (a.m_particle.apply heap object).2 = heap ∧
      (a.m_particle.apply heap object).1 = true := by
    unfold Particle.apply
    dsimp only
    by_cases c1 : a.m_particle.hasParticleInfo = true
    · have c2 : ((load heap.objects object).getD {}).particle_system ≠ 0 := by
        rcases hp with hp | hp
        · rw [hp] at c1; exact absurd c1 (by decide)
        · exact hp
      simp only [c1, Bool.not_true, Bool.false_eq_true, if_false, c2, ne_eq, not_false_eq_true,
        if_true]
      split_ifs with c3
      · rw [h5 c1 c3]
        exact ⟨rfl, rfl⟩
      · exact ⟨rfl, rfl⟩
    · simp only [Bool.not_eq_true] at c1
      simp only [c1, Bool.not_false, if_true]
      constructor <;> first | rfl | trivial
  have hvol : a.m_volume.apply heap object = some heap := by
    unfold Volume.apply
    dsimp only
    rw [if_neg hg]
    split_ifs with c1
    · rw [h4 c1]
    · rfl
  refine ⟨{ ok := true, shaderCache := (applyGeometry a shaderCache heap object).shaderCache,
            heap := heap }, ?_, rfl, rfl⟩
  unfold applyTail
  dsimp only
  rw [h1]
  have heta : ({ heap with objects := heap.objects } : Heap) = heap := rfl
  rw [heta, hgeo.1, hgeo.2, if_neg (by decide), hpart.1, hpart.2, if_neg (by decide), hvol]
  dsimp only
  rw [h2]

theorem applyGeometry_heap (a : CyclesAttributes) (shaderCache : ShaderCache) (heap : Heap)
    (object : Nat) :
    (applyGeometry a shaderCache heap object).heap =
      { heap with
        geometry :=
          if ((load heap.objects object).getD {}).geometry ≠ 0 ∧
              ((load heap.geometry ((load heap.objects object).getD {}).geometry).getD
                {}).geometry_type = GeometryType.MESH then
            store heap.geometry ((load heap.objects object).getD {}).geometry
              (setSubdivision a
                ((load heap.geometry ((load heap.objects object).getD {}).geometry).getD {}))
          else heap.geometry } := by
  unfold applyGeometry
  dsimp only
  split_ifs <;> simp_all

theorem Particle.apply_heap (p : Particle) (heap : Heap) (object : Nat) :
    (p.apply heap object).2 =
      { heap with
        particleSystems :=
          if p.hasParticleInfo = true ∧
              ((load heap.objects object).getD {}).particle_system ≠ 0 ∧
              ((load heap.objects object).getD {}).particle_index <
                ((load heap.particleSystems
                  ((load heap.objects object).getD {}).particle_system).getD {}).particles then
            store heap.particleSystems ((load heap.objects object).getD {}).particle_system
              { (load heap.particleSystems
                  ((load heap.objects object).getD {}).particle_system).getD {} with
                data := store
                  ((load heap.particleSystems
                    ((load heap.objects object).getD {}).particle_system).getD {}).data
                  ((load heap.objects object).getD {}).particle_index
                  (p.write ((load
                    ((load heap.particleSystems
                      ((load heap.objects object).getD {}).particle_system).getD {}).data
                    ((load heap.objects object).getD {}).particle_index).getD {})) }
          else heap.particleSystems } := by
  unfold Particle.apply
  dsimp only
  split_ifs <;> simp_all

theorem Volume.volumeApply_heap (v : Volume) (heap : Heap) (object : Nat) :
    v.apply heap object =
      if ((load heap.objects object).getD {}).geometry = 0 then none
      else some
        { heap with
          geometry :=
            if ((load heap.geometry ((load heap.objects object).getD {}).geometry).getD
                {}).geometry_type = GeometryType.VOLUME then
              store heap.geometry ((load heap.objects object).getD {}).geometry
                (v.write
                  ((load heap.geometry ((load heap.objects object).getD {}).geometry).getD {}))
            else heap.geometry } := by
  unfold Volume.apply
  dsimp only
  split_ifs <;> simp_all

theorem applyTail_ok (lg : Bool) (a : CyclesAttributes) (shaderCache : ShaderCache)
    (heap : Heap) (object : Nat) (t : ApplyResult)
    (h : applyTail lg a shaderCache heap object = some t) (hok : t.ok = true) :
    ∃ heap2,
      a.m_volume.apply
          (a.m_particle.apply
            (applyGeometry a shaderCache
              { heap with
                objects := store heap.objects object
                  (setObjectMembers a ((load heap.objects object).getD {})) } object).heap
            object).2 object = some heap2 ∧
        (applyGeometry a shaderCache
          { heap with
            objects := store heap.objects object
              (setObjectMembers a ((load heap.objects object).getD {})) } object).ok = true ∧
        (a.m_particle.apply
          (applyGeometry a shaderCache
            { heap with
              objects := store heap.objects object
                (setObjectMembers a ((load heap.objects object).getD {})) } object).heap
          object).1 = true ∧
        t.heap =
          { heap2 with
            objects := store heap2.objects object
              (setLightgroup lg a ((load heap2.objects object).getD {})) } := by
  unfold applyTail at h
  dsimp only at h
  split_ifs at h with c1 c2
  · simp only [Option.some.injEq] at h
    rw [← h, c1] at hok
    exact Bool.noConfusion hok
  · simp only [Option.some.injEq] at h
    rw [← h] at hok
    exact Bool.noConfusion hok
  · rcases hv : a.m_volume.apply
        (a.m_particle.apply
          (applyGeometry a shaderCache
            { heap with
              objects := store heap.objects object
                (setObjectMembers a ((load heap.objects object).getD {})) } object).heap
          object).2 object with _ | heap2
    · rw [hv] at h
      exact Option.noConfusion h
    · rw [hv] at h
      simp only [Option.some.injEq] at h
      refine ⟨heap2, rfl, ?_, ?_, ?_⟩
      · simpa using c1
      · simpa using c2
      · rw [← h]

theorem applyTail_applied (lg : Bool) (a : CyclesAttributes) (shaderCache : ShaderCache)
    (heap : Heap) (object : Nat) (t : ApplyResult)
    (h : applyTail lg a shaderCache heap object = some t) (hok : t.ok = true) :
    appliedTo lg a t.heap object ∧
      ((load t.heap.objects object).getD {}).geometry ≠ 0 ∧
      ¬ (((load t.heap.geometry ((load t.heap.objects object).getD {}).geometry).getD
            {}).geometry_type = GeometryType.MESH ∧
          a.m_shader ≠ 0 ∧
          tangentMissing ((load heap.shaders a.m_shader).getD {})
            (setSubdivision a
              ((load t.heap.geometry ((load t.heap.objects object).getD {}).geometry).getD {}))
            = true) ∧
      (a.m_particle.hasParticleInfo = false ∨
        ((load t.heap.objects object).getD {}).particle_system ≠ 0) ∧
      t.heap.shaders = heap.shaders := by
  obtain ⟨heap2, hv, hgok, hpok, ht⟩ := applyTail_ok lg a shaderCache heap object t h hok
  obtain ⟨-, -, -, -, gok⟩ := applyGeometry_spec a shaderCache
    { heap with
      objects := store heap.objects object
        (setObjectMembers a ((load heap.objects object).getD {})) } object
  obtain ⟨-, -, -, pok⟩ := Particle.apply_spec a.m_particle
    (applyGeometry a shaderCache
      { heap with
        objects := store heap.objects object
          (setObjectMembers a ((load heap.objects object).getD {})) } object).heap object
  rw [hgok] at gok
  rw [hpok] at pok
  rw [Volume.volumeApply_heap, Particle.apply_heap, applyGeometry_heap] at hv
  rw [applyGeometry_heap] at pok
  simp only [load_store_self, Option.getD_some] at hv gok pok
  generalize hobj0 : (load heap.objects object).getD {} = obj0 at hv gok pok
  have hX : (setObjectMembers a obj0).geometry = obj0.geometry ∧
      (setObjectMembers a obj0).particle_system = obj0.particle_system ∧
      (setObjectMembers a obj0).particle_index = obj0.particle_index := ⟨rfl, rfl, rfl⟩
  simp only [hX.1, hX.2.1, hX.2.2] at hv gok pok
  generalize hgeo0 : (load heap.geometry obj0.geometry).getD {} = geo0 at hv gok pok
  generalize hpsys0 : (load heap.particleSystems obj0.particle_system).getD {} = psys0
    at hv gok pok
  by_cases hg : obj0.geometry = 0
  · rw [if_pos hg] at hv
    exact Option.noConfusion hv
  rw [if_neg hg] at hv
  simp only [Option.some.injEq] at hv
  simp only [ne_eq, hg, not_false_eq_true, true_and] at hv gok
  have hvt : (a.m_volume.write geo0).geometry_type = geo0.geometry_type := rfl
  -- the geometry table after the call, and the geometry it holds for the object
  have hgeoF : ∃ geoF, (load heap2.geometry obj0.geometry).getD {} = geoF ∧
      (geoF.geometry_type = GeometryType.MESH →
        store heap2.geometry obj0.geometry (setSubdivision a geoF) = heap2.geometry) ∧
      (geoF.geometry_type = GeometryType.VOLUME →
        store heap2.geometry obj0.geometry (a.m_volume.write geoF) = heap2.geometry) ∧
      ¬ (geoF.geometry_type = GeometryType.MESH ∧ a.m_shader ≠ 0 ∧
        tangentMissing ((load heap.shaders a.m_shader).getD {}) (setSubdivision a geoF) = true)
      := by
    refine ⟨_, rfl, ?_⟩
    have hne : (GeometryType.MESH = GeometryType.VOLUME) = False :=
      eq_false (by decide)
    by_cases hm : geo0.geometry_type = GeometryType.MESH
    · have hm1 : (setSubdivision a geo0).geometry_type = GeometryType.MESH := by
        rw [(setSubdivision_frame a geo0).1]; exact hm
      have hG2 : heap2.geometry
          = store heap.geometry obj0.geometry (setSubdivision a geo0) := by
        rw [← hv]
        simp only [if_pos hm, load_store_self, Option.getD_some, hm1, hne, if_false]
      refine ⟨?_, ?_, ?_⟩
      · intro _
        rw [hG2, load_store_self]
        simp only [Option.getD_some]
        rw [setSubdivision_idem, store_store]
      · intro c
        rw [hG2, load_store_self] at c
        simp only [Option.getD_some] at c
        rw [hm1] at c
        exact absurd c (by decide)
      · rintro ⟨-, c2, c3⟩
        rw [hG2, load_store_self] at c3
        simp only [Option.getD_some, setSubdivision_idem] at c3
        exact Bool.noConfusion (gok.2 ⟨hm, c2, c3⟩)
    · by_cases hvol : geo0.geometry_type = GeometryType.VOLUME
      · have hG2 : heap2.geometry
            = store heap.geometry obj0.geometry (a.m_volume.write geo0) := by
          rw [← hv]
          simp only [if_neg hm, hgeo0, if_pos hvol]
        have hnm : ¬ (a.m_volume.write geo0).geometry_type = GeometryType.MESH := by
          rw [hvt]; exact hm
        refine ⟨?_, ?_, ?_⟩
        · intro c
          rw [hG2, load_store_self] at c
          simp only [Option.getD_some] at c
          exact absurd c hnm
        · intro _
          rw [hG2, load_store_self]
          simp only [Option.getD_some]
          rw [Volume.volumeWrite_idem, store_store]
        · rintro ⟨c, -, -⟩
          rw [hG2, load_store_self] at c
          simp only [Option.getD_some] at c
          exact hnm c
      · have hG2 : heap2.geometry = heap.geometry := by
          rw [← hv]
          simp only [if_neg hm, hgeo0, if_neg hvol]
        refine ⟨?_, ?_, ?_⟩
        · intro c
          rw [hG2, hgeo0] at c
          exact absurd c hm
        · intro c
          rw [hG2, hgeo0] at c
          exact absurd c hvol
        · rintro ⟨c, -, -⟩
          rw [hG2, hgeo0] at c
          exact hm c
  have hpsF : a.m_particle.hasParticleInfo = true →
      obj0.particle_index <
        ((load heap2.particleSystems obj0.particle_system).getD {}).particles →
      store heap2.particleSystems obj0.particle_system
        { (load heap2.particleSystems obj0.particle_system).getD {} with
          data := store ((load heap2.particleSystems obj0.particle_system).getD {}).data
            obj0.particle_index
            (a.m_particle.write
              ((load ((load heap2.particleSystems obj0.particle_system).getD {}).data
                obj0.particle_index).getD {})) }
        = heap2.particleSystems := by
    intro hinfo
    have hps : ¬ obj0.particle_system = 0 := by
      intro c
      have := pok.2 ⟨hinfo, c⟩
      exact Bool.noConfusion this
    by_cases hidx : obj0.particle_index < psys0.particles
    · have hP2 : heap2.particleSystems
          = store heap.particleSystems obj0.particle_system
            { psys0 with
              data := store psys0.data obj0.particle_index
                (a.m_particle.write ((load psys0.data obj0.particle_index).getD {})) } := by
        rw [← hv]
        simp only [hinfo, hps, not_false_eq_true, hidx, and_self, if_true]
      intro _
      rw [hP2, load_store_self]
      simp only [Option.getD_some, load_store_self, store_store, Particle.write_idem]
    · have hP2 : heap2.particleSystems = heap.particleSystems := by
        rw [← hv]
        simp only [hinfo, hps, not_false_eq_true, hidx, and_false, if_false]
      intro c
      rw [hP2, hpsys0] at c
      exact absurd c hidx
  have hobj2 : (load heap2.objects object).getD {} = setObjectMembers a obj0 := by
    rw [← hv]
    simp only [load_store_self, Option.getD_some]
  have hO2 : heap2.objects = store heap.objects object (setObjectMembers a obj0) := by
    rw [← hv]
  have hS2 : heap2.shaders = heap.shaders := by
    rw [← hv]
  obtain ⟨geoF, hgeoFeq, hgF1, hgF2, hgF3⟩ := hgeoF
  have hobjF : (load t.heap.objects object).getD {}
      = setLightgroup lg a (setObjectMembers a obj0) := by
    rw [ht]
    simp only [load_store_self, Option.getD_some, hobj2]
  have hOF : t.heap.objects
      = store heap.objects object (setLightgroup lg a (setObjectMembers a obj0)) := by
    rw [ht]
    simp only [hO2, store_store, load_store_self, Option.getD_some]
  have hGF : t.heap.geometry = heap2.geometry := by rw [ht]
  have hPF : t.heap.particleSystems = heap2.particleSystems := by rw [ht]
  have hSF : t.heap.shaders = heap.shaders := by rw [ht]; exact hS2
  have hLg : (setLightgroup lg a (setObjectMembers a obj0)).geometry = obj0.geometry ∧
      (setLightgroup lg a (setObjectMembers a obj0)).particle_system = obj0.particle_system ∧
      (setLightgroup lg a (setObjectMembers a obj0)).particle_index = obj0.particle_index := by
    cases lg <;> exact ⟨rfl, rfl, rfl⟩
  have hLL : setLightgroup lg a (setLightgroup lg a (setObjectMembers a obj0))
      = setLightgroup lg a (setObjectMembers a obj0) := by
    cases lg <;> rfl
  refine ⟨?_, ?_, ?_, ?_, hSF⟩
  · unfold appliedTo
    simp only [hobjF, hLg.1, hLg.2.1, hLg.2.2, hGF, hPF, hgeoFeq]
    refine ⟨?_, ?_, hgF1, hgF2, hpsF⟩
    · rw [hOF, store_store, setObjectMembers_setLightgroup]
    · rw [hOF, store_store, hLL]
  · rw [hobjF, hLg.1]
    exact hg
  · rw [hobjF, hLg.1, hGF, hgeoFeq]
    exact hgF3
  · rw [hobjF, hLg.2.1]
    by_cases hinfo : a.m_particle.hasParticleInfo = true
    · right
      intro c
      have := pok.2 ⟨hinfo, c⟩
      exact Bool.noConfusion this
    · left
      simpa using hinfo

theorem f32Ne_self (x : Nat) (h : f32IsNaN x = false) : f32Ne x x = false := by
  unfold f32Ne
  simp [h]

theorem applyDisplacement_same (a : CyclesAttributes) (heap : Heap) :
    (applyDisplacement a a heap).1 = true ∧
      ((load (applyDisplacement a a heap).2.shaders a.m_shader).getD {}).attributes
        = ((load heap.shaders a.m_shader).getD {}).attributes := by
  unfold applyDisplacement
  dsimp only
  split_ifs with c1 c2 c3
  · exact absurd rfl c3
  · refine ⟨rfl, ?_⟩
    dsimp only
    rw [load_store_self]
    rfl
  · exact ⟨rfl, rfl⟩
  · exact ⟨rfl, rfl⟩

theorem applyHead_same (a : CyclesAttributes) (heap : Heap) (object : Nat)
    (hnan : f32IsNaN a.m_dicingRate = false) :
    (applyHead a heap object (some a)).1 = true ∧
      (applyHead a heap object (some a)).2.objects = heap.objects ∧
      (applyHead a heap object (some a)).2.geometry = heap.geometry ∧
      (applyHead a heap object (some a)).2.particleSystems = heap.particleSystems ∧
      ((load (applyHead a heap object (some a)).2.shaders a.m_shader).getD {}).attributes
        = ((load heap.shaders a.m_shader).getD {}).attributes := by
  obtain ⟨ho, hg, hp⟩ := applyDisplacement_frame a a heap
  obtain ⟨hd, hs⟩ := applyDisplacement_same a heap
  have hsub : subdivisionChanged a a (applyDisplacement a a heap).2 object = false := by
    unfold subdivisionChanged
    dsimp only
    rw [f32Ne_self _ hnan]
    split_ifs <;> simp
  unfold applyHead
  dsimp only
  rw [hd, hsub]
  simp only [Bool.true_eq_false, if_false, Bool.false_eq_true]
  exact ⟨trivial, ho, hg, hp, hs⟩

theorem appliedTo_congr (lg : Bool) (a : CyclesAttributes) (heap heap2 : Heap) (object : Nat)
    (ho : heap2.objects = heap.objects) (hg : heap2.geometry = heap.geometry)
    (hp : heap2.particleSystems = heap.particleSystems) (h : appliedTo lg a heap object) :
    appliedTo lg a heap2 object := by
  unfold appliedTo at h ⊢
  rw [ho, hg, hp]
  exact h

theorem tangentMissing_congr (s1 s2 : CShader) (mesh : CGeometry)
    (h : s1.attributes = s2.attributes) : tangentMissing s1 mesh = tangentMissing s2 mesh := by
  unfold tangentMissing
  rw [h]

/-- C13, amended: for every object handle and every snapshot `a` whose dicing
rate is not a NaN, if `attributes( a )` returned true, then `a` is the held
snapshot, and `attributes( a )` called again on the same handle returns true
and leaves the object table (visibility, holdout, shadow catcher, colour,
dupli coordinates, asset name), the geometry table (dicing parameters) and
the particle systems as the first call left them. -/
theorem CyclesObject.attributes_again (lg : Bool) (o : CyclesObject)
    (shaderCache : ShaderCache) (scene : Scene) (heap : Heap) (a : CyclesAttributes)
    (r1 : AttributesApplied) (hnan : f32IsNaN a.m_dicingRate = false)
    (h1 : o.attributes lg shaderCache scene heap a = some r1) (hres : r1.result = true) :
    r1.object.m_attributes = some a ∧
      ∃ r2, r1.object.attributes lg r1.shaderCache r1.scene r1.heap a = some r2 ∧
        r2.result = true ∧ r2.heap.objects = r1.heap.objects ∧
        r2.heap.geometry = r1.heap.geometry ∧
        r2.heap.particleSystems = r1.heap.particleSystems := by
  unfold CyclesObject.attributes at h1
  dsimp only at h1
  by_cases hobj : o.m_instance.m_object = 0
  · rw [if_pos hobj] at h1
    exact Option.noConfusion h1
  rw [if_neg hobj] at h1
  rcases hap : a.applyObject lg shaderCache heap o.m_instance.m_object o.m_attributes
    with _ | r
  · rw [hap] at h1
    exact Option.noConfusion h1
  rw [hap] at h1
  dsimp only at h1
  cases hrok : r.ok
  · rw [hrok] at h1
    simp only [Bool.false_eq_true, if_false, Option.some.injEq] at h1
    rw [← h1] at hres
    exact Bool.noConfusion hres
  rw [hrok] at h1
  simp only [if_true, Option.some.injEq] at h1
  subst h1
  refine ⟨rfl, ?_⟩
  -- the first call ran the tail of applyObject to the end
  unfold CyclesAttributes.applyObject at hap
  dsimp only at hap
  by_cases hhead : (applyHead a heap o.m_instance.m_object o.m_attributes).1 = false
  · rw [if_pos hhead] at hap
    simp only [Option.some.injEq] at hap
    rw [← hap] at hrok
    exact Bool.noConfusion hrok
  rw [if_neg hhead] at hap
  obtain ⟨hst, hgeo, htan, hpart, hsh⟩ := applyTail_applied lg a shaderCache _ _ r hap hrok
  -- the second call passes the head and finds nothing to change
  obtain ⟨h2head, h2o, h2g, h2p, h2s⟩ := applyHead_same a r.heap o.m_instance.m_object hnan
  have hst2 := appliedTo_congr lg a r.heap _ o.m_instance.m_object h2o h2g h2p hst
  obtain ⟨t2, ht2, ht2ok, ht2heap⟩ := applyTail_of_applied lg a r.shaderCache
    (applyHead a r.heap o.m_instance.m_object (some a)).2 o.m_instance.m_object hst2
    (by rw [h2o]; exact hgeo)
    (by
      rw [h2o, h2g]
      rw [tangentMissing_congr _ ((load (applyHead a heap o.m_instance.m_object
        o.m_attributes).2.shaders a.m_shader).getD {}) _ (by rw [h2s, hsh])]
      exact htan)
    (by rw [h2o]; exact hpart)
  have hap2 : a.applyObject lg r.shaderCache r.heap o.m_instance.m_object (some a)
      = some t2 := by
    unfold CyclesAttributes.applyObject
    dsimp only
    rw [h2head]
    simp only [Bool.true_eq_false, if_false]
    exact ht2
  refine ⟨{ result := true
            object := { o with m_attributes := some a }
            shaderCache := t2.shaderCache
            scene :=
              { scene with
                calls := (scene.calls ++ [EngineCall.objectTagUpdate o.m_instance.m_object]) ++
                  [EngineCall.objectTagUpdate o.m_instance.m_object] }
            heap := t2.heap }, ?_, rfl, ?_, ?_, ?_⟩
  · unfold CyclesObject.attributes
    dsimp only
    rw [if_neg hobj, hap2]
    dsimp only
    rw [ht2ok]
    rfl
  · dsimp only
    rw [ht2heap]
    exact h2o
  · dsimp only
    rw [ht2heap]
    exact h2g
  · dsimp only
    rw [ht2heap]
    exact h2p

/-- C13 at a snapshot whose dicing rate is `2.0f`: both calls succeed. -/
theorem CyclesObject.attributes_again_witness :
    f32IsNaN sampleDicedAttributes.m_dicingRate = false ∧
      runAttributesDiced.isSome = true ∧
      ∃ r2, (sampleCyclesObject.attributes false sampleShaderCache sampleScene sampleSubdHeap
            sampleDicedAttributes).bind
          (fun r => r.object.attributes false r.shaderCache r.scene r.heap
            sampleDicedAttributes) = some r2 ∧
        r2.result = true := by
  have hsome : runAttributesDiced.isSome = true := by decide
  have h1 : sampleCyclesObject.attributes false sampleShaderCache sampleScene sampleSubdHeap
      sampleDicedAttributes = some (runAttributesDiced.get hsome) :=
    (Option.some_get hsome).symm
  have h := CyclesObject.attributes_again false sampleCyclesObject sampleShaderCache
    sampleScene sampleSubdHeap sampleDicedAttributes (runAttributesDiced.get hsome)
    (by decide) h1 rfl
  obtain ⟨-, r2, h2, hr2, -⟩ := h
  refine ⟨by decide, hsome, r2, ?_, hr2⟩
  rw [h1]
  exact h2

/-- C13, as stated, fails: a snapshot whose dicing rate is a NaN is applied
to a fresh handle of a subdivision mesh with success, and applying the same
snapshot again returns false, because the NaN differs from itself. -/
theorem CyclesObject.attributes_again_nan :
    runAttributesNaN.map (fun r => (r.result, r.object.m_attributes))
        = some (true, some sampleNaNAttributes) ∧
      runAttributesNaNAgain.map (fun r => r.result) = some false := by
  decide

/-! ## CyclesRenderer::option (C14, C15, C16, C17) -/

theorem optionHead_members (r : CyclesRenderer) (name : String) :
    (optionHead r name).m_sessionParams = r.m_sessionParams ∧
      (optionHead r name).m_sceneParams = r.m_sceneParams ∧
      (optionHead r name).m_sessionParamsDefault = r.m_sessionParamsDefault ∧
      (optionHead r name).m_sceneParamsDefault = r.m_sceneParamsDefault ∧
      (optionHead r name).m_sceneChanged = true ∧
      (optionHead r name).m_renderState = r.m_renderState ∧
      (optionHead r name).m_renderType = r.m_renderType ∧
      (optionHead r name).storedOptions = r.storedOptions := by
  unfold optionHead CyclesRenderer.msg
  dsimp only
  split_ifs <;> exact ⟨rfl, rfl, rfl, rfl, rfl, rfl, rfl, rfl⟩

theorem optionHead_again (r : CyclesRenderer) (name : String) (h : r.m_sceneChanged = true) :
    { optionHead r name with messages := r.messages } = r := by
  unfold optionHead CyclesRenderer.msg
  dsimp only
  split_ifs <;> rw [← h]

theorem option_sessionParam (E : Engine) (k : UpdateFlags) (rays : PathRayFlag)
    (r : CyclesRenderer) (name : String) (value : Option AttrValue)
    (h : name ∈ paramOptionNames.take 7) :
    r.option E k rays name value = some (optionSession (optionHead r name) name value) := by
  simp only [paramOptionNames, List.take, List.mem_cons, List.mem_singleton, List.not_mem_nil,
    or_false] at h
  rcases h with rfl | rfl | rfl | rfl | rfl | rfl | rfl <;>
    simp [CyclesRenderer.option, startsWith]

theorem option_sceneParam (E : Engine) (k : UpdateFlags) (rays : PathRayFlag)
    (r : CyclesRenderer) (name : String) (value : Option AttrValue)
    (h : name ∈ paramOptionNames.drop 7) :
    r.option E k rays name value = some (optionScene (optionHead r name) name value) := by
  simp only [paramOptionNames, List.drop, List.mem_cons, List.mem_singleton, List.not_mem_nil,
    or_false] at h
  rcases h with rfl | rfl | rfl | rfl | rfl <;>
    simp [CyclesRenderer.option, startsWith]

theorem reportedCast_some {α : Type} (cast : AttrValue → Option α) (expected : String)
    (r : CyclesRenderer) (v : AttrValue) (name : String) (a : α) (h : cast v = some a) :
    reportedCast cast expected r v name = (some a, r) := by
  unfold reportedCast
  rw [h]

theorem reportedCast_none {α : Type} (cast : AttrValue → Option α) (expected : String)
    (r : CyclesRenderer) (v : AttrValue) (name : String) (h : cast v = none) :
    reportedCast cast expected r v name
      = (none, { r with messages := r.messages ++ [castWarning expected v name] }) := by
  unfold reportedCast
  rw [h]

theorem optionParam_null {α : Type} (cast : AttrValue → Option α) (expected : String)
    (r : CyclesRenderer) (name : String) (default : α)
    (set : CyclesRenderer → α → CyclesRenderer) :
    optionParam cast expected r name none default set = set r default := rfl

theorem optionParam_some {α : Type} (cast : AttrValue → Option α) (expected : String)
    (r : CyclesRenderer) (name : String) (v : AttrValue) (default a : α)
    (set : CyclesRenderer → α → CyclesRenderer) (h : cast v = some a) :
    optionParam cast expected r name (some v) default set = set r a := by
  unfold optionParam
  dsimp only
  rw [reportedCast_some cast expected r v name a h]

theorem optionParam_wrong {α : Type} (cast : AttrValue → Option α) (expected : String)
    (r : CyclesRenderer) (name : String) (v : AttrValue) (default : α)
    (set : CyclesRenderer → α → CyclesRenderer) (h : cast v = none) :
    optionParam cast expected r name (some v) default set
      = { r with messages := r.messages ++ [castWarning expected v name] } := by
  unfold optionParam
  dsimp only
  rw [reportedCast_none cast expected r v name h]

theorem optionParam_frame {α : Type} (cast : AttrValue → Option α) (expected : String)
    (r : CyclesRenderer) (name : String) (value : Option AttrValue) (default : α)
    (set : CyclesRenderer → α → CyclesRenderer) (P : CyclesRenderer → Prop)
    (hset : ∀ a, P (set r a))
    (hmsg : ∀ m, P { r with messages := m }) :
    P (optionParam cast expected r name value default set) := by
  rcases value with _ | v
  · rw [optionParam_null]
    exact hset _
  · rcases hc : cast v with _ | a
    · rw [optionParam_wrong cast expected r name v default set hc]
      exact hmsg _
    · rw [optionParam_some cast expected r name v default a set hc]
      exact hset _

theorem optionSession_frame (r : CyclesRenderer) (name : String) (value : Option AttrValue) :
    (optionSession r name value).m_sceneParams = r.m_sceneParams ∧
      (optionSession r name value).m_sessionParamsDefault = r.m_sessionParamsDefault ∧
      (optionSession r name value).m_sceneParamsDefault = r.m_sceneParamsDefault ∧
      (optionSession r name value).m_renderState = r.m_renderState ∧
      (optionSession r name value).m_renderType = r.m_renderType ∧
      { optionSession r name value with
        m_sessionParams := r.m_sessionParams
        messages := r.messages } = r := by
  unfold optionSession
  split_ifs
  all_goals first
    | exact ⟨rfl, rfl, rfl, rfl, rfl, rfl⟩
    | exact optionParam_frame _ _ _ _ _ _ _
        (fun y => y.m_sceneParams = r.m_sceneParams ∧
          y.m_sessionParamsDefault = r.m_sessionParamsDefault ∧
          y.m_sceneParamsDefault = r.m_sceneParamsDefault ∧
          y.m_renderState = r.m_renderState ∧ y.m_renderType = r.m_renderType ∧
          { y with m_sessionParams := r.m_sessionParams, messages := r.messages } = r)
        (fun _ => ⟨rfl, rfl, rfl, rfl, rfl, rfl⟩) (fun _ => ⟨rfl, rfl, rfl, rfl, rfl, rfl⟩)

theorem optionScene_frame (r : CyclesRenderer) (name : String) (value : Option AttrValue)
    (h : name ∈ paramOptionNames.drop 7) :
    (optionScene r name value).m_sessionParams = r.m_sessionParams ∧
      (optionScene r name value).m_sessionParamsDefault = r.m_sessionParamsDefault ∧
      (optionScene r name value).m_sceneParamsDefault = r.m_sceneParamsDefault ∧
      { optionScene r name value with
        m_sceneParams := r.m_sceneParams
        messages := r.messages } = r := by
  simp only [paramOptionNames, List.drop, List.mem_cons, List.mem_singleton, List.not_mem_nil,
    or_false] at h
  unfold optionScene
  rcases h with rfl | rfl | rfl | rfl | rfl
  all_goals
    simp only [String.reduceEq, if_true, if_false]
    exact optionParam_frame _ _ _ _ _ _ _
      (fun y => y.m_sessionParams = r.m_sessionParams ∧
        y.m_sessionParamsDefault = r.m_sessionParamsDefault ∧
        y.m_sceneParamsDefault = r.m_sceneParamsDefault ∧
        { y with m_sceneParams := r.m_sceneParams, messages := r.messages } = r)
      (fun _ => ⟨rfl, rfl, rfl, rfl⟩) (fun _ => ⟨rfl, rfl, rfl, rfl⟩)


theorem storedParam_congr (s s2 : SessionParams) (c c2 : SceneParams) (other : String)
    (h1 : other = "ccl:session:experimental" → s.experimental = s2.experimental)
    (h2 : other = "ccl:session:samples" → s.samples = s2.samples)
    (h3 : other = "ccl:session:pixel_size" → s.pixel_size = s2.pixel_size)
    (h4 : other = "ccl:session:time_limit" → s.time_limit = s2.time_limit)
    (h5 : other = "ccl:session:use_profiling" → s.use_profiling = s2.use_profiling)
    (h6 : other = "ccl:session:use_auto_tile" → s.use_auto_tile = s2.use_auto_tile)
    (h7 : other = "ccl:session:tile_size" → s.tile_size = s2.tile_size)
    (h8 : other = "ccl:scene:use_bvh_spatial_split" →
      c.use_bvh_spatial_split = c2.use_bvh_spatial_split)
    (h9 : other = "ccl:scene:use_bvh_unaligned_nodes" →
      c.use_bvh_unaligned_nodes = c2.use_bvh_unaligned_nodes)
    (h10 : other = "ccl:scene:num_bvh_time_steps" → c.num_bvh_time_steps = c2.num_bvh_time_steps)
    (h11 : other = "ccl:scene:hair_subdivisions" → c.hair_subdivisions = c2.hair_subdivisions)
    (h12 : other = "ccl:scene:texture_limit" → c.texture_limit = c2.texture_limit) :
    storedParam s c other = storedParam s2 c2 other := by
  unfold storedParam
  by_cases g1 : other = "ccl:session:experimental"
  · rw [if_pos g1, if_pos g1, h1 g1]
  rw [if_neg g1, if_neg g1]
  by_cases g2 : other = "ccl:session:samples"
  · rw [if_pos g2, if_pos g2, h2 g2]
  rw [if_neg g2, if_neg g2]
  by_cases g3 : other = "ccl:session:pixel_size"
  · rw [if_pos g3, if_pos g3, h3 g3]
  rw [if_neg g3, if_neg g3]
  by_cases g4 : other = "ccl:session:time_limit"
  · rw [if_pos g4, if_pos g4, h4 g4]
  rw [if_neg g4, if_neg g4]
  by_cases g5 : other = "ccl:session:use_profiling"
  · rw [if_pos g5, if_pos g5, h5 g5]
  rw [if_neg g5, if_neg g5]
  by_cases g6 : other = "ccl:session:use_auto_tile"
  · rw [if_pos g6, if_pos g6, h6 g6]
  rw [if_neg g6, if_neg g6]
  by_cases g7 : other = "ccl:session:tile_size"
  · rw [if_pos g7, if_pos g7, h7 g7]
  rw [if_neg g7, if_neg g7]
  by_cases g8 : other = "ccl:scene:use_bvh_spatial_split"
  · rw [if_pos g8, if_pos g8, h8 g8]
  rw [if_neg g8, if_neg g8]
  by_cases g9 : other = "ccl:scene:use_bvh_unaligned_nodes"
  · rw [if_pos g9, if_pos g9, h9 g9]
  rw [if_neg g9, if_neg g9]
  by_cases g10 : other = "ccl:scene:num_bvh_time_steps"
  · rw [if_pos g10, if_pos g10, h10 g10]
  rw [if_neg g10, if_neg g10]
  by_cases g11 : other = "ccl:scene:hair_subdivisions"
  · rw [if_pos g11, if_pos g11, h11 g11]
  rw [if_neg g11, if_neg g11]
  by_cases g12 : other = "ccl:scene:texture_limit"
  · rw [if_pos g12, if_pos g12, h12 g12]
  rw [if_neg g12, if_neg g12]

theorem optionSession_other (r : CyclesRenderer) (name : String) (value : Option AttrValue)
    (scene : SceneParams) (h : name ∈ paramOptionNames.take 7) :
    (∀ other, other ≠ name →
        storedParam (optionSession r name value).m_sessionParams scene other
          = storedParam r.m_sessionParams scene other) ∧
      (optionSession r name value).m_sessionParams.otherMembers
        = r.m_sessionParams.otherMembers := by
  simp only [paramOptionNames, List.take, List.mem_cons, List.mem_singleton, List.not_mem_nil,
    or_false] at h
  unfold optionSession
  rcases h with rfl | rfl | rfl | rfl | rfl | rfl | rfl
  all_goals
    simp only [String.reduceEq, if_true, if_false]
    refine optionParam_frame _ _ _ _ _ _ _
      (fun y => (∀ other, other ≠ _ →
          storedParam y.m_sessionParams scene other = storedParam r.m_sessionParams scene other) ∧
        y.m_sessionParams.otherMembers = r.m_sessionParams.otherMembers) ?_ ?_
    · intro a
      refine ⟨?_, rfl⟩
      intro other hother
      refine storedParam_congr _ _ _ _ _ ?_ ?_ ?_ ?_ ?_ ?_ ?_ ?_ ?_ ?_ ?_ ?_ <;>
        first
          | exact fun g => absurd g hother
          | exact fun _ => rfl
    · intro m
      exact ⟨fun _ _ => rfl, rfl⟩

theorem optionScene_other (r : CyclesRenderer) (name : String) (value : Option AttrValue)
    (session : SessionParams) (h : name ∈ paramOptionNames.drop 7) :
    (∀ other, other ≠ name →
        storedParam session (optionScene r name value).m_sceneParams other
          = storedParam session r.m_sceneParams other) ∧
      (optionScene r name value).m_sceneParams.otherMembers
        = r.m_sceneParams.otherMembers := by
  simp only [paramOptionNames, List.drop, List.mem_cons, List.mem_singleton, List.not_mem_nil,
    or_false] at h
  unfold optionScene
  rcases h with rfl | rfl | rfl | rfl | rfl
  all_goals
    simp only [String.reduceEq, if_true, if_false]
    refine optionParam_frame _ _ _ _ _ _ _
      (fun y => (∀ other, other ≠ _ →
          storedParam session y.m_sceneParams other = storedParam session r.m_sceneParams other) ∧
        y.m_sceneParams.otherMembers = r.m_sceneParams.otherMembers) ?_ ?_
    · intro a
      refine ⟨?_, rfl⟩
      intro other hother
      refine storedParam_congr _ _ _ _ _ ?_ ?_ ?_ ?_ ?_ ?_ ?_ ?_ ?_ ?_ ?_ ?_ <;>
        first
          | exact fun g => absurd g hother
          | exact fun _ => rfl
    · intro m
      exact ⟨fun _ _ => rfl, rfl⟩

theorem optionSession_stores (r : CyclesRenderer) (name : String) (v d : AttrValue)
    (scene0 : SceneParams) (h : name ∈ paramOptionNames.take 7)
    (hd : storedParam r.m_sessionParamsDefault scene0 name = some d)
    (hv : ∃ t, v.hasType t = true ∧ d.hasType t = true) (scene : SceneParams) :
    storedParam (optionSession r name (some v)).m_sessionParams scene name = some v ∧
      storedParam (optionSession r name none).m_sessionParams scene name = some d := by
  obtain ⟨t, hvt, hdt⟩ := hv
  simp only [paramOptionNames, List.take, List.mem_cons, List.mem_singleton, List.not_mem_nil,
    or_false] at h
  unfold optionSession
  rcases h with rfl | rfl | rfl | rfl | rfl | rfl | rfl
  all_goals
    simp only [storedParam, String.reduceEq, if_true, if_false, Option.some.injEq] at hd
    subst hd
    cases t <;> simp only [AttrValue.hasType, Bool.false_eq_true] at hdt
    cases v <;> simp only [AttrValue.hasType, Bool.false_eq_true] at hvt
    simp only [String.reduceEq, if_true, if_false, optionParam, reportedCast,
      AttrValue.asBool, AttrValue.asInt, AttrValue.asFloat]
    exact ⟨rfl, rfl⟩

theorem optionScene_stores (r : CyclesRenderer) (name : String) (v d : AttrValue)
    (session0 : SessionParams) (h : name ∈ paramOptionNames.drop 7)
    (hd : storedParam session0 r.m_sceneParamsDefault name = some d)
    (hv : ∃ t, v.hasType t = true ∧ d.hasType t = true) (session : SessionParams) :
    storedParam session (optionScene r name (some v)).m_sceneParams name = some v ∧
      storedParam session (optionScene r name none).m_sceneParams name = some d := by
  obtain ⟨t, hvt, hdt⟩ := hv
  simp only [paramOptionNames, List.drop, List.mem_cons, List.mem_singleton, List.not_mem_nil,
    or_false] at h
  unfold optionScene
  rcases h with rfl | rfl | rfl | rfl | rfl
  all_goals
    simp only [storedParam, String.reduceEq, if_true, if_false, Option.some.injEq] at hd
    subst hd
    cases t <;> simp only [AttrValue.hasType, Bool.false_eq_true] at hdt
    cases v <;> simp only [AttrValue.hasType, Bool.false_eq_true] at hvt
    simp only [String.reduceEq, if_true, if_false, optionParam, reportedCast,
      AttrValue.asBool, AttrValue.asInt, AttrValue.asFloat]
    exact ⟨rfl, rfl⟩

theorem ShaderCache.new_isSome (k : UpdateFlags) (scene : Scene) (heap : Heap) :
    ∃ g, ShaderCache.new k scene heap = some g := by
  unfold ShaderCache.new ShaderCache.get shaderFingerprint
  simp [HashMap.find, SharedPtr.isNull]

theorem initDeviceName_eq (r : CyclesRenderer) :
    ∃ n, initDeviceName r = { r with m_deviceName := n } := by
  unfold initDeviceName
  split_ifs
  · exact ⟨_, rfl⟩
  · exact ⟨r.m_deviceName, rfl⟩

theorem initDevice_eq (E : Engine) (r : CyclesRenderer) :
    ∃ device m, initDevice E r =
      { r with
        m_sessionParams := { r.m_sessionParams with device := device }
        messages := m } := by
  unfold initDevice
  dsimp only
  split
  · exact ⟨_, r.messages, rfl⟩
  · exact ⟨_, _, rfl⟩

theorem initShadingDevice_eq (E : Engine) (r : CyclesRenderer) :
    ∃ device m, initShadingDevice E r =
      { r with
        m_sessionParams := { r.m_sessionParams with device := device }
        messages := m } := by
  unfold initShadingDevice
  split_ifs
  · exact ⟨_, _, rfl⟩
  · exact ⟨r.m_sessionParams.device, r.messages, rfl⟩

theorem CyclesRenderer.init_eq (E : Engine) (r : CyclesRenderer) :
    ∃ n device m session scene heap i b f,
      r.init E =
        { r with
          m_deviceName := n
          m_sessionParams := { r.m_sessionParams with device := device }
          messages := m
          session := session
          scene := scene
          heap := heap
          integratorNode := i
          backgroundNode := b
          filmNode := f
          trace := r.trace ++ [RenderEvent.sessionCreate] } := by
  obtain ⟨n, h1⟩ := initDeviceName_eq r
  obtain ⟨d2, m2, h2⟩ := initDevice_eq E (initDeviceName r)
  obtain ⟨d3, m3, h3⟩ := initShadingDevice_eq E (initDevice E (initDeviceName r))
  unfold CyclesRenderer.init
  dsimp only
  rw [h3, h2, h1]
  exact ⟨_, _, _, _, _, _, _, _, _, rfl⟩

theorem CyclesRenderer.init_members (E : Engine) (r : CyclesRenderer) :
    (∃ device, (r.init E).m_sessionParams = { r.m_sessionParams with device := device }) ∧
      (r.init E).m_sceneParams = r.m_sceneParams ∧
      (r.init E).m_sessionParamsDefault = r.m_sessionParamsDefault ∧
      (r.init E).m_sceneParamsDefault = r.m_sceneParamsDefault ∧
      (r.init E).m_frame = r.m_frame ∧ (r.init E).m_camera = r.m_camera ∧
      (r.init E).m_dicingCamera = r.m_dicingCamera ∧ (r.init E).m_seed = r.m_seed ∧
      (r.init E).m_useFrameAsSeed = r.m_useFrameAsSeed ∧
      (r.init E).m_cryptomatteAccurate = r.m_cryptomatteAccurate ∧
      (r.init E).m_cryptomatteDepth = r.m_cryptomatteDepth ∧
      (r.init E).m_renderState = r.m_renderState ∧
      (r.init E).m_renderType = r.m_renderType ∧
      (r.init E).trace = r.trace ++ [RenderEvent.sessionCreate] := by
  obtain ⟨n, device, m, session, scene, heap, i, b, f, h⟩ := CyclesRenderer.init_eq E r
  rw [h]
  exact ⟨⟨device, rfl⟩, rfl, rfl, rfl, rfl, rfl, rfl, rfl, rfl, rfl, rfl, rfl, rfl, rfl⟩

theorem CyclesRenderer.new_defaults (E : Engine) (k : UpdateFlags) (renderType : RenderType) :
    ∃ r, CyclesRenderer.new E k renderType = some r ∧
      (∃ device, r.m_sessionParams = { r.m_sessionParamsDefault with device := device }) ∧
      r.m_sceneParamsDefault = r.m_sceneParams ∧
      r.m_frame = 1 ∧ r.m_camera = "" ∧ r.m_dicingCamera = "" ∧ r.m_seed = 0 ∧
      r.m_useFrameAsSeed = true ∧ r.m_cryptomatteAccurate = true ∧ r.m_cryptomatteDepth = 0 ∧
      r.m_renderState = RenderState.RENDERSTATE_READY ∧ r.m_renderType = renderType := by
  unfold CyclesRenderer.new
  dsimp only
  obtain ⟨⟨device, i1⟩, i2, i3, i4, i5, i6, i7, i8, i9, i10, i11, i12, i13, -⟩ :=
    CyclesRenderer.init_members E (CyclesRenderer.initial E renderType)
  obtain ⟨g, hg⟩ := ShaderCache.new_isSome k ((CyclesRenderer.initial E renderType).init E).scene
    ((CyclesRenderer.initial E renderType).init E).heap
  rw [hg]
  exact ⟨_, rfl, ⟨device, i1.trans (by rw [i3]; rfl)⟩, i4.trans i2.symm, i5, i6, i7, i8, i9,
    i10, i11, i12, i13⟩

set_option maxHeartbeats 1600000 in
/-- C14: for every session and scene option handled by the `OPTION_BOOL`,
`OPTION_INT` and `OPTION_FLOAT` macros, with `d` the member of the `Default`
copy for it, and every value `v` of the same data type, `option( name, v )`
stores `v`, and `option( name, null )` after it leaves the parameter equal to
`d`, and leaves the other eleven parameters, the remaining members of the two
parameter blocks, the two `Default` copies and every other member of the
renderer but the message log as the first call left them. -/
theorem CyclesRenderer.option_null_restores_default (E : Engine) (k : UpdateFlags)
    (rays : PathRayFlag) (r : CyclesRenderer) (name : String) (v d : AttrValue)
    (hname : name ∈ paramOptionNames)
    (hd : storedParam r.m_sessionParamsDefault r.m_sceneParamsDefault name = some d)
    (hv : ∃ t, v.hasType t = true ∧ d.hasType t = true) :
    ∃ r1 r2, r.option E k rays name (some v) = some r1 ∧
      r1.option E k rays name none = some r2 ∧
      storedParam r1.m_sessionParams r1.m_sceneParams name = some v ∧
      storedParam r2.m_sessionParams r2.m_sceneParams name = some d ∧
      (∀ other, other ≠ name →
        storedParam r2.m_sessionParams r2.m_sceneParams other
          = storedParam r1.m_sessionParams r1.m_sceneParams other) ∧
      r2.m_sessionParams.otherMembers = r1.m_sessionParams.otherMembers ∧
      r2.m_sceneParams.otherMembers = r1.m_sceneParams.otherMembers ∧
      r2.m_sessionParamsDefault = r.m_sessionParamsDefault ∧
      r2.m_sceneParamsDefault = r.m_sceneParamsDefault ∧
      { r2 with
        m_sessionParams := r1.m_sessionParams
        m_sceneParams := r1.m_sceneParams
        messages := r1.messages } = r1 := by
  have hsplit : name ∈ paramOptionNames.take 7 ∨ name ∈ paramOptionNames.drop 7 := by
    rw [← List.mem_append, List.take_append_drop]
    exact hname
  rcases hsplit with h | h
  · obtain ⟨a1, a2, a3, a4, a5, -, -, -⟩ := optionHead_members r name
    obtain ⟨b1, b2, b3, b4, b5, -, -, -⟩ := optionHead_members
      (optionSession (optionHead r name) name (some v)) name
    obtain ⟨f1, f2, f3, -, -, f4⟩ := optionSession_frame (optionHead r name) name (some v)
    obtain ⟨g1, g2, g3, -, -, g4⟩ := optionSession_frame
      (optionHead (optionSession (optionHead r name) name (some v)) name) name none
    have hchanged : (optionSession (optionHead r name) name (some v)).m_sceneChanged = true :=
      (congrArg CyclesRenderer.m_sceneChanged f4).trans a5
    refine ⟨_, _, option_sessionParam E k rays r name _ h,
      option_sessionParam E k rays _ name _ h, ?_, ?_, ?_, ?_, ?_, ?_, ?_, ?_⟩
    · exact (optionSession_stores _ name v d r.m_sceneParamsDefault h
        (by rw [a3]; exact hd) hv _).1
    · exact (optionSession_stores _ name v d r.m_sceneParamsDefault h
        (by rw [b3, f2, a3]; exact hd) hv _).2
    · intro other hother
      rw [g1, b2, (optionSession_other _ name none _ h).1 other hother, b1]
    · rw [(optionSession_other _ name none r.m_sceneParams h).2, b1]
    · rw [g1, b2]
    · rw [g2, b3, f2, a3]
    · rw [g3, b4, f3, a4]
    · have e := optionHead_again _ name hchanged
      calc _ = { ({ optionSession
                (optionHead (optionSession (optionHead r name) name (some v)) name) name none with
              m_sessionParams :=
                (optionHead (optionSession (optionHead r name) name (some v)) name).m_sessionParams
              messages :=
                (optionHead (optionSession (optionHead r name) name (some v)) name).messages } :
              CyclesRenderer) with
            m_sessionParams := (optionSession (optionHead r name) name (some v)).m_sessionParams
            m_sceneParams := (optionSession (optionHead r name) name (some v)).m_sceneParams
            messages := (optionSession (optionHead r name) name (some v)).messages } := rfl
        _ = { optionHead (optionSession (optionHead r name) name (some v)) name with
            m_sessionParams := (optionSession (optionHead r name) name (some v)).m_sessionParams
            m_sceneParams := (optionSession (optionHead r name) name (some v)).m_sceneParams
            messages := (optionSession (optionHead r name) name (some v)).messages } := by
          rw [g4]
        _ = { ({ optionHead (optionSession (optionHead r name) name (some v)) name with
              messages := (optionSession (optionHead r name) name (some v)).messages } :
              CyclesRenderer) with
            m_sessionParams := (optionSession (optionHead r name) name (some v)).m_sessionParams
            m_sceneParams := (optionSession (optionHead r name) name (some v)).m_sceneParams }
            := rfl
        _ = _ := by rw [e]
  · obtain ⟨a1, a2, a3, a4, a5, -, -, -⟩ := optionHead_members r name
    obtain ⟨b1, b2, b3, b4, b5, -, -, -⟩ := optionHead_members
      (optionScene (optionHead r name) name (some v)) name
    obtain ⟨f1, f2, f3, f4⟩ := optionScene_frame (optionHead r name) name (some v) h
    obtain ⟨g1, g2, g3, g4⟩ := optionScene_frame
      (optionHead (optionScene (optionHead r name) name (some v)) name) name none h
    have hchanged : (optionScene (optionHead r name) name (some v)).m_sceneChanged = true :=
      (congrArg CyclesRenderer.m_sceneChanged f4).trans a5
    refine ⟨_, _, option_sceneParam E k rays r name _ h,
      option_sceneParam E k rays _ name _ h, ?_, ?_, ?_, ?_, ?_, ?_, ?_, ?_⟩
    · exact (optionScene_stores _ name v d r.m_sessionParamsDefault h
        (by rw [a4]; exact hd) hv _).1
    · exact (optionScene_stores _ name v d r.m_sessionParamsDefault h
        (by rw [b4, f3, a4]; exact hd) hv _).2
    · intro other hother
      rw [g1, b1, (optionScene_other _ name none _ h).1 other hother, b2]
    · rw [g1, b1]
    · rw [(optionScene_other _ name none r.m_sessionParams h).2, b2]
    · rw [g2, b3, f2, a3]
    · rw [g3, b4, f3, a4]
    · have e := optionHead_again _ name hchanged
      calc _ = { ({ optionScene
                (optionHead (optionScene (optionHead r name) name (some v)) name) name none with
              m_sceneParams :=
                (optionHead (optionScene (optionHead r name) name (some v)) name).m_sceneParams
              messages :=
                (optionHead (optionScene (optionHead r name) name (some v)) name).messages } :
              CyclesRenderer) with
            m_sessionParams := (optionScene (optionHead r name) name (some v)).m_sessionParams
            m_sceneParams := (optionScene (optionHead r name) name (some v)).m_sceneParams
            messages := (optionScene (optionHead r name) name (some v)).messages } := rfl
        _ = { optionHead (optionScene (optionHead r name) name (some v)) name with
            m_sessionParams := (optionScene (optionHead r name) name (some v)).m_sessionParams
            m_sceneParams := (optionScene (optionHead r name) name (some v)).m_sceneParams
            messages := (optionScene (optionHead r name) name (some v)).messages } := by
          rw [g4]
        _ = { ({ optionHead (optionScene (optionHead r name) name (some v)) name with
              messages := (optionScene (optionHead r name) name (some v)).messages } :
              CyclesRenderer) with
            m_sessionParams := (optionScene (optionHead r name) name (some v)).m_sessionParams
            m_sceneParams := (optionScene (optionHead r name) name (some v)).m_sceneParams }
            := rfl
        _ = _ := by rw [e]

/-- C14 at `ccl:session:samples` on a freshly constructed renderer. -/
theorem CyclesRenderer.option_null_restores_default_witness :
    "ccl:session:samples" ∈ paramOptionNames ∧
      ∃ r1 r2,
        (sampleRenderer RenderType.Batch).option sampleEngine sampleFlags samplePathRayFlag
          "ccl:session:samples" (some (AttrValue.int 16)) = some r1 ∧
        r1.option sampleEngine sampleFlags samplePathRayFlag "ccl:session:samples" none
          = some r2 ∧
        r1.m_sessionParams.samples = 16 ∧ r2.m_sessionParams.samples = 1024 := by
  obtain ⟨r1, r2, h1, h2, h3, h4, -⟩ :=
    CyclesRenderer.option_null_restores_default sampleEngine sampleFlags samplePathRayFlag
      (sampleRenderer RenderType.Batch) "ccl:session:samples" (AttrValue.int 16)
      (AttrValue.int 1024) (by decide) (by decide) ⟨OptionType.int, rfl, rfl⟩
  refine ⟨by decide, r1, r2, h1, h2, ?_, ?_⟩
  · simpa [storedParam] using h3
  · simpa [storedParam] using h4

theorem option_frame_null (E : Engine) (k : UpdateFlags) (rays : PathRayFlag)
    (r : CyclesRenderer) :
    r.option E k rays "frame" none = some { optionHead r "frame" with m_frame := 0 } := by
  simp [CyclesRenderer.option]

theorem option_camera_null (E : Engine) (k : UpdateFlags) (rays : PathRayFlag)
    (r : CyclesRenderer) :
    r.option E k rays "camera" none = some { optionHead r "camera" with m_camera := "" } := by
  simp [CyclesRenderer.option]

theorem option_dicingCamera_null (E : Engine) (k : UpdateFlags) (rays : PathRayFlag)
    (r : CyclesRenderer) :
    r.option E k rays "ccl:dicing_camera" none
      = some { optionHead r "ccl:dicing_camera" with m_dicingCamera := "" } := by
  simp [CyclesRenderer.option]

theorem option_seed_null (E : Engine) (k : UpdateFlags) (rays : PathRayFlag)
    (r : CyclesRenderer) :
    r.option E k rays "ccl:integrator:seed" none
      = some { optionHead r "ccl:integrator:seed" with m_seed := 0 } := by
  simp [CyclesRenderer.option]

theorem option_useFrameAsSeed_null (E : Engine) (k : UpdateFlags) (rays : PathRayFlag)
    (r : CyclesRenderer) :
    r.option E k rays "ccl:integrator:useFrameAsSeed" none
      = some { optionHead r "ccl:integrator:useFrameAsSeed" with m_useFrameAsSeed := true } := by
  simp [CyclesRenderer.option]

theorem option_film (E : Engine) (k : UpdateFlags) (rays : PathRayFlag)
    (r : CyclesRenderer) (name : String) (value : Option AttrValue)
    (h : name = "ccl:film:cryptomatte_accurate" ∨ name = "ccl:film:cryptomatte_depth") :
    r.option E k rays name value = some (optionFilm E (optionHead r name) name value) := by
  rcases h with rfl | rfl <;> simp [CyclesRenderer.option, startsWith]

theorem optionFilm_accurate_null (E : Engine) (r : CyclesRenderer) :
    optionFilm E r "ccl:film:cryptomatte_accurate" none
      = { r with m_outputsChanged := true, m_cryptomatteAccurate := false } := by
  unfold optionFilm
  simp only [if_true]

theorem optionFilm_depth_null (E : Engine) (r : CyclesRenderer) :
    optionFilm E r "ccl:film:cryptomatte_depth" none
      = { r with m_outputsChanged := true, m_cryptomatteDepth := 0 } := by
  unfold optionFilm
  simp only [String.reduceEq, if_true, if_false, Bool.false_eq_true]

/-- C15: on a freshly constructed renderer `option( "frame", null )` stores
the frame `0` although the constructor stored `1`, and
`option( "ccl:film:cryptomatte_accurate", null )` stores `false` although the
constructor stored `true`; for `camera`, `ccl:dicing_camera`,
`ccl:integrator:seed`, `ccl:integrator:useFrameAsSeed` and
`ccl:film:cryptomatte_depth` a null value stores, in every state, the value
the constructor stored. -/
theorem CyclesRenderer.option_null_frame_and_accurate (E : Engine) (k : UpdateFlags)
    (rays : PathRayFlag) (renderType : RenderType) :
    ∃ r0, CyclesRenderer.new E k renderType = some r0 ∧
      (∃ r1, r0.option E k rays "frame" none = some r1 ∧ r1.m_frame = 0 ∧ r0.m_frame = 1) ∧
      (∃ r1, r0.option E k rays "ccl:film:cryptomatte_accurate" none = some r1 ∧
        r1.m_cryptomatteAccurate = false ∧ r0.m_cryptomatteAccurate = true) ∧
      ∀ r : CyclesRenderer,
        (∃ r1, r.option E k rays "camera" none = some r1 ∧ r1.m_camera = r0.m_camera) ∧
        (∃ r1, r.option E k rays "ccl:dicing_camera" none = some r1 ∧
          r1.m_dicingCamera = r0.m_dicingCamera) ∧
        (∃ r1, r.option E k rays "ccl:integrator:seed" none = some r1 ∧
          r1.m_seed = r0.m_seed) ∧
        (∃ r1, r.option E k rays "ccl:integrator:useFrameAsSeed" none = some r1 ∧
          r1.m_useFrameAsSeed = r0.m_useFrameAsSeed) ∧
        (∃ r1, r.option E k rays "ccl:film:cryptomatte_depth" none = some r1 ∧
          r1.m_cryptomatteDepth = r0.m_cryptomatteDepth) := by
  obtain ⟨r0, hnew, -, -, hframe, hcamera, hdicing, hseed, huse, haccurate, hdepth, -, -⟩ :=
    CyclesRenderer.new_defaults E k renderType
  refine ⟨r0, hnew, ⟨_, option_frame_null E k rays r0, rfl, hframe⟩, ⟨_,
    option_film E k rays r0 _ none (Or.inl rfl), ?_, haccurate⟩, ?_⟩
  · rw [optionFilm_accurate_null]
  · intro r
    refine ⟨⟨_, option_camera_null E k rays r, ?_⟩, ⟨_, option_dicingCamera_null E k rays r, ?_⟩,
      ⟨_, option_seed_null E k rays r, ?_⟩, ⟨_, option_useFrameAsSeed_null E k rays r, ?_⟩,
      ⟨_, option_film E k rays r _ none (Or.inr rfl), ?_⟩⟩
    · rw [hcamera]
    · rw [hdicing]
    · rw [hseed]
    · rw [huse]
    · rw [optionFilm_depth_null, hdepth]

theorem unrecognised_spec (name : String) (h : unrecognised name = true) :
    (name ≠ "frame" ∧ name ≠ "camera" ∧ name ≠ "ccl:dicing_camera" ∧ name ≠ "sampleMotion" ∧
        name ≠ "ccl:device" ∧ name ≠ "ccl:shadingsystem" ∧ name ≠ "ccl:log_level") ∧
      (startsWith name "ccl:session:" = false ∧ startsWith name "ccl:scene:" = false ∧
        startsWith name "ccl:texture:" = false ∧ startsWith name "ccl:background:" = false ∧
        startsWith name "ccl:film:" = false ∧ startsWith name "ccl:integrator:" = false) ∧
      (name ≠ "ccl:session:threads" ∧ name ≠ "ccl:integrator:useFrameAsSeed" ∧
        name ≠ "ccl:integrator:seed") := by
  simp only [unrecognised, namedOptions, optionNamespaces, List.contains_cons, List.contains_nil,
    List.any_cons, List.any_nil, Bool.or_false, Bool.and_eq_true, Bool.not_eq_true',
    Bool.or_eq_false_iff, beq_eq_false_iff_ne, ne_eq] at h
  obtain ⟨⟨n1, n2, n3, n4, n5, n6, n7⟩, s1, s2, s3, s4, s5, s6⟩ := h
  refine ⟨⟨n1, n2, n3, n4, n5, n6, n7⟩, ⟨s1, s2, s3, s4, s5, s6⟩, ?_, ?_, ?_⟩
  · intro c
    rw [c] at s1
    exact absurd s1 (by decide)
  · intro c
    rw [c] at s6
    exact absurd s6 (by decide)
  · intro c
    rw [c] at s6
    exact absurd s6 (by decide)

theorem optionHead_unrecognised (r : CyclesRenderer) (name : String)
    (h : unrecognised name = true) : optionHead r name = { r with m_sceneChanged := true } := by
  obtain ⟨⟨-, -, -, -, n5, n6, -⟩, ⟨s1, s2, s3, -, -, -⟩, -⟩ := unrecognised_spec name h
  have hn : needsRestart name = false := by
    unfold needsRestart
    simp [n5, n6, s1, s2, s3]
  unfold optionHead
  dsimp only
  rw [if_neg (by rw [hn]; simp)]

/-- C17, amended: for every name that is no option known by name and lies in
none of the option namespaces, `option` changes no member of the renderer but
the scene-changed flag and the message log; it logs one warning when the name
starts with `ccl:` or `user:` or contains no colon, and nothing when the name
contains a colon after another start, which marks an option of another
renderer. -/
theorem CyclesRenderer.option_unrecognised (E : Engine) (k : UpdateFlags) (rays : PathRayFlag)
    (r : CyclesRenderer) (name : String) (value : Option AttrValue)
    (h : unrecognised name = true) :
    r.option E k rays name value =
      some { r with
        m_sceneChanged := true
        messages := r.messages ++ unrecognisedWarnings name } := by
  obtain ⟨⟨n1, n2, n3, n4, n5, n6, n7⟩, ⟨s1, s2, s3, s4, s5, s6⟩, t1, t2, t3⟩ :=
    unrecognised_spec name h
  unfold CyclesRenderer.option
  dsimp only
  rw [optionHead_unrecognised r name h, if_neg n1, if_neg n2, if_neg n3, if_neg n4, if_neg n5,
    if_neg t1, if_neg n6, if_neg n7, if_neg t2, if_neg t3, s1, s2, s3, s4, s5, s6]
  simp only [Bool.false_eq_true, if_false]
  unfold unrecognisedWarnings CyclesRenderer.msg
  split_ifs <;> simp

/-- C17 at an Arnold option name and at a name without a colon. -/
theorem CyclesRenderer.option_unrecognised_witness :
    unrecognised "ai:AA_samples" = true ∧ unrecognised "samples" = true ∧
      ((sampleRenderer RenderType.Batch).option sampleEngine sampleFlags samplePathRayFlag
          "samples" (some (AttrValue.int 3))).map (fun r => r.messages.length) = some 1 := by
  refine ⟨by decide, by decide, ?_⟩
  rw [CyclesRenderer.option_unrecognised sampleEngine sampleFlags samplePathRayFlag
    (sampleRenderer RenderType.Batch) "samples" (some (AttrValue.int 3)) (by decide)]
  decide

/-- C17, as stated, fails: the name `ai:AA_samples` is no recognised option
and lies in no recognised namespace, and `option` logs nothing for it. -/
theorem CyclesRenderer.option_other_renderer_silent :
    unrecognised "ai:AA_samples" = true ∧
      ((sampleRenderer RenderType.Batch).option sampleEngine sampleFlags samplePathRayFlag
          "ai:AA_samples" (some (AttrValue.int 3))).map (fun r => r.messages)
        = some (sampleRenderer RenderType.Batch).messages ∧
      (sampleRenderer RenderType.Batch).messages = [] := by
  decide

theorem optionSocket_frame (E : Engine) (r : CyclesRenderer) (name : String)
    (value : Option AttrValue) (node : Node) (socket : String) :
    ∃ extra, (optionSocket E r name value node socket).1
      = { r with messages := r.messages ++ extra } := by
  unfold optionSocket
  rcases node.find_input socket with _ | s
  · exact ⟨[], by simp⟩
  · rcases value with _ | v
    · exact ⟨[], by simp⟩
    · dsimp only
      rcases hc : v.asData with _ | data
      · rw [reportedCast_none AttrValue.asData "Data" r v name hc]
        exact ⟨_, rfl⟩
      · rw [reportedCast_some AttrValue.asData "Data" r v name data hc]
        exact ⟨[], by simp⟩

theorem storedOptions_messages (x : CyclesRenderer) (m : List Message) :
    ({ x with messages := m } : CyclesRenderer).storedOptions = x.storedOptions := rfl

theorem updateOutputs_renderType (s : OutputState) (b : Bool) :
    (updateOutputs s b).m_renderType = s.m_renderType := by
  unfold updateOutputs
  dsimp only
  split_ifs <;> rfl

theorem CyclesRenderer.clearUnused_members (k : UpdateFlags) (r : CyclesRenderer) :
    (r.clearUnused k).m_renderState = r.m_renderState ∧
      (r.clearUnused k).m_renderType = r.m_renderType ∧
      (r.clearUnused k).trace = r.trace ++
        [RenderEvent.clearUnused CacheKind.camera, RenderEvent.clearUnused CacheKind.instance_,
         RenderEvent.clearUnused CacheKind.particleSystems,
         RenderEvent.clearUnused CacheKind.light,
         RenderEvent.clearUnused CacheKind.attributes] :=
  ⟨rfl, rfl, rfl⟩

theorem CyclesRenderer.updateSceneObjects_members (k : UpdateFlags) (r : CyclesRenderer)
    (force : Bool) :
    (r.updateSceneObjects k force).m_renderState = r.m_renderState ∧
      (r.updateSceneObjects k force).m_renderType = r.m_renderType ∧
      (r.updateSceneObjects k force).trace = r.trace ++ [RenderEvent.updateSceneObjects force] :=
  ⟨rfl, rfl, rfl⟩

theorem CyclesRenderer.updateCamera_members (r : CyclesRenderer) :
    r.updateCamera.m_renderState = r.m_renderState ∧
      r.updateCamera.m_renderType = r.m_renderType ∧
      r.updateCamera.trace = r.trace ++ [RenderEvent.updateCamera] := by
  unfold CyclesRenderer.updateCamera
  dsimp only
  generalize List.find? (fun e => e.1 == (r.log RenderEvent.updateCamera).m_camera)
    (r.log RenderEvent.updateCamera).m_cameras = o1
  rcases o1 with _ | e1
  · dsimp only
    by_cases hc : (r.log RenderEvent.updateCamera).m_camera ≠ ""
    · simp only [if_pos hc]
      split
      · split_ifs <;> exact ⟨rfl, rfl, rfl⟩
      · exact ⟨rfl, rfl, rfl⟩
    · simp only [if_neg hc]
      split
      · split_ifs <;> exact ⟨rfl, rfl, rfl⟩
      · exact ⟨rfl, rfl, rfl⟩
  · dsimp only
    split
    · split_ifs <;> exact ⟨rfl, rfl, rfl⟩
    · exact ⟨rfl, rfl, rfl⟩

theorem CyclesRenderer.updateOutputs_members (env : RenderEnv) (r : CyclesRenderer) :
    (r.updateOutputs env).m_renderState = r.m_renderState ∧
      (r.updateOutputs env).m_renderType = r.m_renderType ∧
      ∃ t, (r.updateOutputs env).trace = r.trace ++ t ∧ evictions t = [] := by
  unfold CyclesRenderer.updateOutputs
  dsimp only
  split_ifs
  · exact ⟨rfl, updateOutputs_renderType _ _,
      [RenderEvent.updateOutputs, RenderEvent.sessionReset], by simp [CyclesRenderer.log], rfl⟩
  · exact ⟨rfl, updateOutputs_renderType _ _, [RenderEvent.updateOutputs], rfl, rfl⟩

theorem CyclesRenderer.reset_members (E : Engine) (k : UpdateFlags) (r : CyclesRenderer) :
    (CyclesRenderer.reset E k r).m_renderState = RenderState.RENDERSTATE_READY ∧
      (CyclesRenderer.reset E k r).m_renderType = r.m_renderType ∧
      (CyclesRenderer.reset E k r).trace = r.trace ++
        [RenderEvent.sessionCancel, RenderEvent.sessionCreate,
         RenderEvent.updateSceneObjects true] := by
  obtain ⟨-, -, -, -, -, -, -, -, -, -, -, i12, i13, i14⟩ :=
    CyclesRenderer.init_members E
      { r with
        m_renderState := RenderState.RENDERSTATE_READY
        trace := r.trace ++ [RenderEvent.sessionCancel] }
  refine ⟨i12, i13, ?_⟩
  show (CyclesRenderer.init E _).trace ++ [RenderEvent.updateSceneObjects true] = _
  rw [i14]
  simp

theorem CyclesRenderer.updateOptions_members (E : Engine) (k : UpdateFlags) (env : RenderEnv)
    (r : CyclesRenderer) :
    (r.updateOptions E k env).m_renderType = r.m_renderType ∧
      ((r.updateOptions E k env).m_renderState = RenderState.RENDERSTATE_RENDERING ↔
        r.m_renderState = RenderState.RENDERSTATE_RENDERING) ∧
      ∃ t, (r.updateOptions E k env).trace = r.trace ++ t ∧ evictions t = [] := by
  unfold CyclesRenderer.updateOptions
  lift_lets
  intro r0 _ r1 _ _ _ _ r2 _ r3 _ r4 _ r5 rr _ _ r6
  have h1 : r1.m_renderState = r.m_renderState ∧ r1.m_renderType = r.m_renderType ∧
      r1.trace = r.trace ++ [RenderEvent.updateOptions] := by
    simp only [r1]
    split_ifs <;> exact ⟨rfl, rfl, rfl⟩
  have h3 : r3.m_renderState = r.m_renderState ∧ r3.m_renderType = r.m_renderType ∧
      r3.trace = r.trace ++ [RenderEvent.updateOptions] := by
    simp only [r3]
    split_ifs <;> exact h1
  have h4 : r4.m_renderState = r.m_renderState ∧ r4.m_renderType = r.m_renderType ∧
      r4.trace = r.trace ++ [RenderEvent.updateOptions] := by
    simp only [r4]
    split_ifs <;> exact h3
  have h5 : r5.m_renderState = r.m_renderState ∧ r5.m_renderType = r.m_renderType ∧
      r5.trace = r.trace ++ [RenderEvent.updateOptions] := by
    simp only [r5]
    split_ifs <;> exact h4
  have hr : rr.m_renderState = r.m_renderState ∧ rr.m_renderType = r.m_renderType ∧
      rr.trace = r.trace ++ [RenderEvent.updateOptions] := by
    simp only [rr]
    split_ifs <;> exact h5
  have h6 : r6.m_renderState = r.m_renderState ∧ r6.m_renderType = r.m_renderType ∧
      r6.trace = r.trace ++ [RenderEvent.updateOptions] := by
    simp only [r6]
    split_ifs
    · exact hr
    · exact h5
  have keep : r6.m_renderType = r.m_renderType ∧
      (r6.m_renderState = RenderState.RENDERSTATE_RENDERING ↔
        r.m_renderState = RenderState.RENDERSTATE_RENDERING) ∧
      ∃ t, r6.trace = r.trace ++ t ∧ evictions t = [] :=
    ⟨h6.2.1, by rw [h6.1], [RenderEvent.updateOptions], h6.2.2, rfl⟩
  split_ifs with c1 c2
  · obtain ⟨s1, s2, s3⟩ := CyclesRenderer.reset_members E k { r6 with m_sessionReset := true }
    refine ⟨s2.trans h6.2.1, ?_, ?_⟩
    · rw [s1, ← h6.1]
      constructor
      · intro c
        exact absurd c (by decide)
      · intro c
        exact absurd c c2
    · refine ⟨[RenderEvent.updateOptions, RenderEvent.sessionCancel, RenderEvent.sessionCreate,
        RenderEvent.updateSceneObjects true], ?_, rfl⟩
      rw [s3]
      show r6.trace ++ _ = _
      rw [h6.2.2]
      simp
  · exact keep
  · exact keep

theorem of_some {α : Type} {P : α → Prop} {a b : α} (h : some a = some b) (ha : P a) : P b :=
  Option.some.inj h ▸ ha

theorem sameRenderState.chain {x y z : CyclesRenderer} (h1 : sameRenderState x y)
    (h2 : sameRenderState y z) : sameRenderState x z :=
  ⟨h2.1.trans h1.1, h2.2.trans h1.2⟩

theorem optionSocket_state (E : Engine) (r : CyclesRenderer) (name : String)
    (value : Option AttrValue) (node : Node) (socket : String) :
    sameRenderState r (optionSocket E r name value node socket).1 := by
  obtain ⟨extra, he⟩ := optionSocket_frame E r name value node socket
  rw [he]
  exact ⟨rfl, rfl⟩

theorem deviceStep_state (single : Bool) (name : String) (r : CyclesRenderer)
    (deviceStr : String) : sameRenderState r (deviceStep single name r deviceStr) := by
  unfold deviceStep CyclesRenderer.msg
  dsimp only
  rcases findDevice r.m_deviceMap "CPU" with _ | d1 <;>
    rcases findDevice r.m_deviceMap deviceStr with _ | d2 <;>
    dsimp only <;> split_ifs <;> exact ⟨rfl, rfl⟩

theorem foldl_deviceStep_state (single : Bool) (name : String) (l : List String) :
    ∀ r : CyclesRenderer, sameRenderState r (l.foldl (deviceStep single name) r) := by
  induction l with
  | nil => exact fun r => ⟨rfl, rfl⟩
  | cons s rest ih =>
    intro r
    exact (deviceStep_state single name r s).chain (ih _)

theorem optionDevice_state (r : CyclesRenderer) (name : String) (value : Option AttrValue) :
    sameRenderState r (optionDevice r name value) := by
  unfold optionDevice
  rcases value with _ | v
  · exact ⟨rfl, rfl⟩
  · rcases hc : v.asString with _ | s
    · simp only [reportedCast_none AttrValue.asString "StringData" r v name hc]
      exact ⟨rfl, rfl⟩
    · simp only [reportedCast_some AttrValue.asString "StringData" r v name s hc]
      have h := foldl_deviceStep_state
        ((if s.data.contains ' ' then (splitAt s.data ' ').map String.mk else [s]).length == 1)
        name (if s.data.contains ' ' then (splitAt s.data ' ').map String.mk else [s])
        { r with m_multiDevices := [], m_deviceName := "MULTI" }
      exact ⟨h.1, h.2⟩

theorem optionScene_state (r : CyclesRenderer) (name : String) (value : Option AttrValue) :
    sameRenderState r (optionScene r name value) := by
  unfold optionScene
  by_cases g1 : name = "ccl:scene:bvh_layout"
  · rw [if_pos g1]
    rcases value with _ | v
    · exact ⟨rfl, rfl⟩
    · rcases hc : v.asString with _ | s
      · simp only [reportedCast_none AttrValue.asString "StringData" r v name hc]
        exact ⟨rfl, rfl⟩
      · simp only [reportedCast_some AttrValue.asString "StringData" r v name s hc]
        exact ⟨rfl, rfl⟩
  · rw [if_neg g1]
    by_cases g2 : name = "ccl:scene:hair_shape"
    · rw [if_pos g2]
      rcases value with _ | v
      · exact ⟨rfl, rfl⟩
      · rcases hc : v.asString with _ | s
        · simp only [reportedCast_none AttrValue.asString "StringData" r v name hc]
          exact ⟨rfl, rfl⟩
        · simp only [reportedCast_some AttrValue.asString "StringData" r v name s hc]
          exact ⟨rfl, rfl⟩
    · rw [if_neg g2]
      split_ifs
      all_goals first
        | exact ⟨rfl, rfl⟩
        | exact optionParam_frame _ _ _ _ _ _ _ (fun y => sameRenderState r y)
            (fun _ => ⟨rfl, rfl⟩) (fun _ => ⟨rfl, rfl⟩)

theorem optionBackground_state (E : Engine) (k : UpdateFlags) (rays : PathRayFlag)
    (r : CyclesRenderer) (name : String) (value : Option AttrValue) (r1 : CyclesRenderer)
    (h : optionBackground E k rays r name value = some r1) : sameRenderState r r1 := by
  unfold optionBackground at h
  dsimp only at h
  rcases hf : r.backgroundNode.find_input (dropChars name 15) with _ | s
  · rw [hf] at h
    exact of_some h ⟨rfl, rfl⟩
  · rw [hf] at h
    rcases value with _ | v
    · exact of_some h ⟨rfl, rfl⟩
    · dsimp only at h
      by_cases c1 : startsWith name "ccl:background:visibility:" = true
      · rw [if_pos c1] at h
        rcases hc : v.asData with _ | d
        · simp only [reportedCast_none AttrValue.asData "Data" r v name hc] at h
          exact of_some h ⟨rfl, rfl⟩
        · simp only [reportedCast_some AttrValue.asData "Data" r v name d hc] at h
          cases d
          all_goals first
            | exact of_some h ⟨rfl, rfl⟩
            | exact absurd h (by simp)
      · rw [if_neg c1] at h
        by_cases c2 : name = "ccl:background:shader"
        · rw [if_pos c2] at h
          rcases hc : v.asShaderNetwork with _ | d
          · simp only [reportedCast_none AttrValue.asShaderNetwork "ShaderNetwork" _ v name hc]
              at h
            exact of_some h ⟨rfl, rfl⟩
          · simp only [reportedCast_some AttrValue.asShaderNetwork "ShaderNetwork" _ v name d
              hc] at h
            split at h
            · exact absurd h (by simp)
            · exact of_some h ⟨rfl, rfl⟩
        · rw [if_neg c2] at h
          have hs := optionSocket_state E r name (some v) r.backgroundNode (dropChars name 15)
          exact of_some h ⟨hs.1, hs.2⟩

theorem optionTexture_state (E : Engine) (r : CyclesRenderer) (name : String)
    (value : Option AttrValue) : sameRenderState r (optionTexture E r name value) := by
  unfold optionTexture
  lift_lets
  intro unknown d put
  by_cases c0 : (!E.WITH_CYCLES_TEXTURE_CACHE) = true
  · rw [if_pos c0]
    exact ⟨rfl, rfl⟩
  rw [if_neg c0]
  by_cases c1 : name = "ccl:texture:use_texture_cache"
  · rw [if_pos c1]
    exact optionParam_frame _ _ _ _ _ _ _ (fun y => sameRenderState r y)
      (fun _ => ⟨rfl, rfl⟩) (fun _ => ⟨rfl, rfl⟩)
  rw [if_neg c1]
  by_cases c2 : name = "ccl:texture:cache_size"
  · rw [if_pos c2]
    exact optionParam_frame _ _ _ _ _ _ _ (fun y => sameRenderState r y)
      (fun _ => ⟨rfl, rfl⟩) (fun _ => ⟨rfl, rfl⟩)
  rw [if_neg c2]
  by_cases c3 : name = "ccl:texture:auto_convert"
  · rw [if_pos c3]
    exact optionParam_frame _ _ _ _ _ _ _ (fun y => sameRenderState r y)
      (fun _ => ⟨rfl, rfl⟩) (fun _ => ⟨rfl, rfl⟩)
  rw [if_neg c3]
  by_cases c4 : name = "ccl:texture:accept_unmipped"
  · rw [if_pos c4]
    exact optionParam_frame _ _ _ _ _ _ _ (fun y => sameRenderState r y)
      (fun _ => ⟨rfl, rfl⟩) (fun _ => ⟨rfl, rfl⟩)
  rw [if_neg c4]
  by_cases c5 : name = "ccl:texture:accept_untiled"
  · rw [if_pos c5]
    exact optionParam_frame _ _ _ _ _ _ _ (fun y => sameRenderState r y)
      (fun _ => ⟨rfl, rfl⟩) (fun _ => ⟨rfl, rfl⟩)
  rw [if_neg c5]
  by_cases c6 : name = "ccl:texture:auto_tile"
  · rw [if_pos c6]
    exact optionParam_frame _ _ _ _ _ _ _ (fun y => sameRenderState r y)
      (fun _ => ⟨rfl, rfl⟩) (fun _ => ⟨rfl, rfl⟩)
  rw [if_neg c6]
  by_cases c7 : name = "ccl:texture:auto_mip"
  · rw [if_pos c7]
    exact optionParam_frame _ _ _ _ _ _ _ (fun y => sameRenderState r y)
      (fun _ => ⟨rfl, rfl⟩) (fun _ => ⟨rfl, rfl⟩)
  rw [if_neg c7]
  by_cases c8 : name = "ccl:texture:tile_size"
  · rw [if_pos c8]
    exact optionParam_frame _ _ _ _ _ _ _ (fun y => sameRenderState r y)
      (fun _ => ⟨rfl, rfl⟩) (fun _ => ⟨rfl, rfl⟩)
  rw [if_neg c8]
  by_cases c9 : name = "ccl:texture:blur_diffuse"
  · rw [if_pos c9]
    exact optionParam_frame _ _ _ _ _ _ _ (fun y => sameRenderState r y)
      (fun _ => ⟨rfl, rfl⟩) (fun _ => ⟨rfl, rfl⟩)
  rw [if_neg c9]
  by_cases c10 : name = "ccl:texture:blur_glossy"
  · rw [if_pos c10]
    exact optionParam_frame _ _ _ _ _ _ _ (fun y => sameRenderState r y)
      (fun _ => ⟨rfl, rfl⟩) (fun _ => ⟨rfl, rfl⟩)
  rw [if_neg c10]
  by_cases c11 : name = "ccl:texture:use_custom_cache_path"
  · rw [if_pos c11]
    exact optionParam_frame _ _ _ _ _ _ _ (fun y => sameRenderState r y)
      (fun _ => ⟨rfl, rfl⟩) (fun _ => ⟨rfl, rfl⟩)
  rw [if_neg c11]
  by_cases c12 : name = "ccl:texture:custom_cache_path"
  · rw [if_pos c12]
    exact optionParam_frame _ _ _ _ _ _ _ (fun y => sameRenderState r y)
      (fun _ => ⟨rfl, rfl⟩) (fun _ => ⟨rfl, rfl⟩)
  rw [if_neg c12]
  exact ⟨rfl, rfl⟩

theorem optionFilm_state (E : Engine) (r : CyclesRenderer) (name : String)
    (value : Option AttrValue) : sameRenderState r (optionFilm E r name value) := by
  unfold optionFilm
  lift_lets
  intro r0 accurate _ r0b depth s _
  have ha : sameRenderState r accurate.2 := by
    simp only [accurate]
    split_ifs
    · rcases value with _ | v
      · exact ⟨rfl, rfl⟩
      · rcases hc : v.asBool with _ | b
        · simp only [reportedCast_none AttrValue.asBool "BoolData" _ v name hc]
          exact ⟨rfl, rfl⟩
        · simp only [reportedCast_some AttrValue.asBool "BoolData" _ v name b hc]
          exact ⟨rfl, rfl⟩
    · exact ⟨rfl, rfl⟩
  have hd : sameRenderState r depth.2 := by
    simp only [depth]
    split_ifs
    · rcases value with _ | v
      · exact ha
      · rcases hc : v.asInt with _ | b
        · simp only [reportedCast_none AttrValue.asInt "IntData" _ v name hc]
          exact ha
        · simp only [reportedCast_some AttrValue.asInt "IntData" _ v name b hc]
          exact ha
    · exact ha
  have hs := optionSocket_state E depth.2 name value depth.2.filmNode (dropChars name 9)
  split_ifs
  · exact ha
  · exact hd
  · exact ⟨hs.1.trans hd.1, hs.2.trans hd.2⟩

theorem option_state (E : Engine) (k : UpdateFlags) (rays : PathRayFlag)
    (renderer : CyclesRenderer) (name : String) (value : Option AttrValue)
    (r1 : CyclesRenderer) (h : renderer.option E k rays name value = some r1) :
    sameRenderState renderer r1 := by
  have hx : sameRenderState renderer (optionHead renderer name) :=
    ⟨(optionHead_members renderer name).2.2.2.2.2.1,
      (optionHead_members renderer name).2.2.2.2.2.2.1⟩
  unfold CyclesRenderer.option at h
  dsimp only at h
  generalize optionHead renderer name = x at h hx
  by_cases g0 : name = "frame"
  · rw [if_pos g0] at h
    rcases value with _ | v
    · exact of_some h hx
    · rcases hc : AttrValue.asInt v with _ | a
      · simp only [reportedCast_none AttrValue.asInt "IntData" _ v _ hc] at h
        exact of_some h hx
      · simp only [reportedCast_some AttrValue.asInt "IntData" _ v _ a hc] at h
        exact of_some h hx
  rw [if_neg g0] at h
  by_cases g1 : name = "camera"
  · rw [if_pos g1] at h
    rcases value with _ | v
    · exact of_some h hx
    · rcases hc : AttrValue.asString v with _ | a
      · simp only [reportedCast_none AttrValue.asString "StringData" _ v _ hc] at h
        exact of_some h hx
      · simp only [reportedCast_some AttrValue.asString "StringData" _ v _ a hc] at h
        exact of_some h hx
  rw [if_neg g1] at h
  by_cases g2 : name = "ccl:dicing_camera"
  · rw [if_pos g2] at h
    rcases value with _ | v
    · exact of_some h hx
    · rcases hc : AttrValue.asString v with _ | a
      · simp only [reportedCast_none AttrValue.asString "StringData" _ v _ hc] at h
        exact of_some h hx
      · simp only [reportedCast_some AttrValue.asString "StringData" _ v _ a hc] at h
        exact of_some h hx
  rw [if_neg g2] at h
  by_cases g3 : name = "sampleMotion"
  · rw [if_pos g3] at h
    have hs := optionSocket_state E x name value x.integratorNode "motion_blur"
    exact of_some h ⟨hs.1.trans hx.1, hs.2.trans hx.2⟩
  rw [if_neg g3] at h
  by_cases g4 : name = "ccl:device"
  · rw [if_pos g4] at h
    exact of_some h (hx.chain (optionDevice_state x name value))
  rw [if_neg g4] at h
  by_cases g5 : name = "ccl:session:threads"
  · rw [if_pos g5] at h
    rcases value with _ | v
    · exact of_some h hx
    · rcases hc : AttrValue.asInt v with _ | a
      · simp only [reportedCast_none AttrValue.asInt "IntData" _ v _ hc] at h
        exact of_some h hx
      · simp only [reportedCast_some AttrValue.asInt "IntData" _ v _ a hc] at h
        exact of_some h hx
  rw [if_neg g5] at h
  by_cases g6 : name = "ccl:shadingsystem"
  · rw [if_pos g6] at h
    rcases value with _ | v
    · exact of_some h hx
    · rcases hc : AttrValue.asString v with _ | a
      · simp only [reportedCast_none AttrValue.asString "StringData" _ v _ hc] at h
        exact of_some h hx
      · simp only [reportedCast_some AttrValue.asString "StringData" _ v _ a hc] at h
        exact of_some h hx
  rw [if_neg g6] at h
  by_cases g7 : name = "ccl:log_level"
  · rw [if_pos g7] at h
    rcases value with _ | v
    · exact of_some h hx
    · rcases hc : AttrValue.asInt v with _ | a
      · simp only [reportedCast_none AttrValue.asInt "IntData" _ v _ hc] at h
        exact of_some h hx
      · simp only [reportedCast_some AttrValue.asInt "IntData" _ v _ a hc] at h
        exact of_some h hx
  rw [if_neg g7] at h
  by_cases g8 : name = "ccl:integrator:useFrameAsSeed"
  · rw [if_pos g8] at h
    rcases value with _ | v
    · exact of_some h hx
    · rcases hc : AttrValue.asBool v with _ | a
      · simp only [reportedCast_none AttrValue.asBool "BoolData" _ v _ hc] at h
        exact of_some h hx
      · simp only [reportedCast_some AttrValue.asBool "BoolData" _ v _ a hc] at h
        exact of_some h hx
  rw [if_neg g8] at h
  by_cases g9 : name = "ccl:integrator:seed"
  · rw [if_pos g9] at h
    rcases value with _ | v
    · exact of_some h hx
    · rcases hc : AttrValue.asInt v with _ | a
      · simp only [reportedCast_none AttrValue.asInt "IntData" _ v _ hc] at h
        exact of_some h hx
      · simp only [reportedCast_some AttrValue.asInt "IntData" _ v _ a hc] at h
        exact of_some h hx
  rw [if_neg g9] at h
  by_cases g10 : startsWith name "ccl:session:" = true
  · rw [if_pos g10] at h
    have hs := optionSession_frame x name value
    exact of_some h ⟨hs.2.2.2.1.trans hx.1, hs.2.2.2.2.1.trans hx.2⟩
  rw [if_neg g10] at h
  by_cases g11 : startsWith name "ccl:scene:" = true
  · rw [if_pos g11] at h
    exact of_some h (hx.chain (optionScene_state x name value))
  rw [if_neg g11] at h
  by_cases g12 : startsWith name "ccl:texture:" = true
  · rw [if_pos g12] at h
    exact of_some h (hx.chain (optionTexture_state E x name value))
  rw [if_neg g12] at h
  by_cases g13 : startsWith name "ccl:background:" = true
  · rw [if_pos g13] at h
    exact hx.chain (optionBackground_state E k rays x name value r1 h)
  rw [if_neg g13] at h
  by_cases g14 : startsWith name "ccl:film:" = true
  · rw [if_pos g14] at h
    exact of_some h (hx.chain (optionFilm_state E x name value))
  rw [if_neg g14] at h
  by_cases g15 : startsWith name "ccl:integrator:" = true
  · rw [if_pos g15] at h
    have hs := optionSocket_state E x name value x.integratorNode (dropChars name 15)
    exact of_some h ⟨hs.1.trans hx.1, hs.2.trans hx.2⟩
  rw [if_neg g15] at h
  by_cases g16 : startsWith name "ccl:" = true
  · rw [if_pos g16] at h
    exact of_some h hx
  rw [if_neg g16] at h
  by_cases g17 : startsWith name "user:" = true
  · rw [if_pos g17] at h
    exact of_some h hx
  rw [if_neg g17] at h
  by_cases g18 : name.data.contains ':' = true
  · rw [if_pos g18] at h
    exact of_some h hx
  rw [if_neg g18] at h
  exact of_some h hx

theorem evictions_append (a b : List RenderEvent) :
    evictions (a ++ b) = evictions a ++ evictions b := by
  unfold evictions
  exact List.filterMap_append _ _ _

theorem quietStep.refl (x : CyclesRenderer) : quietStep x x :=
  ⟨rfl, Iff.rfl, [], (List.append_nil _).symm, rfl⟩

theorem quietStep.trans {x y z : CyclesRenderer} (h1 : quietStep x y) (h2 : quietStep y z) :
    quietStep x z := by
  obtain ⟨a1, a2, t1, a3, a4⟩ := h1
  obtain ⟨b1, b2, t2, b3, b4⟩ := h2
  refine ⟨b1.trans a1, b2.trans a2, t1 ++ t2, ?_, ?_⟩
  · rw [b3, a3, List.append_assoc]
  · rw [evictions_append, a4, b4]
    rfl

theorem quietStep.of_members {x y : CyclesRenderer} (t : List RenderEvent)
    (h1 : y.m_renderState = x.m_renderState) (h2 : y.m_renderType = x.m_renderType)
    (h3 : y.trace = x.trace ++ t) (h4 : evictions t = []) : quietStep x y :=
  ⟨h2, by rw [h1], t, h3, h4⟩

theorem renderEvict_members (k : UpdateFlags) (x : CyclesRenderer) :
    (if x.m_renderState = RenderState.RENDERSTATE_RENDERING ∧
          x.m_renderType = RenderType.Interactive then x.clearUnused k
        else x).m_renderState = x.m_renderState ∧
      (if x.m_renderState = RenderState.RENDERSTATE_RENDERING ∧
          x.m_renderType = RenderType.Interactive then x.clearUnused k
        else x).m_renderType = x.m_renderType ∧
      (if x.m_renderState = RenderState.RENDERSTATE_RENDERING ∧
          x.m_renderType = RenderType.Interactive then x.clearUnused k
        else x).trace = x.trace ++
          (if x.m_renderState = RenderState.RENDERSTATE_RENDERING ∧
            x.m_renderType = RenderType.Interactive then renderEvictions else []) := by
  split_ifs
  · exact ⟨rfl, rfl, rfl⟩
  · exact ⟨rfl, rfl, (List.append_nil _).symm⟩

theorem renderReset_quiet (env : RenderEnv) (x : CyclesRenderer) :
    quietStep x
      (if x.m_renderState = RenderState.RENDERSTATE_RENDERING ∧ env.sceneNeedReset = true then
        x.log RenderEvent.sessionReset
      else x) := by
  split_ifs
  · exact quietStep.of_members [RenderEvent.sessionReset] rfl rfl rfl rfl
  · exact quietStep.refl _

theorem renderUnlock_quiet (x : CyclesRenderer) :
    quietStep x
      (if !x.m_sessionReset then x.log RenderEvent.mutexUnlock
      else { x with m_sessionReset := false }) := by
  split_ifs
  · exact quietStep.of_members [RenderEvent.mutexUnlock] rfl rfl rfl rfl
  · exact quietStep.of_members [] rfl rfl (List.append_nil _).symm rfl

theorem renderStart_quiet (x : CyclesRenderer) :
    quietStep x
      (if x.m_renderState = RenderState.RENDERSTATE_RENDERING then
        x.log RenderEvent.sessionStart
      else x) := by
  split_ifs
  · exact quietStep.of_members [RenderEvent.sessionStart] rfl rfl rfl rfl
  · exact quietStep.refl _

theorem renderChanged_quiet (x : CyclesRenderer) :
    quietStep x ({ x with m_sceneChanged := false }.log RenderEvent.mutexUnlock) :=
  quietStep.of_members [RenderEvent.mutexUnlock] rfl rfl rfl rfl

theorem renderFinish_members (x y : CyclesRenderer)
    (hy : y =
      if x.m_renderState = RenderState.RENDERSTATE_RENDERING then
        { x with m_pause := false, session := { x.session with pause := false } }.log
          (RenderEvent.sessionSetPause false)
      else
        let r11 :=
          { x.log RenderEvent.sessionStart with
            m_renderState := RenderState.RENDERSTATE_RENDERING }
        if r11.m_renderType = RenderType.Interactive then r11
        else
          { r11.log RenderEvent.sessionWait with
            m_renderState := RenderState.RENDERSTATE_STOPPED }) :
    y.m_renderType = x.m_renderType ∧
      (x.m_renderState ≠ RenderState.RENDERSTATE_RENDERING →
        y.m_renderState =
          if x.m_renderType = RenderType.Interactive then RenderState.RENDERSTATE_RENDERING
          else RenderState.RENDERSTATE_STOPPED) ∧
      (x.m_renderState = RenderState.RENDERSTATE_RENDERING →
        y.m_renderState = RenderState.RENDERSTATE_RENDERING ∧ y.m_pause = false ∧
          y.session.pause = false) ∧
      ∃ t, y.trace = x.trace ++ t ∧ evictions t = [] := by
  subst hy
  by_cases c1 : x.m_renderState = RenderState.RENDERSTATE_RENDERING
  · rw [if_pos c1]
    exact ⟨rfl, fun hn => absurd c1 hn, fun _ => ⟨c1, rfl, rfl⟩,
      [RenderEvent.sessionSetPause false], rfl, rfl⟩
  · rw [if_neg c1]
    dsimp only
    by_cases c2 : x.m_renderType = RenderType.Interactive
    · have c3 : (x.log RenderEvent.sessionStart).m_renderType = RenderType.Interactive := c2
      rw [if_pos c3, if_pos c2]
      exact ⟨rfl, fun _ => rfl, fun hr => absurd hr c1, [RenderEvent.sessionStart], rfl, rfl⟩
    · have c3 : ¬(x.log RenderEvent.sessionStart).m_renderType = RenderType.Interactive := c2
      rw [if_neg c3, if_neg c2]
      exact ⟨rfl, fun _ => rfl, fun hr => absurd hr c1,
        [RenderEvent.sessionStart, RenderEvent.sessionWait],
        by simp [CyclesRenderer.log], rfl⟩

theorem CyclesRenderer.render_members (E : Engine) (k : UpdateFlags) (env : RenderEnv)
    (r : CyclesRenderer) :
    (r.render E k env).m_renderType = r.m_renderType ∧
      (r.m_renderState ≠ RenderState.RENDERSTATE_RENDERING →
        (r.render E k env).m_renderState =
          if r.m_renderType = RenderType.Interactive then RenderState.RENDERSTATE_RENDERING
          else RenderState.RENDERSTATE_STOPPED) ∧
      (r.m_renderState = RenderState.RENDERSTATE_RENDERING →
        (r.render E k env).m_renderState = RenderState.RENDERSTATE_RENDERING ∧
          (r.render E k env).m_pause = false ∧ (r.render E k env).session.pause = false) ∧
      ∃ rest, (r.render E k env).trace =
          r.trace ++ [RenderEvent.mutexLock] ++
            (if r.m_renderState = RenderState.RENDERSTATE_RENDERING ∧
                r.m_renderType = RenderType.Interactive then renderEvictions else []) ++
            [RenderEvent.updateSceneObjects false] ++ rest ∧
        evictions rest = [] := by
  generalize hy : r.render E k env = y
  unfold CyclesRenderer.render at hy
  lift_lets at hy
  extract_lets r1 r2 r3 r4 r5 r6 r7 r8 r9 r10 s10 l10 r11 l11 at hy
  have h2 : r2.m_renderState = r.m_renderState ∧ r2.m_renderType = r.m_renderType ∧
      r2.trace = r.trace ++ [RenderEvent.mutexLock] ++
        (if r.m_renderState = RenderState.RENDERSTATE_RENDERING ∧
            r.m_renderType = RenderType.Interactive then renderEvictions else []) :=
    renderEvict_members k (r.log RenderEvent.mutexLock)
  have h3 : r3.m_renderState = r.m_renderState ∧ r3.m_renderType = r.m_renderType ∧
      r3.trace = r.trace ++ [RenderEvent.mutexLock] ++
        (if r.m_renderState = RenderState.RENDERSTATE_RENDERING ∧
            r.m_renderType = RenderType.Interactive then renderEvictions else []) ++
        [RenderEvent.updateSceneObjects false] :=
    ⟨h2.1, h2.2.1, congrArg (fun t => t ++ [RenderEvent.updateSceneObjects false]) h2.2.2⟩
  have h4 : quietStep r3 r4 := CyclesRenderer.updateOptions_members E k env r3
  have h5 : quietStep r4 r5 :=
    quietStep.of_members [RenderEvent.updateCamera]
      (CyclesRenderer.updateCamera_members r4).1 (CyclesRenderer.updateCamera_members r4).2.1
      (CyclesRenderer.updateCamera_members r4).2.2 rfl
  have h6 : quietStep r5 r6 :=
    ⟨(CyclesRenderer.updateOutputs_members env r5).2.1,
      by rw [show r6.m_renderState = r5.m_renderState from
        (CyclesRenderer.updateOutputs_members env r5).1],
      (CyclesRenderer.updateOutputs_members env r5).2.2⟩
  have h7 : quietStep r6 r7 := renderReset_quiet env r6
  have h8 : quietStep r7 r8 := renderUnlock_quiet r7
  have h9 : quietStep r8 r9 := renderStart_quiet r8
  have h10 : quietStep r9 r10 := renderChanged_quiet r9
  obtain ⟨q1, q2, t, q3, q4⟩ :=
    h4.trans (h5.trans (h6.trans (h7.trans (h8.trans (h9.trans h10)))))
  rw [h3.1] at q2
  rw [h3.2.1] at q1
  rw [h3.2.2] at q3
  obtain ⟨f1, f2, f3, t2, f4, f5⟩ := renderFinish_members r10 y hy.symm
  clear_value r10
  rw [q1] at f1 f2
  refine ⟨f1, fun hn => f2 (fun c => hn (q2.mp c)), fun hr => f3 (q2.mpr hr), t ++ t2, ?_, ?_⟩
  · rw [f4, q3, List.append_assoc]
  · rw [evictions_append, q4, f5]
    rfl

/-- C11, as stated, fails: on a batch renderer in the state `RENDERSTATE_READY`
whose light cache holds a light nobody else references, `render` makes no
`clearUnused` call, the light stays in the cache, and `updateSceneObjects`
publishes it to the light list of the engine. -/
theorem CyclesRenderer.render_ready_keeps_unreferenced :
    sampleStaleBatch.m_renderState = RenderState.RENDERSTATE_READY ∧
      sampleStaleBatch.m_lightCache.m_lights.map SharedPtr.unique = [true] ∧
      (sampleStaleBatch.render sampleEngine sampleFlags {}).m_lightCache.m_lights
        = sampleStaleBatch.m_lightCache.m_lights ∧
      (sampleStaleBatch.render sampleEngine sampleFlags {}).scene.lights
        = sampleStaleBatch.m_lightCache.m_lights.map SharedPtr.ptr ∧
      evictions (sampleStaleBatch.render sampleEngine sampleFlags {}).trace = [] := by
  decide

/-- C11, amended: `render` makes the five `clearUnused` calls, on the camera,
instance, particle-system, light and attributes caches in this order, right
after locking the scene and before `updateSceneObjects` publishes the caches,
exactly when the render state is `RENDERSTATE_RENDERING` and the render type
is `Interactive`; in every other render state and for every other render type
`updateSceneObjects` follows the lock directly, and the call makes no
`clearUnused` call at all. -/
theorem CyclesRenderer.render_evictions (E : Engine) (k : UpdateFlags) (env : RenderEnv)
    (r : CyclesRenderer) :
    (∃ rest, (r.render E k env).trace =
        r.trace ++ [RenderEvent.mutexLock] ++
          (if r.m_renderState = RenderState.RENDERSTATE_RENDERING ∧
              r.m_renderType = RenderType.Interactive then renderEvictions else []) ++
          [RenderEvent.updateSceneObjects false] ++ rest ∧
        evictions rest = []) ∧
      evictions (r.render E k env).trace = evictions r.trace ++
        (if r.m_renderState = RenderState.RENDERSTATE_RENDERING ∧
            r.m_renderType = RenderType.Interactive then
          [CacheKind.camera, CacheKind.instance_, CacheKind.particleSystems, CacheKind.light,
           CacheKind.attributes]
        else []) := by
  obtain ⟨-, -, -, rest, h1, h2⟩ := CyclesRenderer.render_members E k env r
  refine ⟨⟨rest, h1, h2⟩, ?_⟩
  rw [h1, evictions_append, evictions_append, evictions_append, evictions_append, h2]
  split_ifs
  · simp [evictions, renderEvictions]
  · simp [evictions]

/-- C11 at an interactive renderer that is rendering and whose light cache
holds a light nobody else references: the light is evicted and is not
published. -/
theorem CyclesRenderer.render_evictions_witness :
    (sampleStaleInteractive.m_renderState = RenderState.RENDERSTATE_RENDERING ∧
      sampleStaleInteractive.m_renderType = RenderType.Interactive ∧
      sampleStaleInteractive.m_lightCache.m_lights.map SharedPtr.unique = [true] ∧
      (sampleStaleInteractive.render sampleEngine sampleFlags {}).m_lightCache.m_lights = [] ∧
      (sampleStaleInteractive.render sampleEngine sampleFlags {}).scene.lights = []) ∧
      evictions (sampleStaleInteractive.render sampleEngine sampleFlags {}).trace =
        evictions sampleStaleInteractive.trace ++
          (if sampleStaleInteractive.m_renderState = RenderState.RENDERSTATE_RENDERING ∧
              sampleStaleInteractive.m_renderType = RenderType.Interactive then
            [CacheKind.camera, CacheKind.instance_, CacheKind.particleSystems, CacheKind.light,
             CacheKind.attributes]
          else []) :=
  ⟨by decide, (CyclesRenderer.render_evictions sampleEngine sampleFlags {}
    sampleStaleInteractive).2⟩

theorem CyclesRenderer.pause_state (r : CyclesRenderer) : sameRenderState r r.pause := by
  unfold CyclesRenderer.pause
  split_ifs <;> exact ⟨rfl, rfl⟩

theorem CyclesRenderer.call_batch (E : Engine) (k : UpdateFlags) (rays : PathRayFlag)
    (r r1 : CyclesRenderer) (c : RendererCall)
    (ht : r.m_renderType ≠ RenderType.Interactive)
    (hs : r.m_renderState ≠ RenderState.RENDERSTATE_RENDERING)
    (h : r.call E k rays c = some r1) :
    r1.m_renderType ≠ RenderType.Interactive ∧
      r1.m_renderState ≠ RenderState.RENDERSTATE_RENDERING := by
  rcases c with ⟨name, value⟩ | env | _
  · obtain ⟨a, b⟩ := option_state E k rays r name value r1 h
    rw [a, b]
    exact ⟨ht, hs⟩
  · obtain ⟨a, b, -⟩ := CyclesRenderer.render_members E k env r
    have e : r.render E k env = r1 := Option.some.inj h
    rw [← e, a, b hs, if_neg ht]
    exact ⟨ht, by decide⟩
  · obtain ⟨a, b⟩ := CyclesRenderer.pause_state r
    have e : r.pause = r1 := Option.some.inj h
    rw [← e, a, b]
    exact ⟨ht, hs⟩

theorem CyclesRenderer.run_batch (E : Engine) (k : UpdateFlags) (rays : PathRayFlag)
    (calls : List RendererCall) :
    ∀ r r1 : CyclesRenderer, r.m_renderType ≠ RenderType.Interactive →
      r.m_renderState ≠ RenderState.RENDERSTATE_RENDERING →
      r.run E k rays calls = some r1 →
      r1.m_renderState ≠ RenderState.RENDERSTATE_RENDERING := by
  induction calls with
  | nil =>
    intro r r1 _ hs h
    have e : r = r1 := Option.some.inj h
    rw [← e]
    exact hs
  | cons c rest ih =>
    intro r r1 ht hs h
    unfold CyclesRenderer.run at h
    rcases hc : r.call E k rays c with _ | r2
    · rw [hc] at h
      exact absurd h (by simp)
    · rw [hc] at h
      obtain ⟨a, b⟩ := CyclesRenderer.call_batch E k rays r r2 c ht hs hc
      exact ih r2 r1 a b h

/-- C18: with the progress callback of the engine not firing, `render`
started in a render state other than `RENDERSTATE_RENDERING`, which is
`RENDERSTATE_READY` or `RENDERSTATE_STOPPED`, returns in the state
`RENDERSTATE_RENDERING` when the render type is `Interactive` and in
`RENDERSTATE_STOPPED` for every other render type; started in
`RENDERSTATE_RENDERING` it returns in `RENDERSTATE_RENDERING` with the pause
flag of the renderer and of the session cleared.  Hence after every sequence
of `option`, `render` and `pause` calls that return, on a renderer that is not
interactive and not rendering, and so on every renderer constructed with a
render type other than `Interactive`, the state is not
`RENDERSTATE_RENDERING`. -/
theorem CyclesRenderer.render_state (E : Engine) (k : UpdateFlags) (rays : PathRayFlag)
    (env : RenderEnv) (r : CyclesRenderer) :
    (r.m_renderState ≠ RenderState.RENDERSTATE_RENDERING →
        (r.render E k env).m_renderState =
          if r.m_renderType = RenderType.Interactive then RenderState.RENDERSTATE_RENDERING
          else RenderState.RENDERSTATE_STOPPED) ∧
      (r.m_renderState = RenderState.RENDERSTATE_RENDERING →
        (r.render E k env).m_renderState = RenderState.RENDERSTATE_RENDERING ∧
          (r.render E k env).m_pause = false ∧ (r.render E k env).session.pause = false) ∧
      (r.m_renderType ≠ RenderType.Interactive →
        r.m_renderState ≠ RenderState.RENDERSTATE_RENDERING →
        ∀ calls r1, r.run E k rays calls = some r1 →
          r1.m_renderState ≠ RenderState.RENDERSTATE_RENDERING) ∧
      (∀ renderType r0 calls r1, renderType ≠ RenderType.Interactive →
        CyclesRenderer.new E k renderType = some r0 →
        r0.run E k rays calls = some r1 →
          r1.m_renderState ≠ RenderState.RENDERSTATE_RENDERING) := by
  obtain ⟨-, a, b, -⟩ := CyclesRenderer.render_members E k env r
  refine ⟨a, b, fun ht hs calls r1 h => CyclesRenderer.run_batch E k rays calls r r1 ht hs h, ?_⟩
  intro renderType r0 calls r1 ht hnew h
  obtain ⟨r2, e, -, -, -, -, -, -, -, -, -, d1, d2⟩ := CyclesRenderer.new_defaults E k renderType
  rw [hnew] at e
  have e2 : r0 = r2 := Option.some.inj e
  rw [← e2] at d1 d2
  exact CyclesRenderer.run_batch E k rays calls r0 r1 (by rw [d2]; exact ht)
    (by rw [d1]; decide) h

/-- C18 at a batch renderer as constructed, at the sequence of an option, a
render, a pause and a second render on it, and at an interactive renderer
that is rendering. -/
theorem CyclesRenderer.render_state_witness :
    ((sampleRenderer RenderType.Batch).m_renderState ≠ RenderState.RENDERSTATE_RENDERING ∧
      (sampleRenderer RenderType.Batch).m_renderType ≠ RenderType.Interactive ∧
      sampleStaleInteractive.m_renderState = RenderState.RENDERSTATE_RENDERING ∧
      ((sampleRenderer RenderType.Batch).run sampleEngine sampleFlags samplePathRayFlag
        [RendererCall.option "frame" (some (AttrValue.int 7)), RendererCall.render {},
         RendererCall.pause, RendererCall.render {}]).map (fun r => r.m_renderState)
        = some RenderState.RENDERSTATE_STOPPED) ∧
      ((sampleRenderer RenderType.Batch).render sampleEngine sampleFlags {}).m_renderState =
        (if (sampleRenderer RenderType.Batch).m_renderType = RenderType.Interactive then
          RenderState.RENDERSTATE_RENDERING
        else RenderState.RENDERSTATE_STOPPED) ∧
      ((sampleStaleInteractive.render sampleEngine sampleFlags {}).m_renderState =
          RenderState.RENDERSTATE_RENDERING ∧
        (sampleStaleInteractive.render sampleEngine sampleFlags {}).m_pause = false ∧
        (sampleStaleInteractive.render sampleEngine sampleFlags {}).session.pause = false) :=
  ⟨by decide,
    (CyclesRenderer.render_state sampleEngine sampleFlags samplePathRayFlag {}
      (sampleRenderer RenderType.Batch)).1 (by decide),
    (CyclesRenderer.render_state sampleEngine sampleFlags samplePathRayFlag {}
      sampleStaleInteractive).2.1 (by decide)⟩

/-! ## ShaderCache: the default surface stays (C30) -/

theorem HashMap.find_set_ne {V : Type} (m : HashMap V) (k k2 : MurmurHash) (v : V)
    (h : k2 ≠ k) : (m.set k v).find k2 = m.find k2 := by
  unfold HashMap.find HashMap.set
  split
  · dsimp only
    rw [List.find?_map]
    have hp : ((fun e : MurmurHash × V => e.1 == k2) ∘
        fun e : MurmurHash × V => if e.1 == k then (k, v) else e) =
        fun e : MurmurHash × V => e.1 == k2 := by
      funext e
      by_cases he : e.1 = k
      · have h1 : (k == k2) = false := by simpa using fun c : k = k2 => h c.symm
        simp [he, h1]
      · simp [he]
    rw [hp]
    cases hf : List.find? (fun e : MurmurHash × V => e.1 == k2) m.slots with
    | none => rfl
    | some e =>
      have hk : e.1 = k2 := by simpa using List.find?_some hf
      have hne : ¬e.1 = k := fun c => h (hk.symm.trans c)
      simp [hne]
  · dsimp only
    rw [List.find?_append]
    have h1 : (k == k2) = false := by simpa using fun c : k = k2 => h c.symm
    simp [List.find?, h1]

theorem find?_congr_mem {α : Type} (l : List α) (p q : α → Bool)
    (h : ∀ a ∈ l, p a = q a) : l.find? p = l.find? q := by
  induction l with
  | nil => rfl
  | cons a rest ih =>
    have ha := h a (List.mem_cons_self _ _)
    have hr := ih (fun b hb => h b (List.mem_cons_of_mem _ hb))
    simp only [List.find?, ha, hr]

theorem HashMap.find_eraseAll_of_not_mem {V : Type} (m : HashMap V) (keys : List MurmurHash)
    (k : MurmurHash) (h : k ∉ keys) : (m.eraseAll keys).find k = m.find k := by
  unfold HashMap.find
  rw [HashMap.eraseAll_slots, List.find?_filter]
  congr 1
  apply find?_congr_mem
  intro e _
  by_cases he : e.1 = k
  · have hc : keys.contains e.1 = false := by
      rw [he]
      simpa using h
    simp [he, h]
  · simp [he]

theorem shaderFingerprint_none (attributes : Option CompoundObject) :
    shaderFingerprint none attributes = some ({}, {}) := by
  cases attributes <;> rfl

/-- What a `get` that returns does to the cache: the slot of the fingerprint
is written, nothing else is; a slot found non-null is handed out again, with
one more reference. -/
theorem ShaderCache.get_cache (k : UpdateFlags) (c : ShaderCache) (scene : Scene) (heap : Heap)
    (shader : Option ShaderNetwork) (attributes : Option CompoundObject) (r : ShaderGet)
    (hr : c.get k scene heap shader attributes = some r) :
    ∃ h hSubst slot1, shaderFingerprint shader attributes = some (h, hSubst) ∧
      r.cache.m_cache = c.m_cache.set h slot1 ∧
      r.cache.m_defaultSurface = c.m_defaultSurface ∧
      slot1.ptr = r.handle ∧ r.handle ≠ 0 ∧
      (∀ s0, c.m_cache.find h = some s0 → s0.ptr ≠ 0 →
        slot1 = s0.copied ∧ r.handle = s0.ptr) := by
  unfold ShaderCache.get at hr
  cases hfp : shaderFingerprint shader attributes with
  | none => simp [hfp] at hr
  | some fp =>
    obtain ⟨h, hSubst⟩ := fp
    simp only [hfp] at hr
    by_cases hnull : ((c.m_cache.find h).getD {}).isNull = true
    · have hno : ∀ s0, c.m_cache.find h = some s0 → s0.ptr ≠ 0 → False := by
        intro s0 hs0 hne
        rw [hs0] at hnull
        simp [SharedPtr.isNull, hne] at hnull
      simp only [hnull, if_true] at hr
      cases shader with
      | some sh =>
        simp only [convert, Heap.alloc] at hr
        split_ifs at hr
        simp only [Option.some.injEq] at hr
        subst hr
        exact ⟨h, hSubst, _, rfl, rfl, rfl, SharedPtr.copied_ptr _, by simp [SharedPtr.own],
          fun s0 a b => (hno s0 a b).elim⟩
      | none =>
        simp only [convert, Heap.alloc, Option.some.injEq] at hr
        subst hr
        exact ⟨h, hSubst, _, rfl, rfl, rfl, SharedPtr.copied_ptr _, by simp [SharedPtr.own],
          fun s0 a b => (hno s0 a b).elim⟩
    · have hf : ((c.m_cache.find h).getD {}).isNull = false := by simpa using hnull
      simp only [hf, Bool.false_eq_true, if_false, Option.some.injEq] at hr
      subst hr
      refine ⟨h, hSubst, _, rfl, rfl, rfl, SharedPtr.copied_ptr _, ?_, ?_⟩
      · simpa [SharedPtr.isNull] using hf
      · intro s0 hs0 _
        rw [hs0]
        exact ⟨rfl, rfl⟩

theorem ShaderCache.get_none_isSome (k : UpdateFlags) (c : ShaderCache) (scene : Scene)
    (heap : Heap) (attributes : Option CompoundObject) :
    ∃ r, c.get k scene heap none attributes = some r := by
  unfold ShaderCache.get
  simp only [shaderFingerprint_none]
  split_ifs
  · simp only [convert, Heap.alloc]
    exact ⟨_, rfl⟩
  · exact ⟨_, rfl⟩

theorem SharedPtr.copied_useCount (p : SharedPtr) (h : p.ptr ≠ 0) :
    p.copied.useCount = p.useCount + 1 := by
  simp [SharedPtr.copied, h]

theorem SharedPtr.released_members (p : SharedPtr) (h : p.ptr ≠ 0) :
    p.released.ptr = p.ptr ∧ p.released.useCount = p.useCount - 1 := by
  simp [SharedPtr.released, h]

theorem ShaderRun.start_keepsDefault (k : UpdateFlags) (scene : Scene) (heap : Heap)
    (r0 : ShaderGet) (h : ShaderCache.new k scene heap = some r0) :
    (ShaderRun.start r0).keepsDefault ∧ r0.cache.m_defaultSurface = r0.handle ∧
      r0.handle ≠ 0 := by
  unfold ShaderCache.new at h
  obtain ⟨r, hr⟩ := ShaderCache.get_none_isSome k { m_numDefaultShaders := scene.shaders.length }
    scene heap none
  rw [hr] at h
  simp only [Option.some.injEq] at h
  subst h
  unfold ShaderCache.get at hr
  simp only [shaderFingerprint_none] at hr
  have hnull : (((({} : HashMap SharedPtr).find {}).getD {}).isNull) = true := by decide
  have hnull2 : ((((({ m_numDefaultShaders := scene.shaders.length } : ShaderCache).m_cache).find
      {}).getD {}).isNull) = true := hnull
  simp only [hnull2, if_true, convert, Heap.alloc, Option.some.injEq] at hr
  subst hr
  refine ⟨⟨_, HashMap.find_set_self _ _ _, ?_, ?_, ?_⟩, rfl, ?_⟩
  · rfl
  · simp [SharedPtr.copied, SharedPtr.own]
  · simp [SharedPtr.copied, SharedPtr.own, ShaderRun.start]
  · simp [SharedPtr.own]

theorem ShaderRun.call_keepsDefault (k : UpdateFlags) (s s1 : ShaderRun) (c : ShaderCall)
    (hinv : s.keepsDefault) (h : s.call k c = some s1) :
    s1.keepsDefault ∧ s1.cache.m_defaultSurface = s.cache.m_defaultSurface := by
  obtain ⟨slot, hfind, hptr, hne, hcount⟩ := hinv
  cases c with
  | get shader attributes =>
    simp only [ShaderRun.call] at h
    cases hg : s.cache.get k s.scene s.heap shader attributes with
    | none => simp [hg] at h
    | some r =>
      rw [hg] at h
      simp only [Option.some.injEq] at h
      subst h
      obtain ⟨key, hSubst, slot1, hfp, hcache, hdef, -, -, hfound⟩ :=
        ShaderCache.get_cache k s.cache s.scene s.heap shader attributes r hg
      refine ⟨?_, hdef⟩
      by_cases hk : key = {}
      · subst hk
        obtain ⟨hs1, -⟩ := hfound slot hfind hne
        refine ⟨slot.copied, ?_, ?_, ?_, ?_⟩
        · show r.cache.m_cache.find {} = some slot.copied
          rw [hcache, hs1]
          exact HashMap.find_set_self _ _ _
        · show slot.copied.ptr = r.cache.m_defaultSurface
          rw [SharedPtr.copied_ptr, hdef]
          exact hptr
        · rw [SharedPtr.copied_ptr]
          exact hne
        · show 2 + List.count {}
            (s.held ++ [((shaderFingerprint shader attributes).getD ({}, {})).1]) ≤ _
          rw [SharedPtr.copied_useCount slot hne, hfp]
          simp only [Option.getD_some, List.count_append, List.count_singleton, beq_self_eq_true,
            if_true]
          omega
      · refine ⟨slot, ?_, ?_, hne, ?_⟩
        · show r.cache.m_cache.find {} = some slot
          rw [hcache, HashMap.find_set_ne _ _ _ _ (fun c => hk c.symm)]
          exact hfind
        · show slot.ptr = r.cache.m_defaultSurface
          rw [hdef]
          exact hptr
        · show 2 + List.count {}
            (s.held ++ [((shaderFingerprint shader attributes).getD ({}, {})).1]) ≤ _
          rw [hfp]
          have hkb : (key == ({} : MurmurHash)) = false := by simpa using hk
          simp only [Option.getD_some, List.count_append, List.count_singleton, hkb,
            Bool.false_eq_true, if_false]
          omega
  | clearUnused =>
    simp only [ShaderRun.call, Option.some.injEq] at h
    subst h
    refine ⟨⟨slot, ?_, hptr, hne, hcount⟩, rfl⟩
    show (s.cache.m_cache.eraseAll
      ((s.cache.m_cache.slots.filter (fun e => e.2.unique)).map Prod.fst)).find {} = some slot
    rw [HashMap.find_eraseAll_of_not_mem, hfind]
    intro hmem
    obtain ⟨e, he, hek⟩ := List.mem_map.mp hmem
    obtain ⟨hes, heu⟩ := List.mem_filter.mp he
    have hmem2 := HashMap.mem_of_find_eq_some _ hfind
    have heq := HashMap.eq_of_key_eq _ hes hmem2 hek
    rw [heq] at heu
    simp only [SharedPtr.unique, beq_iff_eq] at heu
    omega
  | release key =>
    simp only [ShaderRun.call] at h
    by_cases hheld : key ∈ s.held
    · rw [if_pos hheld] at h
      simp only [Option.some.injEq] at h
      subst h
      by_cases hk : key = {}
      · subst hk
        obtain ⟨rp, ru⟩ := SharedPtr.released_members slot hne
        have hpos : 0 < List.count ({} : MurmurHash) s.held := List.count_pos_iff.mpr hheld
        refine ⟨⟨slot.released, ?_, ?_, ?_, ?_⟩, ?_⟩
        · show (s.cache.releaseAt {}).m_cache.find {} = some slot.released
          unfold ShaderCache.releaseAt
          rw [hfind]
          exact HashMap.find_set_self _ _ _
        · show slot.released.ptr = (s.cache.releaseAt {}).m_defaultSurface
          unfold ShaderCache.releaseAt
          rw [hfind, rp]
          exact hptr
        · rw [rp]
          exact hne
        · show 2 + List.count {} (s.held.erase {}) ≤ _
          rw [ru, List.count_erase_self]
          omega
        · show (s.cache.releaseAt {}).m_defaultSurface = _
          unfold ShaderCache.releaseAt
          rw [hfind]
      · have hsame : (s.cache.releaseAt key).m_cache.find {} = s.cache.m_cache.find {} ∧
            (s.cache.releaseAt key).m_defaultSurface = s.cache.m_defaultSurface := by
          unfold ShaderCache.releaseAt
          cases s.cache.m_cache.find key with
          | none => exact ⟨rfl, rfl⟩
          | some sl => exact ⟨HashMap.find_set_ne _ _ _ _ (fun c => hk c.symm), rfl⟩
        refine ⟨⟨slot, ?_, ?_, hne, ?_⟩, hsame.2⟩
        · show (s.cache.releaseAt key).m_cache.find {} = some slot
          rw [hsame.1]
          exact hfind
        · show slot.ptr = (s.cache.releaseAt key).m_defaultSurface
          rw [hsame.2]
          exact hptr
        · show 2 + List.count {} (s.held.erase key) ≤ _
          rw [List.count_erase_of_ne (fun c => hk c.symm)]
          exact hcount
    · rw [if_neg hheld] at h
      exact absurd h (by simp)

theorem ShaderRun.run_keepsDefault (k : UpdateFlags) (calls : List ShaderCall) :
    ∀ s s1 : ShaderRun, s.keepsDefault → ShaderRun.run k s calls = some s1 →
      s1.keepsDefault ∧ s1.cache.m_defaultSurface = s.cache.m_defaultSurface := by
  induction calls with
  | nil =>
    intro s s1 hinv h
    have e : s = s1 := Option.some.inj h
    rw [← e]
    exact ⟨hinv, rfl⟩
  | cons c rest ih =>
    intro s s1 hinv h
    unfold ShaderRun.run at h
    cases hc : s.call k c with
    | none =>
      rw [hc] at h
      exact absurd h (by simp)
    | some s2 =>
      rw [hc] at h
      obtain ⟨a, b⟩ := ShaderRun.call_keepsDefault k s s2 c hinv hc
      obtain ⟨a2, b2⟩ := ih s2 s1 a h
      exact ⟨a2, b2.trans b⟩

/-- C30: for a shader cache as its constructor leaves it and every sequence
of `get` calls, `clearUnused` calls and destructions of pointers the callers
got from `get`, in which every call returns: the entry of the empty
fingerprint is still in the cache, it holds the default surface, which is not
null and is the one the constructor made, its use count is at least two, and
`get` with a null shader and any attributes returns and hands out the handle
`defaultSurface()` gives. -/
theorem ShaderCache.default_surface_stays (k : UpdateFlags) (scene : Scene) (heap : Heap)
    (r0 : ShaderGet) (calls : List ShaderCall) (s : ShaderRun)
    (hnew : ShaderCache.new k scene heap = some r0)
    (hrun : ShaderRun.run k (ShaderRun.start r0) calls = some s) :
    s.cache.defaultSurface = r0.handle ∧ r0.handle ≠ 0 ∧
      (∃ slot, s.cache.m_cache.find {} = some slot ∧ slot.ptr = s.cache.defaultSurface ∧
        2 ≤ slot.useCount) ∧
      ∀ attributes, ∃ g, s.cache.get k s.scene s.heap none attributes = some g ∧
        g.handle = s.cache.defaultSurface := by
  obtain ⟨hstart, hd0, hne0⟩ := ShaderRun.start_keepsDefault k scene heap r0 hnew
  obtain ⟨⟨slot, hfind, hptr, hne, hcount⟩, hdef⟩ :=
    ShaderRun.run_keepsDefault k calls (ShaderRun.start r0) s hstart hrun
  refine ⟨hdef.trans hd0, hne0, ⟨slot, hfind, hptr, by omega⟩, ?_⟩
  intro attributes
  obtain ⟨g, hg⟩ := ShaderCache.get_none_isSome k s.cache s.scene s.heap attributes
  obtain ⟨key, hSubst, slot1, hfp, -, -, -, -, hfound⟩ :=
    ShaderCache.get_cache k s.cache s.scene s.heap none attributes g hg
  rw [shaderFingerprint_none] at hfp
  have hkey : key = {} := by
    have := Option.some.inj hfp
    exact (congrArg Prod.fst this).symm
  subst hkey
  exact ⟨g, hg, (hfound slot hfind hne).2.trans hptr⟩

/-- C30 at a new cache on which a shader is fetched, released and evicted and
the default surface is fetched and released: one slot is left, the default
one, with use count two. -/
theorem ShaderCache.default_surface_stays_witness :
    ShaderCache.new sampleFlags sampleScene {} = some sampleShaderStart ∧
      ShaderRun.run sampleFlags (ShaderRun.start sampleShaderStart) sampleShaderCalls =
        some sampleShaderEnd ∧
      sampleShaderEnd.cache.m_cache.slots.map (fun e => (e.1, e.2.useCount)) = [({}, 2)] ∧
      sampleShaderEnd.cache.defaultSurface = sampleShaderStart.handle ∧
      sampleShaderStart.handle ≠ 0 ∧
      (∃ slot, sampleShaderEnd.cache.m_cache.find {} = some slot ∧
        slot.ptr = sampleShaderEnd.cache.defaultSurface ∧ 2 ≤ slot.useCount) ∧
      ∀ attributes, ∃ g,
        sampleShaderEnd.cache.get sampleFlags sampleShaderEnd.scene sampleShaderEnd.heap none
          attributes = some g ∧
        g.handle = sampleShaderEnd.cache.defaultSurface :=
  ⟨rfl, rfl, by decide,
    ShaderCache.default_surface_stays sampleFlags sampleScene {} sampleShaderStart
      sampleShaderCalls sampleShaderEnd rfl rfl⟩

/-! ## CyclesAttributes: the resolved shader (C21) -/

theorem surfaceShaderAttribute_eq (attributes : CompoundObject) :
    surfaceShaderAttribute attributes = firstShaderNetwork attributes := by
  unfold surfaceShaderAttribute firstShaderNetwork
  simp only [List.filterMap_cons, List.filterMap_nil]
  cases attributeShaderNetwork "ccl:surface" attributes <;>
    cases attributeShaderNetwork "osl:surface" attributes <;>
    cases attributeShaderNetwork "osl:shader" attributes <;>
    cases attributeShaderNetwork "ccl:volume" attributes <;>
    cases attributeShaderNetwork "ccl:light" attributes <;> rfl

theorem constructLight_members (attributes : CompoundObject) (b : AttributesBuilt) :
    (constructLight attributes b).value.m_shader = b.value.m_shader ∧
      (constructLight attributes b).value.m_shaderHash = b.value.m_shaderHash ∧
      (constructLight attributes b).shaderCache = b.shaderCache := by
  unfold constructLight
  cases attributeShaderNetwork "ccl:light" attributes <;> exact ⟨rfl, rfl, rfl⟩

/-- C21: the network the constructor selects is the first attribute, in the
order `ccl:surface`, `osl:surface`, `osl:shader`, `ccl:volume`, `ccl:light`,
that is present and holds a shader network.  With such a network the
constructor returns exactly when `ShaderCache::get` for it does, and the
resolved shader is then the handle `get` returns, which is not null and is the
pointer of the cache entry of its fingerprint; when no attribute of the five
holds a network the constructor returns and the resolved shader is the default
surface of the cache.  So the resolved shader is not null for every cache
whose default surface is not null. -/
theorem CyclesAttributes.new_shader (k : UpdateFlags) (rays : PathRayFlag)
    (attributes : CompoundObject) (shaderCache : ShaderCache) (scene : Scene) (heap : Heap) :
    surfaceShaderAttribute attributes = firstShaderNetwork attributes ∧
      (∀ net, firstShaderNetwork attributes = some net →
        (∀ r, shaderCache.get k scene heap (some net) (some attributes) = some r →
          ∃ b, CyclesAttributes.new k rays attributes shaderCache scene heap = some b ∧
            b.value.m_shader = r.handle ∧ b.value.m_shader ≠ 0 ∧
            ∃ fp slot, shaderFingerprint (some net) (some attributes) = some fp ∧
              b.shaderCache.m_cache.find fp.1 = some slot ∧ slot.ptr = b.value.m_shader) ∧
        (shaderCache.get k scene heap (some net) (some attributes) = none →
          CyclesAttributes.new k rays attributes shaderCache scene heap = none)) ∧
      (firstShaderNetwork attributes = none →
        ∃ b, CyclesAttributes.new k rays attributes shaderCache scene heap = some b ∧
          b.value.m_shader = shaderCache.defaultSurface) ∧
      (shaderCache.defaultSurface ≠ 0 →
        ∀ b, CyclesAttributes.new k rays attributes shaderCache scene heap = some b →
          b.value.m_shader ≠ 0) := by
  have hsel := surfaceShaderAttribute_eq attributes
  have hsome : ∀ net, firstShaderNetwork attributes = some net →
      ∀ r, shaderCache.get k scene heap (some net) (some attributes) = some r →
        ∃ b, CyclesAttributes.new k rays attributes shaderCache scene heap = some b ∧
          b.value.m_shader = r.handle ∧ b.value.m_shader ≠ 0 ∧
          ∃ fp slot, shaderFingerprint (some net) (some attributes) = some fp ∧
            b.shaderCache.m_cache.find fp.1 = some slot ∧ slot.ptr = b.value.m_shader := by
    intro net hnet r hr
    obtain ⟨key, hSubst, slot1, hfp, hcache, -, hslot, hne, -⟩ :=
      ShaderCache.get_cache k shaderCache scene heap (some net) (some attributes) r hr
    unfold CyclesAttributes.new
    simp only [hsel, hnet, hr]
    refine ⟨_, rfl, ?_, ?_, (key, hSubst), slot1, hfp, ?_, ?_⟩
    · rw [(constructLight_members attributes _).1]
    · rw [(constructLight_members attributes _).1]
      exact hne
    · rw [(constructLight_members attributes _).2.2]
      show r.cache.m_cache.find key = some slot1
      rw [hcache]
      exact HashMap.find_set_self _ _ _
    · rw [(constructLight_members attributes _).1]
      exact hslot
  have hnone : firstShaderNetwork attributes = none →
      ∃ b, CyclesAttributes.new k rays attributes shaderCache scene heap = some b ∧
        b.value.m_shader = shaderCache.defaultSurface := by
    intro hnet
    unfold CyclesAttributes.new
    simp only [hsel, hnet]
    exact ⟨_, rfl, (constructLight_members attributes _).1⟩
  refine ⟨hsel, fun net hnet => ⟨hsome net hnet, ?_⟩, hnone, ?_⟩
  · intro hr
    unfold CyclesAttributes.new
    simp only [hsel, hnet, hr]
  · intro hdef b hb
    cases hnet : firstShaderNetwork attributes with
    | none =>
      obtain ⟨b2, hb2, hs⟩ := hnone hnet
      rw [hb] at hb2
      have e : b = b2 := Option.some.inj hb2
      rw [e, hs]
      exact hdef
    | some net =>
      cases hr : shaderCache.get k scene heap (some net) (some attributes) with
      | none =>
        have hn : CyclesAttributes.new k rays attributes shaderCache scene heap = none := by
          unfold CyclesAttributes.new
          simp only [hsel, hnet, hr]
        rw [hn] at hb
        exact absurd hb (by simp)
      | some r =>
        obtain ⟨b2, hb2, -, hne, -⟩ := hsome net hnet r hr
        rw [hb] at hb2
        have e : b = b2 := Option.some.inj hb2
        rw [e]
        exact hne

/-! ## hashGeometry and the shader fingerprint (C22) -/

/-- C22 fails: two attribute blocks assign one shader network and differ in
the value of the string attribute the network substitutes.  `ShaderCache::get`
gives them different fingerprints and different shaders, but the constructor
leaves the substitution hash out of `m_shaderHash`, so `hashGeometry` gives
one hash for a sphere under both snapshots, and `InstanceCache::get` hands the
second object the geometry of the first. -/
theorem CyclesAttributes.hashGeometry_misses_substitutions :
    shaderFingerprint (some sampleSubstNetwork) (some (sampleTexAttributes "a.png")) ≠
        shaderFingerprint (some sampleSubstNetwork) (some (sampleTexAttributes "b.png")) ∧
      runTexA.map (fun a => a.value.m_shader) = some 2 ∧
      runTexB.map (fun b => b.value.m_shader) = some 3 ∧
      runTexA.map (fun a => a.value.m_shaderHash) = runTexB.map (fun b => b.value.m_shaderHash) ∧
      runTexInstances.map
          (fun p => (p.1.instance_.m_object, p.1.instance_.m_geometry,
            p.2.instance_.m_object, p.2.instance_.m_geometry,
            p.1.cache.m_instancedGeometry.slots.map Prod.fst,
            p.2.cache.m_instancedGeometry.slots.map Prod.fst))
        = some (5, 4, 6, 4,
            [{ data := [HashAtom.content 1, HashAtom.hashBegin, HashAtom.hashBegin,
                        HashAtom.content 11, HashAtom.hashEnd, HashAtom.hashEnd] }],
            [{ data := [HashAtom.content 1, HashAtom.hashBegin, HashAtom.hashBegin,
                        HashAtom.content 11, HashAtom.hashEnd, HashAtom.hashEnd] }]) :=
  ⟨by decide, by decide, by decide, by decide, rfl⟩
/-! ## Random ids of instances (C23) -/

theorem ParticleSystemsCache.getByHash_objects (c : ParticleSystemsCache) (scene : Scene)
    (heap : Heap) (hash : MurmurHash) :
    (c.getByHash scene heap hash).heap.objects = heap.objects := by
  unfold ParticleSystemsCache.getByHash
  simp only [Heap.alloc]
  split_ifs <;> rfl

theorem linkParticleSystem_random_id (attributes : CyclesAttributes) (ps : ParticleSystemsCache)
    (scene : Scene) (heap : Heap) (hash : MurmurHash) (cobject : Nat) (rid : MurmurHash)
    (h : (load heap.objects cobject).map CObject.random_id = some rid) :
    (load (linkParticleSystem attributes ps scene heap hash cobject).heap.objects cobject).map
      CObject.random_id = some rid := by
  unfold linkParticleSystem
  split_ifs
  · rcases ho : load heap.objects cobject with _ | o
    · rw [ho] at h
      exact absurd h (by simp)
    · rw [ho] at h
      simp only [Option.map_some', Option.some.injEq] at h
      simp only [load_store_self, Option.map_some', ParticleSystemsCache.getByHash_objects, ho,
        Option.getD_some, h]
  · exact h

/-- The hash the random id of the object of a `get` on an instanceable object
is taken from: the fingerprint itself when the call creates the geometry, the
fingerprint with the node name appended when the geometry is already there. -/
theorem InstanceCache.getWithHash_random_id (k : UpdateFlags) (c : InstanceCache)
    (ps : ParticleSystemsCache) (scene : Scene) (heap : Heap) (front : IECoreObject)
    (attributes : CyclesAttributes) (nodeName : String) (hash uniqueId : MurmurHash)
    (hcan : attributes.canInstanceGeometry front = true) :
    (load (c.getWithHash k ps scene heap front attributes nodeName hash uniqueId).heap.objects
        (c.getWithHash k ps scene heap front attributes nodeName hash uniqueId).instance_.m_object).map
      CObject.random_id =
      some (if ((c.m_instancedGeometry.find hash).getD {}).isNull then hash
            else hash.append (HashAtom.str nodeName)) := by
  unfold InstanceCache.getWithHash
  simp only [hcan, Bool.not_true, Bool.false_eq_true, if_false]
  by_cases hnull : ((c.m_instancedGeometry.find hash).getD {}).isNull = true
  · simp only [hnull, if_true]
    rcases hconv : convertObject heap front nodeName with ⟨cobject, geo, heap1⟩
    dsimp only
    apply linkParticleSystem_random_id
    dsimp only
    rw [load_store_self]
    rfl
  · have hnn : ((c.m_instancedGeometry.find hash).getD {}).isNull = false := by
      simpa using hnull
    simp only [hnn, Bool.false_eq_true, if_false, Heap.alloc]
    apply linkParticleSystem_random_id
    dsimp only
    rw [load_store_self]
    rfl

theorem MurmurHash.append_ne_self (h : MurmurHash) (a : HashAtom) : h ≠ h.append a := by
  intro he
  have hl := congrArg (fun x => x.data.length) he
  simp [MurmurHash.append] at hl

theorem MurmurHash.append_inj (h : MurmurHash) (a b : HashAtom)
    (he : h.append a = h.append b) : a = b := by
  have hd := congrArg MurmurHash.data he
  simpa [MurmurHash.append] using hd

/-- C23.  Two `InstanceCache::get` calls (either overload: both end in
`getWithHash`) on instanceable objects with the same fingerprint `hash` and
two different names, the second of which finds the geometry slot of `hash`
filled and so returns an object on that shared geometry: the hashes their
objects take their random ids from differ, whether the first call created
the geometry (its hash is the fingerprint) or found it (its hash is the
fingerprint with its own name appended). -/
theorem InstanceCache.get_random_ids_differ (k : UpdateFlags) (c1 c2 : InstanceCache)
    (ps1 ps2 : ParticleSystemsCache) (scene1 scene2 : Scene) (heap1 heap2 : Heap)
    (front1 front2 : IECoreObject) (attributes1 attributes2 : CyclesAttributes)
    (name1 name2 : String) (hash uniqueId1 uniqueId2 : MurmurHash) (s : SharedPtr)
    (hcan1 : attributes1.canInstanceGeometry front1 = true)
    (hcan2 : attributes2.canInstanceGeometry front2 = true)
    (hname : name1 ≠ name2)
    (hfound : c2.m_instancedGeometry.find hash = some s) (hs : s.ptr ≠ 0) :
    (c2.getWithHash k ps2 scene2 heap2 front2 attributes2 name2 hash uniqueId2).instance_.m_geometry
        = s.ptr ∧
      (load (c1.getWithHash k ps1 scene1 heap1 front1 attributes1 name1 hash uniqueId1).heap.objects
          (c1.getWithHash k ps1 scene1 heap1 front1 attributes1 name1 hash uniqueId1).instance_.m_object).map
        CObject.random_id ≠
      (load (c2.getWithHash k ps2 scene2 heap2 front2 attributes2 name2 hash uniqueId2).heap.objects
          (c2.getWithHash k ps2 scene2 heap2 front2 attributes2 name2 hash uniqueId2).instance_.m_object).map
        CObject.random_id := by
  refine ⟨(InstanceCache.getWithHash_instanced k c2 ps2 scene2 heap2 front2 attributes2 name2
    hash uniqueId2 hcan2).2.2.2.2.2.2 s hfound hs, ?_⟩
  rw [InstanceCache.getWithHash_random_id k c1 ps1 scene1 heap1 front1 attributes1 name1 hash
      uniqueId1 hcan1,
    InstanceCache.getWithHash_random_id k c2 ps2 scene2 heap2 front2 attributes2 name2 hash
      uniqueId2 hcan2]
  have hnn : ((c2.m_instancedGeometry.find hash).getD {}).isNull = false := by
    rw [hfound]
    simp [SharedPtr.isNull, hs]
  simp only [hnn, Bool.false_eq_true, if_false]
  intro he
  have he2 := Option.some.inj he
  split_ifs at he2
  · exact MurmurHash.append_ne_self _ _ he2
  · have := MurmurHash.append_inj _ _ _ he2
    exact hname (HashAtom.str.inj this)

/-- C23 (witness).  The sphere submitted under the names `a` and `b`: the
first call creates the geometry, the second shares it, and the two random id
hashes differ. -/
theorem InstanceCache.get_random_ids_differ_witness :
    runGetAB.instance_.m_geometry = runGetA.instance_.m_geometry ∧
      (load runGetA.heap.objects runGetA.instance_.m_object).map CObject.random_id ≠
        (load runGetAB.heap.objects runGetAB.instance_.m_object).map CObject.random_id :=
  InstanceCache.get_random_ids_differ sampleFlags {} runGetA.cache {} runGetA.particles
    {} runGetA.scene {} runGetA.heap sampleSphere sampleSphere {} {} "a" "b"
    (CyclesAttributes.hashGeometry {} {} sampleSphere sampleSphere.hash)
    sampleSphere.hash sampleSphere.hash { ptr := 1, useCount := 2 }
    (by decide) (by decide) (by decide) (by decide) (by decide)
/-! ## The deferred assignment queue (C27) -/

theorem find?_filter_ne {α : Type} (t : List (Nat × α)) (a b : Nat) (h : a ≠ b) :
    (t.filter (fun e => !(e.1 == a))).find? (fun e => e.1 == b) =
      t.find? (fun e => e.1 == b) := by
  induction t with
  | nil => rfl
  | cons e rest ih =>
    by_cases hea : e.1 = a
    · have hb : (e.1 == b) = false := by simpa [hea] using h
      have ha : (e.1 == a) = true := by simpa using hea
      rw [List.filter_cons]
      simp only [ha, Bool.not_true, Bool.false_eq_true, if_false, List.find?_cons, hb]
      exact ih
    · have ha : (e.1 == a) = false := by simpa using hea
      rw [List.filter_cons]
      simp only [ha, Bool.not_false, if_true, List.find?_cons, ih]

theorem load_store_ne {α : Type} (t : List (Nat × α)) (a b : Nat) (v : α) (h : a ≠ b) :
    load (store t a v) b = load t b := by
  have hab : (a == b) = false := by simpa using h
  simp only [load, store, List.find?_cons, hab, find?_filter_ne t a b h]

theorem applyShaderAssignment_calls (acc : Scene × Heap) (p : ShaderAssignPair) :
    (applyShaderAssignment acc p).1.calls = acc.1.calls ++ queuedCall acc.1.default_light p ∧
    (applyShaderAssignment acc p).1.default_light = acc.1.default_light ∧
    (applyShaderAssignment acc p).1.light_manager_flags = acc.1.light_manager_flags ∧
    (applyShaderAssignment acc p).1.geometry_manager_flags = acc.1.geometry_manager_flags := by
  unfold applyShaderAssignment queuedCall
  cases p.kind
  · exact ⟨rfl, rfl, rfl, rfl⟩
  · exact ⟨rfl, rfl, rfl, rfl⟩
  · exact ⟨(List.append_nil _).symm, rfl, rfl, rfl⟩

theorem foldl_applyShaderAssignment_calls (pairs : List ShaderAssignPair) :
    ∀ acc : Scene × Heap,
      (pairs.foldl applyShaderAssignment acc).1.calls =
        acc.1.calls ++ queuedCalls acc.1.default_light pairs ∧
      (pairs.foldl applyShaderAssignment acc).1.default_light = acc.1.default_light ∧
      (pairs.foldl applyShaderAssignment acc).1.light_manager_flags =
        acc.1.light_manager_flags ∧
      (pairs.foldl applyShaderAssignment acc).1.geometry_manager_flags =
        acc.1.geometry_manager_flags := by
  induction pairs with
  | nil => intro acc; exact ⟨(List.append_nil _).symm, rfl, rfl, rfl⟩
  | cons p rest ih =>
    intro acc
    obtain ⟨h1, h2, h3, h4⟩ := ih (applyShaderAssignment acc p)
    obtain ⟨g1, g2, g3, g4⟩ := applyShaderAssignment_calls acc p
    simp only [List.foldl_cons, queuedCalls]
    refine ⟨?_, h2.trans g2, h3.trans g3, h4.trans g4⟩
    rw [h1, g1, g2, List.append_assoc]

theorem applyShaderAssignment_geometry (acc : Scene × Heap) (p : ShaderAssignPair) (g : Nat) :
    (load (applyShaderAssignment acc p).2.geometry g).map CGeometry.used_shaders =
      if (p.kind == NodeKind.geometry && p.first == g) = true then some p.second
      else (load acc.2.geometry g).map CGeometry.used_shaders := by
  unfold applyShaderAssignment
  rcases hk : p.kind
  · by_cases hg : p.first = g
    · subst hg
      simp [load_store_self]
    · have hf : (p.first == g) = false := by simpa using hg
      simp only [hf, Bool.and_false, Bool.false_eq_true, if_false]
      rw [load_store_ne _ _ _ _ hg]
  · simp
  · simp

theorem applyShaderAssignment_lights (acc : Scene × Heap) (p : ShaderAssignPair) (l : Nat) :
    (load (applyShaderAssignment acc p).2.lights l).map CLight.shader =
      if (p.kind == NodeKind.light && p.first == l) = true then
        some (if p.second.headD 0 ≠ 0 then p.second.headD 0 else acc.1.default_light)
      else (load acc.2.lights l).map CLight.shader := by
  unfold applyShaderAssignment
  rcases hk : p.kind
  · simp
  · by_cases hg : p.first = l
    · subst hg
      simp [load_store_self]
    · have hf : (p.first == l) = false := by simpa using hg
      simp only [hf, Bool.and_false, Bool.false_eq_true, if_false]
      rw [load_store_ne _ _ _ _ hg]
  · simp

theorem foldl_applyShaderAssignment_geometry (pairs : List ShaderAssignPair) (g : Nat) :
    ∀ acc : Scene × Heap,
      (load (pairs.foldl applyShaderAssignment acc).2.geometry g).map CGeometry.used_shaders =
        match lastQueued NodeKind.geometry pairs g with
        | some p => some p.second
        | none => (load acc.2.geometry g).map CGeometry.used_shaders := by
  induction pairs with
  | nil => intro acc; rfl
  | cons p rest ih =>
    intro acc
    simp only [List.foldl_cons]
    rw [ih (applyShaderAssignment acc p), applyShaderAssignment_geometry]
    unfold lastQueued
    rw [List.reverse_cons, List.find?_append]
    generalize List.find? _ rest.reverse = o
    rcases o with _ | q
    · simp only [Option.none_or, List.find?_cons, List.find?_nil]
      by_cases h : (p.kind == NodeKind.geometry && p.first == g) = true
      · simp only [h, if_true]
      · have hf : (p.kind == NodeKind.geometry && p.first == g) = false := by simpa using h
        simp only [hf, Bool.false_eq_true, if_false]
    · rfl

theorem foldl_applyShaderAssignment_lights (pairs : List ShaderAssignPair) (l : Nat) :
    ∀ acc : Scene × Heap,
      (load (pairs.foldl applyShaderAssignment acc).2.lights l).map CLight.shader =
        match lastQueued NodeKind.light pairs l with
        | some p =>
          some (if p.second.headD 0 ≠ 0 then p.second.headD 0 else acc.1.default_light)
        | none => (load acc.2.lights l).map CLight.shader := by
  induction pairs with
  | nil => intro acc; rfl
  | cons p rest ih =>
    intro acc
    simp only [List.foldl_cons]
    rw [ih (applyShaderAssignment acc p), applyShaderAssignment_lights,
      (applyShaderAssignment_calls acc p).2.1]
    unfold lastQueued
    rw [List.reverse_cons, List.find?_append]
    generalize List.find? _ rest.reverse = o
    rcases o with _ | q
    · simp only [Option.none_or, List.find?_cons, List.find?_nil]
      by_cases h : (p.kind == NodeKind.light && p.first == l) = true
      · simp only [h, if_true]
      · have hf : (p.kind == NodeKind.light && p.first == l) = false := by simpa using h
        simp only [hf, Bool.false_eq_true, if_false]
    · rfl

theorem queuedCalls_quiet (d : Nat) (pairs : List ShaderAssignPair) :
    ∀ e ∈ queuedCalls d pairs, e.tagsShaderManager = false := by
  induction pairs with
  | nil => intro e he; simp [queuedCalls] at he
  | cons p rest ih =>
    intro e he
    simp only [queuedCalls, List.mem_append] at he
    rcases he with he | he
    · unfold queuedCall at he
      rcases hk : p.kind <;> rw [hk] at he <;> simp at he <;> subst he <;> rfl
    · exact ih e he

theorem foldl_environmentRotation_calls (k : UpdateFlags) (heap : Heap) (lights : List Nat) :
    ∀ scene : Scene,
      (∃ tail, (lights.foldl (environmentRotation k heap) scene).calls = scene.calls ++ tail ∧
        ∀ e ∈ tail, e.tagsShaderManager = true) ∧
      (lights.foldl (environmentRotation k heap) scene).light_manager_flags =
        scene.light_manager_flags ∧
      (lights.foldl (environmentRotation k heap) scene).geometry_manager_flags =
        scene.geometry_manager_flags := by
  induction lights with
  | nil => intro scene; exact ⟨⟨[], (List.append_nil _).symm, by simp⟩, rfl, rfl⟩
  | cons l rest ih =>
    intro scene
    obtain ⟨⟨tail, h1, h2⟩, h3, h4⟩ := ih (environmentRotation k heap scene l)
    simp only [List.foldl_cons]
    by_cases ht : environmentTagged heap l = true
    · have hs : environmentRotation k heap scene l =
          scene.shaderTagUpdate k ((load heap.lights l).getD {}).shader := by
        simp only [environmentRotation, ht, if_true]
      rw [hs] at h1 h3 h4 ⊢
      refine ⟨⟨EngineCall.shaderTagUpdate ((load heap.lights l).getD {}).shader :: tail, ?_, ?_⟩,
        h3, h4⟩
      · rw [h1]
        simp [Scene.shaderTagUpdate]
      · intro e he
        rcases List.mem_cons.1 he with he | he
        · subst he; rfl
        · exact h2 e he
    · have hs : environmentRotation k heap scene l = scene := by
        simp only [environmentRotation, ht, Bool.false_eq_true, if_false]
      rw [hs] at h1 h3 h4 ⊢
      exact ⟨⟨tail, h1, h2⟩, h3, h4⟩

theorem ShaderCache.assignShaders_calls (c : ShaderCache) (scene : Scene) (heap : Heap) :
    (c.assignShaders scene heap).1.calls =
        scene.calls ++
          (if c.m_shaderAssignPairs.length ≠ 0 then
            [EngineCall.tagLightManager UPDATE_ALL, EngineCall.tagGeometryManager UPDATE_ALL]
           else []) ++
          queuedCalls scene.default_light c.m_shaderAssignPairs ∧
      (c.assignShaders scene heap).1.light_manager_flags =
        (if c.m_shaderAssignPairs.length ≠ 0 then scene.light_manager_flags ||| UPDATE_ALL
         else scene.light_manager_flags) ∧
      (c.assignShaders scene heap).1.geometry_manager_flags =
        (if c.m_shaderAssignPairs.length ≠ 0 then scene.geometry_manager_flags ||| UPDATE_ALL
         else scene.geometry_manager_flags) ∧
      (∀ g, (load (c.assignShaders scene heap).2.geometry g).map CGeometry.used_shaders =
        match lastQueued NodeKind.geometry c.m_shaderAssignPairs g with
        | some p => some p.second
        | none => (load heap.geometry g).map CGeometry.used_shaders) ∧
      (∀ l, (load (c.assignShaders scene heap).2.lights l).map CLight.shader =
        match lastQueued NodeKind.light c.m_shaderAssignPairs l with
        | some p => some (if p.second.headD 0 ≠ 0 then p.second.headD 0 else scene.default_light)
        | none => (load heap.lights l).map CLight.shader) := by
  unfold ShaderCache.assignShaders
  dsimp only
  generalize hs1 : (if c.m_shaderAssignPairs.length ≠ 0 then
      ({ scene with
        light_manager_flags := scene.light_manager_flags ||| UPDATE_ALL
        geometry_manager_flags := scene.geometry_manager_flags ||| UPDATE_ALL
        calls := scene.calls ++
          [EngineCall.tagLightManager UPDATE_ALL, EngineCall.tagGeometryManager UPDATE_ALL] } :
        Scene)
    else scene) = scene1
  obtain ⟨h1, h2, h3, h4⟩ := foldl_applyShaderAssignment_calls c.m_shaderAssignPairs (scene1, heap)
  have hg := foldl_applyShaderAssignment_geometry c.m_shaderAssignPairs
  have hl := foldl_applyShaderAssignment_lights c.m_shaderAssignPairs
  have hd : scene1.default_light = scene.default_light := by
    rw [← hs1]; split_ifs <;> rfl
  refine ⟨?_, ?_, ?_, fun g => hg g (scene1, heap), fun l => ?_⟩
  · rw [h1]
    show scene1.calls ++ queuedCalls scene1.default_light _ = _
    rw [hd, ← hs1]
    split_ifs
    · rfl
    · simp
  · rw [h3, ← hs1]
    split_ifs <;> rfl
  · rw [h4, ← hs1]
    split_ifs <;> rfl
  · rw [hl l (scene1, heap)]
    show (match lastQueued NodeKind.light c.m_shaderAssignPairs l with
      | some p => some (if p.second.headD 0 ≠ 0 then p.second.headD 0 else scene1.default_light)
      | none => Option.map CLight.shader (load heap.lights l)) = _
    rw [hd]

theorem ShaderCache.updateShaders_calls (k : UpdateFlags) (c : ShaderCache) (scene : Scene)
    (heap : Heap) :
    (c.updateShaders k scene heap).1.m_shaderAssignPairs = [] ∧
      (c.updateShaders k scene heap).2.2 = (c.assignShaders scene heap).2 ∧
      (∃ tail,
        (c.updateShaders k scene heap).2.1.calls =
          (rotateEnvironments k (c.assignShaders scene heap).1
            (c.assignShaders scene heap).2).calls ++ tail ∧
        ∀ e ∈ tail, e.tagsShaderManager = true) ∧
      (c.updateShaders k scene heap).2.1.light_manager_flags =
        (rotateEnvironments k (c.assignShaders scene heap).1
          (c.assignShaders scene heap).2).light_manager_flags ∧
      (c.updateShaders k scene heap).2.1.geometry_manager_flags =
        (rotateEnvironments k (c.assignShaders scene heap).1
          (c.assignShaders scene heap).2).geometry_manager_flags := by
  unfold ShaderCache.updateShaders
  dsimp only
  split_ifs
  · exact ⟨rfl, rfl, ⟨[], (List.append_nil _).symm, by simp⟩, rfl, rfl⟩
  · refine ⟨rfl, rfl, ⟨[EngineCall.tagShaderManager c.m_updateFlags], rfl, ?_⟩, rfl, rfl⟩
    intro e he
    simp only [List.mem_singleton] at he
    subst he; rfl

/-- C27.  `ShaderCache::update` on any queue of deferred assignments: the
queue is empty afterwards; the engine calls it adds are, in this order, the
`UPDATE_ALL` tags of the light manager and the geometry manager when the
queue was not empty, one call per queued geometry or light assignment in
queue order, and only then the calls that tag the shader manager; with a
non-empty queue both managers carry `UPDATE_ALL`; and for every geometry and
every light the assignment queued last for it decides its shaders (a target
with no queued assignment keeps what it had). -/
theorem ShaderCache.update_applies_queue (k : UpdateFlags) (c : ShaderCache) (scene : Scene)
    (heap : Heap) (force : Bool) :
    (c.update k scene heap force).1.m_shaderAssignPairs = [] ∧
      (∃ tail,
        (c.update k scene heap force).2.1.calls =
          scene.calls ++
            (if c.m_shaderAssignPairs.length ≠ 0 then
              [EngineCall.tagLightManager UPDATE_ALL, EngineCall.tagGeometryManager UPDATE_ALL]
             else []) ++
            queuedCalls scene.default_light c.m_shaderAssignPairs ++ tail ∧
        (∀ e ∈ tail, e.tagsShaderManager = true) ∧
        (∀ e ∈ queuedCalls scene.default_light c.m_shaderAssignPairs,
          e.tagsShaderManager = false)) ∧
      (c.m_shaderAssignPairs ≠ [] →
        (c.update k scene heap force).2.1.light_manager_flags =
            scene.light_manager_flags ||| UPDATE_ALL ∧
          (c.update k scene heap force).2.1.geometry_manager_flags =
            scene.geometry_manager_flags ||| UPDATE_ALL) ∧
      (∀ g, (load (c.update k scene heap force).2.2.geometry g).map CGeometry.used_shaders =
        match lastQueued NodeKind.geometry c.m_shaderAssignPairs g with
        | some p => some p.second
        | none => (load heap.geometry g).map CGeometry.used_shaders) ∧
      (∀ l, (load (c.update k scene heap force).2.2.lights l).map CLight.shader =
        match lastQueued NodeKind.light c.m_shaderAssignPairs l with
        | some p => some (if p.second.headD 0 ≠ 0 then p.second.headD 0 else scene.default_light)
        | none => (load heap.lights l).map CLight.shader) := by
  generalize hc0 : (if force = true then { c with m_updateFlags := UPDATE_ALL } else c) = c0
  have hq : c0.m_shaderAssignPairs = c.m_shaderAssignPairs := by
    rw [← hc0]; split_ifs <;> rfl
  have hu : c.update k scene heap force = c0.updateShaders k scene heap := by
    simp only [ShaderCache.update, hc0]
  rw [hu]
  obtain ⟨a1, a2, a3, a4, a5⟩ := c0.assignShaders_calls scene heap
  rw [hq] at a1 a2 a3 a4 a5
  obtain ⟨⟨tail, r1, r2⟩, r3, r4⟩ := foldl_environmentRotation_calls k
    (c0.assignShaders scene heap).2 (c0.assignShaders scene heap).1.lights
    (c0.assignShaders scene heap).1
  have hne : c.m_shaderAssignPairs ≠ [] → c.m_shaderAssignPairs.length ≠ 0 := by
    intro h hl
    exact h (List.length_eq_zero.1 hl)
  obtain ⟨u1, u2, ⟨tail2, u3, u4⟩, u5, u6⟩ := c0.updateShaders_calls k scene heap
  unfold rotateEnvironments at u3 u5 u6
  rw [u2]
  refine ⟨u1, ⟨tail ++ tail2, ?_, ?_, queuedCalls_quiet _ _⟩, ?_, a4, a5⟩
  · rw [u3, r1, a1]
    simp only [List.append_assoc]
  · intro e he
    rcases List.mem_append.1 he with he | he
    · exact r2 e he
    · exact u4 e he
  · intro h
    refine ⟨?_, ?_⟩
    · rw [u5, r3, a2, if_pos (hne h)]
    · rw [u6, r4, a3, if_pos (hne h)]

/-- C27 (witness).  Four queued assignments, two of them for the geometry
`7`: the queue is empty afterwards and the later of the two decides the
shaders of `7`. -/
theorem ShaderCache.update_applies_queue_witness :
    (sampleQueue.update sampleFlags {} {} false).1.m_shaderAssignPairs = [] ∧
      (load (sampleQueue.update sampleFlags {} {} false).2.2.geometry 7).map
        CGeometry.used_shaders = some [13] :=
  ⟨(ShaderCache.update_applies_queue sampleFlags sampleQueue {} {} false).1,
   (ShaderCache.update_applies_queue sampleFlags sampleQueue {} {} false).2.2.2.1 7⟩
/-! ## The rebuilt pass list (C26) -/

theorem crypto_bits : ∀ c : Fin 16,
    (c.val ||| CRYPT_ASSET) < 16 ∧ (c.val ||| CRYPT_OBJECT) < 16 ∧
    (c.val ||| CRYPT_MATERIAL) < 16 ∧
    ((c.val ||| CRYPT_ASSET) &&& CRYPT_ASSET != 0) = true ∧
    ((c.val ||| CRYPT_ASSET) &&& CRYPT_OBJECT != 0) = (c.val &&& CRYPT_OBJECT != 0) ∧
    ((c.val ||| CRYPT_ASSET) &&& CRYPT_MATERIAL != 0) = (c.val &&& CRYPT_MATERIAL != 0) ∧
    ((c.val ||| CRYPT_OBJECT) &&& CRYPT_OBJECT != 0) = true ∧
    ((c.val ||| CRYPT_OBJECT) &&& CRYPT_ASSET != 0) = (c.val &&& CRYPT_ASSET != 0) ∧
    ((c.val ||| CRYPT_OBJECT) &&& CRYPT_MATERIAL != 0) = (c.val &&& CRYPT_MATERIAL != 0) ∧
    ((c.val ||| CRYPT_MATERIAL) &&& CRYPT_MATERIAL != 0) = true ∧
    ((c.val ||| CRYPT_MATERIAL) &&& CRYPT_ASSET != 0) = (c.val &&& CRYPT_ASSET != 0) ∧
    ((c.val ||| CRYPT_MATERIAL) &&& CRYPT_OBJECT != 0) = (c.val &&& CRYPT_OBJECT != 0) := by
  decide

/-- One iteration of the output loop: what it appends to the passes and which
family bit it sets. -/
theorem outputStep_pass (rt : RenderType) (acc : OutputLoop) (o : String × CyclesOutput)
    (h : acc.crypto < 16) :
    (outputStep rt acc o).passes =
        acc.passes ++
          (if (processed rt o.2 && (o.2.m_passType != PassType.PASS_CRYPTOMATTE)) = true
           then [outputPass o.2] else []) ∧
      (outputStep rt acc o).crypto < 16 ∧
      ((outputStep rt acc o).crypto &&& CRYPT_OBJECT != 0) =
        ((acc.crypto &&& CRYPT_OBJECT != 0) ||
          (processed rt o.2 && (o.2.m_passType == PassType.PASS_CRYPTOMATTE) &&
            (o.2.m_data == "cryptomatte_object"))) ∧
      ((outputStep rt acc o).crypto &&& CRYPT_MATERIAL != 0) =
        ((acc.crypto &&& CRYPT_MATERIAL != 0) ||
          (processed rt o.2 && (o.2.m_passType == PassType.PASS_CRYPTOMATTE) &&
            (o.2.m_data == "cryptomatte_material"))) ∧
      ((outputStep rt acc o).crypto &&& CRYPT_ASSET != 0) =
        ((acc.crypto &&& CRYPT_ASSET != 0) ||
          (processed rt o.2 && (o.2.m_passType == PassType.PASS_CRYPTOMATTE) &&
            (o.2.m_data == "cryptomatte_asset"))) := by
  obtain ⟨k1, k2, k3, k4, k5, k6, k7, k8, k9, k10, k11, k12⟩ := crypto_bits ⟨acc.crypto, h⟩
  dsimp only at k1 k2 k3 k4 k5 k6 k7 k8 k9 k10 k11 k12
  unfold outputStep
  by_cases hp : processed rt o.2 = true
  · by_cases ht : o.2.m_passType = PassType.PASS_CRYPTOMATTE
    · have htb : (o.2.m_passType == PassType.PASS_CRYPTOMATTE) = true := by simpa using ht
      have htn : (o.2.m_passType != PassType.PASS_CRYPTOMATTE) = false := by simp [ht]
      simp only [hp, htb, htn, Bool.not_true, Bool.false_eq_true, if_false, ht, if_true,
        Bool.and_false, Bool.true_and, List.append_nil]
      by_cases ha : o.2.m_data = "cryptomatte_asset"
      · have hao : (o.2.m_data == "cryptomatte_object") = false := by rw [ha]; decide
        have ham : (o.2.m_data == "cryptomatte_material") = false := by rw [ha]; decide
        have haa : (o.2.m_data == "cryptomatte_asset") = true := by rw [ha]; decide
        rw [if_pos ha]
        simp only [hao, ham, haa, bne_self_eq_false, beq_self_eq_true, Bool.and_false, Bool.and_true,
          Bool.or_false, Bool.or_true, Bool.false_eq_true, if_false, List.append_nil, true_and]
        exact ⟨k1, k5, k6, k4⟩
      · have haa : (o.2.m_data == "cryptomatte_asset") = false := by simpa using ha
        rw [if_neg ha]
        by_cases hob : o.2.m_data = "cryptomatte_object"
        · have hao : (o.2.m_data == "cryptomatte_object") = true := by rw [hob]; decide
          have ham : (o.2.m_data == "cryptomatte_material") = false := by rw [hob]; decide
          rw [if_pos hob]
          simp only [hao, ham, haa, bne_self_eq_false, beq_self_eq_true, Bool.and_false, Bool.and_true,
          Bool.or_false, Bool.or_true, Bool.false_eq_true, if_false, List.append_nil, true_and]
          exact ⟨k2, k7, k9, k8⟩
        · have hao : (o.2.m_data == "cryptomatte_object") = false := by simpa using hob
          rw [if_neg hob]
          by_cases hm : o.2.m_data = "cryptomatte_material"
          · have ham : (o.2.m_data == "cryptomatte_material") = true := by simpa using hm
            rw [if_pos hm]
            simp only [hao, ham, haa, bne_self_eq_false, beq_self_eq_true, Bool.and_false, Bool.and_true,
          Bool.or_false, Bool.or_true, Bool.false_eq_true, if_false, List.append_nil, true_and]
            exact ⟨k3, k12, k10, k11⟩
          · have ham : (o.2.m_data == "cryptomatte_material") = false := by simpa using hm
            rw [if_neg hm]
            simp only [hao, ham, haa, bne_self_eq_false, beq_self_eq_true, Bool.and_false, Bool.and_true,
          Bool.or_false, Bool.or_true, Bool.false_eq_true, if_false, List.append_nil, true_and]
            exact ⟨h, trivial⟩
    · have htb : (o.2.m_passType == PassType.PASS_CRYPTOMATTE) = false := by simpa using ht
      have htn : (o.2.m_passType != PassType.PASS_CRYPTOMATTE) = true := by simp [ht]
      simp only [hp, htb, htn, Bool.not_true, Bool.false_eq_true, if_false, ht, if_true,
        Bool.and_false, Bool.true_and, Bool.false_and, Bool.or_false, Bool.and_self]
      exact ⟨rfl, h, trivial, trivial, trivial⟩
  · have hpf : processed rt o.2 = false := by simpa using hp
    simp only [hpf, Bool.not_false, if_true, Bool.false_and, Bool.false_eq_true, if_false,
      List.append_nil, Bool.or_false]
    exact ⟨trivial, h, trivial, trivial, trivial⟩

theorem foldl_outputStep_pass (rt : RenderType) (outs : List (String × CyclesOutput)) :
    ∀ acc : OutputLoop, acc.crypto < 16 →
      (outs.foldl (outputStep rt) acc).passes =
          acc.passes ++
            (outs.filter (fun o => processed rt o.2 &&
              (o.2.m_passType != PassType.PASS_CRYPTOMATTE))).map (fun o => outputPass o.2) ∧
        ((outs.foldl (outputStep rt) acc).crypto &&& CRYPT_OBJECT != 0) =
          ((acc.crypto &&& CRYPT_OBJECT != 0) || familyRequested rt outs "cryptomatte_object") ∧
        ((outs.foldl (outputStep rt) acc).crypto &&& CRYPT_MATERIAL != 0) =
          ((acc.crypto &&& CRYPT_MATERIAL != 0) ||
            familyRequested rt outs "cryptomatte_material") ∧
        ((outs.foldl (outputStep rt) acc).crypto &&& CRYPT_ASSET != 0) =
          ((acc.crypto &&& CRYPT_ASSET != 0) || familyRequested rt outs "cryptomatte_asset") := by
  induction outs with
  | nil =>
    intro acc _
    simp [familyRequested]
  | cons o rest ih =>
    intro acc h
    obtain ⟨s1, s2, s3, s4, s5⟩ := outputStep_pass rt acc o h
    obtain ⟨i1, i2, i3, i4⟩ := ih (outputStep rt acc o) s2
    simp only [List.foldl_cons]
    refine ⟨?_, ?_, ?_, ?_⟩
    · rw [i1, s1, List.filter_cons]
      split_ifs <;> simp
    · rw [i2, s3]
      simp only [familyRequested, List.any_cons, Bool.or_assoc]
    · rw [i3, s4]
      simp only [familyRequested, List.any_cons, Bool.or_assoc]
    · rw [i4, s5]
      simp only [familyRequested, List.any_cons, Bool.or_assoc]

theorem addCryptoPasses_passes (enabled : Bool) (name : String) (layer : List (String × String))
    (depth : Int) (acc : List Pass × List (String × List (String × String))) :
    (addCryptoPasses enabled name layer depth acc).1 =
      acc.1 ++ familyPasses enabled name depth := by
  unfold addCryptoPasses familyPasses
  cases enabled
  · simp
  · simp only [if_true]
    generalize List.range depth.toNat = l
    induction l generalizing acc with
    | nil => simp
    | cons i rest ih =>
      simp only [List.foldl_cons, List.map_cons]
      rw [ih]
      simp

theorem familyPasses_crypto (requested : Bool) (name : String) (depth : Int) :
    cryptoSubPasses (familyPasses requested name depth) = familyPasses requested name depth ∧
      (familyPasses requested name depth).length =
        depth.toNat * (if requested then 1 else 0) := by
  unfold familyPasses cryptoSubPasses
  cases requested
  · simp
  · simp only [if_true, List.length_map, List.length_range, Nat.mul_one, and_true]
    rw [List.filter_eq_self]
    intro p hp
    obtain ⟨i, _, rfl⟩ := List.mem_map.1 hp
    rfl

/-- The passes `updateOutputs` leaves on a rebuilding run. -/
theorem updateOutputs_passes_eq (s : OutputState) (b : Bool)
    (hrun : (s.m_outputsChanged || b) = true) :
    (updateOutputs s b).passes =
      specPassList s (updateOutputs s b).film.cryptomatte_depth := by
  have h0 : (if s.m_cryptomatteAccurate then CRYPT_NONE ||| CRYPT_ACCURATE else CRYPT_NONE) < 16 := by
    split_ifs <;> decide
  obtain ⟨f1, f2, f3, f4⟩ := foldl_outputStep_pass s.m_renderType s.m_outputs
    { crypto := if s.m_cryptomatteAccurate then CRYPT_NONE ||| CRYPT_ACCURATE else CRYPT_NONE } h0
  have z : ((if s.m_cryptomatteAccurate then CRYPT_NONE ||| CRYPT_ACCURATE else CRYPT_NONE)
        &&& CRYPT_OBJECT != 0) = false ∧
      ((if s.m_cryptomatteAccurate then CRYPT_NONE ||| CRYPT_ACCURATE else CRYPT_NONE)
        &&& CRYPT_MATERIAL != 0) = false ∧
      ((if s.m_cryptomatteAccurate then CRYPT_NONE ||| CRYPT_ACCURATE else CRYPT_NONE)
        &&& CRYPT_ASSET != 0) = false := by
    split_ifs <;> decide
  dsimp only at f1 f2 f3 f4
  rw [z.1, Bool.false_or] at f2
  rw [z.2.1, Bool.false_or] at f3
  rw [z.2.2, Bool.false_or] at f4
  unfold updateOutputs specPassList
  simp only [hrun, Bool.not_true, Bool.false_eq_true, if_false]
  rw [addCryptoPasses_passes, addCryptoPasses_passes, addCryptoPasses_passes]
  unfold outputLoop
  rw [f1, f2, f3, f4]
  simp only [List.nil_append]

theorem cryptoSubPasses_append (a b : List Pass) :
    cryptoSubPasses (a ++ b) = cryptoSubPasses a ++ cryptoSubPasses b := by
  simp [cryptoSubPasses]

theorem cryptoSubPasses_outputs (rt : RenderType) (outs : List (String × CyclesOutput)) :
    cryptoSubPasses ((outs.filter (fun o => processed rt o.2 &&
      (o.2.m_passType != PassType.PASS_CRYPTOMATTE))).map (fun o => outputPass o.2)) = [] := by
  unfold cryptoSubPasses
  rw [List.filter_eq_nil_iff]
  intro p hp
  obtain ⟨o, ho, rfl⟩ := List.mem_map.1 hp
  have h2 := (List.mem_filter.1 ho).2
  simp only [Bool.and_eq_true, bne_iff_ne, ne_eq] at h2
  simpa [outputPass] using h2.2

theorem mem_insertOutput (outputs : List (String × CyclesOutput)) (name : String)
    (value : CyclesOutput) (x : String × CyclesOutput) :
    x ∈ insertOutput outputs name value ↔ x = (name, value) ∨ x ∈ outputs := by
  induction outputs with
  | nil => simp [insertOutput]
  | cons e rest ih =>
    unfold insertOutput
    split_ifs
    · simp
    · simp only [List.mem_cons, ih]
      tauto

/-- The assignment `m_outputs[name] = value` for a name the map does not hold
keeps the map in name order. -/
theorem insertOutput_nameOrdered (outputs : List (String × CyclesOutput)) (name : String)
    (value : CyclesOutput) (h : nameOrdered outputs) (hnot : ∀ e ∈ outputs, e.1 ≠ name) :
    nameOrdered (insertOutput outputs name value) := by
  unfold nameOrdered at h ⊢
  induction outputs with
  | nil => simp [insertOutput]
  | cons e rest ih =>
    obtain ⟨he, hrest⟩ := List.pairwise_cons.1 h
    unfold insertOutput
    split_ifs with hlt
    · refine List.pairwise_cons.2 ⟨?_, h⟩
      intro x hx
      rcases List.mem_cons.1 hx with rfl | hx
      · exact hlt
      · exact lt_trans hlt (he x hx)
    · refine List.pairwise_cons.2 ⟨?_, ih hrest (fun x hx => hnot x (List.mem_cons_of_mem _ hx))⟩
      intro x hx
      rcases (mem_insertOutput rest name value x).1 hx with rfl | hx
      · exact lt_of_le_of_ne (not_lt.1 hlt) (hnot e (List.mem_cons_self _ _))
      · exact he x hx

/-- Every `output` call keeps the output map in name order, so the map of a
renderer, empty when constructed, is in name order at every `render`. -/
theorem CyclesRenderer.output_nameOrdered (passTypeOf : String → Option PassType)
    (r : CyclesRenderer) (name : String) (output : Option Output)
    (h : nameOrdered r.m_outputs) :
    nameOrdered (r.output passTypeOf name output).m_outputs := by
  unfold CyclesRenderer.output
  rcases output with _ | o
  · dsimp only
    split
    · exact List.Pairwise.filter _ h
    · exact h
  · dsimp only
    split
    · rename_i hf
      refine insertOutput_nameOrdered _ _ _ h ?_
      intro e he hname
      have hnone := List.find?_eq_none.1 hf e he
      exact hnone (by simpa using hname)
    · exact h

/-- The output map of a renderer as constructed is empty, so it is in name
order. -/
theorem CyclesRenderer.new_nameOrdered (E : Engine) (k : UpdateFlags) (renderType : RenderType)
    (r : CyclesRenderer) (h : CyclesRenderer.new E k renderType = some r) :
    r.m_outputs = [] ∧ nameOrdered r.m_outputs := by
  have hi : ((CyclesRenderer.initial E renderType).init E).m_outputs = [] := by
    obtain ⟨n, device, m, session, scene, heap, i, b, f, he⟩ :=
      CyclesRenderer.init_eq E (CyclesRenderer.initial E renderType)
    rw [he]
    rfl
  unfold CyclesRenderer.new at h
  dsimp only at h
  split at h
  · exact absurd h (by simp)
  · have hr := Option.some.inj h
    have hm : r.m_outputs = [] := by
      rw [← hr]
      exact hi
    rw [hm]
    exact ⟨rfl, List.Pairwise.nil⟩

/-- The pass list of every run of `updateOutputs` that rebuilds the passes,
for an output map in name order: one pass per processed output that is not a
cryptomatte output, those outputs taken in name order, then the sub-passes
`cryptomatte_objectNN` when an object cryptomatte output is processed, then
`cryptomatte_materialNN`, then `cryptomatte_assetNN`, with `NN` running from
`00` below the film depth.  For a film depth that is not negative the number
of cryptomatte sub-passes is the depth times the number of requested
families; a negative film depth, which a negative stored depth gives, leaves
no sub-pass. -/
theorem updateOutputs_pass_list (s : OutputState) (b : Bool)
    (hrun : (s.m_outputsChanged || b) = true) (hsorted : nameOrdered s.m_outputs) :
    (updateOutputs s b).passes =
        specPassList s (updateOutputs s b).film.cryptomatte_depth ∧
      nameOrdered (s.m_outputs.filter
        (fun o => processed s.m_renderType o.2 &&
          (o.2.m_passType != PassType.PASS_CRYPTOMATTE))) ∧
      (cryptoSubPasses (updateOutputs s b).passes).length =
        (updateOutputs s b).film.cryptomatte_depth.toNat * requestedFamilies s ∧
      (0 ≤ (updateOutputs s b).film.cryptomatte_depth →
        ((cryptoSubPasses (updateOutputs s b).passes).length : Int) =
          (updateOutputs s b).film.cryptomatte_depth * (requestedFamilies s : Int)) := by
  have hp := updateOutputs_passes_eq s b hrun
  generalize (updateOutputs s b).film.cryptomatte_depth = depth at hp ⊢
  have hcount : (cryptoSubPasses (updateOutputs s b).passes).length =
      depth.toNat * requestedFamilies s := by
    rw [hp]
    unfold specPassList requestedFamilies
    rw [cryptoSubPasses_append, cryptoSubPasses_append, cryptoSubPasses_append,
      cryptoSubPasses_outputs, (familyPasses_crypto _ _ _).1, (familyPasses_crypto _ _ _).1,
      (familyPasses_crypto _ _ _).1, List.nil_append, List.length_append, List.length_append,
      (familyPasses_crypto _ _ _).2, (familyPasses_crypto _ _ _).2,
      (familyPasses_crypto _ _ _).2, Nat.mul_add, Nat.mul_add]
  refine ⟨hp, List.Pairwise.filter _ hsorted, hcount, fun hd => ?_⟩
  rw [hcount]
  push_cast
  rw [Int.toNat_of_nonneg hd]

theorem nameOrdered_of_data (outputs : List (String × CyclesOutput))
    (h : outputs.Pairwise (fun a b => a.1.data < b.1.data)) : nameOrdered outputs :=
  List.Pairwise.imp (fun hab => String.lt_iff_toList_lt.2 hab) h

/-- The pass list at a denoised `rgba` output between an asset and an object
cryptomatte output, stored depth 3: one pass for `rgba`, then two object
sub-passes, then two asset sub-passes. -/
theorem updateOutputs_pass_list_sample :
    (updateOutputs (cryptoFamiliesState 3) false).film.cryptomatte_depth = 2 ∧
      (updateOutputs (cryptoFamiliesState 3) false).passes =
        [{ type := PassType.PASS_COMBINED, name := "rgba_denoised", mode := PassMode.DENOISED },
         { type := PassType.PASS_CRYPTOMATTE, name := "cryptomatte_object00",
           mode := PassMode.NOISY },
         { type := PassType.PASS_CRYPTOMATTE, name := "cryptomatte_object01",
           mode := PassMode.NOISY },
         { type := PassType.PASS_CRYPTOMATTE, name := "cryptomatte_asset00",
           mode := PassMode.NOISY },
         { type := PassType.PASS_CRYPTOMATTE, name := "cryptomatte_asset01",
           mode := PassMode.NOISY }] ∧
      (cryptoSubPasses (updateOutputs (cryptoFamiliesState 3) false).passes).length = 2 * 2 :=
  ⟨by decide,
   (updateOutputs_pass_list (cryptoFamiliesState 3) false (by decide)
      (nameOrdered_of_data _ (by decide))).1.trans (by decide),
   (updateOutputs_pass_list (cryptoFamiliesState 3) false (by decide)
      (nameOrdered_of_data _ (by decide))).2.2.1.trans (by decide)⟩

theorem specCryptomatteDepth_neg_three : specCryptomatteDepth (-3) = 1 := by
  have h : Int.ceil ((-3 : ℚ) / 2) = -1 := by
    rw [Int.ceil_eq_iff]; norm_num
  unfold specCryptomatteDepth
  have hm : (min 16 (-3) : Int) = -3 := by decide
  rw [hm]
  push_cast
  rw [h]
  decide

/-- C26 fails.  With one object cryptomatte output processed and the stored
`ccl:film:cryptomatte_depth` equal to `-3`, the depth the spec asks for is
`1`, so the rebuilt list should end in the one sub-pass
`cryptomatte_object00`; `updateOutputs` publishes the film depth `-1`, the
family is requested, and the pass list holds no sub-pass at all: the number
of sub-passes, zero, is not the depth times the number of requested families,
neither for the published depth nor for the depth the spec asks for. -/
theorem updateOutputs_sub_passes_negative_depth :
    specCryptomatteDepth (-3) = 1 ∧
      (updateOutputs (cryptoObjectState (-3)) false).film.cryptomatte_depth = -1 ∧
      requestedFamilies (cryptoObjectState (-3)) = 1 ∧
      (updateOutputs (cryptoObjectState (-3)) false).passes = [] ∧
      ((cryptoSubPasses (updateOutputs (cryptoObjectState (-3)) false).passes).length : Int) ≠
        (updateOutputs (cryptoObjectState (-3)) false).film.cryptomatte_depth *
          (requestedFamilies (cryptoObjectState (-3)) : Int) ∧
      ((cryptoSubPasses (updateOutputs (cryptoObjectState (-3)) false).passes).length : Int) ≠
        specCryptomatteDepth (-3) * (requestedFamilies (cryptoObjectState (-3)) : Int) :=
  ⟨specCryptomatteDepth_neg_three, by decide, by decide, by decide, by decide,
    by rw [specCryptomatteDepth_neg_three]; decide⟩

/-! ## Output names (C24) -/

theorem getMember_setMember_self (m : List (String × String)) (k v : String) :
    getMember (setMember m k v) k = some v := by
  unfold getMember setMember
  split_ifs with h
  · induction m with
    | nil => simp at h
    | cons e rest ih =>
      by_cases he : e.1 = k
      · simp [he]
      · have hb : (e.1 == k) = false := by simpa using he
        simp only [List.any_cons, hb, Bool.false_or] at h
        simp only [List.map_cons, hb, Bool.false_eq_true, if_false, List.find?_cons]
        exact ih h
  · have hnone : m.find? (fun e => e.1 == k) = none := by
      rw [List.find?_eq_none]
      intro e he hk
      exact h (List.any_eq_true.2 ⟨e, he, hk⟩)
    simp [List.find?_append, hnone]

theorem getMember_setMember_ne (m : List (String × String)) (k v key : String) (hk : k ≠ key) :
    getMember (setMember m k v) key = getMember m key := by
  have hkb : (k == key) = false := by simpa using hk
  unfold getMember setMember
  split_ifs with h
  · clear h
    induction m with
    | nil => rfl
    | cons e rest ih =>
      by_cases he : e.1 = k
      · have hb : (e.1 == k) = true := by simpa using he
        have hb2 : (e.1 == key) = false := by rw [he]; exact hkb
        simp only [List.map_cons, hb, if_true, List.find?_cons, hkb, hb2]
        exact ih
      · have hb : (e.1 == k) = false := by simpa using he
        simp only [List.map_cons, hb, Bool.false_eq_true, if_false, List.find?_cons]
        cases e.1 == key
        · exact ih
        · rfl
  · rw [List.find?_append]
    simp only [List.find?_cons, hkb, List.find?_nil, Option.or_none]

/-- The name `CyclesOutput` gives an output, by its tokens. -/
theorem CyclesOutput.new_name (passTypeOf : String → Option PassType) (output : Output) :
    (CyclesOutput.new passTypeOf output).1.m_denoise =
        (parameterBool output.parameters "denoise" false).1 ∧
      ((∃ n, specOutputName (tokenize output.data ' ')
          (CyclesOutput.new passTypeOf output).1.m_denoise = some n) →
        getMember (CyclesOutput.new passTypeOf output).1.m_parameters "name" =
          specOutputName (tokenize output.data ' ')
            (CyclesOutput.new passTypeOf output).1.m_denoise) := by
  refine ⟨rfl, ?_⟩
  unfold CyclesOutput.new specOutputName
  dsimp only
  generalize (parameterBool output.parameters "denoise" false).1 = d
  generalize setMember (setMember (List.map (fun e => (e.1, e.2.text)) output.parameters)
    "path" output.name) "driver" output.type = p2
  rcases tokenize output.data ' ' with _ | ⟨t0, _ | ⟨t1, _ | ⟨t2, rest⟩⟩⟩
  · rintro ⟨n, hn⟩; simp at hn
  · intro _
    dsimp only
    split_ifs <;>
      rw [getMember_setMember_ne _ _ _ _ (by decide), getMember_setMember_self]
  · intro hn
    dsimp only at hn ⊢
    by_cases h1 : t0 = "aovv"
    · subst h1
      simp only [if_true, true_or]
      rw [getMember_setMember_ne _ _ _ _ (by decide), getMember_setMember_self]
    · by_cases h2 : t0 = "aovc"
      · subst h2
        simp only [if_true, true_or, or_true, if_neg h1]
        rw [getMember_setMember_ne _ _ _ _ (by decide), getMember_setMember_self]
      · by_cases h3 : t0 = "lg"
        · subst h3
          simp only [if_true, or_true, if_neg h1, if_neg h2]
          rw [getMember_setMember_ne _ _ _ _ (by decide), getMember_setMember_self]
        · by_cases h4 : t0 = "cryptomatte"
          · subst h4
            simp only [if_true, if_neg h1, if_neg h2, if_neg h3, h1, h2, h3, or_self, if_false]
            rw [getMember_setMember_ne _ _ _ _ (by decide), getMember_setMember_self]
            rfl
          · obtain ⟨n, hn⟩ := hn
            simp [h1, h2, h3, h4] at hn
  · rintro ⟨n, hn⟩; simp at hn

/-- C24 (amended).  The `name` parameter of a `CyclesOutput`, for the denoise
flag `d` read from the `denoise` parameter: with one token `t` it is `t`,
followed by `_denoised` exactly when `d` is set; with the two tokens `k t`
and `k` one of `aovv`, `aovc`, `lg` it is `t`, followed by `_denoised`
exactly when `d` is set; with the two tokens `cryptomatte t` it is
`cryptomatte_t` whether `d` is set or not. -/
theorem CyclesOutput.name_by_tokens (passTypeOf : String → Option PassType) (output : Output) :
    (CyclesOutput.new passTypeOf output).1.m_denoise =
        (parameterBool output.parameters "denoise" false).1 ∧
      (∀ t, tokenize output.data ' ' = [t] →
        getMember (CyclesOutput.new passTypeOf output).1.m_parameters "name" =
          some (if (CyclesOutput.new passTypeOf output).1.m_denoise then t ++ "_denoised"
                else t)) ∧
      (∀ k t, tokenize output.data ' ' = [k, t] → k = "aovv" ∨ k = "aovc" ∨ k = "lg" →
        getMember (CyclesOutput.new passTypeOf output).1.m_parameters "name" =
          some (if (CyclesOutput.new passTypeOf output).1.m_denoise then t ++ "_denoised"
                else t)) ∧
      (∀ t, tokenize output.data ' ' = ["cryptomatte", t] →
        getMember (CyclesOutput.new passTypeOf output).1.m_parameters "name" =
          some ("cryptomatte_" ++ t)) := by
  obtain ⟨h1, h2⟩ := CyclesOutput.new_name passTypeOf output
  refine ⟨h1, fun t ht => ?_, fun k t ht hk => ?_, fun t ht => ?_⟩
  · rw [ht] at h2
    exact h2 ⟨_, rfl⟩
  · rw [ht] at h2
    have hs : specOutputName [k, t] (CyclesOutput.new passTypeOf output).1.m_denoise =
        some (if (CyclesOutput.new passTypeOf output).1.m_denoise then t ++ "_denoised"
              else t) := by
      simp only [specOutputName, hk, if_true]
    rw [hs] at h2
    exact h2 ⟨_, rfl⟩
  · rw [ht] at h2
    exact h2 ⟨_, rfl⟩

/-- C24 (witness).  A light group output with the denoise flag set is named
by its second token and the suffix. -/
theorem CyclesOutput.name_by_tokens_witness :
    (CyclesOutput.new samplePassTypeOf sampleLightGroupOutput).1.m_denoise = true ∧
      getMember (CyclesOutput.new samplePassTypeOf sampleLightGroupOutput).1.m_parameters "name"
        = some "key_denoised" :=
  ⟨(CyclesOutput.name_by_tokens samplePassTypeOf sampleLightGroupOutput).1.trans (by decide),
   ((CyclesOutput.name_by_tokens samplePassTypeOf sampleLightGroupOutput).2.2.1 "lg" "key"
      (by decide) (by decide)).trans (by decide)⟩

/-- C24 (counterexample).  An object cryptomatte output with the denoise flag
set is named `cryptomatte_object`, without the suffix; an output without the
flag whose single token is `rgba_denoised` has a name that ends in the
suffix. -/
theorem CyclesOutput.new_cryptomatte_denoise_name :
    (CyclesOutput.new samplePassTypeOf sampleCryptoOutput).1.m_denoise = true ∧
      getMember (CyclesOutput.new samplePassTypeOf sampleCryptoOutput).1.m_parameters "name"
        = some "cryptomatte_object" ∧
      nameEndsWith "cryptomatte_object" "_denoised" = false ∧
      (CyclesOutput.new samplePassTypeOf sampleSuffixedOutput).1.m_denoise = false ∧
      getMember (CyclesOutput.new samplePassTypeOf sampleSuffixedOutput).1.m_parameters "name"
        = some "rgba_denoised" ∧
      nameEndsWith "rgba_denoised" "_denoised" = true :=
  ⟨by decide, by decide, by decide, by decide, by decide, by decide⟩

/-! ## CyclesRenderer::output (C29) -/

/-- C29.  A call `output( name, spec )` with a non-null `spec` for a name the
output map holds returns the renderer as it was, whatever `spec` is: the
registered output, the dirty flag and everything else are unchanged.  A call
`output( name, null )` for a name the map does not hold returns the renderer
as it was too. -/
theorem CyclesRenderer.output_registered (passTypeOf : String → Option PassType)
    (r : CyclesRenderer) (name : String) :
    (∀ registered spec, r.m_outputs.find? (fun e => e.1 == name) = some registered →
        r.output passTypeOf name (some spec) = r) ∧
      (r.m_outputs.find? (fun e => e.1 == name) = none →
        r.output passTypeOf name none = r) := by
  refine ⟨fun registered spec h => ?_, fun h => ?_⟩
  · simp only [CyclesRenderer.output, h]
  · simp only [CyclesRenderer.output, h]

/-- C29 (witness).  The renderer holds `beauty` and does not hold `alpha`:
registering `beauty` again with another output, and removing `alpha`, leave
the output map and the clean flag as they were. -/
theorem CyclesRenderer.output_registered_witness :
    (sampleOutputRenderer.output samplePassTypeOf "beauty" (some sampleCryptoOutput)).m_outputs
        = sampleOutputRenderer.m_outputs ∧
      (sampleOutputRenderer.output samplePassTypeOf "beauty"
        (some sampleCryptoOutput)).m_outputsChanged = false ∧
      (sampleOutputRenderer.output samplePassTypeOf "alpha" none).m_outputsChanged = false :=
  ⟨congrArg (fun x => x.m_outputs)
      ((CyclesRenderer.output_registered samplePassTypeOf sampleOutputRenderer "beauty").1
        _ sampleCryptoOutput rfl),
   congrArg (fun x => x.m_outputsChanged)
      ((CyclesRenderer.output_registered samplePassTypeOf sampleOutputRenderer "beauty").1
        _ sampleCryptoOutput rfl),
   congrArg (fun x => x.m_outputsChanged)
      ((CyclesRenderer.output_registered samplePassTypeOf sampleOutputRenderer "alpha").2 rfl)⟩
/-! ## CyclesObject::transform with mismatched samples (C25) -/

theorem setMotion_length (obj : CObject) (value : List CTransform) :
    (setMotion obj value).2.length ≤ value.length := by
  unfold setMotion
  split_ifs
  · exact le_refl _
  · exact Nat.zero_le _

/-- The bound `rounds` of `fillMotion` is no limit once it covers the entries
from `i` on: more rounds give the same object. -/
theorem fillMotion_rounds (extra : Nat) :
    ∀ (rounds i : Nat) (obj : CObject) (motion : List CTransform),
      motion.length ≤ i + rounds →
        fillMotion (rounds + extra) i obj motion = fillMotion rounds i obj motion := by
  intro rounds
  induction rounds with
  | zero =>
    intro i obj motion h
    have hi : ¬ i < motion.length := by omega
    cases extra with
    | zero => rfl
    | succ e =>
      rw [Nat.zero_add]
      simp only [fillMotion, hi, if_false]
  | succ n ih =>
    intro i obj motion h
    have e1 : n + 1 + extra = (n + extra) + 1 := by omega
    rw [e1]
    simp only [fillMotion]
    split_ifs with hi
    · apply ih
      have hl := setMotion_length obj (motion.set i obj.tfm)
      rw [List.length_set] at hl
      omega
    · rfl

/-- The mismatch branch for a step count `n` from `1` below `2^31`, at least
one sample, and an object whose motion socket is tagged modified or holds
something else than what the first round builds: the error is logged, the
object transform is the first sample, the object is tagged, and the motion
array is the first-sample transform followed by `n - 1` empty transforms,
because `set_motion` in the first round takes the array over and the loop
then sees `motion.size() = 0`. -/
theorem CyclesObject.transform_mismatch (algo : TransformAlgo) (o : CyclesObject) (scene : Scene)
    (heap : Heap) (s : M44f) (rest : List M44f) (times : List Nat) (obj : CObject)
    (g : CGeometry)
    (hobj : o.m_instance.m_object ≠ 0)
    (hload : load heap.objects o.m_instance.m_object = some obj)
    (hgeo : obj.geometry ≠ 0)
    (hg : load heap.geometry obj.geometry = some g)
    (hblur : g.use_motion_blur = true)
    (hsteps : g.motion_steps ≠ (s :: rest).length)
    (hpos : g.motion_steps ≠ 0)
    (hint : g.motion_steps < 2 ^ 31)
    (hfirst : obj.motion_modified = true ∨
      obj.motion ≠ algo.setTransform s :: List.replicate (g.motion_steps - 1) transform_empty) :
    o.transformSamples algo scene heap (s :: rest) times =
      some
        { scene :=
            { scene with
              calls := scene.calls ++ [EngineCall.objectTagUpdate o.m_instance.m_object] }
          heap :=
            { heap with
              objects := store heap.objects o.m_instance.m_object
                { obj with
                  tfm := algo.setTransform s
                  motion :=
                    algo.setTransform s :: List.replicate (g.motion_steps - 1) transform_empty
                  motion_modified := true } }
          messages := [transformStepMessage obj.name] } := by
  have hne : (g.motion_steps != (s :: rest).length) = true := by simpa using hsteps
  have hnot : ¬ (2 ^ 31 ≤ g.motion_steps) := by omega
  obtain ⟨m, hm⟩ : ∃ m, g.motion_steps = m + 1 := ⟨g.motion_steps - 1, by omega⟩
  unfold CyclesObject.transformSamples
  simp only [hobj, if_false, hload, hgeo, hg, Option.map_some', hblur, hne, Bool.and_self,
    if_true, Option.getD_some]
  unfold transformMismatch
  simp only [hnot, if_false, List.length_replicate]
  rw [hm] at hfirst ⊢
  simp only [Nat.add_sub_cancel] at hfirst ⊢
  have hcond : (!obj.motion_modified &&
      obj.motion == algo.setTransform s :: List.replicate m transform_empty) = false := by
    rcases hfirst with h | h
    · simp [h]
    · have : (obj.motion == algo.setTransform s :: List.replicate m transform_empty) = false := by
        simpa using h
      simp [this]
  have hround : fillMotion (m + 1) 0 { obj with tfm := algo.setTransform s }
      (List.replicate (m + 1) transform_empty) =
      { obj with
        tfm := algo.setTransform s
        motion := algo.setTransform s :: List.replicate m transform_empty
        motion_modified := true } := by
    simp only [fillMotion, List.length_replicate, Nat.zero_lt_succ, if_true, List.replicate_succ,
      List.set_cons_zero, setMotion, hcond, Bool.false_eq_true, if_false]
    cases m with
    | zero => rfl
    | succ m2 => simp [fillMotion]
  rw [hround]

/-- C25 fails.  A new object on a geometry that uses motion blur with three
motion steps, and two transform samples: the error is logged and the object
transform is the first sample, but the motion array is the first-sample
transform followed by two empty transforms and not three copies of it, since
`set_motion` stands inside the loop and takes the local array over in the
first round. -/
theorem CyclesObject.transform_mismatch_first_round :
    (CyclesObject.transformSamples sampleTransformAlgo sampleCyclesObject {} (sampleMotionHeap 3)
        [sampleMatrix 1, sampleMatrix 2] [0, 0]).map
      (fun r => ((load r.heap.objects 1).map (fun x => (x.tfm, x.motion)), r.messages)) =
      some
        (some
          (sampleTransformAlgo.setTransform (sampleMatrix 1),
           [sampleTransformAlgo.setTransform (sampleMatrix 1), transform_empty,
            transform_empty]),
         [transformStepMessage "ball"]) ∧
      [sampleTransformAlgo.setTransform (sampleMatrix 1), transform_empty, transform_empty] ≠
        List.replicate 3 (sampleTransformAlgo.setTransform (sampleMatrix 1)) :=
  ⟨rfl, by decide⟩

/-! ## The scene mutex in render (C28) -/

theorem mutexEvents_append (a b : List RenderEvent) :
    mutexEvents (a ++ b) = mutexEvents a ++ mutexEvents b := by
  simp [mutexEvents]

theorem CyclesRenderer.init_sessionReset (E : Engine) (r : CyclesRenderer) :
    (r.init E).m_sessionReset = r.m_sessionReset := by
  obtain ⟨n, device, m, session, scene, heap, i, b, f, h⟩ := CyclesRenderer.init_eq E r
  rw [h]

theorem CyclesRenderer.updateSceneObjects_sessionReset (k : UpdateFlags) (x : CyclesRenderer)
    (force : Bool) : (x.updateSceneObjects k force).m_sessionReset = x.m_sessionReset :=
  rfl

theorem CyclesRenderer.reset_sessionReset (E : Engine) (k : UpdateFlags) (r : CyclesRenderer) :
    (CyclesRenderer.reset E k r).m_sessionReset = r.m_sessionReset := by
  generalize hy : CyclesRenderer.reset E k r = y
  unfold CyclesRenderer.reset at hy
  lift_lets at hy
  extract_lets r1 r2 s2 r3 r4 s4 at hy
  have h2 : r2.m_sessionReset = r.m_sessionReset := CyclesRenderer.init_sessionReset E r1
  clear_value r2
  have h4 : r4.m_sessionReset = r2.m_sessionReset :=
    CyclesRenderer.updateSceneObjects_sessionReset k r3 true
  clear_value r4
  rw [← hy]
  exact h4.trans h2

/-- What `updateOptions` does to the reset flag and to the mutex events: it
sets the flag and re-creates the session exactly when it resets. -/
theorem CyclesRenderer.updateOptions_mutex (E : Engine) (k : UpdateFlags) (env : RenderEnv)
    (r : CyclesRenderer) :
    ((r.updateOptions E k env).m_renderState = RenderState.RENDERSTATE_RENDERING ↔
        r.m_renderState = RenderState.RENDERSTATE_RENDERING) ∧
      (r.updateOptions E k env).m_sessionReset = (r.m_sessionReset || r.resetsSession env) ∧
      ∃ t, (r.updateOptions E k env).trace = r.trace ++ t ∧
        mutexEvents t = if r.resetsSession env then [RenderEvent.sessionCreate] else [] := by
  unfold CyclesRenderer.updateOptions
  lift_lets
  intro r0 _ r1 _ _ _ _ r2 _ r3 _ r4 _ r5 rr _ _ r6
  have h1 : r1.m_renderState = r.m_renderState ∧ r1.m_sessionReset = r.m_sessionReset ∧
      r1.trace = r.trace ++ [RenderEvent.updateOptions] := by
    simp only [r1]
    split_ifs <;> exact ⟨rfl, rfl, rfl⟩
  have h3 : r3.m_renderState = r.m_renderState ∧ r3.m_sessionReset = r.m_sessionReset ∧
      r3.trace = r.trace ++ [RenderEvent.updateOptions] := by
    simp only [r3]
    split_ifs <;> exact h1
  have h4 : r4.m_renderState = r.m_renderState ∧ r4.m_sessionReset = r.m_sessionReset ∧
      r4.trace = r.trace ++ [RenderEvent.updateOptions] := by
    simp only [r4]
    split_ifs <;> exact h3
  have h5 : r5.m_renderState = r.m_renderState ∧ r5.m_sessionReset = r.m_sessionReset ∧
      r5.trace = r.trace ++ [RenderEvent.updateOptions] := by
    simp only [r5]
    split_ifs <;> exact h4
  have hr : rr.m_renderState = r.m_renderState ∧ rr.m_sessionReset = r.m_sessionReset ∧
      rr.trace = r.trace ++ [RenderEvent.updateOptions] := by
    simp only [rr]
    split_ifs <;> exact h5
  have h6 : r6.m_renderState = r.m_renderState ∧ r6.m_sessionReset = r.m_sessionReset ∧
      r6.trace = r.trace ++ [RenderEvent.updateOptions] := by
    simp only [r6]
    split_ifs
    · exact hr
    · exact h5
  clear_value r6
  rw [h6.2.1]
  by_cases c1 : (env.sceneParamsModified || env.sessionParamsModified || r.m_sessionReset) = true
  · rw [if_pos c1]
    by_cases c2 : r6.m_renderState ≠ RenderState.RENDERSTATE_RENDERING
    · rw [if_pos c2]
      have c3 : r.m_renderState ≠ RenderState.RENDERSTATE_RENDERING := by rw [← h6.1]; exact c2
      have hres : r.resetsSession env = true := by
        simp only [CyclesRenderer.resetsSession, c1, Bool.true_and, decide_eq_true_eq]
        exact c3
      obtain ⟨s1, -, s3⟩ := CyclesRenderer.reset_members E k { r6 with m_sessionReset := true }
      refine ⟨?_, ?_, ?_⟩
      · rw [s1]
        constructor
        · intro c
          exact absurd c (by decide)
        · intro c
          exact absurd c c3
      · rw [CyclesRenderer.reset_sessionReset, hres, Bool.or_true]
      · refine ⟨[RenderEvent.updateOptions, RenderEvent.sessionCancel,
          RenderEvent.sessionCreate, RenderEvent.updateSceneObjects true], ?_, ?_⟩
        · rw [s3]
          show r6.trace ++ _ = _
          rw [h6.2.2]
          simp
        · rw [hres]
          rfl
    · rw [if_neg c2]
      have c3 : r.m_renderState = RenderState.RENDERSTATE_RENDERING := by
        rw [← h6.1]
        exact not_not.1 c2
      have hres : r.resetsSession env = false := by
        simp [CyclesRenderer.resetsSession, c3]
      refine ⟨by rw [h6.1], ?_, [RenderEvent.updateOptions], h6.2.2, ?_⟩
      · rw [h6.2.1, hres, Bool.or_false]
      · rw [hres]
        rfl
  · rw [if_neg c1]
    have hres : r.resetsSession env = false := by
      have c1f : (env.sceneParamsModified || env.sessionParamsModified || r.m_sessionReset)
          = false := by simpa using c1
      simp only [CyclesRenderer.resetsSession, c1f, Bool.false_and]
    refine ⟨by rw [h6.1], ?_, [RenderEvent.updateOptions], h6.2.2, ?_⟩
    · rw [h6.2.1, hres, Bool.or_false]
    · rw [hres]
      rfl

theorem CyclesRenderer.updateCamera_sessionReset (r : CyclesRenderer) :
    r.updateCamera.m_sessionReset = r.m_sessionReset := by
  unfold CyclesRenderer.updateCamera
  dsimp only
  generalize List.find? (fun e => e.1 == (r.log RenderEvent.updateCamera).m_camera)
    (r.log RenderEvent.updateCamera).m_cameras = o1
  rcases o1 with _ | e1
  · dsimp only
    by_cases hc : (r.log RenderEvent.updateCamera).m_camera ≠ ""
    · simp only [if_pos hc]
      split
      · split_ifs <;> rfl
      · rfl
    · simp only [if_neg hc]
      split
      · split_ifs <;> rfl
      · rfl
  · dsimp only
    split
    · split_ifs <;> rfl
    · rfl

theorem CyclesRenderer.updateOutputs_mutex (env : RenderEnv) (r : CyclesRenderer) :
    (r.updateOutputs env).m_sessionReset = r.m_sessionReset ∧
      ∃ t, (r.updateOutputs env).trace = r.trace ++ t ∧ mutexEvents t = [] := by
  unfold CyclesRenderer.updateOutputs
  dsimp only
  split_ifs
  · exact ⟨rfl, [RenderEvent.updateOutputs, RenderEvent.sessionReset],
      by simp [CyclesRenderer.log], rfl⟩
  · exact ⟨rfl, [RenderEvent.updateOutputs], rfl, rfl⟩

/-- The part of `render` up to `updateSceneObjects`. -/
theorem renderHead_mutex (k : UpdateFlags) (r : CyclesRenderer) :
    (((if (r.log RenderEvent.mutexLock).m_renderState = RenderState.RENDERSTATE_RENDERING ∧
          (r.log RenderEvent.mutexLock).m_renderType = RenderType.Interactive then
        (r.log RenderEvent.mutexLock).clearUnused k
      else r.log RenderEvent.mutexLock).updateSceneObjects k false).m_renderState
        = r.m_renderState) ∧
      (((if (r.log RenderEvent.mutexLock).m_renderState = RenderState.RENDERSTATE_RENDERING ∧
          (r.log RenderEvent.mutexLock).m_renderType = RenderType.Interactive then
        (r.log RenderEvent.mutexLock).clearUnused k
      else r.log RenderEvent.mutexLock).updateSceneObjects k false).m_sessionReset
        = r.m_sessionReset) ∧
      ∃ t, ((if (r.log RenderEvent.mutexLock).m_renderState = RenderState.RENDERSTATE_RENDERING ∧
            (r.log RenderEvent.mutexLock).m_renderType = RenderType.Interactive then
          (r.log RenderEvent.mutexLock).clearUnused k
        else r.log RenderEvent.mutexLock).updateSceneObjects k false).trace = r.trace ++ t ∧
        mutexEvents t = [RenderEvent.mutexLock] := by
  split_ifs
  · exact ⟨rfl, rfl, [RenderEvent.mutexLock] ++ renderEvictions ++
      [RenderEvent.updateSceneObjects false],
      by simp [CyclesRenderer.updateSceneObjects, CyclesRenderer.clearUnused, CyclesRenderer.log,
        renderEvictions], rfl⟩
  · exact ⟨rfl, rfl, [RenderEvent.mutexLock, RenderEvent.updateSceneObjects false],
      by simp [CyclesRenderer.updateSceneObjects, CyclesRenderer.log], rfl⟩

/-- The part of `render` from the conditional session reset to the second
`unlock`. -/
theorem renderTail_mutex (env : RenderEnv) (x y : CyclesRenderer)
    (hy : y =
      let r7 :=
        if x.m_renderState = RenderState.RENDERSTATE_RENDERING ∧ env.sceneNeedReset = true then
          x.log RenderEvent.sessionReset
        else x
      let r8 :=
        if !r7.m_sessionReset then r7.log RenderEvent.mutexUnlock
        else { r7 with m_sessionReset := false }
      let r9 :=
        if r8.m_renderState = RenderState.RENDERSTATE_RENDERING then
          r8.log RenderEvent.sessionStart
        else r8
      { r9 with m_sceneChanged := false }.log RenderEvent.mutexUnlock) :
    ∃ t, y.trace = x.trace ++ t ∧
      mutexEvents t =
        (if x.m_sessionReset then [] else [RenderEvent.mutexUnlock]) ++
          [RenderEvent.mutexUnlock] := by
  subst hy
  dsimp only
  by_cases c7 : x.m_renderState = RenderState.RENDERSTATE_RENDERING ∧ env.sceneNeedReset = true
  · rw [if_pos c7]
    cases hf : x.m_sessionReset
    · have hf7 : (x.log RenderEvent.sessionReset).m_sessionReset = false := hf
      simp only [hf7, Bool.not_false, if_true, Bool.false_eq_true, if_false]
      split_ifs
      · exact ⟨[RenderEvent.sessionReset, RenderEvent.mutexUnlock, RenderEvent.sessionStart,
          RenderEvent.mutexUnlock], by simp [CyclesRenderer.log], rfl⟩
      · exact ⟨[RenderEvent.sessionReset, RenderEvent.mutexUnlock, RenderEvent.mutexUnlock],
          by simp [CyclesRenderer.log], rfl⟩
    · have hf7 : (x.log RenderEvent.sessionReset).m_sessionReset = true := hf
      simp only [hf7, Bool.not_true, Bool.false_eq_true, if_false, if_true]
      split_ifs
      · exact ⟨[RenderEvent.sessionReset, RenderEvent.sessionStart, RenderEvent.mutexUnlock],
          by simp [CyclesRenderer.log], rfl⟩
      · exact ⟨[RenderEvent.sessionReset, RenderEvent.mutexUnlock],
          by simp [CyclesRenderer.log], rfl⟩
  · rw [if_neg c7]
    cases hf : x.m_sessionReset
    · simp only [Bool.not_false, if_true, Bool.false_eq_true, if_false]
      split_ifs
      · exact ⟨[RenderEvent.mutexUnlock, RenderEvent.sessionStart, RenderEvent.mutexUnlock],
          by simp [CyclesRenderer.log], rfl⟩
      · exact ⟨[RenderEvent.mutexUnlock, RenderEvent.mutexUnlock],
          by simp [CyclesRenderer.log], rfl⟩
    · simp only [Bool.not_true, Bool.false_eq_true, if_false, if_true]
      split_ifs
      · exact ⟨[RenderEvent.sessionStart, RenderEvent.mutexUnlock],
          by simp [CyclesRenderer.log], rfl⟩
      · exact ⟨[RenderEvent.mutexUnlock], by simp [CyclesRenderer.log], rfl⟩

theorem renderFinish_mutex (x y : CyclesRenderer)
    (hy : y =
      if x.m_renderState = RenderState.RENDERSTATE_RENDERING then
        { x with m_pause := false, session := { x.session with pause := false } }.log
          (RenderEvent.sessionSetPause false)
      else
        let r11 :=
          { x.log RenderEvent.sessionStart with
            m_renderState := RenderState.RENDERSTATE_RENDERING }
        if r11.m_renderType = RenderType.Interactive then r11
        else
          { r11.log RenderEvent.sessionWait with
            m_renderState := RenderState.RENDERSTATE_STOPPED }) :
    ∃ t, y.trace = x.trace ++ t ∧ mutexEvents t = [] := by
  subst hy
  by_cases c1 : x.m_renderState = RenderState.RENDERSTATE_RENDERING
  · rw [if_pos c1]
    exact ⟨[RenderEvent.sessionSetPause false], rfl, rfl⟩
  · rw [if_neg c1]
    dsimp only
    by_cases c2 : x.m_renderType = RenderType.Interactive
    · have c3 : (x.log RenderEvent.sessionStart).m_renderType = RenderType.Interactive := c2
      rw [if_pos c3]
      exact ⟨[RenderEvent.sessionStart], rfl, rfl⟩
    · have c3 : ¬(x.log RenderEvent.sessionStart).m_renderType = RenderType.Interactive := c2
      rw [if_neg c3]
      exact ⟨[RenderEvent.sessionStart, RenderEvent.sessionWait],
        by simp [CyclesRenderer.log], rfl⟩

theorem CyclesRenderer.resetsSession_congr (env : RenderEnv) (x r : CyclesRenderer)
    (hs : x.m_renderState = r.m_renderState) (hf : x.m_sessionReset = r.m_sessionReset) :
    x.resetsSession env = r.resetsSession env := by
  simp only [CyclesRenderer.resetsSession, hs, hf]

/-- The mutex events of one `render` call, for every engine, environment and
renderer state: one `lock`; the creation of a new session and scene when
`updateOptions` resets; the first `unlock` unless `m_sessionReset` is set at
that point; and the second `unlock`, which nothing guards. -/
theorem CyclesRenderer.render_mutex_events (E : Engine) (k : UpdateFlags) (env : RenderEnv)
    (r : CyclesRenderer) :
    ∃ t, (r.render E k env).trace = r.trace ++ t ∧
      mutexEvents t = renderMutexEvents env r := by
  generalize hy : r.render E k env = y
  unfold CyclesRenderer.render at hy
  lift_lets at hy
  extract_lets r1 r2 r3 r4 r5 r6 r7 r8 r9 r10 s10 l10 r11 l11 at hy
  have h3 : r3.m_renderState = r.m_renderState ∧ r3.m_sessionReset = r.m_sessionReset ∧
      ∃ t, r3.trace = r.trace ++ t ∧ mutexEvents t = [RenderEvent.mutexLock] :=
    renderHead_mutex k r
  clear_value r3
  have h4 : (r4.m_renderState = RenderState.RENDERSTATE_RENDERING ↔
        r3.m_renderState = RenderState.RENDERSTATE_RENDERING) ∧
      r4.m_sessionReset = (r3.m_sessionReset || r3.resetsSession env) ∧
      ∃ t, r4.trace = r3.trace ++ t ∧
        mutexEvents t = if r3.resetsSession env then [RenderEvent.sessionCreate] else [] :=
    CyclesRenderer.updateOptions_mutex E k env r3
  clear_value r4
  have h5 : r5.m_sessionReset = r4.m_sessionReset ∧
      r5.trace = r4.trace ++ [RenderEvent.updateCamera] :=
    ⟨CyclesRenderer.updateCamera_sessionReset r4, (CyclesRenderer.updateCamera_members r4).2.2⟩
  clear_value r5
  have h6 : r6.m_sessionReset = r5.m_sessionReset ∧
      ∃ t, r6.trace = r5.trace ++ t ∧ mutexEvents t = [] :=
    CyclesRenderer.updateOutputs_mutex env r5
  clear_value r6
  have h10 : ∃ t, r10.trace = r6.trace ++ t ∧
      mutexEvents t =
        (if r6.m_sessionReset then [] else [RenderEvent.mutexUnlock]) ++
          [RenderEvent.mutexUnlock] :=
    renderTail_mutex env r6 r10 rfl
  have hf : ∃ t, y.trace = r10.trace ++ t ∧ mutexEvents t = [] :=
    renderFinish_mutex r10 y hy.symm
  clear_value r10
  obtain ⟨a1, a2, t3, a3, a4⟩ := h3
  obtain ⟨-, b2, t4, b3, b4⟩ := h4
  obtain ⟨c1, c2⟩ := h5
  obtain ⟨d1, t6, d2, d3⟩ := h6
  obtain ⟨t10, e1, e2⟩ := h10
  obtain ⟨tf, f1, f2⟩ := hf
  have hres : r3.resetsSession env = r.resetsSession env :=
    CyclesRenderer.resetsSession_congr env r3 r a1 a2
  have hflag : r6.m_sessionReset = (r.m_sessionReset || r.resetsSession env) := by
    rw [d1, c1, b2, a2, hres]
  refine ⟨t3 ++ t4 ++ [RenderEvent.updateCamera] ++ t6 ++ t10 ++ tf, ?_, ?_⟩
  · rw [f1, e1, d2, c2, b3, a3]
    simp only [List.append_assoc]
  · rw [mutexEvents_append, mutexEvents_append, mutexEvents_append, mutexEvents_append,
      mutexEvents_append, a4, b4, d3, e2, f2, hflag, hres]
    simp only [renderMutexEvents, mutexEvents, List.filter_cons, List.filter_nil,
      List.append_nil, List.append_assoc]
    rfl

/-- C28 fails.  A batch renderer as constructed, `m_sessionReset` unset:
with nothing modified `render` locks the scene mutex once and unlocks it
twice, the second time a mutex it does not hold; with the scene parameters
modified `updateOptions` resets, and the one `unlock` that is left is made on
the mutex of the re-created scene, which was never locked.  In both runs one
`unlock` is made on a mutex that is not held. -/
theorem CyclesRenderer.render_unlocks_unheld :
    (sampleRenderer RenderType.Batch).m_sessionReset = false ∧
      mutexEvents
          (((sampleRenderer RenderType.Batch).render sampleEngine sampleFlags {}).trace.drop
            (sampleRenderer RenderType.Batch).trace.length) =
        [RenderEvent.mutexLock, RenderEvent.mutexUnlock, RenderEvent.mutexUnlock] ∧
      unheldUnlocks
          [RenderEvent.mutexLock, RenderEvent.mutexUnlock, RenderEvent.mutexUnlock] = 1 ∧
      mutexEvents
          (((sampleRenderer RenderType.Batch).render sampleEngine sampleFlags
            { sceneParamsModified := true }).trace.drop
            (sampleRenderer RenderType.Batch).trace.length) =
        [RenderEvent.mutexLock, RenderEvent.sessionCreate, RenderEvent.mutexUnlock] ∧
      unheldUnlocks
          [RenderEvent.mutexLock, RenderEvent.sessionCreate, RenderEvent.mutexUnlock] = 1 :=
  ⟨by decide, by decide, by decide, by decide, by decide⟩

/-- For every state `render` starts in, no `unlock` is made on a mutex that is
not held exactly when `m_sessionReset` is already set and the renderer is
rendering; every other call, the first `render` of a renderer among them,
makes one such `unlock`. -/
theorem renderMutexEvents_sound_iff (env : RenderEnv) (r : CyclesRenderer) :
    unheldUnlocks (renderMutexEvents env r) = 0 ↔
      (r.m_sessionReset = true ∧ r.m_renderState = RenderState.RENDERSTATE_RENDERING) := by
  unfold renderMutexEvents CyclesRenderer.resetsSession
  by_cases hs : r.m_renderState = RenderState.RENDERSTATE_RENDERING
  · cases hf : r.m_sessionReset <;> simp [hs, unheldUnlocks, mutexWalk]
  · cases hf : r.m_sessionReset <;> cases env.sceneParamsModified <;>
      cases env.sessionParamsModified <;> simp [hs, unheldUnlocks, mutexWalk]

end GafferCycles
